import Mathlib

/-! # CYW55500 SDIO driver (`src/app/src/wifi/cyw55500_sdio.c`): shallow embedding

The driver keeps one global context `g_cyw_dev` and one global `g_scan_state`
and talks to the chip only through the callback table `sdio_host_ops_t`.
The embedding threads a `World` through every function:

* `g_cyw_dev`, `g_scan_state` : the two globals;
* `trace` : every callback invoked through the table, in issue order;
* `host` : the reply (return code and delivered bytes) of the host to the
  k-th callback, k being the number of callbacks issued before it;
* `uninit` : the contents of a local array before its first store.

Machine integers are natural numbers reduced explicitly (`% 2 ^ 32`,
`% 65536`, `% 256`) where the C type truncates.  The target is little-endian
and the header structs are packed, so a struct store is a byte store at the
field offset.
-/

namespace Cyw55500

/-! ## Constants (`cyw55500_regs.h`, `cyw55500_sdio.h`) -/

def SDIO_FUNC_0 : Nat := 0
def SDIO_FUNC_1 : Nat := 1
def SDIO_FUNC_2 : Nat := 2
def CCCR_INT_ENABLE : Nat := 0x04
def SBSDIO_FUNC1_SBADDRLOW : Nat := 0x1000A
def SBSDIO_FUNC1_SBADDRMID : Nat := 0x1000B
def SBSDIO_FUNC1_SBADDRHIGH : Nat := 0x1000C
def SBSDIO_FUNC1_CHIPCLKCSR : Nat := 0x1000E
def SBSDIO_HT_AVAIL : Nat := 0x80
def SBSDIO_SB_OFT_ADDR_MASK : Nat := 0x07FFF
def SBSDIO_SB_OFT_ADDR_LIMIT : Nat := 0x08000
def SBSDIO_SB_ACCESS_2_4B_FLAG : Nat := 0x08000
def SBSDIO_SBWINDOW_MASK : Nat := 0xFFFF8000
def HMB_DATA_FWREADY : Nat := 0x0008
def NVRAM_DL_ADDR : Nat := 0x80000
def SDPCM_CONTROL_CHANNEL : Nat := 0
def SDPCM_EVENT_CHANNEL : Nat := 1
def SDPCM_DATA_CHANNEL : Nat := 2
def BCDC_PROTO_VER : Nat := 2
def BCDC_FLAG_VER_SHIFT : Nat := 4
def WLC_UP : Nat := 2
def WLC_DOWN : Nat := 3
def WLC_GET_VAR : Nat := 262
def WLC_SET_VAR : Nat := 263
def WLC_SET_SSID : Nat := 26
def WLC_SET_INFRA : Nat := 20
def WLC_SET_AUTH : Nat := 22
def WLC_SET_WSEC : Nat := 134
def WLC_DISASSOC : Nat := 52
def WLC_GET_BSSID : Nat := 23
def TX_BUF_SIZE : Nat := 2048
def RX_BUF_SIZE : Nat := 2048
/-- The value of `sizeof(sdpcm_header_t)` for the packed 12-byte header. -/
def SDPCM_HEADER_SIZE : Nat := 12
/-- The value of `sizeof(bcdc_header_t)` for the packed 16-byte header. -/
def BCDC_HEADER_SIZE : Nat := 16
/-- The modulus of `uint32_t` arithmetic. -/
def U32 : Nat := 4294967296

/-- The macro `ALIGN(x, a)` = `((x) + (a) - 1) & ~((a) - 1)` on `uint32_t`. -/
def ALIGN (x a : Nat) : Nat :=
  ((x + a - 1) % U32) &&& ((U32 - 1) - (a - 1))

/-! ## Types -/

inductive cyw_err_t where
  | CYW_OK
  | CYW_ERROR
  | CYW_ERR_TIMEOUT
  | CYW_ERR_INVALID
  | CYW_ERR_NOMEM
  | CYW_ERR_BUSY
  | CYW_ERR_IO
  | CYW_ERR_FW
  | CYW_ERR_NOT_READY
  deriving DecidableEq, Repr

open cyw_err_t

/-- The numeric value of an error code, as an `int`. -/
def cyw_err_t.toInt : cyw_err_t → Int
  | CYW_OK => 0
  | CYW_ERROR => -1
  | CYW_ERR_TIMEOUT => -2
  | CYW_ERR_INVALID => -3
  | CYW_ERR_NOMEM => -4
  | CYW_ERR_BUSY => -5
  | CYW_ERR_IO => -6
  | CYW_ERR_FW => -7
  | CYW_ERR_NOT_READY => -8

inductive cyw_state_t where
  | CYW_STATE_OFF
  | CYW_STATE_INIT
  | CYW_STATE_FW_LOADING
  | CYW_STATE_FW_READY
  | CYW_STATE_UP
  | CYW_STATE_ERROR
  deriving DecidableEq, Repr

open cyw_state_t

/-- The enumerator values, in declaration order starting at 0. -/
def cyw_state_t.toNat : cyw_state_t → Nat
  | CYW_STATE_OFF => 0
  | CYW_STATE_INIT => 1
  | CYW_STATE_FW_LOADING => 2
  | CYW_STATE_FW_READY => 3
  | CYW_STATE_UP => 4
  | CYW_STATE_ERROR => 5

structure cyw_chip_info_t where
  chip_id : Nat
  chip_rev : Nat
  enum_base : Nat
  ram_base : Nat
  ram_size : Nat
  cc_caps : Nat
  pmu_caps : Nat
  pmu_rev : Nat
  deriving DecidableEq, Repr

structure cyw_scan_result_t where
  bssid : List Nat
  ssid : List Nat
  ssid_len : Nat
  rssi : Int
  channel : Nat
  security : Nat
  deriving DecidableEq, Repr

/-- The callback table: each field says whether that function pointer is
non-NULL. -/
structure sdio_host_ops_t where
  init : Bool
  deinit : Bool
  cmd52_read : Bool
  cmd52_write : Bool
  cmd53_read : Bool
  cmd53_write : Bool
  set_block_size : Bool
  enable_func : Bool
  enable_irq : Bool
  irq_pending : Bool
  delay_us : Bool
  delay_ms : Bool
  deriving DecidableEq, Repr

structure cyw_dev_t where
  state : cyw_state_t
  chip : cyw_chip_info_t
  sbwad : Nat
  sbwad_valid : Bool
  tx_seq : Nat
  rx_seq : Nat
  tx_max : Nat
  flow_ctrl : Nat
  reqid : Nat
  tx_buf : List Nat
  rx_buf : List Nat
  ops : Option sdio_host_ops_t
  deriving DecidableEq, Repr

/-- The anonymous struct behind `g_scan_state`. -/
structure scan_state_t where
  in_progress : Bool
  sync_id : Nat
  results : List cyw_scan_result_t
  count : Int
  deriving DecidableEq, Repr

/-- A callback invoked through the table, with its arguments.  A bulk write
records the `len` bytes its data pointer designates. -/
inductive HostCall where
  | init
  | deinit
  | cmd52_read (func addr : Nat)
  | cmd52_write (func addr val : Nat)
  | cmd53_read (func addr len : Nat) (incr : Bool)
  | cmd53_write (func addr : Nat) (data : List Nat) (len : Nat) (incr : Bool)
  | set_block_size (func size : Nat)
  | enable_func (func : Nat) (enable : Bool)
  | delay_us (us : Nat)
  | delay_ms (ms : Nat)
  deriving DecidableEq, Repr

/-- What the host does on one callback: the `int` it returns and the bytes
it stores through the output pointer of a read. -/
structure HostReply where
  ret : Int
  bytes : List Nat
  deriving DecidableEq, Repr

structure World where
  g_cyw_dev : cyw_dev_t
  g_scan_state : scan_state_t
  host : Nat → HostReply
  uninit : Nat → Nat
  trace : List HostCall

/-- Issue one callback: the reply is the host's reply to call number
`trace.length`, and the call is appended to the trace. -/
def World.invoke (w : World) (c : HostCall) : HostReply × World :=
  (w.host w.trace.length, { w with trace := w.trace ++ [c] })

/-! ## Byte buffers -/

/-- The effect of `memcpy(buf + off, src, src.length)` on a byte array. -/
def writeAt (buf : List Nat) (off : Nat) (src : List Nat) : List Nat :=
  buf.take off ++ src ++ buf.drop (off + src.length)

/-- The byte at index `i` of a buffer (`uint8_t`). -/
def byteAt (buf : List Nat) (i : Nat) : Nat := buf.getD i 0 % 256

/-- The two bytes of a `uint16_t` store, little-endian. -/
def le16 (v : Nat) : List Nat := [v % 256, (v >>> 8) % 256]

/-- The four bytes of a `uint32_t` store, little-endian. -/
def le32 (v : Nat) : List Nat :=
  [v % 256, (v >>> 8) % 256, (v >>> 16) % 256, (v >>> 24) % 256]

/-- A `uint16_t` load at byte offset `i`, little-endian. -/
def rd16 (buf : List Nat) (i : Nat) : Nat :=
  byteAt buf i ||| (byteAt buf (i + 1) <<< 8)

/-- A `uint32_t` load at byte offset `i`, little-endian. -/
def rd32 (buf : List Nat) (i : Nat) : Nat :=
  byteAt buf i ||| (byteAt buf (i + 1) <<< 8) ||| (byteAt buf (i + 2) <<< 16)
    ||| (byteAt buf (i + 3) <<< 24)

/-- A local array of `n` bytes before its first store. -/
def World.fresh (w : World) (n : Nat) : List Nat :=
  (List.range n).map (fun i => w.uninit i % 256)

/-- Conversion of an `int` value to `uint32_t`. -/
def toU32 (i : Int) : Nat := (i % 4294967296).toNat

/-! ## Helper functions -/

/-- The helper `delay_ms`: through the table when the pointer is set, else the
kernel sleep, which is no callback. -/
def delay_ms (ms : Nat) (w : World) : World :=
  match w.g_cyw_dev.ops with
  | none => w
  | some ops => if ops.delay_ms then (w.invoke (HostCall.delay_ms ms)).2 else w

/-! ## SDIO low-level access -/

/-- `cyw_sdio_read8`: returns the error code and the byte stored in `*val`. -/
def cyw_sdio_read8 (func addr : Nat) (w : World) : cyw_err_t × Nat × World :=
  match w.g_cyw_dev.ops with
  | none => ( CYW_ERR_INVALID, 0, w)
  | some ops =>
    if ops.cmd52_read then
      let r := w.invoke (HostCall.cmd52_read func addr)
      (if r.1.ret = 0 then CYW_OK else CYW_ERR_IO, r.1.bytes.headD 0 % 256, r.2)
    else ( CYW_ERR_INVALID, 0, w)

def cyw_sdio_write8 (func addr val : Nat) (w : World) : cyw_err_t × World :=
  match w.g_cyw_dev.ops with
  | none => ( CYW_ERR_INVALID, w)
  | some ops =>
    if ops.cmd52_write then
      let r := w.invoke (HostCall.cmd52_write func addr val)
      (if r.1.ret = 0 then CYW_OK else CYW_ERR_IO, r.2)
    else ( CYW_ERR_INVALID, w)

/-- `sdio_read_bytes`: `buf` is the array behind `data`; the result carries
the array after the host stored its bytes (at most `len`) into it. -/
def sdio_read_bytes (func addr : Nat) (buf : List Nat) (len : Nat) (incr : Bool)
    (w : World) : cyw_err_t × List Nat × World :=
  match w.g_cyw_dev.ops with
  | none => ( CYW_ERR_INVALID, buf, w)
  | some ops =>
    if ops.cmd53_read then
      let r := w.invoke (HostCall.cmd53_read func addr len incr)
      (if r.1.ret = 0 then CYW_OK else CYW_ERR_IO,
       writeAt buf 0 ((r.1.bytes.take len).map (fun b => b % 256)), r.2)
    else ( CYW_ERR_INVALID, buf, w)

def sdio_write_bytes (func addr : Nat) (data : List Nat) (len : Nat) (incr : Bool)
    (w : World) : cyw_err_t × World :=
  match w.g_cyw_dev.ops with
  | none => ( CYW_ERR_INVALID, w)
  | some ops =>
    if ops.cmd53_write then
      let r := w.invoke (HostCall.cmd53_write func addr (data.take len) len incr)
      (if r.1.ret = 0 then CYW_OK else CYW_ERR_IO, r.2)
    else ( CYW_ERR_INVALID, w)

/-! ## Backplane window management -/

def set_backplane_window (addr : Nat) (w : World) : cyw_err_t × World :=
  let window := addr &&& SBSDIO_SBWINDOW_MASK
  if w.g_cyw_dev.sbwad_valid = true ∧ w.g_cyw_dev.sbwad = window then (CYW_OK, w)
  else
    let r1 := cyw_sdio_write8 SDIO_FUNC_1 SBSDIO_FUNC1_SBADDRLOW ((window >>> 8) &&& 0xFF) w
    if r1.1 ≠ CYW_OK then r1
    else
      let r2 := cyw_sdio_write8 SDIO_FUNC_1 SBSDIO_FUNC1_SBADDRMID ((window >>> 16) &&& 0xFF) r1.2
      if r2.1 ≠ CYW_OK then r2
      else
        let r3 := cyw_sdio_write8 SDIO_FUNC_1 SBSDIO_FUNC1_SBADDRHIGH ((window >>> 24) &&& 0xFF) r2.2
        if r3.1 ≠ CYW_OK then r3
        else
          (CYW_OK, { r3.2 with g_cyw_dev :=
            { r3.2.g_cyw_dev with sbwad := window, sbwad_valid := true } })

/-! ## Backplane read/write -/

/-- `cyw_sdio_read32`: returns the error code and the value stored in `*val`
(meaningful on `CYW_OK`). -/
def cyw_sdio_read32 (addr : Nat) (w : World) : cyw_err_t × Nat × World :=
  let r := set_backplane_window addr w
  if r.1 ≠ CYW_OK then (r.1, 0, r.2)
  else
    let offset := (addr &&& SBSDIO_SB_OFT_ADDR_MASK) ||| SBSDIO_SB_ACCESS_2_4B_FLAG
    let rd := sdio_read_bytes SDIO_FUNC_1 offset (r.2.fresh 4) 4 true r.2
    if rd.1 ≠ CYW_OK then (rd.1, 0, rd.2.2)
    else (CYW_OK, rd32 rd.2.1 0, rd.2.2)

def cyw_sdio_write32 (addr val : Nat) (w : World) : cyw_err_t × World :=
  let r := set_backplane_window addr w
  if r.1 ≠ CYW_OK then r
  else
    let offset := (addr &&& SBSDIO_SB_OFT_ADDR_MASK) ||| SBSDIO_SB_ACCESS_2_4B_FLAG
    let data := [val &&& 0xFF, (val >>> 8) &&& 0xFF, (val >>> 16) &&& 0xFF, (val >>> 24) &&& 0xFF]
    sdio_write_bytes SDIO_FUNC_1 offset data 4 true r.2

/-- The `while (len > 0)` loop of `cyw_backplane_write`, one iteration per
unit of `fuel`; `data` is the array from the current `data` pointer on. -/
def cyw_backplane_write_loop : Nat → Nat → List Nat → Nat → World → cyw_err_t × World
  | 0, _, _, _, w => (CYW_OK, w)
  | fuel + 1, addr, data, len, w =>
    if len > 0 then
      let window_offset := addr &&& SBSDIO_SB_OFT_ADDR_MASK
      let chunk :=
        if (window_offset + len) % U32 > SBSDIO_SB_OFT_ADDR_LIMIT
        then SBSDIO_SB_OFT_ADDR_LIMIT - window_offset else len
      let r := set_backplane_window addr w
      if r.1 ≠ CYW_OK then r
      else
        let offset := window_offset ||| SBSDIO_SB_ACCESS_2_4B_FLAG
        let wr := sdio_write_bytes SDIO_FUNC_1 offset data chunk true r.2
        if wr.1 ≠ CYW_OK then wr
        else cyw_backplane_write_loop fuel ((addr + chunk) % U32) (data.drop chunk) (len - chunk) wr.2
    else (CYW_OK, w)

/-- `cyw_backplane_write`: every iteration lowers `len` by at least one, so
`len` iterations are enough (`cyw_backplane_write_loop_fuel`). -/
def cyw_backplane_write (addr : Nat) (data : List Nat) (len : Nat) (w : World) :
    cyw_err_t × World :=
  cyw_backplane_write_loop len addr data len w

/-- The `while (len > 0)` loop of `cyw_backplane_read`; `acc` collects the
bytes stored through `data` so far. -/
def cyw_backplane_read_loop : Nat → Nat → List Nat → Nat → World →
    cyw_err_t × List Nat × World
  | 0, _, acc, _, w => (CYW_OK, acc, w)
  | fuel + 1, addr, acc, len, w =>
    if len > 0 then
      let window_offset := addr &&& SBSDIO_SB_OFT_ADDR_MASK
      let chunk :=
        if (window_offset + len) % U32 > SBSDIO_SB_OFT_ADDR_LIMIT
        then SBSDIO_SB_OFT_ADDR_LIMIT - window_offset else len
      let r := set_backplane_window addr w
      if r.1 ≠ CYW_OK then (r.1, acc, r.2)
      else
        let offset := window_offset ||| SBSDIO_SB_ACCESS_2_4B_FLAG
        let rd := sdio_read_bytes SDIO_FUNC_1 offset (r.2.fresh chunk) chunk true r.2
        if rd.1 ≠ CYW_OK then (rd.1, acc ++ rd.2.1, rd.2.2)
        else cyw_backplane_read_loop fuel ((addr + chunk) % U32) (acc ++ rd.2.1) (len - chunk) rd.2.2
    else (CYW_OK, acc, w)

def cyw_backplane_read (addr : Nat) (len : Nat) (w : World) : cyw_err_t × List Nat × World :=
  cyw_backplane_read_loop len addr [] len w

/-! ## SDPCM frame handling -/

/-- `send_sdpcm_frame`: `data` is `none` for a NULL pointer.  The header is
stored field by field into `tx_buf`, the payload copied behind it, and the
first `ALIGN(total_len, 4)` bytes of `tx_buf` go to function 2. -/
def send_sdpcm_frame (channel : Nat) (data : Option (List Nat)) (len : Nat) (w : World) :
    cyw_err_t × World :=
  let dev := w.g_cyw_dev
  let total_len := (SDPCM_HEADER_SIZE + len) % U32
  let b0 := writeAt dev.tx_buf 0 (List.replicate SDPCM_HEADER_SIZE 0)
  let b1 := writeAt b0 0 (le16 (total_len % 65536))
  let b2 := writeAt b1 2 (le16 ((U32 - 1 - total_len) % 65536))
  let b3 := writeAt b2 4 [dev.tx_seq % 256]
  let b4 := writeAt b3 5 [channel % 256]
  let b5 := writeAt b4 7 [SDPCM_HEADER_SIZE % 256]
  let b6 :=
    match data with
    | some d => if len > 0 then writeAt b5 SDPCM_HEADER_SIZE (d.take len) else b5
    | none => b5
  let w1 := { w with g_cyw_dev := { dev with tx_buf := b6, tx_seq := (dev.tx_seq + 1) % 256 } }
  sdio_write_bytes SDIO_FUNC_2 0 b6 (ALIGN total_len 4) true w1

/-- What `recv_sdpcm_frame` leaves behind: the error code, `*channel`, `*len`,
the bytes it copied to `data`, and the world. -/
structure RecvResult where
  err : cyw_err_t
  channel : Nat
  len : Nat
  payload : List Nat
  world : World

/-- `recv_sdpcm_frame`.  `*len` is `hdr->len - hdr->data_offset` converted to
`uint32_t`; the bytes copied are those of `rx_buf` from `data_offset` on (as
many of the `*len` as the receive buffer holds). -/
def recv_sdpcm_frame (w : World) : RecvResult :=
  let r1 := sdio_read_bytes SDIO_FUNC_2 0 (w.fresh 4) 4 true w
  if r1.1 ≠ CYW_OK then ⟨r1.1, 0, 0, [], r1.2.2⟩
  else
    let frame_len := rd16 r1.2.1 0
    if frame_len = 0 ∨ frame_len > RX_BUF_SIZE then ⟨CYW_ERR_INVALID, 0, 0, [], r1.2.2⟩
    else
      let r2 := sdio_read_bytes SDIO_FUNC_2 0 r1.2.2.g_cyw_dev.rx_buf frame_len true r1.2.2
      let w2 : World := { r2.2.2 with g_cyw_dev := { r2.2.2.g_cyw_dev with rx_buf := r2.2.1 } }
      if r2.1 ≠ CYW_OK then ⟨r2.1, 0, 0, [], w2⟩
      else
        let rx := w2.g_cyw_dev.rx_buf
        if (rd16 rx 0 ^^^ rd16 rx 2) ≠ 0xFFFF then ⟨CYW_ERR_INVALID, 0, 0, [], w2⟩
        else
          let w3 : World := { w2 with g_cyw_dev :=
            { w2.g_cyw_dev with flow_ctrl := byteAt rx 8, tx_max := byteAt rx 9,
                                rx_seq := byteAt rx 4 } }
          let len := toU32 ((rd16 rx 0 : Int) - (byteAt rx 7 : Int))
          ⟨CYW_OK, byteAt rx 5, len,
            if len > 0 then (rx.drop (byteAt rx 7)).take len else [], w3⟩

/-! ## IOCTL commands -/

/-- The copy-out of `cyw_ioctl` on a matching response:
`if (!set && len > 0 && data != NULL) memcpy(data, buf + BCDC_HEADER_SIZE,
(bcdc_rx->len < len) ? bcdc_rx->len : len)`; the result is the caller's
`data` array afterwards. -/
def ioctl_copy_out (data : Option (List Nat)) (len : Nat) ( set : Bool) (buf : List Nat) :
    Option (List Nat) :=
  match data with
  | some d =>
    if set = false ∧ len > 0 then
      some (writeAt d 0 ((buf.drop BCDC_HEADER_SIZE).take (min (rd32 buf 4) len)))
    else data
  | none => data

/-- The `while (timeout-- > 0)` loop of `cyw_ioctl`; the first argument is
the value of `timeout` before the test, `buf` the local 512-byte array.  The
result carries the caller's `data` array after the call. -/
def cyw_ioctl_wait (data : Option (List Nat)) (len : Nat) ( set : Bool) :
    Nat → List Nat → World → cyw_err_t × Option (List Nat) × World
  | 0, _, w => ( CYW_ERR_TIMEOUT, data, w)
  | timeout + 1, buf, w =>
    let r := recv_sdpcm_frame w
    let buf1 := if r.err = CYW_OK then writeAt buf 0 r.payload else buf
    if r.err = CYW_OK ∧ r.channel = SDPCM_CONTROL_CHANNEL ∧
        rd32 buf1 8 >>> 16 = toU32 ((r.world.g_cyw_dev.reqid : Int) - 1) then
      if rd32 buf1 12 ≠ 0 then ( CYW_ERROR, data, r.world)
      else (CYW_OK, ioctl_copy_out data len set buf1, r.world)
    else cyw_ioctl_wait data len set timeout buf1 (delay_ms 1 r.world)

/-- `cyw_ioctl`.  `dev->reqid++ << 16` is taken as the 32-bit pattern of the
shifted value. -/
def cyw_ioctl (cmd : Nat) (data : Option (List Nat)) (len : Nat) ( set : Bool) (w : World) :
    cyw_err_t × Option (List Nat) × World :=
  let dev := w.g_cyw_dev
  if dev.state.toNat < CYW_STATE_FW_READY.toNat then ( CYW_ERR_NOT_READY, data, w)
  else
    let flags := (((BCDC_PROTO_VER <<< BCDC_FLAG_VER_SHIFT) ||| (if set then 0x02 else 0))
                    ||| (dev.reqid <<< 16)) % U32
    let buf1 := writeAt (w.fresh 512) 0 (le32 cmd ++ le32 len ++ le32 flags ++ le32 0)
    let w1 : World := { w with g_cyw_dev := { dev with reqid := (dev.reqid + 1) % 65536 } }
    let buf2 :=
      match data with
      | some d => if set = true ∧ len > 0 then writeAt buf1 BCDC_HEADER_SIZE (d.take len) else buf1
      | none => buf1
    let total_len := (BCDC_HEADER_SIZE + len) % U32
    let s := send_sdpcm_frame SDPCM_CONTROL_CHANNEL (some buf2) total_len w1
    if s.1 ≠ CYW_OK then (s.1, data, s.2)
    else cyw_ioctl_wait data len set 100 buf2 s.2

/-- `cyw_iovar`: `name` holds the characters of the C string before its NUL. -/
def cyw_iovar (name : List Nat) (data : Option (List Nat)) (len : Nat) ( set : Bool)
    (w : World) : cyw_err_t × Option (List Nat) × World :=
  let name_len := (name.length + 1) % U32
  let total_len := (name_len + len) % U32
  if total_len > 256 then ( CYW_ERR_NOMEM, data, w)
  else
    let buf1 := writeAt (w.fresh 256) 0 ((name ++ [0]).take name_len)
    let buf2 :=
      match data with
      | some d => if len > 0 then writeAt buf1 name_len (d.take len) else buf1
      | none => buf1
    let r := cyw_ioctl (if set then WLC_SET_VAR else WLC_GET_VAR) (some buf2) total_len set w
    match data with
    | some d =>
      if r.1 = CYW_OK ∧ set = false ∧ len > 0 then
        (r.1, some (writeAt d 0 (((r.2.1.getD []).drop name_len).take len)), r.2.2)
      else (r.1, data, r.2.2)
    | none => (r.1, data, r.2.2)

/-! ## Initialization -/

def cyw_deinit (w : World) : World :=
  if w.g_cyw_dev.state ≠ CYW_STATE_OFF then
    let w1 := (cyw_sdio_write8 SDIO_FUNC_0 CCCR_INT_ENABLE 0 w).2
    let w2 :=
      match w1.g_cyw_dev.ops with
      | some ops =>
        if ops.enable_func then
          ((w1.invoke (HostCall.enable_func SDIO_FUNC_2 false)).2.invoke
            (HostCall.enable_func SDIO_FUNC_1 false)).2
        else w1
      | none => w1
    let w3 :=
      match w2.g_cyw_dev.ops with
      | some ops => if ops.deinit then (w2.invoke HostCall.deinit).2 else w2
      | none => w2
    { w3 with g_cyw_dev := { w3.g_cyw_dev with state := CYW_STATE_OFF } }
  else w

/-! ## Firmware loading -/

/-- The code at the label `error:` of `cyw_load_firmware`. -/
def load_firmware_error (err : cyw_err_t) (w : World) : cyw_err_t × World :=
  (err, { w with g_cyw_dev := { w.g_cyw_dev with state := CYW_STATE_ERROR } })

/-- The HT_AVAIL loop `while (timeout-- > 0)`: the first argument is `timeout`
before the test, the result is `timeout` after the loop. -/
def load_firmware_wait_ht : Nat → World → Int × World
  | 0, w => (-1, w)
  | timeout + 1, w =>
    let r := cyw_sdio_read8 SDIO_FUNC_1 SBSDIO_FUNC1_CHIPCLKCSR w
    if r.1 = CYW_OK ∧ r.2.1 &&& SBSDIO_HT_AVAIL ≠ 0 then ((timeout : Int), r.2.2)
    else load_firmware_wait_ht timeout (delay_ms 10 r.2.2)

/-- The mailbox loop of `cyw_load_firmware` together with what follows it. -/
def load_firmware_wait_mbox : Nat → World → cyw_err_t × World
  | 0, w => load_firmware_error CYW_ERR_FW w
  | timeout + 1, w =>
    let r := cyw_sdio_read32 0x18002048 w
    if r.1 ≠ CYW_OK then load_firmware_error r.1 r.2.2
    else if r.2.1 &&& HMB_DATA_FWREADY ≠ 0 then
      (CYW_OK, { r.2.2 with g_cyw_dev := { r.2.2.g_cyw_dev with state := CYW_STATE_FW_READY } })
    else load_firmware_wait_mbox timeout (delay_ms 10 r.2.2)

/-- The part of `cyw_load_firmware` from the comment "Wait for firmware
ready" on. -/
def load_firmware_start (w : World) : cyw_err_t × World :=
  let h := load_firmware_wait_ht 200 w
  if h.1 ≤ 0 then load_firmware_error CYW_ERR_TIMEOUT h.2
  else load_firmware_wait_mbox 100 h.2

def cyw_load_firmware (fw_data : Option (List Nat)) (fw_size : Nat)
    (nvram_data : Option (List Nat)) (nvram_size : Nat) (w : World) : cyw_err_t × World :=
  if w.g_cyw_dev.state.toNat < CYW_STATE_INIT.toNat then ( CYW_ERR_NOT_READY, w)
  else
    let w0 : World := { w with g_cyw_dev := { w.g_cyw_dev with state := CYW_STATE_FW_LOADING } }
    let addr := w0.g_cyw_dev.chip.ram_base
    let r := cyw_backplane_write addr (fw_data.getD []) fw_size w0
    if r.1 ≠ CYW_OK then load_firmware_error r.1 r.2
    else
      match nvram_data with
      | some nv =>
        if nvram_size > 0 then
          let addr := NVRAM_DL_ADDR
          let r1 := cyw_backplane_write addr nv nvram_size r.2
          if r1.1 ≠ CYW_OK then load_firmware_error r1.1 r1.2
          else
            let nvram_sz_words := nvram_size / 4
            let nvram_sz_words := (((U32 - 1 - nvram_sz_words) <<< 16) % U32) ||| nvram_sz_words
            let addr := (addr + nvram_size) % U32
            let r2 := cyw_sdio_write32 addr nvram_sz_words r1.2
            if r2.1 ≠ CYW_OK then load_firmware_error r2.1 r2.2
            else load_firmware_start r2.2
        else load_firmware_start r.2
      | none => load_firmware_start r.2

/-! ## WiFi operations -/

def cyw_up (w : World) : cyw_err_t × World :=
  if w.g_cyw_dev.state.toNat < CYW_STATE_FW_READY.toNat then ( CYW_ERR_NOT_READY, w)
  else
    let r := cyw_ioctl WLC_UP none 0 true w
    if r.1 = CYW_OK then
      (r.1, { r.2.2 with g_cyw_dev := { r.2.2.g_cyw_dev with state := CYW_STATE_UP } })
    else (r.1, r.2.2)

def cyw_down (w : World) : cyw_err_t × World :=
  if w.g_cyw_dev.state.toNat < CYW_STATE_FW_READY.toNat then ( CYW_ERR_NOT_READY, w)
  else
    let r := cyw_ioctl WLC_DOWN none 0 true w
    if r.1 = CYW_OK then
      (r.1, { r.2.2 with g_cyw_dev := { r.2.2.g_cyw_dev with state := CYW_STATE_FW_READY } })
    else (r.1, r.2.2)

/-! ## Event polling -/

/-- `cyw_poll`: the receive copies the payload to `dev->rx_buf` itself; the
`switch` on the channel only logs. -/
def cyw_poll (w : World) : World :=
  if w.g_cyw_dev.state.toNat < CYW_STATE_FW_READY.toNat then w
  else
    let r := recv_sdpcm_frame w
    if r.err ≠ CYW_OK then r.world
    else
      { r.world with g_cyw_dev :=
        { r.world.g_cyw_dev with rx_buf := writeAt r.world.g_cyw_dev.rx_buf 0 r.payload } }

/-! ## Scan -/

/-- The state of `g_scan_state` after `memset(&g_scan_state, 0, ...)`. -/
def scan_state_zero : scan_state_t :=
  { in_progress := false, sync_id := 0,
    results := List.replicate 16
      { bssid := List.replicate 6 0, ssid := List.replicate 33 0, ssid_len := 0,
        rssi := 0, channel := 0, security := 0 },
    count := 0 }

/-- The bytes of the packed local `params` of `cyw_scan` (74 bytes). -/
def scan_params (sync_id : Nat) : List Nat :=
  le32 1 ++ le16 1 ++ le16 sync_id ++ le32 0 ++ List.replicate 32 0 ++
  List.replicate 6 0xFF ++ [2] ++ [0] ++ le32 2 ++ le32 40 ++ le32 110 ++ le32 45 ++
  le32 0 ++ le16 0

/-- The loop `while (g_scan_state.in_progress && timeout > 0)` of `cyw_scan`;
`timeout` drops by 10 each turn, so 1000 units of `fuel` exhaust it. -/
def cyw_scan_wait : Nat → Int → World → World
  | 0, _, w => w
  | fuel + 1, timeout, w =>
    if w.g_scan_state.in_progress = true ∧ timeout > 0 then
      cyw_scan_wait fuel (timeout - 10) (delay_ms 10 (cyw_poll w))
    else w

/-- The end of `cyw_scan`, after the wait loop: clear `in_progress`, clamp the
count to `max_results`, copy that many entries out. -/
def cyw_scan_finish (results : Bool) (max_results : Int) (w2 : World) :
    Int × List cyw_scan_result_t × World :=
  let w3 : World :=
    if w2.g_scan_state.in_progress then
      { w2 with g_scan_state := { w2.g_scan_state with in_progress := false } }
    else w2
  let count := if w3.g_scan_state.count > max_results then max_results else w3.g_scan_state.count
  (count, if results = true ∧ count > 0 then w3.g_scan_state.results.take count.toNat else [], w3)

/-- `cyw_scan`: `results` says whether the pointer is non-NULL; the result
carries the `int` returned and the entries copied to `results`. -/
def cyw_scan (results : Bool) (max_results : Int) (w : World) :
    Int × List cyw_scan_result_t × World :=
  if w.g_cyw_dev.state.toNat < CYW_STATE_UP.toNat then ( CYW_ERR_NOT_READY.toInt, [], w)
  else
    let sync_id := (w.g_cyw_dev.reqid &&& 0xFFFF) % 65536
    let w1 : World := { w with g_scan_state :=
      { scan_state_zero with sync_id := sync_id, in_progress := true } }
    let r := cyw_iovar [101, 115, 99, 97, 110] (some (scan_params sync_id)) 74 true w1
    if r.1 ≠ CYW_OK then
      (r.1.toInt, [], { r.2.2 with g_scan_state := { r.2.2.g_scan_state with in_progress := false } })
    else cyw_scan_finish results max_results (cyw_scan_wait 1000 10000 r.2.2)

/-! ## Connect/disconnect -/

/-- `cyw_is_connected`: a GET of the BSSID into six zeroed bytes. -/
def cyw_is_connected (w : World) : Bool × World :=
  let r := cyw_ioctl WLC_GET_BSSID (some (List.replicate 6 0)) 6 false w
  if r.1 ≠ CYW_OK then (false, r.2.2)
  else
    let bssid := r.2.1.getD []
    (decide ((byteAt bssid 0 ||| byteAt bssid 1 ||| byteAt bssid 2 |||
              byteAt bssid 3 ||| byteAt bssid 4 ||| byteAt bssid 5) ≠ 0), r.2.2)

/-- The loop `while (timeout > 0)` of `cyw_connect` with the return after it;
`timeout` drops by 100 each turn, so 100 units of `fuel` exhaust it. -/
def cyw_connect_wait : Nat → Int → World → cyw_err_t × World
  | 0, _, w => ( CYW_ERR_TIMEOUT, w)
  | fuel + 1, timeout, w =>
    if timeout > 0 then
      let c := cyw_is_connected (cyw_poll w)
      if c.1 then (CYW_OK, c.2)
      else cyw_connect_wait fuel (timeout - 100) (delay_ms 100 c.2)
    else ( CYW_ERR_TIMEOUT, w)

/-- The local `pmk` of `cyw_connect` after the `memset`, the store of
`key_len` and the `memcpy` of the passphrase. -/
def connect_pmk (passphrase : List Nat) : List Nat :=
  let key_len := passphrase.length % 65536
  writeAt (writeAt (List.replicate 68 0) 0 (le16 key_len)) 4 (passphrase.take key_len)

/-- The local `wlc_ssid` of `cyw_connect` after its three stores. -/
def connect_wlc_ssid (ssid : List Nat) : List Nat :=
  let ssid_len := if ssid.length % U32 > 32 then 32 else ssid.length % U32
  writeAt (writeAt (List.replicate 36 0) 0 (le32 ssid_len)) 4 (ssid.take ssid_len)

/-- The PMK step of `cyw_connect`: `if (passphrase && strlen(passphrase) > 0)
{ ...; err = cyw_ioctl(268, &pmk, sizeof(pmk), true); }`; without a
passphrase nothing is sent and the step counts as `CYW_OK`. -/
def connect_set_pmk (passphrase : Option (List Nat)) (w : World) : cyw_err_t × World :=
  match passphrase with
  | some p =>
    if p.length > 0 then
      let r := cyw_ioctl 268 (some (connect_pmk p)) 68 true w
      (r.1, r.2.2)
    else (CYW_OK, w)
  | none => (CYW_OK, w)

/-- `cyw_connect`: the strings are the characters before the NUL; `passphrase`
is `none` for a NULL pointer. -/
def cyw_connect (ssid : List Nat) (passphrase : Option (List Nat)) (w : World) :
    cyw_err_t × World :=
  if w.g_cyw_dev.state.toNat < CYW_STATE_UP.toNat then ( CYW_ERR_NOT_READY, w)
  else
    let r1 := cyw_ioctl WLC_SET_INFRA (some (le32 1)) 4 true w
    if r1.1 ≠ CYW_OK then (r1.1, r1.2.2)
    else
      let r2 := cyw_ioctl WLC_SET_AUTH (some (le32 0)) 4 true r1.2.2
      if r2.1 ≠ CYW_OK then (r2.1, r2.2.2)
      else
        let r3 := cyw_iovar [119, 112, 97, 95, 97, 117, 116, 104] (some (le32 0x80)) 4 true r2.2.2
        if r3.1 ≠ CYW_OK then (r3.1, r3.2.2)
        else
          let r4 := cyw_ioctl WLC_SET_WSEC (some (le32 4)) 4 true r3.2.2
          if r4.1 ≠ CYW_OK then (r4.1, r4.2.2)
          else
            let r5 := connect_set_pmk passphrase r4.2.2
            if r5.1 ≠ CYW_OK then r5
            else
              let r6 := cyw_ioctl WLC_SET_SSID (some (connect_wlc_ssid ssid)) 36 true r5.2
              if r6.1 ≠ CYW_OK then (r6.1, r6.2.2)
              else cyw_connect_wait 100 10000 r6.2.2

def cyw_disconnect (w : World) : cyw_err_t × World :=
  let r := cyw_ioctl WLC_DISASSOC none 0 true w
  (r.1, r.2.2)

/-! ## Card bring-up (`request_alp_clock`, `detect_chip`, `sdio_init_card`, `cyw_init`) -/

def CCCR_IO_READY : Nat := 0x03
def SDIO_FUNC_READY_1 : Nat := 0x02
def SDIO_FUNC_READY_2 : Nat := 0x04
def CCCR_IEN_FUNC0 : Nat := 1 <<< 0
def CCCR_IEN_FUNC1 : Nat := 1 <<< 1
def CCCR_IEN_FUNC2 : Nat := 1 <<< 2
def SBSDIO_WATERMARK : Nat := 0x10008
def SBSDIO_ALP_AVAIL_REQ : Nat := 0x08
def SBSDIO_ALP_AVAIL : Nat := 0x40
def CYW55500_CHIP_ID : Nat := 0xD8CC
def CYW55500_CHIP_ID_MASK : Nat := 0x0000FFFF
def CYW55500_CHIP_REV_MASK : Nat := 0x000F0000
def CYW55500_CHIP_REV_SHIFT : Nat := 16
def CYW55500_RAM_START : Nat := 0x3A0000
def CYW55500_F2_WATERMARK : Nat := 0x40
def SDIO_F1_BLOCK_SIZE : Nat := 64
def SDIO_F2_BLOCK_SIZE : Nat := 512
def SDIO_CORE_CHIPID : Nat := 0x330

/-- The loop `while (timeout-- > 0)` of `request_alp_clock` with the return
behind it; the first argument is `timeout` before the test. -/
def request_alp_clock_wait : Nat → World → cyw_err_t × World
  | 0, w => ( CYW_ERR_TIMEOUT, w)
  | timeout + 1, w =>
    let r := cyw_sdio_read8 SDIO_FUNC_1 SBSDIO_FUNC1_CHIPCLKCSR w
    if r.1 ≠ CYW_OK then (r.1, r.2.2)
    else if r.2.1 &&& SBSDIO_ALP_AVAIL ≠ 0 then (CYW_OK, r.2.2)
    else request_alp_clock_wait timeout (delay_ms 1 r.2.2)

def request_alp_clock (w : World) : cyw_err_t × World :=
  let r := cyw_sdio_write8 SDIO_FUNC_1 SBSDIO_FUNC1_CHIPCLKCSR SBSDIO_ALP_AVAIL_REQ w
  if r.1 ≠ CYW_OK then r
  else request_alp_clock_wait 100 r.2

/-- The three stores of `detect_chip` of the application driver into
`dev->chip` for the chip-id word `val`. -/
def store_chip (val : Nat) (w : World) : World :=
  { w with g_cyw_dev := { w.g_cyw_dev with chip :=
    { w.g_cyw_dev.chip with
      chip_id := val &&& CYW55500_CHIP_ID_MASK,
      chip_rev := (val &&& CYW55500_CHIP_REV_MASK) >>> CYW55500_CHIP_REV_SHIFT,
      ram_base := CYW55500_RAM_START } } }

/-- `detect_chip` of `src/app/src/wifi/cyw55500_sdio.c`: the chip-id word is
read at 0x18000000, its fields and the RAM base are stored, and the function
returns `CYW_OK`. -/
def detect_chip (w : World) : cyw_err_t × World :=
  let r := cyw_sdio_read32 0x18000000 w
  if r.1 ≠ CYW_OK then (r.1, r.2.2)
  else (CYW_OK, store_chip r.2.1 r.2.2)

/-- A call through `g_cyw_dev.ops->enable_func`, made when that pointer is
set.  (`sdio_init_card` runs with `ops` assigned by `cyw_init`.) -/
def ops_enable_func (func : Nat) (enable : Bool) (w : World) : World :=
  match w.g_cyw_dev.ops with
  | some ops => if ops.enable_func then (w.invoke (HostCall.enable_func func enable)).2 else w
  | none => w

/-- The block `if (g_cyw_dev.ops->set_block_size) { ... }` of
`sdio_init_card`: two calls, function 1 then function 2. -/
def ops_set_block_sizes (w : World) : World :=
  match w.g_cyw_dev.ops with
  | some ops =>
    if ops.set_block_size then
      ((w.invoke (HostCall.set_block_size SDIO_FUNC_1 SDIO_F1_BLOCK_SIZE)).2.invoke
        (HostCall.set_block_size SDIO_FUNC_2 SDIO_F2_BLOCK_SIZE)).2
    else w
  | none => w

/-- The two loops `while (timeout-- > 0)` of `sdio_init_card` that poll
`CCCR_IO_READY` for the bit `ready`: the first numeric argument is `timeout`
before the test, the result is `timeout` after the loop. -/
def sdio_init_card_wait (ready : Nat) : Nat → World → Int × World
  | 0, w => (-1, w)
  | timeout + 1, w =>
    let r := cyw_sdio_read8 SDIO_FUNC_0 CCCR_IO_READY w
    if r.1 = CYW_OK ∧ r.2.1 &&& ready ≠ 0 then ((timeout : Int), r.2.2)
    else sdio_init_card_wait ready timeout (delay_ms 1 r.2.2)

/-- The part of `sdio_init_card` behind the call of `detect_chip`. -/
def sdio_init_card_finish (w : World) : cyw_err_t × World :=
  let w3 := ops_enable_func SDIO_FUNC_2 true w
  let l2 := sdio_init_card_wait SDIO_FUNC_READY_2 100 w3
  if l2.1 ≤ 0 then ( CYW_ERR_TIMEOUT, l2.2)
  else
    let r1 := cyw_sdio_write8 SDIO_FUNC_1 SBSDIO_WATERMARK CYW55500_F2_WATERMARK l2.2
    if r1.1 ≠ CYW_OK then r1
    else
      let r2 := cyw_sdio_write8 SDIO_FUNC_0 CCCR_INT_ENABLE
        (CCCR_IEN_FUNC0 ||| CCCR_IEN_FUNC1 ||| CCCR_IEN_FUNC2) r1.2
      if r2.1 ≠ CYW_OK then r2
      else (CYW_OK, r2.2)

def sdio_init_card (w : World) : cyw_err_t × World :=
  let w1 := ops_enable_func SDIO_FUNC_1 true w
  let l1 := sdio_init_card_wait SDIO_FUNC_READY_1 100 w1
  if l1.1 ≤ 0 then ( CYW_ERR_TIMEOUT, l1.2)
  else
    let w2 := ops_set_block_sizes l1.2
    let a := request_alp_clock w2
    if a.1 ≠ CYW_OK then a
    else
      let d := detect_chip a.2
      if d.1 ≠ CYW_OK then d
      else sdio_init_card_finish d.2

/-- The context after `memset(&g_cyw_dev, 0, sizeof(g_cyw_dev))`. -/
def cyw_dev_zero : cyw_dev_t :=
  { state := CYW_STATE_OFF,
    chip := { chip_id := 0, chip_rev := 0, enum_base := 0, ram_base := 0, ram_size := 0,
              cc_caps := 0, pmu_caps := 0, pmu_rev := 0 },
    sbwad := 0, sbwad_valid := false, tx_seq := 0, rx_seq := 0, tx_max := 0, flow_ctrl := 0,
    reqid := 0, tx_buf := List.replicate TX_BUF_SIZE 0, rx_buf := List.replicate RX_BUF_SIZE 0,
    ops := none }

/-- The part of `cyw_init` from the call of `sdio_init_card` on. -/
def cyw_init_card (w : World) : cyw_err_t × World :=
  let r := sdio_init_card w
  if r.1 ≠ CYW_OK then r
  else (CYW_OK, { r.2 with g_cyw_dev := { r.2.g_cyw_dev with state := CYW_STATE_INIT } })

/-- `cyw_init`: `ops` is `none` for a NULL pointer. -/
def cyw_init (ops : Option sdio_host_ops_t) (w : World) : cyw_err_t × World :=
  match ops with
  | none => ( CYW_ERR_INVALID, w)
  | some o =>
    let w1 : World :=
      { w with g_cyw_dev := { cyw_dev_zero with ops := some o, state := CYW_STATE_OFF },
               g_scan_state := scan_state_zero }
    if o.init then
      let r := w1.invoke HostCall.init
      if r.1.ret ≠ 0 then ( CYW_ERR_IO, r.2)
      else cyw_init_card r.2
    else cyw_init_card w1

/-! ## The bare-metal instance (`src/baremetal/cyw55500_sdio.c`)

Its low-level accessors, window management, `request_alp_clock` and the body
of `sdio_init_card` are the same code as in the application driver; the
definitions above stand for both.  `detect_chip` differs, and `cyw_init`
clears only `g_cyw_dev` (this instance has no scan state).  The bare-metal
context has four more fields of type `cyw_core_t`; none of the functions
embedded here reads or writes them, and they are left out. -/

/-- The two stores of the bare-metal `detect_chip` that precede its check. -/
def Baremetal.store_id (val : Nat) (w : World) : World :=
  { w with g_cyw_dev := { w.g_cyw_dev with chip :=
    { w.g_cyw_dev.chip with
      chip_id := val &&& CYW55500_CHIP_ID_MASK,
      chip_rev := (val &&& CYW55500_CHIP_REV_MASK) >>> CYW55500_CHIP_REV_SHIFT } } }

/-- `detect_chip` of the bare-metal driver: the word is read at
`SDIO_CORE_CHIPID`, the id and revision are stored, and an id other than
`CYW55500_CHIP_ID` is refused with `CYW_ERR_INVALID`. -/
def Baremetal.detect_chip (w : World) : cyw_err_t × World :=
  let r := cyw_sdio_read32 SDIO_CORE_CHIPID w
  if r.1 ≠ CYW_OK then (r.1, r.2.2)
  else
    let w1 := Baremetal.store_id r.2.1 r.2.2
    if w1.g_cyw_dev.chip.chip_id ≠ CYW55500_CHIP_ID then ( CYW_ERR_INVALID, w1)
    else (CYW_OK, { w1 with g_cyw_dev := { w1.g_cyw_dev with chip :=
           { w1.g_cyw_dev.chip with ram_base := CYW55500_RAM_START } } })

def Baremetal.sdio_init_card (w : World) : cyw_err_t × World :=
  let w1 := ops_enable_func SDIO_FUNC_1 true w
  let l1 := sdio_init_card_wait SDIO_FUNC_READY_1 100 w1
  if l1.1 ≤ 0 then ( CYW_ERR_TIMEOUT, l1.2)
  else
    let w2 := ops_set_block_sizes l1.2
    let a := request_alp_clock w2
    if a.1 ≠ CYW_OK then a
    else
      let d := Baremetal.detect_chip a.2
      if d.1 ≠ CYW_OK then d
      else sdio_init_card_finish d.2

/-- The part of the bare-metal `cyw_init` from the call of `sdio_init_card`
on. -/
def Baremetal.cyw_init_card (w : World) : cyw_err_t × World :=
  let r := Baremetal.sdio_init_card w
  if r.1 ≠ CYW_OK then r
  else (CYW_OK, { r.2 with g_cyw_dev := { r.2.g_cyw_dev with state := CYW_STATE_INIT } })

def Baremetal.cyw_init (ops : Option sdio_host_ops_t) (w : World) : cyw_err_t × World :=
  match ops with
  | none => ( CYW_ERR_INVALID, w)
  | some o =>
    let w1 : World :=
      { w with g_cyw_dev := { cyw_dev_zero with ops := some o, state := CYW_STATE_OFF } }
    if o.init then
      let r := w1.invoke HostCall.init
      if r.1.ret ≠ 0 then ( CYW_ERR_IO, r.2)
      else Baremetal.cyw_init_card r.2
    else Baremetal.cyw_init_card w1

/-! ## The bit-banged SDIO command frame (`src/app/src/wifi/sdio_rp2350.c`,
`src/app/src/main.c`)

Both files carry the same `crc7` and build the 48-bit command frame in a local
`uint64_t frame` that goes to `send_bits(frame, 48)`. -/

/-- One turn of the inner loop of `crc7` on the pair `(crc, d)` of `uint8_t`
values: `crc <<= 1; if ((d & 0x80) ^ (crc & 0x80)) crc ^= 0x09; d <<= 1;`. -/
def crc7_bit (s : Nat × Nat) : Nat × Nat :=
  let crc := (s.1 <<< 1) % 256
  let crc := if ((s.2 &&& 0x80) ^^^ (crc &&& 0x80)) ≠ 0 then (crc ^^^ 0x09) % 256 else crc
  (crc, (s.2 <<< 1) % 256)

/-- One turn of the outer loop of `crc7`: the eight inner turns for the byte
`data[i]`. -/
def crc7_byte (crc d : Nat) : Nat := (crc7_bit^[8] (crc, d % 256)).1

/-- `crc7(data, len)`: the result `(crc << 1) | 1` converted to `uint8_t`. -/
def crc7 (data : List Nat) (len : Nat) : Nat :=
  ((((data.take len).foldl crc7_byte 0) <<< 1) ||| 1) % 256

/-- The local `buf` of `send_command` and of `sdio_send_cmd` (the same five
stores in both). -/
def cmd_buf (cmd arg : Nat) : List Nat :=
  [(0x40 ||| cmd) % 256, (arg >>> 24) &&& 0xFF, (arg >>> 16) &&& 0xFF, (arg >>> 8) &&& 0xFF,
   arg &&& 0xFF]

/-- The value of the local `frame` that `send_command` of `sdio_rp2350.c`
hands to `send_bits(frame, 48)`; `cmd` is a `uint8_t`, `arg` a `uint32_t`. -/
def send_command_frame (cmd arg : Nat) : Nat :=
  let crc := crc7 (cmd_buf cmd arg) 5
  (((((0 ||| (1 <<< 47)) ||| (1 <<< 46)) ||| (cmd <<< 40)) ||| (arg <<< 8)) ||| crc) % 2 ^ 64

/-- The value of the local `frame` that `sdio_send_cmd` of `main.c` hands to
`send_bits(frame, 48)`. -/
def sdio_send_cmd_frame (cmd arg : Nat) : Nat :=
  let crc := crc7 (cmd_buf cmd arg) 5
  ((((0 ||| (1 <<< 46)) ||| (cmd <<< 40)) ||| (arg <<< 8)) ||| crc) % 2 ^ 64

/-! ## Vocabulary of the properties -/

/-- Every callback the driver needs is present in the table and every call
returns 0. -/
def AllHostCallsSucceed (w : World) : Prop :=
  (∃ o, w.g_cyw_dev.ops = some o ∧ o.cmd52_read = true ∧ o.cmd52_write = true ∧
        o.cmd53_read = true ∧ o.cmd53_write = true) ∧
  ∀ k, (w.host k).ret = 0

/-- Whether a callback is a bulk write (`cmd53_write`). -/
def isBulkWrite : HostCall → Bool
  | HostCall.cmd53_write _ _ _ _ _ => true
  | _ => false

/-- Whether a callback is a byte write to one of the three window registers
of function 1. -/
def isWindowWrite : HostCall → Bool
  | HostCall.cmd52_write func addr _ =>
    decide (func = 1 ∧ (addr = 0x1000A ∨ addr = 0x1000B ∨ addr = 0x1000C))
  | _ => false

/-- The three byte writes that program the window registers for `window`. -/
def windowWrites (window : Nat) : List HostCall :=
  [HostCall.cmd52_write 1 0x1000A ((window >>> 8) &&& 0xFF),
   HostCall.cmd52_write 1 0x1000B ((window >>> 16) &&& 0xFF),
   HostCall.cmd52_write 1 0x1000C ((window >>> 24) &&& 0xFF)]

/-- The number of 32 KiB windows that the byte range `[addr, addr + len)`
touches. -/
def windowsTouched (addr len : Nat) : Nat :=
  if len = 0 then 0 else (addr + len - 1) / 0x8000 - addr / 0x8000 + 1

/-- The chunks `(chip address, payload)` are laid out back to back from
`addr`. -/
def ChunksFrom : Nat → List (Nat × List Nat) → Prop
  | _, [] => True
  | a, c :: cs => c.1 = a ∧ ChunksFrom (a + c.2.length) cs

/-- The function-1 bulk write that carries a chunk. -/
def chunkWrite (c : Nat × List Nat) : HostCall :=
  HostCall.cmd53_write 1 ((c.1 &&& 0x7FFF) ||| 0x8000) c.2 c.2.length true

/-- An access that took the world from `w` to `w1` and returned `err` aborts
at a failing host call: whenever a callback issued during the access (call
number `k` with `w.trace.length ≤ k < w1.trace.length`) returned non-zero, the
access returned `CYW_ERR_IO` and that callback was the last one it issued. -/
def AbortsAtFailure (w w1 : World) (err : cyw_err_t) : Prop :=
  ∀ k, w.trace.length ≤ k → k < w1.trace.length → (w.host k).ret ≠ 0 →
    err = CYW_ERR_IO ∧ k + 1 = w1.trace.length

/-- The first callback issued between `w` and `w1` is a bulk write of a frame
to function 2 at offset 0. -/
def SendsFrameFirst (w w1 : World) : Prop :=
  ∃ (frame : List Nat) (L : Nat) (rest : List HostCall),
    w1.trace = w.trace ++ HostCall.cmd53_write 2 0 frame L true :: rest

/-! ## Auxiliary definitions used by the proofs -/

/-- The world after a successful window update. -/
def afterWindow (addr : Nat) (w : World) : World :=
  if w.g_cyw_dev.sbwad_valid = true ∧ w.g_cyw_dev.sbwad = addr &&& SBSDIO_SBWINDOW_MASK then w
  else
    { w with
      trace := w.trace ++ windowWrites (addr &&& SBSDIO_SBWINDOW_MASK),
      g_cyw_dev := { w.g_cyw_dev with sbwad := addr &&& SBSDIO_SBWINDOW_MASK, sbwad_valid := true } }

/-- The chunk length computed by one iteration of the loop. -/
def chunkLen (addr len : Nat) : Nat :=
  if ((addr &&& SBSDIO_SB_OFT_ADDR_MASK) + len) % U32 > SBSDIO_SB_OFT_ADDR_LIMIT
  then SBSDIO_SB_OFT_ADDR_LIMIT - (addr &&& SBSDIO_SB_OFT_ADDR_MASK) else len

/-- The twelve header bytes that `send_sdpcm_frame` stores. -/
def sdpcmHeaderBytes (total_len seq channel : Nat) : List Nat :=
  [total_len % 65536 % 256, (total_len % 65536) >>> 8 % 256,
   (U32 - 1 - total_len) % 65536 % 256, ((U32 - 1 - total_len) % 65536) >>> 8 % 256,
   seq % 256, channel % 256, 0, 12, 0, 0, 0, 0]

/-- The transmit buffer after the stores of `send_sdpcm_frame`. -/
def txAfterSend (tx_buf : List Nat) (seq channel : Nat) (data : Option (List Nat))
    (len : Nat) : List Nat :=
  sdpcmHeaderBytes ((SDPCM_HEADER_SIZE + len) % U32) seq channel ++
    (match data with
     | some d => if len > 0 then d.take len ++ tx_buf.drop (12 + (d.take len).length)
                 else tx_buf.drop 12
     | none => tx_buf.drop 12)

/-- The relation between the world before and after a transport-level
function: the host, the callback table, the chip identity, the lifecycle
state, the request counter and the scan state are unchanged, a valid window
cache stays valid, and the trace only grows. -/
structure Transport (w w1 : World) : Prop where
  host_eq : w1.host = w.host
  uninit_eq : w1.uninit = w.uninit
  ops_eq : w1.g_cyw_dev.ops = w.g_cyw_dev.ops
  chip_eq : w1.g_cyw_dev.chip = w.g_cyw_dev.chip
  state_eq : w1.g_cyw_dev.state = w.g_cyw_dev.state
  reqid_eq : w1.g_cyw_dev.reqid = w.g_cyw_dev.reqid
  scan_eq : w1.g_scan_state = w.g_scan_state
  valid_mono : w.g_cyw_dev.sbwad_valid = true → w1.g_cyw_dev.sbwad_valid = true
  trace_ext : ∃ ext, w1.trace = w.trace ++ ext

/-- The BCDC flags word stored by `cyw_ioctl` for request counter `r`. -/
def bcdcFlags ( set : Bool) (r : Nat) : Nat :=
  (((BCDC_PROTO_VER <<< BCDC_FLAG_VER_SHIFT) ||| (if set then 0x02 else 0)) ||| (r <<< 16)) % U32

/-- The local `buf` of `cyw_ioctl` when the request is sent. -/
def ioctlBuf (w : World) (cmd : Nat) (data : Option (List Nat)) (len : Nat) ( set : Bool) :
    List Nat :=
  match data with
  | some d =>
    if set = true ∧ len > 0 then
      writeAt (writeAt (w.fresh 512) 0
        (le32 cmd ++ le32 len ++ le32 (bcdcFlags set w.g_cyw_dev.reqid) ++ le32 0))
        BCDC_HEADER_SIZE (d.take len)
    else writeAt (w.fresh 512) 0
      (le32 cmd ++ le32 len ++ le32 (bcdcFlags set w.g_cyw_dev.reqid) ++ le32 0)
  | none => writeAt (w.fresh 512) 0
      (le32 cmd ++ le32 len ++ le32 (bcdcFlags set w.g_cyw_dev.reqid) ++ le32 0)

/-- The world in which `cyw_ioctl` sends: the request counter is advanced. -/
def bumpReqid (w : World) : World :=
  { w with g_cyw_dev := { w.g_cyw_dev with reqid := (w.g_cyw_dev.reqid + 1) % 65536 } }

/-- The two ways `cyw_load_firmware` can end past its guard, relative to the
world `w0` it started from: `CYW_OK` in state FwReady, or an error in state
Error; the chip identity is that of `w0`. -/
def LoadOutcome (w0 : World) (r : cyw_err_t × World) : Prop :=
  r.2.g_cyw_dev.chip = w0.g_cyw_dev.chip ∧
  ((r.1 = CYW_OK ∧ r.2.g_cyw_dev.state = CYW_STATE_FW_READY) ∨
   (r.1 ≠ CYW_OK ∧ r.2.g_cyw_dev.state = CYW_STATE_ERROR))

/-- Bookkeeping for `AbortsAtFailure`: same host, a trace that did not
shrink, and the abort property itself. -/
structure Aborts (w w1 : World) (err : cyw_err_t) : Prop where
  host_eq : w1.host = w.host
  len_le : w.trace.length ≤ w1.trace.length
  fail : AbortsAtFailure w w1 err

/-- The relation between the world before and after an ioctl-level function:
as `Transport`, except that the request counter may advance. -/
structure Session (w w1 : World) : Prop where
  host_eq : w1.host = w.host
  uninit_eq : w1.uninit = w.uninit
  ops_eq : w1.g_cyw_dev.ops = w.g_cyw_dev.ops
  chip_eq : w1.g_cyw_dev.chip = w.g_cyw_dev.chip
  state_eq : w1.g_cyw_dev.state = w.g_cyw_dev.state
  scan_eq : w1.g_scan_state = w.g_scan_state
  valid_mono : w.g_cyw_dev.sbwad_valid = true → w1.g_cyw_dev.sbwad_valid = true
  trace_ext : ∃ ext, w1.trace = w.trace ++ ext

/-! ## Concrete worlds used to instantiate the theorems -/

/-- A callback table with every pointer set. -/
def exampleOps : sdio_host_ops_t :=
  { init := true, deinit := true, cmd52_read := true, cmd52_write := true,
    cmd53_read := true, cmd53_write := true, set_block_size := true, enable_func := true,
    enable_irq := true, irq_pending := true, delay_us := true, delay_ms := true }

/-- A context as `cyw_init` leaves it (state Init, RAM base 0x3A0000), with an
invalid window cache and zeroed buffers. -/
def exampleDev : cyw_dev_t :=
  { state := CYW_STATE_INIT,
    chip := { chip_id := 0xD8CC, chip_rev := 0, enum_base := 0, ram_base := 0x3A0000,
              ram_size := 0, cc_caps := 0, pmu_caps := 0, pmu_rev := 0 },
    sbwad := 0, sbwad_valid := false, tx_seq := 0, rx_seq := 0, tx_max := 0, flow_ctrl := 0,
    reqid := 0, tx_buf := List.replicate 2048 0, rx_buf := List.replicate 2048 0,
    ops := some exampleOps }

/-- A world whose host answers every callback with 0 and delivers no bytes. -/
def exampleWorld : World :=
  { g_cyw_dev := exampleDev, g_scan_state := scan_state_zero,
    host := fun _ => { ret := 0, bytes := [] }, uninit := fun _ => 0, trace := [] }

/-- The world `exampleWorld` after a successful firmware load (state FwReady). -/
def exampleReadyWorld : World :=
  { exampleWorld with g_cyw_dev := { exampleDev with state := CYW_STATE_FW_READY } }

/-- A world whose window cache is valid for window 0x18000000 and whose host
fails the third callback (call number 2) and succeeds otherwise. -/
def exampleStaleWorld : World :=
  { exampleWorld with
    g_cyw_dev := { exampleDev with sbwad := 0x18000000, sbwad_valid := true },
    host := fun k => if k = 2 then { ret := -1, bytes := [] } else { ret := 0, bytes := [] } }

/-- A control-channel SDPCM frame answering `WLC_UP` (SET) with request id 0
and status 0: header (length 28, check 0xFFE3, data offset 12) and BCDC
header. -/
def exampleUpReply : List Nat :=
  [28, 0, 0xE3, 0xFF, 0, 0, 0, 12, 0, 0, 0, 0,
   2, 0, 0, 0,  0, 0, 0, 0,  0x22, 0, 0, 0,  0, 0, 0, 0]

/-- The world `exampleWorld` in state Error, with a host that answers every
read with `exampleUpReply`. -/
def exampleErrorWorld : World :=
  { exampleWorld with
    g_cyw_dev := { exampleDev with state := CYW_STATE_ERROR },
    host := fun _ => { ret := 0, bytes := exampleUpReply } }

/-- A control-channel SDPCM frame answering `WLC_UP` (SET) with request id
0xFFFF and status 0. -/
def exampleWrapReply : List Nat :=
  [28, 0, 0xE3, 0xFF, 0, 0, 0, 12, 0, 0, 0, 0,
   2, 0, 0, 0,  0, 0, 0, 0,  0x22, 0, 0xFF, 0xFF,  0, 0, 0, 0]

/-- The world `exampleReadyWorld` with the request counter at 0xFFFF and a
host that answers every read with `exampleWrapReply`. -/
def exampleWrapWorld : World :=
  { exampleWorld with
    g_cyw_dev := { exampleDev with state := CYW_STATE_FW_READY, reqid := 0xFFFF },
    host := fun _ => { ret := 0, bytes := exampleWrapReply } }
/-! ## Vocabulary and worlds for the ioctl, firmware and bring-up properties -/

/-- One turn of the wait loop of `cyw_ioctl` that does not end it: a receive
into the local `buf`, then `delay_ms(1)`.  The state is `(buf, world)`. -/
def ioctlWaitTurn (s : List Nat × World) : List Nat × World :=
  ((if (recv_sdpcm_frame s.2).err = CYW_OK then writeAt s.1 0 (recv_sdpcm_frame s.2).payload
    else s.1),
   delay_ms 1 (recv_sdpcm_frame s.2).world)

/-- The test by which a turn of the wait loop takes what it finds in `buf`
after the receive for the response. -/
def ioctlAccepts (s : List Nat × World) : Prop :=
  (recv_sdpcm_frame s.2).err = CYW_OK ∧
  (recv_sdpcm_frame s.2).channel = SDPCM_CONTROL_CHANNEL ∧
  rd32 (if (recv_sdpcm_frame s.2).err = CYW_OK then writeAt s.1 0 (recv_sdpcm_frame s.2).payload
        else s.1) 8 >>> 16 =
    toU32 (((recv_sdpcm_frame s.2).world.g_cyw_dev.reqid : Int) - 1)

/-- A control-channel SDPCM frame without payload: length 12, check 0xFFF3,
data offset 12, credit byte 7. -/
def exampleEmptyFrame : List Nat := [12, 0, 0xF3, 0xFF, 0, 0, 0, 12, 0, 7, 0, 0]

/-- The world `exampleReadyWorld` with the request counter at 1, a stack that
holds 0xAA, and a host that answers every read with `exampleEmptyFrame`. -/
def exampleShortWorld : World :=
  { exampleWorld with
    g_cyw_dev := { exampleDev with state := CYW_STATE_FW_READY, reqid := 1 },
    uninit := fun _ => 0xAA,
    host := fun _ => { ret := 0, bytes := exampleEmptyFrame } }

/-- A control-channel SDPCM frame answering a GET with request id 0: BCDC
header (`WLC_GET_VAR`, length 4, flags 0x20, status 0) and the four payload
bytes 1, 2, 3, 4. -/
def exampleGetReply : List Nat :=
  [32, 0, 0xDF, 0xFF, 0, 0, 0, 12, 0, 0, 0, 0,
   6, 1, 0, 0,  4, 0, 0, 0,  0x20, 0, 0, 0,  0, 0, 0, 0,  1, 2, 3, 4]

/-- The world `exampleReadyWorld` with a host that answers every read with
`exampleGetReply`. -/
def exampleGetWorld : World :=
  { exampleWorld with
    g_cyw_dev := { exampleDev with state := CYW_STATE_FW_READY },
    host := fun _ => { ret := 0, bytes := exampleGetReply } }

/-- The 32-bit footer value `(L/4) | ((~(L/4)) << 16)` for an NVRAM blob of
`L` bytes. -/
def nvramFooter (L : Nat) : Nat := (L / 4) ||| (((U32 - 1 - L / 4) <<< 16) % U32)

/-- The codes an SDIO or backplane access can return. -/
def IsAccessCode (e : cyw_err_t) : Prop := e = CYW_OK ∨ e = CYW_ERR_IO ∨ e = CYW_ERR_INVALID

/-- A world in state Init whose host fails every callback. -/
def exampleFailWorld : World :=
  { exampleWorld with host := fun _ => { ret := -1, bytes := [] } }

/-- A world whose host succeeds on every callback and answers every read
with the bytes 0x66, 0x43, 0x03, 0x00: the chip-id word 0x00034366 (id 0x4366,
revision 3), and a byte 0x66 in which the ready bits 0x02, 0x04 and the
ALP_AVAIL bit 0x40 are set. -/
def exampleChipWorld : World :=
  { exampleWorld with host := fun _ => { ret := 0, bytes := [0x66, 0x43, 0x03, 0x00] } }

/-! ## Vocabulary and worlds for the framing, polling and connect properties -/

/-- A passphrase of 65 characters 'a'. -/
def exampleLongPassphrase : List Nat := List.replicate 65 0x61

/-- A poll of `CCCR_IO_READY` in `sdio_init_card` observes the bit `ready`:
the read succeeds and the bit is set. -/
def readySeen (ready : Nat) (w : World) : Prop :=
  (cyw_sdio_read8 SDIO_FUNC_0 CCCR_IO_READY w).1 = CYW_OK ∧
  (cyw_sdio_read8 SDIO_FUNC_0 CCCR_IO_READY w).2.1 &&& ready ≠ 0

/-- A turn of a function-ready loop that does not end it: the read, then
`delay_ms(1)`. -/
def readyTurn (w : World) : World :=
  delay_ms 1 (cyw_sdio_read8 SDIO_FUNC_0 CCCR_IO_READY w).2.2

/-- A poll of `CHIPCLKCSR` in `cyw_load_firmware` observes HT_AVAIL. -/
def htSeen (w : World) : Prop :=
  (cyw_sdio_read8 SDIO_FUNC_1 SBSDIO_FUNC1_CHIPCLKCSR w).1 = CYW_OK ∧
  (cyw_sdio_read8 SDIO_FUNC_1 SBSDIO_FUNC1_CHIPCLKCSR w).2.1 &&& SBSDIO_HT_AVAIL ≠ 0

/-- A turn of the HT_AVAIL loop that does not end it: the read, then
`delay_ms(10)`. -/
def htTurn (w : World) : World :=
  delay_ms 10 (cyw_sdio_read8 SDIO_FUNC_1 SBSDIO_FUNC1_CHIPCLKCSR w).2.2

/-- A world whose host reports function 1 ready on the 100th read of
`IO_READY` issued by `sdio_init_card` (callback number 199) and on no other
read. -/
def exampleLastPollWorld : World :=
  { exampleWorld with
    host := fun k => if k = 199 then { ret := 0, bytes := [0x02] } else { ret := 0, bytes := [] } }

/-- A world in state Init whose host reports HT_AVAIL on the 200th read of
`CHIPCLKCSR` issued by `cyw_load_firmware` without images (callback number
398) and on no other read. -/
def exampleLastHtWorld : World :=
  { exampleWorld with
    host := fun k => if k = 398 then { ret := 0, bytes := [0x80] } else { ret := 0, bytes := [] } }

/-- The first read of `recv_sdpcm_frame`: four bytes from function 2 into the
local `frame_hdr`. -/
def recvHeaderRead (w : World) : cyw_err_t × List Nat × World :=
  sdio_read_bytes SDIO_FUNC_2 0 (w.fresh 4) 4 true w

/-- The length `frame_len` parsed from the first two bytes of `frame_hdr`. -/
def recvFrameLen (w : World) : Nat := rd16 (recvHeaderRead w).2.1 0

/-- The second read of `recv_sdpcm_frame`: `frame_len` bytes from function 2
into `rx_buf`. -/
def recvFrameRead (w : World) : cyw_err_t × List Nat × World :=
  sdio_read_bytes SDIO_FUNC_2 0 (recvHeaderRead w).2.2.g_cyw_dev.rx_buf (recvFrameLen w) true
    (recvHeaderRead w).2.2

/-- A world in state FwReady whose host answers every read with a 16-byte
frame (check 0xFFEF) whose data offset is 4, below the header size. -/
def exampleLowOffsetWorld : World :=
  { exampleReadyWorld with
    host := fun _ => { ret := 0, bytes := [16, 0, 0xEF, 0xFF, 0, 0, 0, 4, 0, 0, 0, 0, 9, 9, 9, 9] } }

/-- A world in state FwReady whose host answers every read with a 16-byte
frame whose data offset is 200, beyond the frame. -/
def exampleHighOffsetWorld : World :=
  { exampleReadyWorld with
    host := fun _ =>
      { ret := 0, bytes := [16, 0, 0xEF, 0xFF, 0, 0, 0, 200, 0, 0, 0, 0, 9, 9, 9, 9] } }

/-- A world in state FwReady whose host answers every read with a control
frame of 600 bytes (length 0x0258, check 0xFDA7, data offset 12). -/
def exampleBigFrameWorld : World :=
  { exampleReadyWorld with
    host := fun _ =>
      { ret := 0,
        bytes := [0x58, 0x02, 0xA7, 0xFD, 0, 0, 0, 12, 0, 0, 0, 0] ++ List.replicate 588 0x55 } }

/-- The world in which `cyw_scan` issues its `escan` request: the scan state
is cleared, the sync id taken from the request counter, `in_progress` set. -/
def scanStart (w : World) : World :=
  { w with g_scan_state :=
    { scan_state_zero with
      sync_id := (w.g_cyw_dev.reqid &&& 0xFFFF) % 65536, in_progress := true } }

/-- The `escan` request of `cyw_scan` issued in `scanStart w`. -/
def scanRequest (w : World) : cyw_err_t × Option (List Nat) × World :=
  cyw_iovar [101, 115, 99, 97, 110]
    (some (scan_params ((w.g_cyw_dev.reqid &&& 0xFFFF) % 65536))) 74 true (scanStart w)

/-- An event-channel SDPCM frame of 20 bytes whose payload carries the BSSID
`k, 1, 2, 3, 4, 5`. -/
def exampleEventFrame (k : Nat) : List Nat :=
  [20, 0, 0xEB, 0xFF, 0, 1, 0, 12, 0, 0, 0, 0, k % 256, 1, 2, 3, 4, 5, 0, 0]

/-- A world in state Up whose host acknowledges the first request (reads 1
and 2 deliver `exampleUpReply`, a control frame with id 0 and status 0) and
from then on delivers event frames with a different BSSID on every read. -/
def exampleScanWorld : World :=
  { exampleWorld with
    g_cyw_dev := { exampleDev with state := CYW_STATE_UP },
    host := fun k =>
      if k < 3 then { ret := 0, bytes := exampleUpReply }
      else { ret := 0, bytes := exampleEventFrame k } }

/-! ## Requests and answers of the connect sequence -/

/-- A well-formed SDPCM control-channel frame that answers request id `q`
with status 0: between 28 and `RX_BUF_SIZE` bytes, its length field equal to
its length, the check field its complement, channel 0, data offset 12, the
id `q` in the upper half of the BCDC flags word and a zero status word. -/
def IsOkResponse (F : List Nat) (q : Nat) : Prop :=
  28 ≤ F.length ∧ F.length ≤ RX_BUF_SIZE ∧ (∀ b ∈ F, b < 256) ∧
  rd16 F 0 = F.length ∧ rd16 F 0 ^^^ rd16 F 2 = 0xFFFF ∧
  byteAt F 5 = SDPCM_CONTROL_CHANNEL ∧ byteAt F 7 = 12 ∧
  rd32 F 20 >>> 16 = q ∧ rd32 F 24 = 0

/-- The host answers the request sent with callback number `k`: that bulk
write succeeds, and the two reads behind it succeed and deliver a response
frame for request id `q` (the first read its first four bytes). -/
def HostAnswers (w : World) (k q : Nat) : Prop :=
  (w.host k).ret = 0 ∧ (w.host (k + 1)).ret = 0 ∧ (w.host (k + 2)).ret = 0 ∧
  (w.host (k + 1)).bytes.take 4 = (w.host (k + 2)).bytes.take 4 ∧
  IsOkResponse (w.host (k + 2)).bytes q

/-- The callback `c` is a bulk write to function 2, offset 0, of a frame
padded to a multiple of 4 whose bytes are the SDPCM header (sequence `seq`,
control channel, data offset 12), the BCDC header of a SET request (command
`cmd`, payload length, flags `0x22` with request id `id` in the upper half,
status 0) and the payload. -/
def IsSetRequest (seq cmd id : Nat) (payload : List Nat) : HostCall → Prop
  | HostCall.cmd53_write func addr data len incr =>
    func = 2 ∧ addr = 0 ∧ incr = true ∧ len = (28 + payload.length + 3) / 4 * 4 ∧
    data.take (28 + payload.length) =
      le16 (28 + payload.length) ++ le16 (65535 - (28 + payload.length)) ++
        [seq, SDPCM_CONTROL_CHANNEL, 0, 12, 0, 0, 0, 0] ++
        le32 cmd ++ le32 payload.length ++
        le32 ((BCDC_PROTO_VER <<< BCDC_FLAG_VER_SHIFT) ||| 0x02 ||| (id <<< 16)) ++ le32 0 ++
        payload
  | _ => False

/-- The world `w1` is `w` after one answered SET request for command `cmd`
with payload `payload`: three host calls were added (the request frame, built
from the transmit sequence and request id of `w`, and the two reads of the
response), the request id and the transmit sequence advanced by one, and the
host, the callback table and the lifecycle state are unchanged. -/
def RequestAnswered (w w1 : World) (cmd : Nat) (payload : List Nat) : Prop :=
  w1.host = w.host ∧ w1.g_cyw_dev.ops = w.g_cyw_dev.ops ∧
  w1.g_cyw_dev.state = w.g_cyw_dev.state ∧
  w1.g_cyw_dev.reqid = w.g_cyw_dev.reqid + 1 ∧
  w1.g_cyw_dev.tx_seq = (w.g_cyw_dev.tx_seq + 1) % 256 ∧
  ∃ (c : HostCall) (L : Nat),
    IsSetRequest (w.g_cyw_dev.tx_seq % 256) cmd w.g_cyw_dev.reqid payload c ∧
    w1.trace = w.trace ++ [c, HostCall.cmd53_read 2 0 4 true, HostCall.cmd53_read 2 0 L true]

/-- The three host calls of one answered request: the request frame `c`, the
4-byte header read and the read of the `L`-byte response. -/
def answeredCalls (c : HostCall) (L : Nat) : List HostCall :=
  [c, HostCall.cmd53_read 2 0 4 true, HostCall.cmd53_read 2 0 L true]

/-- The characters of the SSID "TestAP". -/
def testAP : List Nat := [84, 101, 115, 116, 65, 80]

/-- The characters of the passphrase "secret12". -/
def secret12 : List Nat := [115, 101, 99, 114, 101, 116, 49, 50]

/-- A control-channel SDPCM frame of 28 bytes answering a SET request with
request id `q` and status 0. -/
def exampleOkReply (q : Nat) : List Nat :=
  [28, 0, 0xE3, 0xFF, 0, 0, 0, 12, 0, 0, 0, 0,
   0, 0, 0, 0,  0, 0, 0, 0,  0x22, 0, q % 256, q / 256 % 256,  0, 0, 0, 0]

/-- A world in state Up with request counter 0 whose host answers the `i`-th
request (callbacks `3 i`, `3 i + 1`, `3 i + 2`) with `exampleOkReply i`. -/
def exampleConnectWorld : World :=
  { exampleWorld with
    g_cyw_dev := { exampleDev with state := CYW_STATE_UP },
    host := fun k => { ret := 0, bytes := exampleOkReply (k / 3) } }

/-! ## Frames that fit the receive buffers -/

/-! ## Frames that fit the receive buffers -/

/-- The bytes `F` that the host delivers on a read form a frame that
`recv_sdpcm_frame` can hand to a caller buffer of `cap` bytes without leaving
an array: at least the 12-byte header and at most `RX_BUF_SIZE` bytes, the
length field equal to the number of bytes delivered, `data_offset ≤ total`
and `total - data_offset ≤ cap`. -/
def FrameFits (cap : Nat) (F : List Nat) : Prop :=
  12 ≤ F.length ∧ F.length ≤ RX_BUF_SIZE ∧ rd16 F 0 = F.length ∧
  byteAt F 7 ≤ F.length ∧ F.length - byteAt F 7 ≤ cap

/-- A frame that `cyw_poll` can take as well: it fits, and its payload is no
longer than its data offset, so that the copy of the payload from
`rx_buf + data_offset` to the start of `rx_buf` does not overlap its
source. -/
def PollFrameFits (F : List Nat) : Prop :=
  FrameFits 512 F ∧ F.length - byteAt F 7 ≤ byteAt F 7

/-- A world in state Up with request counter 0 whose host answers the `i`-th
of the first six requests (callbacks `3 i`, `3 i + 1`, `3 i + 2`) with
`exampleOkReply i` and delivers `exampleEmptyFrame`, a frame without payload,
on every later read. -/
def exampleQuietConnectWorld : World :=
  { exampleWorld with
    g_cyw_dev := { exampleDev with state := CYW_STATE_UP },
    host := fun k =>
      if k < 18 then { ret := 0, bytes := exampleOkReply (k / 3) }
      else { ret := 0, bytes := exampleEmptyFrame } }

/-! ## The host calls of a run of backplane accesses -/

/-! ## Backplane transfers with their window updates -/

/-- The window the driver believes programmed: the cached value when the
cache is valid. -/
def cachedWindow (w : World) : Option Nat :=
  if w.g_cyw_dev.sbwad_valid = true then some w.g_cyw_dev.sbwad else none

/-- The host calls of a run of backplane writes of the chunks
`(chip address, bytes)`, started with the window cache `cache`: before the
bulk write of a chunk the three window registers are written with the bytes
of the chunk's window `address & 0xFFFF8000`, unless that window is the
cached one; the chunk's window is the cache for the next chunk. -/
def accessCalls : Option Nat → List (Nat × List Nat) → List HostCall
  | _, [] => []
  | cache, c :: cs =>
    (if cache = some (c.1 &&& SBSDIO_SBWINDOW_MASK) then []
      else windowWrites (c.1 &&& SBSDIO_SBWINDOW_MASK)) ++
      chunkWrite c :: accessCalls (some (c.1 &&& SBSDIO_SBWINDOW_MASK)) cs

/-- The window cache after a run of backplane writes of the chunks `cs`: the
window of the last chunk, or `cache` when there is none. -/
def cacheAfter : Option Nat → List (Nat × List Nat) → Option Nat
  | cache, [] => cache
  | _, c :: cs => cacheAfter (some (c.1 &&& SBSDIO_SBWINDOW_MASK)) cs

/-! ## The stages of `cyw_load_firmware` -/

theorem and_offset_mask (a : Nat) : a &&& SBSDIO_SB_OFT_ADDR_MASK = a % 0x8000 :=
  Nat.and_pow_two_sub_one_eq_mod a 15

theorem AllHostCallsSucceed.transfer {w w1 : World} (h : AllHostCallsSucceed w)
    (ho : w1.g_cyw_dev.ops = w.g_cyw_dev.ops) (hh : w1.host = w.host) :
    AllHostCallsSucceed w1 := by
  unfold AllHostCallsSucceed at *
  rw [ho, hh]; exact h

theorem cyw_sdio_write8_ok {w : World} (h : AllHostCallsSucceed w) (f a v : Nat) :
    cyw_sdio_write8 f a v w =
      (CYW_OK, { w with trace := w.trace ++ [HostCall.cmd52_write f a v] }) := by
  obtain ⟨⟨o, ho, -, h2, -, -⟩, hr⟩ := h
  simp [cyw_sdio_write8, ho, h2, World.invoke, hr]

theorem sdio_write_bytes_ok {w : World} (h : AllHostCallsSucceed w) (f a : Nat)
    (d : List Nat) (n : Nat) (i : Bool) :
    sdio_write_bytes f a d n i w =
      (CYW_OK, { w with trace := w.trace ++ [HostCall.cmd53_write f a (d.take n) n i] }) := by
  obtain ⟨⟨o, ho, -, -, -, h4⟩, hr⟩ := h
  simp [sdio_write_bytes, ho, h4, World.invoke, hr]

theorem set_backplane_window_ok {w : World} (h : AllHostCallsSucceed w) (addr : Nat) :
    set_backplane_window addr w = (CYW_OK, afterWindow addr w) := by
  unfold set_backplane_window afterWindow
  by_cases hc : w.g_cyw_dev.sbwad_valid = true ∧ w.g_cyw_dev.sbwad = addr &&& SBSDIO_SBWINDOW_MASK
  · simp only [hc, and_self, if_true]
  · have h1 := cyw_sdio_write8_ok h SDIO_FUNC_1 SBSDIO_FUNC1_SBADDRLOW
      ((addr &&& SBSDIO_SBWINDOW_MASK) >>> 8 &&& 0xFF)
    have hw1 : AllHostCallsSucceed
        { w with trace := w.trace ++ [HostCall.cmd52_write SDIO_FUNC_1 SBSDIO_FUNC1_SBADDRLOW
          ((addr &&& SBSDIO_SBWINDOW_MASK) >>> 8 &&& 0xFF)] } := h.transfer rfl rfl
    have h2 := cyw_sdio_write8_ok hw1 SDIO_FUNC_1 SBSDIO_FUNC1_SBADDRMID
      ((addr &&& SBSDIO_SBWINDOW_MASK) >>> 16 &&& 0xFF)
    have hw2 : AllHostCallsSucceed
        { w with trace := (w.trace ++ [HostCall.cmd52_write SDIO_FUNC_1 SBSDIO_FUNC1_SBADDRLOW
          ((addr &&& SBSDIO_SBWINDOW_MASK) >>> 8 &&& 0xFF)]) ++
          [HostCall.cmd52_write SDIO_FUNC_1 SBSDIO_FUNC1_SBADDRMID
          ((addr &&& SBSDIO_SBWINDOW_MASK) >>> 16 &&& 0xFF)] } := hw1.transfer rfl rfl
    have h3 := cyw_sdio_write8_ok hw2 SDIO_FUNC_1 SBSDIO_FUNC1_SBADDRHIGH
      ((addr &&& SBSDIO_SBWINDOW_MASK) >>> 24 &&& 0xFF)
    simp only [hc, if_false, h1, h2, h3, ne_eq, not_true_eq_false]
    simp [windowWrites, SDIO_FUNC_1, SBSDIO_FUNC1_SBADDRLOW, SBSDIO_FUNC1_SBADDRMID,
      SBSDIO_FUNC1_SBADDRHIGH]

theorem afterWindow_ok {w : World} (h : AllHostCallsSucceed w) (addr : Nat) :
    AllHostCallsSucceed (afterWindow addr w) := by
  unfold afterWindow; split
  · exact h
  · exact h.transfer rfl rfl

theorem afterWindow_trace (addr : Nat) (w : World) :
    ∃ ext, (afterWindow addr w).trace = w.trace ++ ext ∧ ext.filter isBulkWrite = [] := by
  unfold afterWindow; split
  · exact ⟨[], by simp, rfl⟩
  · exact ⟨windowWrites (addr &&& SBSDIO_SBWINDOW_MASK), rfl, rfl⟩

/-! ## Chunking of `cyw_backplane_write` -/

theorem cyw_backplane_write_loop_zero (fuel addr : Nat) (data : List Nat) (w : World) :
    cyw_backplane_write_loop fuel addr data 0 w = (CYW_OK, w) := by
  cases fuel <;> simp [cyw_backplane_write_loop]

theorem chunkLen_pos (addr len : Nat) (h : 0 < len) : 0 < chunkLen addr len := by
  unfold chunkLen
  rw [and_offset_mask]
  have : addr % 0x8000 < 0x8000 := Nat.mod_lt _ (by norm_num)
  split
  · simp only [SBSDIO_SB_OFT_ADDR_LIMIT]; omega
  · exact h

theorem chunkLen_le (addr len : Nat) : chunkLen addr len ≤ len ∨ len = 0 ∨
    U32 ≤ addr % 0x8000 + len := by
  unfold chunkLen
  rw [and_offset_mask]
  by_cases hb : addr % 0x8000 + len < U32
  · left
    rw [Nat.mod_eq_of_lt hb]
    split
    · simp only [SBSDIO_SB_OFT_ADDR_LIMIT] at *; omega
    · exact Nat.le_refl _
  · right; right; omega

/-- One iteration of the loop when the host succeeds. -/
theorem cyw_backplane_write_loop_step {w : World} (h : AllHostCallsSucceed w)
    (fuel addr : Nat) (data : List Nat) (len : Nat) (hlen : 0 < len) :
    cyw_backplane_write_loop (fuel + 1) addr data len w =
      cyw_backplane_write_loop fuel ((addr + chunkLen addr len) % U32)
        (data.drop (chunkLen addr len)) (len - chunkLen addr len)
        { afterWindow addr w with
          trace := (afterWindow addr w).trace ++
            [HostCall.cmd53_write 1 ((addr &&& 0x7FFF) ||| 0x8000)
              (data.take (chunkLen addr len)) (chunkLen addr len) true] } := by
  have hw := sdio_write_bytes_ok (afterWindow_ok h addr) SDIO_FUNC_1
    ((addr &&& SBSDIO_SB_OFT_ADDR_MASK) ||| SBSDIO_SB_ACCESS_2_4B_FLAG) data
    (chunkLen addr len) true
  rw [cyw_backplane_write_loop]
  simp only [hlen, gt_iff_lt, if_true, set_backplane_window_ok h, ne_eq, not_true_eq_false,
    if_false]
  unfold chunkLen at hw ⊢
  simp only [gt_iff_lt] at hw ⊢
  rw [hw]
  simp [SDIO_FUNC_1, SBSDIO_SB_OFT_ADDR_MASK, SBSDIO_SB_ACCESS_2_4B_FLAG]

theorem windowsTouched_step (addr len : Nat) (hlen : 0 < len)
    (hb : addr % 0x8000 + len < U32) :
    windowsTouched addr len =
      windowsTouched (addr + chunkLen addr len) (len - chunkLen addr len) + 1 := by
  unfold windowsTouched chunkLen
  rw [and_offset_mask, Nat.mod_eq_of_lt hb]
  simp only [SBSDIO_SB_OFT_ADDR_LIMIT]
  split_ifs <;> omega

theorem cyw_backplane_write_loop_chunks (fuel : Nat) :
    ∀ (addr : Nat) (data : List Nat) (len : Nat) (w : World),
      len ≤ fuel → addr + len ≤ U32 → addr % 0x8000 + len < U32 → data.length = len →
      AllHostCallsSucceed w →
      ∃ (chunks : List (Nat × List Nat)) (ext : List HostCall),
        (cyw_backplane_write_loop fuel addr data len w).1 = CYW_OK ∧
        (cyw_backplane_write_loop fuel addr data len w).2.trace = w.trace ++ ext ∧
        ext.filter isBulkWrite = chunks.map chunkWrite ∧
        ChunksFrom addr chunks ∧
        (∀ c ∈ chunks, (c.1 &&& 0x7FFF) + c.2.length ≤ 0x8000) ∧
        (chunks.map Prod.snd).flatten = data ∧
        chunks.length = windowsTouched addr len := by
  induction fuel with
  | zero =>
    intro addr data len w hf _ _ hd _
    have hl : len = 0 := by omega
    subst hl
    refine ⟨[], [], ?_⟩
    simp [cyw_backplane_write_loop, ChunksFrom, windowsTouched]
    exact List.length_eq_zero.mp hd
  | succ fuel ih =>
    intro addr data len w hf ha hb hd hw
    rcases Nat.eq_zero_or_pos len with hl | hl
    · subst hl
      refine ⟨[], [], ?_⟩
      simp [cyw_backplane_write_loop, ChunksFrom, windowsTouched]
      exact List.length_eq_zero.mp hd
    · have hpos := chunkLen_pos addr len hl
      have hle : chunkLen addr len ≤ len := by
        rcases chunkLen_le addr len with h | h | h <;> omega
      have hin : addr % 0x8000 + chunkLen addr len ≤ 0x8000 := by
        unfold chunkLen
        rw [and_offset_mask, Nat.mod_eq_of_lt hb]
        simp only [SBSDIO_SB_OFT_ADDR_LIMIT]
        have : addr % 0x8000 < 0x8000 := Nat.mod_lt _ (by norm_num)
        split_ifs <;> omega
      rw [cyw_backplane_write_loop_step hw fuel addr data len hl]
      obtain ⟨e1, he1, hf1⟩ := afterWindow_trace addr w
      rcases Nat.eq_zero_or_pos (len - chunkLen addr len) with hr | hr
      · -- the chunk is the whole remainder
        have hcl : chunkLen addr len = len := by omega
        rw [hr, cyw_backplane_write_loop_zero]
        refine ⟨[(addr, data)], e1 ++ [HostCall.cmd53_write 1 ((addr &&& 0x7FFF) ||| 0x8000)
          (data.take (chunkLen addr len)) (chunkLen addr len) true], rfl, ?_, ?_, ?_, ?_, ?_, ?_⟩
        · simp [he1]
        · rw [hcl, ← hd]; simp [hf1, isBulkWrite, chunkWrite]
        · simp [ChunksFrom]
        · intro c hc
          simp only [List.mem_singleton] at hc
          subst hc
          have := and_offset_mask addr
          simp only [SBSDIO_SB_OFT_ADDR_MASK] at this
          simp only [this, hd]; omega
        · simp
        · rw [windowsTouched_step addr len hl hb, hr]
          simp [windowsTouched]
      · have hlt : addr + chunkLen addr len < U32 := by omega
        have hmod : (addr + chunkLen addr len) % U32 = addr + chunkLen addr len :=
          Nat.mod_eq_of_lt hlt
        have hal : (addr + chunkLen addr len) % 0x8000 = 0 := by
          have hne : chunkLen addr len ≠ len := by omega
          have : chunkLen addr len = 0x8000 - addr % 0x8000 := by
            unfold chunkLen at hne ⊢
            rw [and_offset_mask] at hne ⊢
            simp only [SBSDIO_SB_OFT_ADDR_LIMIT] at hne ⊢
            split_ifs at hne ⊢ with hx
            · rfl
            · exact absurd rfl hne
          omega
        have hw1 : AllHostCallsSucceed
            { afterWindow addr w with
              trace := (afterWindow addr w).trace ++
                [HostCall.cmd53_write 1 ((addr &&& 0x7FFF) ||| 0x8000)
                  (data.take (chunkLen addr len)) (chunkLen addr len) true] } :=
          (afterWindow_ok hw addr).transfer rfl rfl
        obtain ⟨cs, ext, hok, htr, hfl, hch, hwin, hcat, hcnt⟩ :=
          ih ((addr + chunkLen addr len) % U32) (data.drop (chunkLen addr len))
            (len - chunkLen addr len) _ (by omega) (by rw [hmod]; omega)
            (by rw [hmod, hal]; unfold U32 at *; omega)
            (by simp [hd]) hw1
        refine ⟨(addr, data.take (chunkLen addr len)) :: cs,
          e1 ++ [HostCall.cmd53_write 1 ((addr &&& 0x7FFF) ||| 0x8000)
            (data.take (chunkLen addr len)) (chunkLen addr len) true] ++ ext,
          hok, ?_, ?_, ?_, ?_, ?_, ?_⟩
        · rw [htr]; simp [he1]
        · simp [hf1, isBulkWrite, hfl, chunkWrite, hd, hle]
        · simp only [ChunksFrom, List.length_take, hd, Nat.min_eq_left hle, true_and]
          rw [hmod] at hch; exact hch
        · intro c hc
          rcases List.mem_cons.mp hc with rfl | hc
          · have := and_offset_mask addr
            simp only [SBSDIO_SB_OFT_ADDR_MASK] at this
            simp only [this, List.length_take, hd, Nat.min_eq_left hle]; exact hin
          · exact hwin c hc
        · simp [hcat]
        · rw [windowsTouched_step addr len hl hb, ← hmod, ← hcnt]; simp

theorem exampleWorld_ok : AllHostCallsSucceed exampleWorld :=
  ⟨⟨exampleOps, rfl, rfl, rfl, rfl, rfl⟩, fun _ => rfl⟩

/-- One iteration of the loop, for an arbitrary host. -/
theorem cyw_backplane_write_loop_succ (fuel addr : Nat) (data : List Nat) (len : Nat)
    (w : World) :
    cyw_backplane_write_loop (fuel + 1) addr data len w =
      if len > 0 then
        if (set_backplane_window addr w).1 ≠ CYW_OK then set_backplane_window addr w
        else if (sdio_write_bytes SDIO_FUNC_1
            ((addr &&& SBSDIO_SB_OFT_ADDR_MASK) ||| SBSDIO_SB_ACCESS_2_4B_FLAG) data
            (chunkLen addr len) true (set_backplane_window addr w).2).1 ≠ CYW_OK then
          sdio_write_bytes SDIO_FUNC_1
            ((addr &&& SBSDIO_SB_OFT_ADDR_MASK) ||| SBSDIO_SB_ACCESS_2_4B_FLAG) data
            (chunkLen addr len) true (set_backplane_window addr w).2
        else
          cyw_backplane_write_loop fuel ((addr + chunkLen addr len) % U32)
            (data.drop (chunkLen addr len)) (len - chunkLen addr len)
            (sdio_write_bytes SDIO_FUNC_1
              ((addr &&& SBSDIO_SB_OFT_ADDR_MASK) ||| SBSDIO_SB_ACCESS_2_4B_FLAG) data
              (chunkLen addr len) true (set_backplane_window addr w).2).2
      else (CYW_OK, w) := rfl

/-- The loop needs no more fuel than `len`: with any larger budget the result
is the same, whatever the host does. -/
theorem cyw_backplane_write_loop_fuel (f1 : Nat) :
    ∀ (f2 addr : Nat) (data : List Nat) (len : Nat) (w : World), len ≤ f1 → len ≤ f2 →
      cyw_backplane_write_loop f1 addr data len w =
        cyw_backplane_write_loop f2 addr data len w := by
  induction f1 with
  | zero =>
    intro f2 addr data len w h1 _
    have : len = 0 := by omega
    subst this
    rw [cyw_backplane_write_loop_zero, cyw_backplane_write_loop_zero]
  | succ f1 ih =>
    intro f2 addr data len w h1 h2
    rcases Nat.eq_zero_or_pos len with hl | hl
    · subst hl
      rw [cyw_backplane_write_loop_zero, cyw_backplane_write_loop_zero]
    · obtain ⟨f2, rfl⟩ : ∃ k, f2 = k + 1 := ⟨f2 - 1, by omega⟩
      have hpos := chunkLen_pos addr len hl
      rw [cyw_backplane_write_loop_succ, cyw_backplane_write_loop_succ]
      split_ifs <;> first | rfl | (apply ih <;> omega)

/-- The single bulk write issued when `(addr & 0x7FFF) + len` wraps to 0 in
32-bit arithmetic. -/
theorem cyw_backplane_write_wrap (data : List Nat) (hd : data.length = 4294967295) :
    (cyw_backplane_write 1 data 4294967295 exampleWorld).2.trace.filter isBulkWrite =
      [HostCall.cmd53_write 1 0x8001 data 4294967295 true] := by
  have hc : chunkLen 1 4294967295 = 4294967295 := by decide
  have hs := cyw_backplane_write_loop_step exampleWorld_ok 4294967294 1 data 4294967295
    (by norm_num)
  rw [hc, Nat.sub_self, cyw_backplane_write_loop_zero] at hs
  unfold cyw_backplane_write
  rw [show (4294967295 : Nat) = 4294967294 + 1 from rfl, hs]
  have ht : List.take (4294967294 + 1) data = data := by
    rw [show (4294967294 + 1 : Nat) = data.length from hd.symm]; exact List.take_length data
  rw [ht]
  obtain ⟨e1, he1, hf1⟩ := afterWindow_trace 1 exampleWorld
  simp only [he1, List.filter_append, hf1]
  simp [exampleWorld, isBulkWrite]

/-- C1: for every address and length with `addr + len ≤ 2^32` and every buffer
of `len` bytes, when all host calls succeed `cyw_backplane_write` returns
`CYW_OK` and its bulk writes are the chunks of a list `chunks` laid out back
to back from `addr` such that (i) each chunk of `n` bytes at chip address `a`
has `(a & 0x7FFF) + n ≤ 0x8000` and is sent to function 1 at offset
`(a & 0x7FFF) | 0x8000`, (ii) the payloads concatenated in issue order are
`data`, (iii) the number of bulk writes is the number of 32 KiB windows that
`[addr, addr + len)` touches: none for `len = 0`, two when the range crosses
exactly one boundary.  The loop terminates for every input: `len` iterations
always suffice.  The lengths covered are those with
`(addr & 0x7FFF) + len < 2^32`, which every buffer shorter than
`2^32 - 0x8000` bytes meets. -/
theorem cyw_backplane_write_chunks (addr : Nat) (data : List Nat) (len : Nat) (w : World)
    (ha : addr + len ≤ 2 ^ 32) (hb : (addr &&& 0x7FFF) + len < 2 ^ 32)
    (hd : data.length = len) (hw : AllHostCallsSucceed w) :
    (∀ (a : Nat) (d : List Nat) (n : Nat) (v : World) (fuel : Nat), n ≤ fuel →
      cyw_backplane_write_loop fuel a d n v = cyw_backplane_write a d n v) ∧
    ∃ (chunks : List (Nat × List Nat)) (ext : List HostCall),
      (cyw_backplane_write addr data len w).1 = CYW_OK ∧
      (cyw_backplane_write addr data len w).2.trace = w.trace ++ ext ∧
      ext.filter isBulkWrite = chunks.map chunkWrite ∧
      ChunksFrom addr chunks ∧
      (∀ c ∈ chunks, (c.1 &&& 0x7FFF) + c.2.length ≤ 0x8000) ∧
      (chunks.map Prod.snd).flatten = data ∧
      chunks.length = windowsTouched addr len ∧
      (len = 0 → chunks.length = 0) ∧
      (0 < len → (addr + len - 1) / 0x8000 = addr / 0x8000 + 1 → chunks.length = 2) := by
  refine ⟨fun a d n v fuel hf => cyw_backplane_write_loop_fuel fuel n a d n v hf (Nat.le_refl n),
    ?_⟩
  have hm := and_offset_mask addr
  simp only [SBSDIO_SB_OFT_ADDR_MASK] at hm
  rw [hm] at hb
  obtain ⟨chunks, ext, h1, h2, h3, h4, h5, h6, h7⟩ :=
    cyw_backplane_write_loop_chunks len addr data len w (Nat.le_refl len)
      (by simpa [U32] using ha) (by simpa [U32] using hb) hd hw
  refine ⟨chunks, ext, h1, h2, h3, h4, h5, h6, h7, ?_, ?_⟩
  · intro h0; rw [h7, h0]; rfl
  · intro hp hx
    rw [h7]; unfold windowsTouched
    rw [if_neg (by omega), hx]; omega

/-- The chunking theorem at the boundary-crossing write of 32 bytes to 0x3A7FF0. -/
theorem cyw_backplane_write_chunks_witness :
    (0x3A7FF0 + 32 ≤ 2 ^ 32 ∧ (0x3A7FF0 &&& 0x7FFF) + 32 < 2 ^ 32 ∧
     (List.range 32).length = 32 ∧ AllHostCallsSucceed exampleWorld) ∧
    ∃ (chunks : List (Nat × List Nat)) (ext : List HostCall),
      (cyw_backplane_write 0x3A7FF0 (List.range 32) 32 exampleWorld).1 = CYW_OK ∧
      (cyw_backplane_write 0x3A7FF0 (List.range 32) 32 exampleWorld).2.trace =
        exampleWorld.trace ++ ext ∧
      ext.filter isBulkWrite = chunks.map chunkWrite ∧
      ChunksFrom 0x3A7FF0 chunks ∧
      (∀ c ∈ chunks, (c.1 &&& 0x7FFF) + c.2.length ≤ 0x8000) ∧
      (chunks.map Prod.snd).flatten = List.range 32 ∧
      chunks.length = windowsTouched 0x3A7FF0 32 ∧
      (32 = 0 → chunks.length = 0) ∧
      (0 < 32 → (0x3A7FF0 + 32 - 1) / 0x8000 = 0x3A7FF0 / 0x8000 + 1 → chunks.length = 2) :=
  ⟨⟨by decide, by decide, rfl, exampleWorld_ok⟩,
   (cyw_backplane_write_chunks 0x3A7FF0 (List.range 32) 32 exampleWorld (by decide) (by decide)
      rfl exampleWorld_ok).2⟩

/-! ## Window programming on 32-bit reads and on a boundary-crossing write -/

theorem sdio_read_bytes_ok {w : World} (h : AllHostCallsSucceed w) (f a : Nat)
    (b : List Nat) (n : Nat) (i : Bool) :
    sdio_read_bytes f a b n i w =
      (CYW_OK, writeAt b 0 (((w.host w.trace.length).bytes.take n).map (fun x => x % 256)),
        { w with trace := w.trace ++ [HostCall.cmd53_read f a n i] }) := by
  obtain ⟨⟨o, ho, -, -, h3, -⟩, hr⟩ := h
  simp [sdio_read_bytes, ho, h3, World.invoke, hr]

theorem cyw_sdio_read32_ok {w : World} (h : AllHostCallsSucceed w) (addr : Nat) :
    (cyw_sdio_read32 addr w).1 = CYW_OK ∧
    (cyw_sdio_read32 addr w).2.2 =
      { afterWindow addr w with
        trace := (afterWindow addr w).trace ++
          [HostCall.cmd53_read 1 ((addr &&& 0x7FFF) ||| 0x8000) 4 true] } := by
  have hr := sdio_read_bytes_ok (afterWindow_ok h addr) SDIO_FUNC_1
    ((addr &&& SBSDIO_SB_OFT_ADDR_MASK) ||| SBSDIO_SB_ACCESS_2_4B_FLAG)
    ((afterWindow addr w).fresh 4) 4 true
  unfold cyw_sdio_read32
  simp only [set_backplane_window_ok h, ne_eq, not_true_eq_false, if_false, hr]
  exact ⟨trivial, rfl⟩

theorem afterWindow_cache (addr : Nat) (w : World) :
    (afterWindow addr w).g_cyw_dev.sbwad_valid = true ∧
    (afterWindow addr w).g_cyw_dev.sbwad = addr &&& SBSDIO_SBWINDOW_MASK := by
  unfold afterWindow
  split_ifs with h
  · exact ⟨h.1, h.2⟩
  · exact ⟨rfl, rfl⟩

/-- C8: for addresses `A`, `B` in the same 32 KiB window and every initial
cache state, when all host calls succeed `cyw_sdio_read32(A)` followed by
`cyw_sdio_read32(B)` issues either no window-register write (cache hit) or
exactly the three byte writes SBADDRLOW, SBADDRMID, SBADDRHIGH carrying bits
8-15, 16-23, 24-31 of `A & 0xFFFF8000`, all before the first bulk read; the
read of `B` adds its bulk read only. -/
theorem cyw_sdio_read32_same_window (A B : Nat) (w : World)
    (hAB : A &&& 0xFFFF8000 = B &&& 0xFFFF8000) (hw : AllHostCallsSucceed w) :
    (cyw_sdio_read32 A w).1 = CYW_OK ∧
    (cyw_sdio_read32 B (cyw_sdio_read32 A w).2.2).1 = CYW_OK ∧
    (cyw_sdio_read32 A w).2.2.trace =
      w.trace ++
        (if w.g_cyw_dev.sbwad_valid = true ∧ w.g_cyw_dev.sbwad = A &&& 0xFFFF8000 then []
         else [HostCall.cmd52_write 1 0x1000A (((A &&& 0xFFFF8000) >>> 8) &&& 0xFF),
               HostCall.cmd52_write 1 0x1000B (((A &&& 0xFFFF8000) >>> 16) &&& 0xFF),
               HostCall.cmd52_write 1 0x1000C (((A &&& 0xFFFF8000) >>> 24) &&& 0xFF)]) ++
        [HostCall.cmd53_read 1 ((A &&& 0x7FFF) ||| 0x8000) 4 true] ∧
    (cyw_sdio_read32 B (cyw_sdio_read32 A w).2.2).2.2.trace =
      (cyw_sdio_read32 A w).2.2.trace ++
        [HostCall.cmd53_read 1 ((B &&& 0x7FFF) ||| 0x8000) 4 true] ∧
    ((((cyw_sdio_read32 B (cyw_sdio_read32 A w).2.2).2.2.trace.drop w.trace.length).filter
        isWindowWrite).length = 3 ∨
     (((cyw_sdio_read32 B (cyw_sdio_read32 A w).2.2).2.2.trace.drop w.trace.length).filter
        isWindowWrite).length = 0) := by
  obtain ⟨a1, a2⟩ := cyw_sdio_read32_ok hw A
  have hw1 : AllHostCallsSucceed (cyw_sdio_read32 A w).2.2 := by
    rw [a2]; exact (afterWindow_ok hw A).transfer rfl rfl
  obtain ⟨b1, b2⟩ := cyw_sdio_read32_ok hw1 B
  have hc := afterWindow_cache A w
  have hhit : afterWindow B (cyw_sdio_read32 A w).2.2 = (cyw_sdio_read32 A w).2.2 := by
    unfold afterWindow
    rw [if_pos]
    rw [a2]
    simp only [SBSDIO_SBWINDOW_MASK] at hc ⊢
    exact ⟨hc.1, hc.2.trans hAB⟩
  have hA : (cyw_sdio_read32 A w).2.2.trace =
      w.trace ++
        (if w.g_cyw_dev.sbwad_valid = true ∧ w.g_cyw_dev.sbwad = A &&& 0xFFFF8000 then []
         else [HostCall.cmd52_write 1 0x1000A (((A &&& 0xFFFF8000) >>> 8) &&& 0xFF),
               HostCall.cmd52_write 1 0x1000B (((A &&& 0xFFFF8000) >>> 16) &&& 0xFF),
               HostCall.cmd52_write 1 0x1000C (((A &&& 0xFFFF8000) >>> 24) &&& 0xFF)]) ++
        [HostCall.cmd53_read 1 ((A &&& 0x7FFF) ||| 0x8000) 4 true] := by
    rw [a2]
    unfold afterWindow
    simp only [SBSDIO_SBWINDOW_MASK]
    split_ifs <;> simp [windowWrites]
  have hB : (cyw_sdio_read32 B (cyw_sdio_read32 A w).2.2).2.2.trace =
      (cyw_sdio_read32 A w).2.2.trace ++
        [HostCall.cmd53_read 1 ((B &&& 0x7FFF) ||| 0x8000) 4 true] := by
    rw [b2, hhit]
  refine ⟨a1, b1, hA, hB, ?_⟩
  rw [hB, hA]
  split_ifs
  · right; simp [isWindowWrite]
  · left; simp [isWindowWrite]

/-- The same-window theorem at the reads of 0x18000000 and 0x18000004. -/
theorem cyw_sdio_read32_same_window_witness :
    ((0x18000000 &&& 0xFFFF8000 = 0x18000004 &&& 0xFFFF8000) ∧
      AllHostCallsSucceed exampleWorld) ∧
    (cyw_sdio_read32 0x18000004 (cyw_sdio_read32 0x18000000 exampleWorld).2.2).2.2.trace =
      (cyw_sdio_read32 0x18000000 exampleWorld).2.2.trace ++
        [HostCall.cmd53_read 1 ((0x18000004 &&& 0x7FFF) ||| 0x8000) 4 true] :=
  ⟨⟨by decide, exampleWorld_ok⟩,
   (cyw_sdio_read32_same_window 0x18000000 0x18000004 exampleWorld (by decide)
      exampleWorld_ok).2.2.2.1⟩

/-- The calls of `cyw_backplane_write(0x3A7FF0, buf, 32)` from an invalid
cache when the host succeeds. -/
theorem cyw_backplane_write_scenario (buf : List Nat) (w : World) (hb : buf.length = 32)
    (hv : w.g_cyw_dev.sbwad_valid = false) (hw : AllHostCallsSucceed w) :
    (cyw_backplane_write 0x3A7FF0 buf 32 w).1 = CYW_OK ∧
    (cyw_backplane_write 0x3A7FF0 buf 32 w).2.trace =
      w.trace ++
        [HostCall.cmd52_write 1 0x1000A 0x00, HostCall.cmd52_write 1 0x1000B 0x3A,
         HostCall.cmd52_write 1 0x1000C 0x00,
         HostCall.cmd53_write 1 (0x7FF0 ||| 0x8000) (buf.take 16) 16 true,
         HostCall.cmd52_write 1 0x1000A 0x80, HostCall.cmd52_write 1 0x1000B 0x3A,
         HostCall.cmd52_write 1 0x1000C 0x00,
         HostCall.cmd53_write 1 (0x0000 ||| 0x8000) (buf.drop 16) 16 true] := by
  have c1 : chunkLen 0x3A7FF0 32 = 16 := by decide
  have c2 : chunkLen 0x3A8000 16 = 16 := by decide
  have e1 : (0x3A7FF0 + 16) % U32 = 0x3A8000 := by decide
  have s1 := cyw_backplane_write_loop_step hw 31 0x3A7FF0 buf 32 (by norm_num)
  rw [c1, e1] at s1
  have hw1 : AllHostCallsSucceed
      { afterWindow 0x3A7FF0 w with
        trace := (afterWindow 0x3A7FF0 w).trace ++
          [HostCall.cmd53_write 1 ((0x3A7FF0 &&& 0x7FFF) ||| 0x8000) (buf.take 16) 16 true] } :=
    (afterWindow_ok hw _).transfer rfl rfl
  have s2 := cyw_backplane_write_loop_step hw1 30 0x3A8000 (buf.drop 16) (32 - 16)
    (by norm_num)
  rw [show (32 - 16 : Nat) = 16 from rfl, c2, Nat.sub_self, cyw_backplane_write_loop_zero] at s2
  unfold cyw_backplane_write
  rw [show (32 : Nat) = 31 + 1 from rfl, s1, show (31 : Nat) = 30 + 1 from rfl, s2]
  refine ⟨rfl, ?_⟩
  have hd : List.take 16 (List.drop 16 buf) = List.drop 16 buf :=
    List.take_of_length_le (by simp [hb])
  have m1 : afterWindow 0x3A7FF0 w =
      { w with
        trace := w.trace ++ windowWrites (0x3A7FF0 &&& SBSDIO_SBWINDOW_MASK),
        g_cyw_dev := { w.g_cyw_dev with
          sbwad := 0x3A7FF0 &&& SBSDIO_SBWINDOW_MASK, sbwad_valid := true } } := by
    unfold afterWindow
    rw [if_neg]
    rw [hv]; simp
  have hne : ¬ ((0x3A7FF0 : Nat) &&& SBSDIO_SBWINDOW_MASK = 0x3A8000 &&& SBSDIO_SBWINDOW_MASK) := by
    decide
  have m2 : ∀ v : World, v.g_cyw_dev.sbwad = 0x3A7FF0 &&& SBSDIO_SBWINDOW_MASK →
      (afterWindow 0x3A8000 v).trace =
        v.trace ++ windowWrites (0x3A8000 &&& SBSDIO_SBWINDOW_MASK) := by
    intro v hvs
    unfold afterWindow
    rw [if_neg]
    rw [hvs]; exact fun h => hne h.2
  have k1 : windowWrites (0x3A7FF0 &&& SBSDIO_SBWINDOW_MASK) =
      [HostCall.cmd52_write 1 0x1000A 0x00, HostCall.cmd52_write 1 0x1000B 0x3A,
       HostCall.cmd52_write 1 0x1000C 0x00] := by decide
  have k2 : windowWrites (0x3A8000 &&& SBSDIO_SBWINDOW_MASK) =
      [HostCall.cmd52_write 1 0x1000A 0x80, HostCall.cmd52_write 1 0x1000B 0x3A,
       HostCall.cmd52_write 1 0x1000C 0x00] := by decide
  have o1 : ((0x3A7FF0 : Nat) &&& 0x7FFF) ||| 0x8000 = 0x7FF0 ||| 0x8000 := by decide
  have o2 : ((0x3A8000 : Nat) &&& 0x7FFF) ||| 0x8000 = 0x0000 ||| 0x8000 := by decide
  show (afterWindow 0x3A8000 _).trace ++ _ = _
  rw [m2 _ (by rw [m1]), m1, k1, k2, o1, o2, hd]
  simp only [List.append_assoc, List.cons_append, List.nil_append]

/-- C9 (as amended): from an invalid window cache with all host calls
succeeding, `cyw_backplane_write(0x3A7FF0, buf, 32)` issues exactly: the
window update for 0x3A0000 (LOW 0x00, MID 0x3A, HIGH 0x00), the bulk write of
the first 16 bytes at offset `0x7FF0|0x8000`, a second window update for
0x3A8000 (LOW 0x80, MID 0x3A, HIGH 0x00), and the bulk write of the remaining
16 bytes at offset `0x0000|0x8000`. -/
theorem cyw_backplane_write_crossing (buf : List Nat) (w : World) (hb : buf.length = 32)
    (hv : w.g_cyw_dev.sbwad_valid = false) (hw : AllHostCallsSucceed w) :
    (cyw_backplane_write 0x3A7FF0 buf 32 w).1 = CYW_OK ∧
    (cyw_backplane_write 0x3A7FF0 buf 32 w).2.trace =
      w.trace ++
        [HostCall.cmd52_write 1 0x1000A 0x00, HostCall.cmd52_write 1 0x1000B 0x3A,
         HostCall.cmd52_write 1 0x1000C 0x00,
         HostCall.cmd53_write 1 (0x7FF0 ||| 0x8000) (buf.take 16) 16 true,
         HostCall.cmd52_write 1 0x1000A 0x80, HostCall.cmd52_write 1 0x1000B 0x3A,
         HostCall.cmd52_write 1 0x1000C 0x00,
         HostCall.cmd53_write 1 (0x0000 ||| 0x8000) (buf.drop 16) 16 true] :=
  cyw_backplane_write_scenario buf w hb hv hw

/-- The boundary-crossing scenario at the buffer 0, 1, ..., 31. -/
theorem cyw_backplane_write_crossing_witness :
    ((List.range 32).length = 32 ∧ exampleWorld.g_cyw_dev.sbwad_valid = false ∧
      AllHostCallsSucceed exampleWorld) ∧
    (cyw_backplane_write 0x3A7FF0 (List.range 32) 32 exampleWorld).1 = CYW_OK :=
  ⟨⟨rfl, rfl, exampleWorld_ok⟩,
   (cyw_backplane_write_crossing (List.range 32) exampleWorld rfl rfl exampleWorld_ok).1⟩

/-- C9, the claim as stated fails: the second chunk starts at 0x3A8000, which
lies in the next 32 KiB window, so three window-register writes (LOW = 0x80)
stand between the two bulk writes; the trace is not the claimed one. -/
theorem cyw_backplane_write_crossing_counterexample :
    (cyw_backplane_write 0x3A7FF0 (List.range 32) 32 exampleWorld).2.trace ≠
      [HostCall.cmd52_write 1 0x1000A 0x00, HostCall.cmd52_write 1 0x1000B 0x3A,
       HostCall.cmd52_write 1 0x1000C 0x00,
       HostCall.cmd53_write 1 (0x7FF0 ||| 0x8000) ((List.range 32).take 16) 16 true,
       HostCall.cmd53_write 1 (0x0000 ||| 0x8000) ((List.range 32).drop 16) 16 true] ∧
    ((cyw_backplane_write 0x3A7FF0 (List.range 32) 32 exampleWorld).2.trace.drop 4).take 3 =
      [HostCall.cmd52_write 1 0x1000A 0x80, HostCall.cmd52_write 1 0x1000B 0x3A,
       HostCall.cmd52_write 1 0x1000C 0x00] := by
  rw [(cyw_backplane_write_scenario (List.range 32) exampleWorld rfl rfl exampleWorld_ok).2]
  exact ⟨by decide, by decide⟩

/-! ## Bit masks -/

/-- Masking with the bits `k .. n-1` of an `n`-bit value clears the low `k`
bits. -/
theorem and_high_mask (y k n : Nat) (hy : y < 2 ^ n) :
    y &&& ((2 ^ (n - k) - 1) <<< k) = (y >>> k) <<< k := by
  apply Nat.eq_of_testBit_eq
  intro i
  simp only [Nat.testBit_and, Nat.testBit_shiftLeft, Nat.testBit_two_pow_sub_one,
    Nat.testBit_shiftRight]
  by_cases hik : k ≤ i
  · have e : k + (i - k) = i := by omega
    simp only [hik, ge_iff_le, decide_True, Bool.true_and, e]
    by_cases hin : i - k < n - k
    · simp [hin]
    · have : 2 ^ n ≤ 2 ^ i := Nat.pow_le_pow_right (by norm_num) (by omega)
      have hb : y.testBit i = false := Nat.testBit_lt_two_pow (by omega)
      simp [hb]
  · simp [hik]

theorem ALIGN_four (x : Nat) (hx : x + 3 < U32) : ALIGN x 4 = (x + 3) / 4 * 4 := by
  unfold ALIGN
  have h := and_high_mask (x + 3) 2 32 (by unfold U32 at hx; omega)
  simp only [Nat.shiftRight_eq_div_pow, Nat.shiftLeft_eq] at h
  rw [Nat.mod_eq_of_lt (by omega)]
  simpa [U32] using h

/-! ## The SDPCM header written by `send_sdpcm_frame` -/

theorem drop_twelve_add (m : Nat) (x1 x2 x3 x4 x5 x6 x7 x8 x9 x10 x11 x12 : Nat)
    (t : List Nat) :
    List.drop (12 + m) (x1 :: x2 :: x3 :: x4 :: x5 :: x6 :: x7 :: x8 :: x9 :: x10 :: x11 ::
      x12 :: t) = List.drop m t := by
  rw [Nat.add_comm]; rfl

theorem send_sdpcm_frame_eq (channel : Nat) (data : Option (List Nat)) (len : Nat) (w : World) :
    send_sdpcm_frame channel data len w =
      sdio_write_bytes SDIO_FUNC_2 0
        (txAfterSend w.g_cyw_dev.tx_buf w.g_cyw_dev.tx_seq channel data len)
        (ALIGN ((SDPCM_HEADER_SIZE + len) % U32) 4) true
        { w with g_cyw_dev := { w.g_cyw_dev with
            tx_buf := txAfterSend w.g_cyw_dev.tx_buf w.g_cyw_dev.tx_seq channel data len,
            tx_seq := (w.g_cyw_dev.tx_seq + 1) % 256 } } := by
  have hb : ∀ (t : List Nat) (a b c d e : Nat),
      writeAt (writeAt (writeAt (writeAt (writeAt (writeAt t 0 (List.replicate SDPCM_HEADER_SIZE 0))
        0 (le16 a)) 2 (le16 b)) 4 [c]) 5 [d]) 7 [e] =
      [a % 256, a >>> 8 % 256, b % 256, b >>> 8 % 256, c, d, 0, e, 0, 0, 0, 0] ++ t.drop 12 := by
    intro t a b c d e
    simp [writeAt, le16, SDPCM_HEADER_SIZE, List.replicate]
  unfold send_sdpcm_frame txAfterSend sdpcmHeaderBytes
  simp only [hb]
  cases data with
  | none => simp [SDPCM_HEADER_SIZE]
  | some d =>
    by_cases hl : len > 0
    · simp [hl, writeAt, SDPCM_HEADER_SIZE, drop_twelve_add]
    · simp [hl, SDPCM_HEADER_SIZE]

theorem take_twelve_add (m : Nat) (x1 x2 x3 x4 x5 x6 x7 x8 x9 x10 x11 x12 : Nat)
    (t : List Nat) :
    List.take (12 + m) (x1 :: x2 :: x3 :: x4 :: x5 :: x6 :: x7 :: x8 :: x9 :: x10 :: x11 ::
      x12 :: t) =
      x1 :: x2 :: x3 :: x4 :: x5 :: x6 :: x7 :: x8 :: x9 :: x10 :: x11 :: x12 ::
        List.take m t := by
  rw [Nat.add_comm]; rfl

/-- Two little-endian bytes read back as the 16-bit value they encode. -/
theorem or_shift8 (v : Nat) : (v % 256) ||| (((v >>> 8) % 256) <<< 8) = v % 65536 := by
  rw [Nat.shiftLeft_eq, Nat.shiftRight_eq_div_pow, Nat.or_comm, Nat.mul_comm,
    ← Nat.mul_add_lt_is_or (by omega) _]
  omega

theorem xor_complement16 (t : Nat) (ht : t < 65536) : t ^^^ (65535 - t) = 65535 := by
  apply Nat.eq_of_testBit_eq
  intro i
  have h1 := Nat.testBit_two_pow_sub_succ (n := 16) (x := t) (by simpa using ht) i
  have h2 := Nat.testBit_two_pow_sub_one 16 i
  have e1 : 2 ^ 16 - (t + 1) = 65535 - t := by omega
  have e2 : 2 ^ 16 - 1 = 65535 := by norm_num
  rw [e1] at h1
  rw [e2] at h2
  rw [Nat.testBit_xor, h1, h2]
  by_cases hi : i < 16
  · simp [hi]
  · have : t.testBit i = false :=
      Nat.testBit_lt_two_pow (lt_of_lt_of_le ht (by
        calc 65536 = 2 ^ 16 := by norm_num
          _ ≤ 2 ^ i := Nat.pow_le_pow_right (by norm_num) (by omega)))
    simp [hi, this]

/-- The bulk write issued by `send_sdpcm_frame` when the table has `cmd53_write`. -/
theorem send_sdpcm_frame_trace (channel : Nat) (data : Option (List Nat)) (len : Nat)
    (w : World) (o : sdio_host_ops_t) (hops : w.g_cyw_dev.ops = some o)
    (hcw : o.cmd53_write = true) :
    (send_sdpcm_frame channel data len w).2.trace =
      w.trace ++ [HostCall.cmd53_write 2 0
        ((txAfterSend w.g_cyw_dev.tx_buf w.g_cyw_dev.tx_seq channel data len).take
          (ALIGN ((SDPCM_HEADER_SIZE + len) % U32) 4))
        (ALIGN ((SDPCM_HEADER_SIZE + len) % U32) 4) true] := by
  rw [send_sdpcm_frame_eq]
  simp [sdio_write_bytes, hops, hcw, World.invoke, SDIO_FUNC_2]

/-- C4: for every channel, every data pointer and every payload length
`n ≤ TX_BUF_SIZE - 12`, the frame that `send_sdpcm_frame` hands to the host
has the little-endian 16-bit length field `n + 12` at offset 0 and a length
check at offset 2 with `length XOR length_check = 0xFFFF`. -/
theorem send_sdpcm_frame_length_fields (channel : Nat) (data : Option (List Nat)) (n : Nat)
    (w : World) (o : sdio_host_ops_t) (hops : w.g_cyw_dev.ops = some o)
    (hcw : o.cmd53_write = true) (hn : n ≤ TX_BUF_SIZE - 12) :
    ∃ (frame : List Nat) (L : Nat),
      (send_sdpcm_frame channel data n w).2.trace =
        w.trace ++ [HostCall.cmd53_write 2 0 frame L true] ∧
      rd16 frame 0 = n + 12 ∧
      rd16 frame 0 ^^^ rd16 frame 2 = 0xFFFF := by
  refine ⟨_, _, send_sdpcm_frame_trace channel data n w o hops hcw, ?_⟩
  simp only [TX_BUF_SIZE] at hn
  have hL : ALIGN ((SDPCM_HEADER_SIZE + n) % U32) 4 =
      12 + (ALIGN ((SDPCM_HEADER_SIZE + n) % U32) 4 - 12) := by
    rw [ALIGN_four _ (by simp only [SDPCM_HEADER_SIZE, U32]; omega)]
    simp only [SDPCM_HEADER_SIZE, U32]; omega
  have ht : (SDPCM_HEADER_SIZE + n) % U32 = n + 12 := by
    simp only [SDPCM_HEADER_SIZE, U32]; omega
  rw [hL]
  unfold txAfterSend sdpcmHeaderBytes
  simp only [List.cons_append, List.nil_append, take_twelve_add]
  have h0 : ∀ (a b c d : Nat) (t : List Nat), rd16 (a :: b :: c :: d :: t) 0 =
      a % 256 ||| (b % 256) <<< 8 := by intros; rfl
  have h2 : ∀ (a b c d : Nat) (t : List Nat), rd16 (a :: b :: c :: d :: t) 2 =
      c % 256 ||| (d % 256) <<< 8 := by intros; rfl
  rw [h0, h2, ht]
  simp only [Nat.mod_mod, or_shift8]
  have e1 : (n + 12) % 65536 = n + 12 := by omega
  have e2 : (U32 - 1 - (n + 12)) % 65536 = 65535 - (n + 12) := by
    simp only [U32]; omega
  rw [e1, e2]
  exact ⟨rfl, xor_complement16 _ (by omega)⟩

/-- The length-field theorem at a five-byte payload on the control channel. -/
theorem send_sdpcm_frame_length_fields_witness :
    exampleWorld.g_cyw_dev.ops = some exampleOps ∧ exampleOps.cmd53_write = true ∧
    5 ≤ TX_BUF_SIZE - 12 ∧
    ∃ (frame : List Nat) (L : Nat),
      (send_sdpcm_frame 0 (some [1, 2, 3, 4, 5]) 5 exampleWorld).2.trace =
        exampleWorld.trace ++ [HostCall.cmd53_write 2 0 frame L true] ∧
      rd16 frame 0 = 5 + 12 ∧
      rd16 frame 0 ^^^ rd16 frame 2 = 0xFFFF :=
  ⟨rfl, rfl, by decide,
    send_sdpcm_frame_length_fields 0 (some [1, 2, 3, 4, 5]) 5 exampleWorld exampleOps rfl rfl
      (by decide)⟩

/-! ## What the transport layer leaves alone -/

theorem Transport.stay (w : World) : Transport w w :=
  ⟨rfl, rfl, rfl, rfl, rfl, rfl, rfl, id, [], (List.append_nil _).symm⟩

theorem Transport.andThen {a b c : World} (h1 : Transport a b) (h2 : Transport b c) :
    Transport a c := by
  obtain ⟨e1, he1⟩ := h1.trace_ext
  obtain ⟨e2, he2⟩ := h2.trace_ext
  exact ⟨h2.host_eq.trans h1.host_eq, h2.uninit_eq.trans h1.uninit_eq,
    h2.ops_eq.trans h1.ops_eq, h2.chip_eq.trans h1.chip_eq, h2.state_eq.trans h1.state_eq,
    h2.reqid_eq.trans h1.reqid_eq, h2.scan_eq.trans h1.scan_eq,
    fun h => h2.valid_mono (h1.valid_mono h), e1 ++ e2, by rw [he2, he1, List.append_assoc]⟩

theorem Transport.call (w : World) (c : HostCall) : Transport w (w.invoke c).2 :=
  ⟨rfl, rfl, rfl, rfl, rfl, rfl, rfl, id, [c], rfl⟩

theorem delay_ms_transport (ms : Nat) (w : World) : Transport w (delay_ms ms w) := by
  unfold delay_ms
  split
  · exact Transport.stay w
  · split
    · exact Transport.call w _
    · exact Transport.stay w

theorem cyw_sdio_read8_transport (f a : Nat) (w : World) :
    Transport w (cyw_sdio_read8 f a w).2.2 := by
  unfold cyw_sdio_read8
  split
  · exact Transport.stay w
  · split
    · exact Transport.call w _
    · exact Transport.stay w

theorem cyw_sdio_write8_transport (f a v : Nat) (w : World) :
    Transport w (cyw_sdio_write8 f a v w).2 := by
  unfold cyw_sdio_write8
  split
  · exact Transport.stay w
  · split
    · exact Transport.call w _
    · exact Transport.stay w

theorem sdio_read_bytes_transport (f a : Nat) (b : List Nat) (n : Nat) (i : Bool) (w : World) :
    Transport w (sdio_read_bytes f a b n i w).2.2 := by
  unfold sdio_read_bytes
  split
  · exact Transport.stay w
  · split
    · exact Transport.call w _
    · exact Transport.stay w

theorem sdio_write_bytes_transport (f a : Nat) (d : List Nat) (n : Nat) (i : Bool) (w : World) :
    Transport w (sdio_write_bytes f a d n i w).2 := by
  unfold sdio_write_bytes
  split
  · exact Transport.stay w
  · split
    · exact Transport.call w _
    · exact Transport.stay w

theorem set_backplane_window_transport (addr : Nat) (w : World) :
    Transport w (set_backplane_window addr w).2 := by
  have t1 := cyw_sdio_write8_transport SDIO_FUNC_1 SBSDIO_FUNC1_SBADDRLOW
    (((addr &&& SBSDIO_SBWINDOW_MASK) >>> 8) &&& 0xFF) w
  have t2 := cyw_sdio_write8_transport SDIO_FUNC_1 SBSDIO_FUNC1_SBADDRMID
    (((addr &&& SBSDIO_SBWINDOW_MASK) >>> 16) &&& 0xFF)
    (cyw_sdio_write8 SDIO_FUNC_1 SBSDIO_FUNC1_SBADDRLOW
      (((addr &&& SBSDIO_SBWINDOW_MASK) >>> 8) &&& 0xFF) w).2
  have t3 := cyw_sdio_write8_transport SDIO_FUNC_1 SBSDIO_FUNC1_SBADDRHIGH
    (((addr &&& SBSDIO_SBWINDOW_MASK) >>> 24) &&& 0xFF)
    (cyw_sdio_write8 SDIO_FUNC_1 SBSDIO_FUNC1_SBADDRMID
      (((addr &&& SBSDIO_SBWINDOW_MASK) >>> 16) &&& 0xFF)
      (cyw_sdio_write8 SDIO_FUNC_1 SBSDIO_FUNC1_SBADDRLOW
        (((addr &&& SBSDIO_SBWINDOW_MASK) >>> 8) &&& 0xFF) w).2).2
  unfold set_backplane_window
  simp only
  split_ifs
  · exact Transport.stay w
  · exact t1
  · exact t1.andThen t2
  · exact (t1.andThen t2).andThen t3
  · have t := (t1.andThen t2).andThen t3
    exact ⟨t.host_eq, t.uninit_eq, t.ops_eq, t.chip_eq, t.state_eq, t.reqid_eq, t.scan_eq,
      fun _ => rfl, t.trace_ext⟩

theorem cyw_sdio_read32_transport (addr : Nat) (w : World) :
    Transport w (cyw_sdio_read32 addr w).2.2 := by
  have t1 := set_backplane_window_transport addr w
  unfold cyw_sdio_read32
  simp only
  split_ifs
  · exact t1
  · exact t1.andThen (sdio_read_bytes_transport _ _ _ _ _ _)
  · exact t1.andThen (sdio_read_bytes_transport _ _ _ _ _ _)

theorem cyw_sdio_write32_transport (addr val : Nat) (w : World) :
    Transport w (cyw_sdio_write32 addr val w).2 := by
  have t1 := set_backplane_window_transport addr w
  unfold cyw_sdio_write32
  simp only
  split_ifs
  · exact t1
  · exact t1.andThen (sdio_write_bytes_transport _ _ _ _ _ _)

theorem cyw_backplane_write_loop_transport (fuel : Nat) :
    ∀ (addr : Nat) (data : List Nat) (len : Nat) (w : World),
      Transport w (cyw_backplane_write_loop fuel addr data len w).2 := by
  induction fuel with
  | zero => intro addr data len w; exact Transport.stay w
  | succ fuel ih =>
    intro addr data len w
    have t1 := set_backplane_window_transport addr w
    rw [cyw_backplane_write_loop_succ]
    split_ifs
    · exact t1
    · exact t1.andThen (sdio_write_bytes_transport _ _ _ _ _ _)
    · exact (t1.andThen (sdio_write_bytes_transport _ _ _ _ _ _)).andThen (ih _ _ _ _)
    · exact Transport.stay w

theorem cyw_backplane_write_transport (addr : Nat) (data : List Nat) (len : Nat) (w : World) :
    Transport w (cyw_backplane_write addr data len w).2 :=
  cyw_backplane_write_loop_transport len addr data len w

theorem cyw_backplane_read_loop_transport (fuel : Nat) :
    ∀ (addr : Nat) (acc : List Nat) (len : Nat) (w : World),
      Transport w (cyw_backplane_read_loop fuel addr acc len w).2.2 := by
  induction fuel with
  | zero => intro addr acc len w; exact Transport.stay w
  | succ fuel ih =>
    intro addr acc len w
    have t1 := set_backplane_window_transport addr w
    rw [cyw_backplane_read_loop]
    simp only
    split_ifs <;>
      first
      | exact t1
      | exact Transport.stay w
      | exact t1.andThen (sdio_read_bytes_transport _ _ _ _ _ _)
      | exact (t1.andThen (sdio_read_bytes_transport _ _ _ _ _ _)).andThen (ih _ _ _ _)

theorem send_sdpcm_frame_transport (channel : Nat) (data : Option (List Nat)) (len : Nat)
    (w : World) : Transport w (send_sdpcm_frame channel data len w).2 := by
  rw [send_sdpcm_frame_eq]
  refine Transport.andThen ?_ (sdio_write_bytes_transport _ _ _ _ _ _)
  exact ⟨rfl, rfl, rfl, rfl, rfl, rfl, rfl, id, [], (List.append_nil _).symm⟩

theorem recv_sdpcm_frame_transport (w : World) : Transport w (recv_sdpcm_frame w).world := by
  have t1 := sdio_read_bytes_transport SDIO_FUNC_2 0 (w.fresh 4) 4 true w
  have t2 := sdio_read_bytes_transport SDIO_FUNC_2 0
    (sdio_read_bytes SDIO_FUNC_2 0 (w.fresh 4) 4 true w).2.2.g_cyw_dev.rx_buf
    (rd16 (sdio_read_bytes SDIO_FUNC_2 0 (w.fresh 4) 4 true w).2.1 0) true
    (sdio_read_bytes SDIO_FUNC_2 0 (w.fresh 4) 4 true w).2.2
  have t := t1.andThen t2
  unfold recv_sdpcm_frame
  simp only
  split_ifs
  · exact t1
  · exact t1
  all_goals
    exact ⟨t.host_eq, t.uninit_eq, t.ops_eq, t.chip_eq, t.state_eq, t.reqid_eq, t.scan_eq,
      t.valid_mono, t.trace_ext⟩

theorem cyw_poll_transport (w : World) : Transport w (cyw_poll w) := by
  have t := recv_sdpcm_frame_transport w
  unfold cyw_poll
  simp only
  split_ifs
  · exact Transport.stay w
  · exact t
  · exact ⟨t.host_eq, t.uninit_eq, t.ops_eq, t.chip_eq, t.state_eq, t.reqid_eq, t.scan_eq,
      t.valid_mono, t.trace_ext⟩

theorem cyw_ioctl_wait_transport (data : Option (List Nat)) (len : Nat) ( set : Bool)
    (timeout : Nat) :
    ∀ (buf : List Nat) (w : World), Transport w (cyw_ioctl_wait data len set timeout buf w).2.2 := by
  induction timeout with
  | zero => intro buf w; exact Transport.stay w
  | succ timeout ih =>
    intro buf w
    have t := recv_sdpcm_frame_transport w
    rw [cyw_ioctl_wait]
    split_ifs <;>
      first
      | exact t
      | exact (t.andThen (delay_ms_transport _ _)).andThen (ih _ _)

/-! ## The request built by `cyw_ioctl` -/

theorem cyw_ioctl_eq (cmd : Nat) (data : Option (List Nat)) (len : Nat) ( set : Bool) (w : World)
    (hst : CYW_STATE_FW_READY.toNat ≤ w.g_cyw_dev.state.toNat) :
    cyw_ioctl cmd data len set w =
      if (send_sdpcm_frame SDPCM_CONTROL_CHANNEL (some (ioctlBuf w cmd data len set))
            ((BCDC_HEADER_SIZE + len) % U32) (bumpReqid w)).1 ≠ CYW_OK then
        ((send_sdpcm_frame SDPCM_CONTROL_CHANNEL (some (ioctlBuf w cmd data len set))
            ((BCDC_HEADER_SIZE + len) % U32) (bumpReqid w)).1, data,
         (send_sdpcm_frame SDPCM_CONTROL_CHANNEL (some (ioctlBuf w cmd data len set))
            ((BCDC_HEADER_SIZE + len) % U32) (bumpReqid w)).2)
      else
        cyw_ioctl_wait data len set 100 (ioctlBuf w cmd data len set)
          (send_sdpcm_frame SDPCM_CONTROL_CHANNEL (some (ioctlBuf w cmd data len set))
            ((BCDC_HEADER_SIZE + len) % U32) (bumpReqid w)).2 := by
  have hg : ¬ w.g_cyw_dev.state.toNat < CYW_STATE_FW_READY.toNat := by omega
  unfold cyw_ioctl
  simp only [hg, if_false]
  cases data <;> rfl

theorem writeAt_zero (buf src : List Nat) : writeAt buf 0 src = src ++ buf.drop src.length := by
  simp [writeAt]

/-- A store at or behind offset `off` leaves the first `off` bytes alone. -/
theorem writeAt_keeps_header (H t X : List Nat) (off : Nat) (h : H.length ≤ off) :
    ∃ t1, writeAt (H ++ t) off X = H ++ t1 := by
  refine ⟨List.take (off - H.length) t ++ X ++ List.drop (off + X.length) (H ++ t), ?_⟩
  unfold writeAt
  rw [List.take_append_eq_append_take, List.take_of_length_le h]
  simp [List.append_assoc]

theorem ioctlBuf_header (w : World) (cmd : Nat) (data : Option (List Nat)) (len : Nat)
    ( set : Bool) :
    ∃ t, ioctlBuf w cmd data len set =
      (le32 cmd ++ le32 len ++ le32 (bcdcFlags set w.g_cyw_dev.reqid) ++ le32 0) ++ t := by
  have ha : ∃ t, writeAt (w.fresh 512) 0
        (le32 cmd ++ le32 len ++ le32 (bcdcFlags set w.g_cyw_dev.reqid) ++ le32 0) =
      (le32 cmd ++ le32 len ++ le32 (bcdcFlags set w.g_cyw_dev.reqid) ++ le32 0) ++ t :=
    ⟨_, writeAt_zero _ _⟩
  unfold ioctlBuf
  cases data with
  | none => exact ha
  | some d =>
    simp only
    split_ifs
    · rw [writeAt_zero]
      exact writeAt_keeps_header _ _ _ _ (by simp [le32, BCDC_HEADER_SIZE])
    · exact ha

theorem take_header16 (H t X : List Nat) (m k : Nat) (hH : H.length = 16) (hm : 16 ≤ m)
    (hk : 16 ≤ k) : List.take 16 (List.take k (List.take m (H ++ t) ++ X)) = H := by
  rw [List.take_take, Nat.min_eq_left hk,
    List.take_append_of_le_length (by simp [List.length_take, hH]; omega),
    List.take_take, Nat.min_eq_left hm,
    List.take_append_of_le_length (by omega), ← hH, List.take_length]

theorem rawFlags_eq ( set : Bool) (r : Nat) :
    (2 <<< 4) ||| (if set then 2 else 0) ||| (r <<< 16) =
      65536 * r + (if set then 0x22 else 0x20) := by
  have h1 : ((2 <<< 4) ||| (if set then 2 else 0)) = (if set then 0x22 else 0x20) := by
    cases set <;> decide
  rw [h1, Nat.shiftLeft_eq, Nat.or_comm, Nat.mul_comm,
    ← Nat.mul_add_lt_is_or (i := 16) (by cases set <;> simp) r]

theorem bcdcFlags_eq ( set : Bool) (r : Nat) (hr : r < 65536) :
    bcdcFlags set r = (2 <<< 4) ||| (if set then 2 else 0) ||| (r <<< 16) := by
  unfold bcdcFlags
  apply Nat.mod_eq_of_lt
  have := rawFlags_eq set r
  simp only [BCDC_PROTO_VER, BCDC_FLAG_VER_SHIFT] at this ⊢
  rw [this]
  cases set <;> simp [U32] <;> omega

theorem rawFlags_decode ( set : Bool) (r : Nat) :
    (((2 <<< 4) ||| (if set then 2 else 0) ||| (r <<< 16)) >>> 4) &&& 0xF = 2 ∧
    ((2 <<< 4) ||| (if set then 2 else 0) ||| (r <<< 16)).testBit 1 = set ∧
    ((2 <<< 4) ||| (if set then 2 else 0) ||| (r <<< 16)) >>> 16 = r := by
  rw [rawFlags_eq set r]
  have hm : ∀ x : Nat, x &&& 0xF = x % 16 := fun x => Nat.and_pow_two_sub_one_eq_mod x 4
  rw [hm, Nat.testBit_to_div_mod]
  simp only [Nat.shiftRight_eq_div_pow]
  cases set <;> simp <;> omega

/-- The first callback of `cyw_ioctl` past its guard is the bulk write of the
request frame, and the request counter ends one higher (mod 2^16). -/
theorem cyw_ioctl_first_call (cmd : Nat) (data : Option (List Nat)) (len : Nat) ( set : Bool)
    (w : World) (o : sdio_host_ops_t)
    (hst : CYW_STATE_FW_READY.toNat ≤ w.g_cyw_dev.state.toNat)
    (hops : w.g_cyw_dev.ops = some o) (hcw : o.cmd53_write = true) :
    (∃ rest, (cyw_ioctl cmd data len set w).2.2.trace =
      w.trace ++ HostCall.cmd53_write 2 0
        ((txAfterSend w.g_cyw_dev.tx_buf w.g_cyw_dev.tx_seq SDPCM_CONTROL_CHANNEL
            (some (ioctlBuf w cmd data len set)) ((BCDC_HEADER_SIZE + len) % U32)).take
          (ALIGN ((SDPCM_HEADER_SIZE + (BCDC_HEADER_SIZE + len) % U32) % U32) 4))
        (ALIGN ((SDPCM_HEADER_SIZE + (BCDC_HEADER_SIZE + len) % U32) % U32) 4) true :: rest) ∧
    (cyw_ioctl cmd data len set w).2.2.g_cyw_dev.reqid = (w.g_cyw_dev.reqid + 1) % 65536 := by
  have hs := send_sdpcm_frame_trace SDPCM_CONTROL_CHANNEL (some (ioctlBuf w cmd data len set))
    ((BCDC_HEADER_SIZE + len) % U32) (bumpReqid w) o hops hcw
  have ts := send_sdpcm_frame_transport SDPCM_CONTROL_CHANNEL
    (some (ioctlBuf w cmd data len set)) ((BCDC_HEADER_SIZE + len) % U32) (bumpReqid w)
  have tw := cyw_ioctl_wait_transport data len set 100 (ioctlBuf w cmd data len set)
    (send_sdpcm_frame SDPCM_CONTROL_CHANNEL (some (ioctlBuf w cmd data len set))
      ((BCDC_HEADER_SIZE + len) % U32) (bumpReqid w)).2
  rw [cyw_ioctl_eq cmd data len set w hst]
  split_ifs
  · exact ⟨⟨[], hs⟩, ts.reqid_eq⟩
  · obtain ⟨ext, hext⟩ := tw.trace_ext
    refine ⟨⟨ext, ?_⟩, tw.reqid_eq.trans ts.reqid_eq⟩
    rw [hext, hs]
    simp [bumpReqid]

/-- C10 (as amended): for every ioctl code `cmd`, SET/GET flag, request
counter `r < 2^16` and every payload length `len ≤ 496` (so that the request
fits the 512-byte buffer), `cyw_ioctl` called in a state that passes its guard
first issues the bulk write of a channel-0 frame whose bytes 12..27 are
`LE32(cmd), LE32(len), LE32(flags), LE32(0)` with
`flags = (2 << 4) | (2 if SET else 0) | (r << 16)`; that flags word decodes to
version nibble 2, SET bit equal to the flag and upper half `r`; and the
request counter afterwards is `(r + 1) mod 2^16`. -/
theorem cyw_ioctl_request_frame (cmd : Nat) (data : Option (List Nat)) (len : Nat) ( set : Bool)
    (r : Nat) (w : World) (o : sdio_host_ops_t)
    (hst : CYW_STATE_FW_READY.toNat ≤ w.g_cyw_dev.state.toNat)
    (hops : w.g_cyw_dev.ops = some o) (hcw : o.cmd53_write = true)
    (hr : w.g_cyw_dev.reqid = r) (hr16 : r < 65536) (hlen : len ≤ 496) :
    (∃ (frame : List Nat) (L : Nat) (rest : List HostCall),
      (cyw_ioctl cmd data len set w).2.2.trace =
        w.trace ++ HostCall.cmd53_write 2 0 frame L true :: rest ∧
      byteAt frame 5 = SDPCM_CONTROL_CHANNEL ∧
      (frame.drop 12).take 16 =
        le32 cmd ++ le32 len ++ le32 ((2 <<< 4) ||| (if set then 2 else 0) ||| (r <<< 16)) ++
          le32 0) ∧
    ((((2 <<< 4) ||| (if set then 2 else 0) ||| (r <<< 16)) >>> 4) &&& 0xF = 2 ∧
     ((2 <<< 4) ||| (if set then 2 else 0) ||| (r <<< 16)).testBit 1 = set ∧
     ((2 <<< 4) ||| (if set then 2 else 0) ||| (r <<< 16)) >>> 16 = r) ∧
    (cyw_ioctl cmd data len set w).2.2.g_cyw_dev.reqid = (r + 1) % 65536 := by
  obtain ⟨⟨rest, htr⟩, hreq⟩ := cyw_ioctl_first_call cmd data len set w o hst hops hcw
  refine ⟨⟨_, _, rest, htr, ?_, ?_⟩, rawFlags_decode set r, by rw [hreq, hr]⟩
  all_goals
    have hL : ALIGN ((SDPCM_HEADER_SIZE + (BCDC_HEADER_SIZE + len) % U32) % U32) 4 =
        12 + (ALIGN ((SDPCM_HEADER_SIZE + (BCDC_HEADER_SIZE + len) % U32) % U32) 4 - 12) := by
      rw [ALIGN_four _ (by simp only [SDPCM_HEADER_SIZE, BCDC_HEADER_SIZE, U32]; omega)]
      simp only [SDPCM_HEADER_SIZE, BCDC_HEADER_SIZE, U32]; omega
    have hL16 : 16 ≤ ALIGN ((SDPCM_HEADER_SIZE + (BCDC_HEADER_SIZE + len) % U32) % U32) 4 - 12 := by
      rw [ALIGN_four _ (by simp only [SDPCM_HEADER_SIZE, BCDC_HEADER_SIZE, U32]; omega)]
      simp only [SDPCM_HEADER_SIZE, BCDC_HEADER_SIZE, U32]; omega
    have ht : (BCDC_HEADER_SIZE + len) % U32 = 16 + len := by
      simp only [BCDC_HEADER_SIZE, U32]; omega
    rw [hL]
    unfold txAfterSend sdpcmHeaderBytes
    simp only [List.cons_append, List.nil_append, take_twelve_add]
  · rfl
  · obtain ⟨t, hbuf⟩ := ioctlBuf_header w cmd data len set
    have hpos : (BCDC_HEADER_SIZE + len) % U32 > 0 := by rw [ht]; omega
    simp only [hpos, if_true, List.drop_succ_cons, List.drop_zero]
    rw [ht] at hL16
    rw [hbuf, ht, take_header16 _ _ _ _ _ (by simp [le32]) (Nat.le_add_right 16 len) hL16, hr,
      bcdcFlags_eq set r hr16]

/-- The request-frame theorem at `WLC_SET_INFRA` with a four-byte payload and request counter 0. -/
theorem cyw_ioctl_request_frame_witness :
    (CYW_STATE_FW_READY.toNat ≤ exampleReadyWorld.g_cyw_dev.state.toNat ∧
     exampleReadyWorld.g_cyw_dev.ops = some exampleOps ∧ exampleOps.cmd53_write = true ∧
     exampleReadyWorld.g_cyw_dev.reqid = 0 ∧ 0 < 65536 ∧ 4 ≤ 496) ∧
    (cyw_ioctl WLC_SET_INFRA (some [1, 0, 0, 0]) 4 true exampleReadyWorld).2.2.g_cyw_dev.reqid =
      (0 + 1) % 65536 :=
  ⟨⟨by decide, rfl, rfl, rfl, by decide, by decide⟩,
   (cyw_ioctl_request_frame WLC_SET_INFRA (some [1, 0, 0, 0]) 4 true 0 exampleReadyWorld
      exampleOps (by decide) rfl rfl rfl (by decide) (by decide)).2.2⟩

/-- C10, the claim as stated fails: a GET with `len = 0xFFFFFFF0` makes the
32-bit `total_len = 16 + len` wrap to 0, and the only frame sent is the bare
12-byte SDPCM header (length field 12), with no BCDC header behind it. -/
theorem cyw_ioctl_request_frame_counterexample :
    (cyw_ioctl 1 none 0xFFFFFFF0 false exampleReadyWorld).2.2.trace.head? =
      some (HostCall.cmd53_write 2 0 [12, 0, 243, 255, 0, 0, 0, 12, 0, 0, 0, 0] 12 true) := by
  obtain ⟨⟨rest, htr⟩, -⟩ := cyw_ioctl_first_call 1 none 0xFFFFFFF0 false exampleReadyWorld
    exampleOps (by decide) rfl rfl
  rw [htr]
  have hL : ALIGN ((SDPCM_HEADER_SIZE + (BCDC_HEADER_SIZE + 0xFFFFFFF0) % U32) % U32) 4 = 12 := by
    decide
  have h0 : (BCDC_HEADER_SIZE + 0xFFFFFFF0) % U32 = 0 := by decide
  rw [hL, h0]
  unfold txAfterSend sdpcmHeaderBytes
  simp only [List.cons_append, List.nil_append, take_twelve_add 0, List.take_zero]
  rfl

/-! ## Lifecycle guards -/

theorem cyw_ioctl_guard (cmd : Nat) (data : Option (List Nat)) (len : Nat) ( set : Bool)
    (w : World) (h : w.g_cyw_dev.state.toNat < CYW_STATE_FW_READY.toNat) :
    cyw_ioctl cmd data len set w = ( CYW_ERR_NOT_READY, data, w) := by
  unfold cyw_ioctl
  simp only [h, if_true]

theorem cyw_iovar_guard (name : List Nat) (data : Option (List Nat)) (len : Nat) ( set : Bool)
    (w : World) (h : w.g_cyw_dev.state.toNat < CYW_STATE_FW_READY.toNat)
    (hfit : name.length + 1 + len ≤ 256) :
    cyw_iovar name data len set w = ( CYW_ERR_NOT_READY, data, w) := by
  unfold cyw_iovar
  have h1 : (name.length + 1) % U32 = name.length + 1 := Nat.mod_eq_of_lt (by unfold U32; omega)
  have h2 : (name.length + 1 + len) % U32 = name.length + 1 + len :=
    Nat.mod_eq_of_lt (by unfold U32; omega)
  have h3 : ¬ (name.length + 1 + len > 256) := by omega
  simp only [h1, h2, h3, if_false, cyw_ioctl_guard _ _ _ _ _ h]
  cases data <;> simp

/-- C5: a call made in a lifecycle state below the minimum of its guard
returns `CYW_ERR_NOT_READY` and leaves the whole world as it was (no host
callback, same driver state, same SDPCM/BCDC counters): `cyw_load_firmware`
in state Off; `cyw_up`, `cyw_down`, `cyw_ioctl`, `cyw_disconnect` and
`cyw_iovar` with a payload that fits in states Off, Init, FwLoading;
`cyw_scan` and `cyw_connect` in states Off, Init, FwLoading, FwReady.
`cyw_poll` below FwReady does nothing. -/
theorem guards_return_not_ready (w : World) :
    (w.g_cyw_dev.state = CYW_STATE_OFF →
      ∀ (fw : Option (List Nat)) (fs : Nat) (nv : Option (List Nat)) (ns : Nat),
        cyw_load_firmware fw fs nv ns w = ( CYW_ERR_NOT_READY, w)) ∧
    (w.g_cyw_dev.state = CYW_STATE_OFF ∨ w.g_cyw_dev.state = CYW_STATE_INIT ∨
      w.g_cyw_dev.state = CYW_STATE_FW_LOADING →
      cyw_up w = ( CYW_ERR_NOT_READY, w) ∧
      cyw_down w = ( CYW_ERR_NOT_READY, w) ∧
      (∀ (cmd : Nat) (data : Option (List Nat)) (len : Nat) ( set : Bool),
        cyw_ioctl cmd data len set w = ( CYW_ERR_NOT_READY, data, w)) ∧
      cyw_disconnect w = ( CYW_ERR_NOT_READY, w) ∧
      (∀ (name : List Nat) (data : Option (List Nat)) (len : Nat) ( set : Bool),
        name.length + 1 + len ≤ 256 →
        cyw_iovar name data len set w = ( CYW_ERR_NOT_READY, data, w)) ∧
      cyw_poll w = w) ∧
    (w.g_cyw_dev.state = CYW_STATE_OFF ∨ w.g_cyw_dev.state = CYW_STATE_INIT ∨
      w.g_cyw_dev.state = CYW_STATE_FW_LOADING ∨ w.g_cyw_dev.state = CYW_STATE_FW_READY →
      (∀ (results : Bool) (max_results : Int),
        cyw_scan results max_results w = ( CYW_ERR_NOT_READY.toInt, [], w)) ∧
      (∀ (ssid : List Nat) (passphrase : Option (List Nat)),
        cyw_connect ssid passphrase w = ( CYW_ERR_NOT_READY, w))) := by
  refine ⟨?_, ?_, ?_⟩
  · intro hs fw fs nv ns
    unfold cyw_load_firmware
    rw [hs]; rfl
  · intro hs
    have h : w.g_cyw_dev.state.toNat < CYW_STATE_FW_READY.toNat := by
      rcases hs with hs | hs | hs <;> rw [hs] <;> decide
    refine ⟨?_, ?_, fun cmd data len set => cyw_ioctl_guard cmd data len set w h, ?_,
      fun name data len set hfit => cyw_iovar_guard name data len set w h hfit, ?_⟩
    · unfold cyw_up; simp only [h, if_true]
    · unfold cyw_down; simp only [h, if_true]
    · unfold cyw_disconnect; rw [cyw_ioctl_guard _ _ _ _ _ h]
    · unfold cyw_poll; simp only [h, if_true]
  · intro hs
    have h : w.g_cyw_dev.state.toNat < CYW_STATE_UP.toNat := by
      rcases hs with hs | hs | hs | hs <;> rw [hs] <;> decide
    refine ⟨fun results max_results => ?_, fun ssid passphrase => ?_⟩
    · unfold cyw_scan; simp only [h, if_true]
    · unfold cyw_connect; simp only [h, if_true]

/-- The guard theorem at a driver in state Init. -/
theorem guards_return_not_ready_witness :
    exampleWorld.g_cyw_dev.state = CYW_STATE_INIT ∧
    cyw_up exampleWorld = ( CYW_ERR_NOT_READY, exampleWorld) ∧
    cyw_connect [84, 101, 115, 116, 65, 80] none exampleWorld =
      ( CYW_ERR_NOT_READY, exampleWorld) :=
  ⟨rfl, ((guards_return_not_ready exampleWorld).2.1 (Or.inr (Or.inl rfl))).1,
   ((guards_return_not_ready exampleWorld).2.2 (Or.inr (Or.inl rfl))).2 _ _⟩

/-! ## Outcome of `cyw_load_firmware` -/

theorem load_firmware_error_outcome (w0 : World) (err : cyw_err_t) (w : World)
    (he : err ≠ CYW_OK) (hc : w.g_cyw_dev.chip = w0.g_cyw_dev.chip) :
    LoadOutcome w0 (load_firmware_error err w) :=
  ⟨hc, Or.inr ⟨he, rfl⟩⟩

theorem load_firmware_wait_ht_transport (timeout : Nat) :
    ∀ w : World, Transport w (load_firmware_wait_ht timeout w).2 := by
  induction timeout with
  | zero => intro w; exact Transport.stay w
  | succ timeout ih =>
    intro w
    have t := cyw_sdio_read8_transport SDIO_FUNC_1 SBSDIO_FUNC1_CHIPCLKCSR w
    rw [load_firmware_wait_ht]
    split_ifs
    · exact t
    · exact (t.andThen (delay_ms_transport _ _)).andThen (ih _)

theorem load_firmware_wait_mbox_outcome (w0 : World) (timeout : Nat) :
    ∀ w : World, w.g_cyw_dev.chip = w0.g_cyw_dev.chip →
      LoadOutcome w0 (load_firmware_wait_mbox timeout w) := by
  induction timeout with
  | zero => intro w hc; exact load_firmware_error_outcome w0 _ w (by decide) hc
  | succ timeout ih =>
    intro w hc
    have t := cyw_sdio_read32_transport 0x18002048 w
    rw [load_firmware_wait_mbox]
    split_ifs with h1 h2
    · exact load_firmware_error_outcome w0 _ _ h1 (t.chip_eq.trans hc)
    · exact ⟨t.chip_eq.trans hc, Or.inl ⟨rfl, rfl⟩⟩
    · exact ih _ ((delay_ms_transport 10 _).chip_eq.trans (t.chip_eq.trans hc))

theorem load_firmware_start_outcome (w0 w : World)
    (hc : w.g_cyw_dev.chip = w0.g_cyw_dev.chip) : LoadOutcome w0 (load_firmware_start w) := by
  have t := load_firmware_wait_ht_transport 200 w
  unfold load_firmware_start
  simp only
  split_ifs
  · exact load_firmware_error_outcome w0 _ _ (by decide) (t.chip_eq.trans hc)
  · exact load_firmware_wait_mbox_outcome w0 100 _ (t.chip_eq.trans hc)

/-- Past its guard `cyw_load_firmware` ends in FwReady with `CYW_OK` or in
Error with an error code, and never touches the chip identity. -/
theorem cyw_load_firmware_outcome (fw : Option (List Nat)) (fs : Nat)
    (nv : Option (List Nat)) (ns : Nat) (w : World)
    (hs : CYW_STATE_INIT.toNat ≤ w.g_cyw_dev.state.toNat) :
    LoadOutcome w (cyw_load_firmware fw fs nv ns w) := by
  have hg : ¬ w.g_cyw_dev.state.toNat < CYW_STATE_INIT.toNat := by omega
  have t1 := cyw_backplane_write_transport w.g_cyw_dev.chip.ram_base (fw.getD []) fs
    { w with g_cyw_dev := { w.g_cyw_dev with state := CYW_STATE_FW_LOADING } }
  have c1 : (cyw_backplane_write w.g_cyw_dev.chip.ram_base (fw.getD []) fs
      { w with g_cyw_dev := { w.g_cyw_dev with state := CYW_STATE_FW_LOADING } }).2.g_cyw_dev.chip
      = w.g_cyw_dev.chip := t1.chip_eq
  unfold cyw_load_firmware
  simp only [hg, if_false]
  cases nv with
  | none =>
    simp only
    split_ifs with h1
    · exact load_firmware_error_outcome w _ _ h1 c1
    · exact load_firmware_start_outcome w _ c1
  | some nvd =>
    have t2 := cyw_backplane_write_transport NVRAM_DL_ADDR nvd ns
      (cyw_backplane_write w.g_cyw_dev.chip.ram_base (fw.getD []) fs
        { w with g_cyw_dev := { w.g_cyw_dev with state := CYW_STATE_FW_LOADING } }).2
    have c2 := t2.chip_eq.trans c1
    have c3 := fun (a v : Nat) => (cyw_sdio_write32_transport a v
      (cyw_backplane_write NVRAM_DL_ADDR nvd ns
        (cyw_backplane_write w.g_cyw_dev.chip.ram_base (fw.getD []) fs
          { w with g_cyw_dev := { w.g_cyw_dev with state := CYW_STATE_FW_LOADING } }).2).2).chip_eq.trans c2
    simp only
    split_ifs <;>
      first
      | exact load_firmware_error_outcome w _ _ ‹_› c1
      | exact load_firmware_error_outcome w _ _ ‹_› c2
      | exact load_firmware_error_outcome w _ _ ‹_› (c3 _ _)
      | exact load_firmware_start_outcome w _ c1
      | exact load_firmware_start_outcome w _ (c3 _ _)

/-- C6: for every call of `cyw_load_firmware` made in state Init, with any
firmware/NVRAM inputs and any host behaviour: if it returns `CYW_OK` the
resulting state is FwReady, if it returns an error the resulting state is
Error; it never returns in state Init or FwLoading, and `chip_id`, `chip_rev`
and `ram_base` are unchanged. -/
theorem cyw_load_firmware_from_init (fw : Option (List Nat)) (fs : Nat)
    (nv : Option (List Nat)) (ns : Nat) (w : World)
    (hs : w.g_cyw_dev.state = CYW_STATE_INIT) :
    ((cyw_load_firmware fw fs nv ns w).1 = CYW_OK →
      (cyw_load_firmware fw fs nv ns w).2.g_cyw_dev.state = CYW_STATE_FW_READY) ∧
    ((cyw_load_firmware fw fs nv ns w).1 ≠ CYW_OK →
      (cyw_load_firmware fw fs nv ns w).2.g_cyw_dev.state = CYW_STATE_ERROR) ∧
    (cyw_load_firmware fw fs nv ns w).2.g_cyw_dev.state ≠ CYW_STATE_INIT ∧
    (cyw_load_firmware fw fs nv ns w).2.g_cyw_dev.state ≠ CYW_STATE_FW_LOADING ∧
    (cyw_load_firmware fw fs nv ns w).2.g_cyw_dev.chip.chip_id = w.g_cyw_dev.chip.chip_id ∧
    (cyw_load_firmware fw fs nv ns w).2.g_cyw_dev.chip.chip_rev = w.g_cyw_dev.chip.chip_rev ∧
    (cyw_load_firmware fw fs nv ns w).2.g_cyw_dev.chip.ram_base = w.g_cyw_dev.chip.ram_base := by
  obtain ⟨hc, ho⟩ := cyw_load_firmware_outcome fw fs nv ns w (by rw [hs])
  rw [hc]
  refine ⟨?_, ?_, ?_, ?_, rfl, rfl, rfl⟩
  · intro h; rcases ho with ⟨_, h2⟩ | ⟨h1, _⟩
    · exact h2
    · exact absurd h h1
  · intro h; rcases ho with ⟨h1, _⟩ | ⟨_, h2⟩
    · exact absurd h1 h
    · exact h2
  · rcases ho with ⟨_, h2⟩ | ⟨_, h2⟩ <;> rw [h2] <;> decide
  · rcases ho with ⟨_, h2⟩ | ⟨_, h2⟩ <;> rw [h2] <;> decide

/-- The firmware-load theorem at an empty image with a host that reports nothing. -/
theorem cyw_load_firmware_from_init_witness :
    exampleWorld.g_cyw_dev.state = CYW_STATE_INIT ∧
    (cyw_load_firmware none 0 none 0 exampleWorld).2.g_cyw_dev.state ≠ CYW_STATE_INIT ∧
    (cyw_load_firmware none 0 none 0 exampleWorld).2.g_cyw_dev.state ≠ CYW_STATE_FW_LOADING :=
  ⟨rfl, (cyw_load_firmware_from_init none 0 none 0 exampleWorld rfl).2.2.1,
   (cyw_load_firmware_from_init none 0 none 0 exampleWorld rfl).2.2.2.1⟩

/-! ## Host failures during a backplane access -/

theorem Aborts.nothing (w : World) (e : cyw_err_t) : Aborts w w e :=
  ⟨rfl, Nat.le_refl _, fun k h1 h2 _ => absurd h2 (by omega)⟩

theorem Aborts.seq {w w1 w2 : World} {e1 e : cyw_err_t} (h1 : Aborts w w1 e1)
    (hok : e1 = CYW_OK) (h2 : Aborts w1 w2 e) : Aborts w w2 e := by
  refine ⟨h2.host_eq.trans h1.host_eq, Nat.le_trans h1.len_le h2.len_le, ?_⟩
  intro k hk1 hk2 hf
  by_cases hlt : k < w1.trace.length
  · have := (h1.fail k hk1 hlt hf).1
    rw [hok] at this
    exact absurd this (by decide)
  · exact h2.fail k (by omega) hk2 (by rw [h1.host_eq]; exact hf)

theorem Aborts.sameTrace {w w1 w2 : World} {e : cyw_err_t} (h : Aborts w w1 e)
    (ht : w2.trace = w1.trace) (hh : w2.host = w1.host) : Aborts w w2 e :=
  ⟨hh.trans h.host_eq, by rw [ht]; exact h.len_le, fun k h1 h2 hf => by
    rw [ht] at h2 ⊢; exact h.fail k h1 h2 hf⟩

theorem cyw_sdio_write8_aborts (f a v : Nat) (w : World) :
    Aborts w (cyw_sdio_write8 f a v w).2 (cyw_sdio_write8 f a v w).1 := by
  unfold cyw_sdio_write8
  split
  · exact Aborts.nothing w _
  · split
    · refine ⟨rfl, by simp [World.invoke], ?_⟩
      intro k h1 h2 hf
      simp only [World.invoke, List.length_append, List.length_singleton] at h2 ⊢
      have hk : k = w.trace.length := by omega
      subst hk
      simp [hf]
    · exact Aborts.nothing w _

theorem sdio_write_bytes_aborts (f a : Nat) (d : List Nat) (n : Nat) (i : Bool) (w : World) :
    Aborts w (sdio_write_bytes f a d n i w).2 (sdio_write_bytes f a d n i w).1 := by
  unfold sdio_write_bytes
  split
  · exact Aborts.nothing w _
  · split
    · refine ⟨rfl, by simp [World.invoke], ?_⟩
      intro k h1 h2 hf
      simp only [World.invoke, List.length_append, List.length_singleton] at h2 ⊢
      have hk : k = w.trace.length := by omega
      subst hk
      simp [hf]
    · exact Aborts.nothing w _

theorem sdio_read_bytes_aborts (f a : Nat) (b : List Nat) (n : Nat) (i : Bool) (w : World) :
    Aborts w (sdio_read_bytes f a b n i w).2.2 (sdio_read_bytes f a b n i w).1 := by
  unfold sdio_read_bytes
  split
  · exact Aborts.nothing w _
  · split
    · refine ⟨rfl, by simp [World.invoke], ?_⟩
      intro k h1 h2 hf
      simp only [World.invoke, List.length_append, List.length_singleton] at h2 ⊢
      have hk : k = w.trace.length := by omega
      subst hk
      simp [hf]
    · exact Aborts.nothing w _

theorem not_ne_ok {e : cyw_err_t} (h : ¬ e ≠ CYW_OK) : e = CYW_OK := by
  by_contra hc; exact h hc

theorem set_backplane_window_aborts (addr : Nat) (w : World) :
    Aborts w (set_backplane_window addr w).2 (set_backplane_window addr w).1 := by
  have a1 := cyw_sdio_write8_aborts SDIO_FUNC_1 SBSDIO_FUNC1_SBADDRLOW
    (((addr &&& SBSDIO_SBWINDOW_MASK) >>> 8) &&& 0xFF) w
  have a2 := cyw_sdio_write8_aborts SDIO_FUNC_1 SBSDIO_FUNC1_SBADDRMID
    (((addr &&& SBSDIO_SBWINDOW_MASK) >>> 16) &&& 0xFF)
    (cyw_sdio_write8 SDIO_FUNC_1 SBSDIO_FUNC1_SBADDRLOW
      (((addr &&& SBSDIO_SBWINDOW_MASK) >>> 8) &&& 0xFF) w).2
  have a3 := cyw_sdio_write8_aborts SDIO_FUNC_1 SBSDIO_FUNC1_SBADDRHIGH
    (((addr &&& SBSDIO_SBWINDOW_MASK) >>> 24) &&& 0xFF)
    (cyw_sdio_write8 SDIO_FUNC_1 SBSDIO_FUNC1_SBADDRMID
      (((addr &&& SBSDIO_SBWINDOW_MASK) >>> 16) &&& 0xFF)
      (cyw_sdio_write8 SDIO_FUNC_1 SBSDIO_FUNC1_SBADDRLOW
        (((addr &&& SBSDIO_SBWINDOW_MASK) >>> 8) &&& 0xFF) w).2).2
  unfold set_backplane_window
  simp only
  split_ifs with h0 h1 h2 h3
  · exact Aborts.nothing w _
  · exact a1
  · exact a1.seq (not_ne_ok h1) a2
  · exact (a1.seq (not_ne_ok h1) a2).seq (not_ne_ok h2) a3
  · have h := (a1.seq (not_ne_ok h1) a2).seq (not_ne_ok h2) a3
    rw [not_ne_ok h3] at h
    exact h.sameTrace rfl rfl

theorem cyw_sdio_write8_dev (f a v : Nat) (w : World) :
    (cyw_sdio_write8 f a v w).2.g_cyw_dev = w.g_cyw_dev := by
  unfold cyw_sdio_write8
  split
  · rfl
  · split <;> rfl

/-- A failing `set_backplane_window` leaves the cached window and its valid
flag exactly as they were. -/
theorem set_backplane_window_error_cache (addr : Nat) (w : World)
    (h : (set_backplane_window addr w).1 ≠ CYW_OK) :
    (set_backplane_window addr w).2.g_cyw_dev.sbwad_valid = w.g_cyw_dev.sbwad_valid ∧
    (set_backplane_window addr w).2.g_cyw_dev.sbwad = w.g_cyw_dev.sbwad := by
  unfold set_backplane_window at h ⊢
  simp only at h ⊢
  split_ifs at h ⊢
  · exact ⟨rfl, rfl⟩
  · rw [cyw_sdio_write8_dev]; exact ⟨rfl, rfl⟩
  · rw [cyw_sdio_write8_dev, cyw_sdio_write8_dev]; exact ⟨rfl, rfl⟩
  · rw [cyw_sdio_write8_dev, cyw_sdio_write8_dev, cyw_sdio_write8_dev]; exact ⟨rfl, rfl⟩
  · exact absurd rfl h

theorem cyw_sdio_read32_aborts (addr : Nat) (w : World) :
    Aborts w (cyw_sdio_read32 addr w).2.2 (cyw_sdio_read32 addr w).1 := by
  have a1 := set_backplane_window_aborts addr w
  unfold cyw_sdio_read32
  simp only
  split_ifs with h1 h2
  · exact a1
  · exact a1.seq (not_ne_ok h1) (sdio_read_bytes_aborts _ _ _ _ _ _)
  · have h := a1.seq (not_ne_ok h1) (sdio_read_bytes_aborts SDIO_FUNC_1
      ((addr &&& SBSDIO_SB_OFT_ADDR_MASK) ||| SBSDIO_SB_ACCESS_2_4B_FLAG)
      ((set_backplane_window addr w).2.fresh 4) 4 true (set_backplane_window addr w).2)
    rw [not_ne_ok h2] at h
    exact h

theorem cyw_sdio_write32_aborts (addr val : Nat) (w : World) :
    Aborts w (cyw_sdio_write32 addr val w).2 (cyw_sdio_write32 addr val w).1 := by
  have a1 := set_backplane_window_aborts addr w
  unfold cyw_sdio_write32
  simp only
  split_ifs with h1
  · exact a1
  · exact a1.seq (not_ne_ok h1) (sdio_write_bytes_aborts _ _ _ _ _ _)

theorem cyw_backplane_write_loop_aborts (fuel : Nat) :
    ∀ (addr : Nat) (data : List Nat) (len : Nat) (w : World),
      Aborts w (cyw_backplane_write_loop fuel addr data len w).2
        (cyw_backplane_write_loop fuel addr data len w).1 := by
  induction fuel with
  | zero => intro addr data len w; exact Aborts.nothing w _
  | succ fuel ih =>
    intro addr data len w
    have a1 := set_backplane_window_aborts addr w
    rw [cyw_backplane_write_loop_succ]
    split_ifs with h0 h1 h2
    · exact a1
    · exact a1.seq (not_ne_ok h1) (sdio_write_bytes_aborts _ _ _ _ _ _)
    · exact (a1.seq (not_ne_ok h1) (sdio_write_bytes_aborts _ _ _ _ _ _)).seq (not_ne_ok h2)
        (ih _ _ _ _)
    · exact Aborts.nothing w _

theorem cyw_backplane_read_loop_aborts (fuel : Nat) :
    ∀ (addr : Nat) (acc : List Nat) (len : Nat) (w : World),
      Aborts w (cyw_backplane_read_loop fuel addr acc len w).2.2
        (cyw_backplane_read_loop fuel addr acc len w).1 := by
  induction fuel with
  | zero => intro addr acc len w; exact Aborts.nothing w _
  | succ fuel ih =>
    intro addr acc len w
    have a1 := set_backplane_window_aborts addr w
    rw [cyw_backplane_read_loop]
    simp only
    split_ifs with h0 h1 hc h2 h2 <;>
      first
      | exact a1
      | exact Aborts.nothing w _
      | exact a1.seq (not_ne_ok h1) (sdio_read_bytes_aborts _ _ _ _ _ _)
      | exact (a1.seq (not_ne_ok h1) (sdio_read_bytes_aborts _ _ _ _ _ _)).seq (not_ne_ok h2)
          (ih _ _ _ _)

set_option maxRecDepth 100000 in
/-- C7, the code at the failing input: the cache is valid for window
0x18000000 and the third register write of `set_backplane_window(0x3A0000)`
fails.  The access aborts with `CYW_ERR_IO` after the registers LOW and MID
were rewritten (to 0x00 and 0x3A), yet `sbwad_valid` is still true and
`sbwad` still 0x18000000; the next `cyw_sdio_read32(0x18000000)` issues its
bulk read with no window-register write at all, although the registers no
longer hold window 0x18000000. -/
theorem stale_window_after_failure :
    exampleStaleWorld.g_cyw_dev.sbwad_valid = true ∧
    exampleStaleWorld.g_cyw_dev.sbwad = 0x18000000 ∧
    (set_backplane_window 0x3A0000 exampleStaleWorld).1 = CYW_ERR_IO ∧
    (set_backplane_window 0x3A0000 exampleStaleWorld).2.trace =
      [HostCall.cmd52_write 1 0x1000A 0x00, HostCall.cmd52_write 1 0x1000B 0x3A,
       HostCall.cmd52_write 1 0x1000C 0x00] ∧
    (set_backplane_window 0x3A0000 exampleStaleWorld).2.g_cyw_dev.sbwad_valid = true ∧
    (set_backplane_window 0x3A0000 exampleStaleWorld).2.g_cyw_dev.sbwad = 0x18000000 ∧
    (cyw_sdio_read32 0x18000000 (set_backplane_window 0x3A0000 exampleStaleWorld).2).2.2.trace =
      (set_backplane_window 0x3A0000 exampleStaleWorld).2.trace ++
        [HostCall.cmd53_read 1 0x8000 4 true] := by
  refine ⟨rfl, rfl, by decide, by decide, by decide, by decide, by decide⟩

/-! ## What the ioctl layer leaves alone, and what it returns -/

theorem Transport.toSession {w w1 : World} (t : Transport w w1) : Session w w1 :=
  ⟨t.host_eq, t.uninit_eq, t.ops_eq, t.chip_eq, t.state_eq, t.scan_eq, t.valid_mono,
    t.trace_ext⟩

theorem Session.idle (w : World) : Session w w := (Transport.stay w).toSession

theorem Session.next {a b c : World} (h1 : Session a b) (h2 : Session b c) : Session a c := by
  obtain ⟨e1, he1⟩ := h1.trace_ext
  obtain ⟨e2, he2⟩ := h2.trace_ext
  exact ⟨h2.host_eq.trans h1.host_eq, h2.uninit_eq.trans h1.uninit_eq,
    h2.ops_eq.trans h1.ops_eq, h2.chip_eq.trans h1.chip_eq, h2.state_eq.trans h1.state_eq,
    h2.scan_eq.trans h1.scan_eq, fun h => h2.valid_mono (h1.valid_mono h), e1 ++ e2,
    by rw [he2, he1, List.append_assoc]⟩

theorem bumpReqid_session (w : World) : Session w (bumpReqid w) :=
  ⟨rfl, rfl, rfl, rfl, rfl, rfl, id, [], (List.append_nil _).symm⟩

theorem cyw_ioctl_session (cmd : Nat) (data : Option (List Nat)) (len : Nat) ( set : Bool)
    (w : World) : Session w (cyw_ioctl cmd data len set w).2.2 := by
  by_cases hst : CYW_STATE_FW_READY.toNat ≤ w.g_cyw_dev.state.toNat
  · have ts := (send_sdpcm_frame_transport SDPCM_CONTROL_CHANNEL
      (some (ioctlBuf w cmd data len set)) ((BCDC_HEADER_SIZE + len) % U32)
      (bumpReqid w)).toSession
    have tw := (cyw_ioctl_wait_transport data len set 100 (ioctlBuf w cmd data len set)
      (send_sdpcm_frame SDPCM_CONTROL_CHANNEL (some (ioctlBuf w cmd data len set))
        ((BCDC_HEADER_SIZE + len) % U32) (bumpReqid w)).2).toSession
    rw [cyw_ioctl_eq cmd data len set w hst]
    split_ifs
    · exact (bumpReqid_session w).next ts
    · exact ((bumpReqid_session w).next ts).next tw
  · rw [cyw_ioctl_guard cmd data len set w (by omega)]
    exact Session.idle w

theorem sdio_write_bytes_result (f a : Nat) (d : List Nat) (n : Nat) (i : Bool) (w : World) :
    (sdio_write_bytes f a d n i w).1 ≠ CYW_ERR_NOT_READY := by
  unfold sdio_write_bytes
  split
  · simp
  · split
    · simp only; split <;> simp
    · simp

theorem cyw_ioctl_wait_result (data : Option (List Nat)) (len : Nat) ( set : Bool)
    (timeout : Nat) :
    ∀ (buf : List Nat) (w : World),
      (cyw_ioctl_wait data len set timeout buf w).1 ≠ CYW_ERR_NOT_READY := by
  induction timeout with
  | zero => intro buf w; simp [cyw_ioctl_wait]
  | succ timeout ih =>
    intro buf w
    rw [cyw_ioctl_wait]
    split_ifs <;> first | exact ih _ _ | simp

/-- Past its guard `cyw_ioctl` never returns `CYW_ERR_NOT_READY`. -/
theorem cyw_ioctl_result (cmd : Nat) (data : Option (List Nat)) (len : Nat) ( set : Bool)
    (w : World) (hst : CYW_STATE_FW_READY.toNat ≤ w.g_cyw_dev.state.toNat) :
    (cyw_ioctl cmd data len set w).1 ≠ CYW_ERR_NOT_READY := by
  rw [cyw_ioctl_eq cmd data len set w hst]
  split_ifs
  · rw [send_sdpcm_frame_eq]; exact sdio_write_bytes_result _ _ _ _ _ _
  · exact cyw_ioctl_wait_result _ _ _ _ _ _

/-- `cyw_iovar` returns `CYW_ERR_NOMEM` without touching the world, or what
one `cyw_ioctl` call on the same world returns. -/
theorem cyw_iovar_cases (name : List Nat) (data : Option (List Nat)) (len : Nat) ( set : Bool)
    (w : World) :
    ((name.length + 1) % U32 + len) % U32 > 256 ∧
      (cyw_iovar name data len set w).1 = CYW_ERR_NOMEM ∧
      (cyw_iovar name data len set w).2.2 = w ∨
    ¬ ((name.length + 1) % U32 + len) % U32 > 256 ∧
      ∃ (buf : List Nat),
        (cyw_iovar name data len set w).1 =
          (cyw_ioctl (if set then WLC_SET_VAR else WLC_GET_VAR) (some buf)
            (((name.length + 1) % U32 + len) % U32) set w).1 ∧
        (cyw_iovar name data len set w).2.2 =
          (cyw_ioctl (if set then WLC_SET_VAR else WLC_GET_VAR) (some buf)
            (((name.length + 1) % U32 + len) % U32) set w).2.2 := by
  unfold cyw_iovar
  simp only
  by_cases h : ((name.length + 1) % U32 + len) % U32 > 256
  · left
    refine ⟨h, ?_, ?_⟩ <;> rw [if_pos h]
  · right
    refine ⟨h, ?_⟩
    rw [if_neg h]
    cases data with
    | none => exact ⟨_, rfl, rfl⟩
    | some d =>
      simp only
      split_ifs <;> exact ⟨_, rfl, rfl⟩

theorem cyw_iovar_session (name : List Nat) (data : Option (List Nat)) (len : Nat) ( set : Bool)
    (w : World) : Session w (cyw_iovar name data len set w).2.2 := by
  rcases cyw_iovar_cases name data len set w with ⟨_, _, h⟩ | ⟨_, buf, _, h⟩
  · rw [h]; exact Session.idle w
  · rw [h]; exact cyw_ioctl_session _ _ _ _ _

theorem cyw_iovar_result (name : List Nat) (data : Option (List Nat)) (len : Nat) ( set : Bool)
    (w : World) (hst : CYW_STATE_FW_READY.toNat ≤ w.g_cyw_dev.state.toNat) :
    (cyw_iovar name data len set w).1 ≠ CYW_ERR_NOT_READY := by
  rcases cyw_iovar_cases name data len set w with ⟨_, h, _⟩ | ⟨_, buf, h, _⟩
  · rw [h]; decide
  · rw [h]; exact cyw_ioctl_result _ _ _ _ _ hst

theorem cyw_is_connected_session (w : World) : Session w (cyw_is_connected w).2 := by
  have t := cyw_ioctl_session WLC_GET_BSSID (some (List.replicate 6 0)) 6 false w
  unfold cyw_is_connected
  simp only
  split_ifs <;> exact t

theorem cyw_connect_wait_session (fuel : Nat) :
    ∀ (timeout : Int) (w : World), Session w (cyw_connect_wait fuel timeout w).2 := by
  induction fuel with
  | zero => intro timeout w; exact Session.idle w
  | succ fuel ih =>
    intro timeout w
    have t := (cyw_poll_transport w).toSession.next (cyw_is_connected_session (cyw_poll w))
    rw [cyw_connect_wait]
    simp only
    split_ifs
    · exact t
    · exact (t.next (delay_ms_transport _ _).toSession).next (ih _ _)
    · exact Session.idle w

theorem cyw_connect_wait_result (fuel : Nat) :
    ∀ (timeout : Int) (w : World),
      (cyw_connect_wait fuel timeout w).1 ≠ CYW_ERR_NOT_READY := by
  induction fuel with
  | zero => intro timeout w; simp [cyw_connect_wait]
  | succ fuel ih =>
    intro timeout w
    rw [cyw_connect_wait]
    simp only
    split_ifs <;> first | exact ih _ _ | simp

/-! ## Error codes of the backplane layer -/

theorem cyw_sdio_write8_result (f a v : Nat) (w : World) :
    (cyw_sdio_write8 f a v w).1 ≠ CYW_ERR_NOT_READY := by
  unfold cyw_sdio_write8
  split
  · simp
  · split
    · simp only; split <;> simp
    · simp

theorem sdio_read_bytes_result (f a : Nat) (b : List Nat) (n : Nat) (i : Bool) (w : World) :
    (sdio_read_bytes f a b n i w).1 ≠ CYW_ERR_NOT_READY := by
  unfold sdio_read_bytes
  split
  · simp
  · split
    · simp only; split <;> simp
    · simp

theorem set_backplane_window_result (addr : Nat) (w : World) :
    (set_backplane_window addr w).1 ≠ CYW_ERR_NOT_READY := by
  unfold set_backplane_window
  simp only
  split_ifs <;> first | exact cyw_sdio_write8_result _ _ _ _ | simp

theorem cyw_sdio_read32_result (addr : Nat) (w : World) :
    (cyw_sdio_read32 addr w).1 ≠ CYW_ERR_NOT_READY := by
  unfold cyw_sdio_read32
  simp only
  split_ifs <;>
    first
    | exact set_backplane_window_result _ _
    | exact sdio_read_bytes_result _ _ _ _ _ _
    | simp

theorem cyw_sdio_write32_result (addr val : Nat) (w : World) :
    (cyw_sdio_write32 addr val w).1 ≠ CYW_ERR_NOT_READY := by
  unfold cyw_sdio_write32
  simp only
  split_ifs <;>
    first
    | exact set_backplane_window_result _ _
    | exact sdio_write_bytes_result _ _ _ _ _ _

theorem cyw_backplane_write_loop_result (fuel : Nat) :
    ∀ (addr : Nat) (data : List Nat) (len : Nat) (w : World),
      (cyw_backplane_write_loop fuel addr data len w).1 ≠ CYW_ERR_NOT_READY := by
  induction fuel with
  | zero => intro addr data len w; simp [cyw_backplane_write_loop]
  | succ fuel ih =>
    intro addr data len w
    rw [cyw_backplane_write_loop_succ]
    split_ifs <;>
      first
      | exact set_backplane_window_result _ _
      | exact sdio_write_bytes_result _ _ _ _ _ _
      | exact ih _ _ _ _
      | simp

theorem load_firmware_wait_mbox_result (timeout : Nat) :
    ∀ w : World, (load_firmware_wait_mbox timeout w).1 ≠ CYW_ERR_NOT_READY := by
  induction timeout with
  | zero => intro w; simp [load_firmware_wait_mbox, load_firmware_error]
  | succ timeout ih =>
    intro w
    rw [load_firmware_wait_mbox]
    split_ifs <;>
      first
      | exact cyw_sdio_read32_result _ _
      | exact ih _
      | simp

theorem load_firmware_start_result (w : World) :
    (load_firmware_start w).1 ≠ CYW_ERR_NOT_READY := by
  unfold load_firmware_start
  simp only
  split_ifs
  · simp [load_firmware_error]
  · exact load_firmware_wait_mbox_result _ _

/-- Past its guard `cyw_load_firmware` never returns `CYW_ERR_NOT_READY`. -/
theorem cyw_load_firmware_result (fw : Option (List Nat)) (fs : Nat)
    (nv : Option (List Nat)) (ns : Nat) (w : World)
    (hs : CYW_STATE_INIT.toNat ≤ w.g_cyw_dev.state.toNat) :
    (cyw_load_firmware fw fs nv ns w).1 ≠ CYW_ERR_NOT_READY := by
  have hg : ¬ w.g_cyw_dev.state.toNat < CYW_STATE_INIT.toNat := by omega
  unfold cyw_load_firmware
  simp only [hg, if_false]
  cases nv with
  | none =>
    simp only
    split_ifs <;>
      first
      | exact cyw_backplane_write_loop_result _ _ _ _ _
      | exact load_firmware_start_result _
  | some nvd =>
    simp only
    split_ifs <;>
      first
      | exact cyw_backplane_write_loop_result _ _ _ _ _
      | exact cyw_sdio_write32_result _ _ _
      | exact load_firmware_start_result _

/-! ## The entry points in state Error -/

theorem SendsFrameFirst.later {w w1 w2 : World} (h : SendsFrameFirst w w1)
    (s : Session w1 w2) : SendsFrameFirst w w2 := by
  obtain ⟨frame, L, rest, hr⟩ := h
  obtain ⟨ext, he⟩ := s.trace_ext
  exact ⟨frame, L, rest ++ ext, by rw [he, hr]; simp⟩

theorem SendsFrameFirst.onTrace {w w1 w2 : World} (h : SendsFrameFirst w w1)
    (ht : w2.trace = w1.trace) : SendsFrameFirst w w2 := by
  obtain ⟨frame, L, rest, hr⟩ := h
  exact ⟨frame, L, rest, by rw [ht, hr]⟩

theorem cyw_ioctl_sends (cmd : Nat) (data : Option (List Nat)) (len : Nat) ( set : Bool)
    (w : World) (o : sdio_host_ops_t)
    (hst : CYW_STATE_FW_READY.toNat ≤ w.g_cyw_dev.state.toNat)
    (hops : w.g_cyw_dev.ops = some o) (hcw : o.cmd53_write = true) :
    SendsFrameFirst w (cyw_ioctl cmd data len set w).2.2 := by
  obtain ⟨⟨rest, h⟩, -⟩ := cyw_ioctl_first_call cmd data len set w o hst hops hcw
  exact ⟨_, _, rest, h⟩

theorem cyw_iovar_sends (name : List Nat) (data : Option (List Nat)) (len : Nat) ( set : Bool)
    (w : World) (o : sdio_host_ops_t)
    (hst : CYW_STATE_FW_READY.toNat ≤ w.g_cyw_dev.state.toNat)
    (hops : w.g_cyw_dev.ops = some o) (hcw : o.cmd53_write = true)
    (hfit : name.length + 1 + len ≤ 256) :
    SendsFrameFirst w (cyw_iovar name data len set w).2.2 := by
  have h1 : (name.length + 1) % U32 = name.length + 1 := Nat.mod_eq_of_lt (by unfold U32; omega)
  have h2 : (name.length + 1 + len) % U32 = name.length + 1 + len :=
    Nat.mod_eq_of_lt (by unfold U32; omega)
  rcases cyw_iovar_cases name data len set w with ⟨h, _, _⟩ | ⟨_, buf, _, h⟩
  · rw [h1, h2] at h; omega
  · rw [h]; exact cyw_ioctl_sends _ _ _ _ w o hst hops hcw

theorem cyw_scan_wait_transport (fuel : Nat) :
    ∀ (timeout : Int) (w : World), Transport w (cyw_scan_wait fuel timeout w) := by
  induction fuel with
  | zero => intro timeout w; exact Transport.stay w
  | succ fuel ih =>
    intro timeout w
    rw [cyw_scan_wait]
    split_ifs
    · exact ((cyw_poll_transport w).andThen (delay_ms_transport _ _)).andThen (ih _ _)
    · exact Transport.stay w

theorem connect_set_pmk_session (passphrase : Option (List Nat)) (w : World) :
    Session w (connect_set_pmk passphrase w).2 := by
  unfold connect_set_pmk
  cases passphrase with
  | none => exact Session.idle w
  | some p =>
    simp only
    split_ifs
    · exact cyw_ioctl_session _ _ _ _ _
    · exact Session.idle w

theorem connect_set_pmk_result (passphrase : Option (List Nat)) (w : World)
    (hst : CYW_STATE_FW_READY.toNat ≤ w.g_cyw_dev.state.toNat) :
    (connect_set_pmk passphrase w).1 ≠ CYW_ERR_NOT_READY := by
  unfold connect_set_pmk
  cases passphrase with
  | none => simp
  | some p =>
    simp only
    split_ifs
    · exact cyw_ioctl_result _ _ _ _ _ hst
    · simp

/-- Past its guard `cyw_connect` starts with the `WLC_SET_INFRA` ioctl, only
extends what that call left behind, and never returns `CYW_ERR_NOT_READY`. -/
theorem cyw_connect_past_guard (ssid : List Nat) (passphrase : Option (List Nat)) (w : World)
    (hst : CYW_STATE_UP.toNat ≤ w.g_cyw_dev.state.toNat) :
    Session (cyw_ioctl WLC_SET_INFRA (some (le32 1)) 4 true w).2.2
      (cyw_connect ssid passphrase w).2 ∧
    (cyw_connect ssid passphrase w).1 ≠ CYW_ERR_NOT_READY := by
  have hg : ¬ w.g_cyw_dev.state.toNat < CYW_STATE_UP.toNat := by omega
  have hup : CYW_STATE_FW_READY.toNat ≤ CYW_STATE_UP.toNat := by decide
  have s1 := cyw_ioctl_session WLC_SET_INFRA (some (le32 1)) 4 true w
  have s2 := cyw_ioctl_session WLC_SET_AUTH (some (le32 0)) 4 true
    (cyw_ioctl WLC_SET_INFRA (some (le32 1)) 4 true w).2.2
  have s3 := cyw_iovar_session [119, 112, 97, 95, 97, 117, 116, 104] (some (le32 0x80)) 4 true
    (cyw_ioctl WLC_SET_AUTH (some (le32 0)) 4 true
      (cyw_ioctl WLC_SET_INFRA (some (le32 1)) 4 true w).2.2).2.2
  have s4 := cyw_ioctl_session WLC_SET_WSEC (some (le32 4)) 4 true
    (cyw_iovar [119, 112, 97, 95, 97, 117, 116, 104] (some (le32 0x80)) 4 true
      (cyw_ioctl WLC_SET_AUTH (some (le32 0)) 4 true
        (cyw_ioctl WLC_SET_INFRA (some (le32 1)) 4 true w).2.2).2.2).2.2
  have s5 := connect_set_pmk_session passphrase
    (cyw_ioctl WLC_SET_WSEC (some (le32 4)) 4 true
      (cyw_iovar [119, 112, 97, 95, 97, 117, 116, 104] (some (le32 0x80)) 4 true
        (cyw_ioctl WLC_SET_AUTH (some (le32 0)) 4 true
          (cyw_ioctl WLC_SET_INFRA (some (le32 1)) 4 true w).2.2).2.2).2.2).2.2
  have s6 := cyw_ioctl_session WLC_SET_SSID (some (connect_wlc_ssid ssid)) 36 true
    (connect_set_pmk passphrase
      (cyw_ioctl WLC_SET_WSEC (some (le32 4)) 4 true
        (cyw_iovar [119, 112, 97, 95, 97, 117, 116, 104] (some (le32 0x80)) 4 true
          (cyw_ioctl WLC_SET_AUTH (some (le32 0)) 4 true
            (cyw_ioctl WLC_SET_INFRA (some (le32 1)) 4 true w).2.2).2.2).2.2).2.2).2
  have s7 := cyw_connect_wait_session 100 10000
    (cyw_ioctl WLC_SET_SSID (some (connect_wlc_ssid ssid)) 36 true
      (connect_set_pmk passphrase
        (cyw_ioctl WLC_SET_WSEC (some (le32 4)) 4 true
          (cyw_iovar [119, 112, 97, 95, 97, 117, 116, 104] (some (le32 0x80)) 4 true
            (cyw_ioctl WLC_SET_AUTH (some (le32 0)) 4 true
              (cyw_ioctl WLC_SET_INFRA (some (le32 1)) 4 true w).2.2).2.2).2.2).2.2).2).2.2
  have e1 : CYW_STATE_FW_READY.toNat ≤ w.g_cyw_dev.state.toNat := by omega
  have e2 := s1.state_eq
  have e3 := s2.state_eq
  have e4 := s3.state_eq
  have e5 := s4.state_eq
  have e6 := s5.state_eq
  unfold cyw_connect
  simp only [hg, if_false]
  split_ifs
  · exact ⟨Session.idle _, cyw_ioctl_result _ _ _ _ _ e1⟩
  · exact ⟨s2, cyw_ioctl_result _ _ _ _ _ (by rw [e2]; exact e1)⟩
  · exact ⟨s2.next s3, cyw_iovar_result _ _ _ _ _ (by rw [e3, e2]; exact e1)⟩
  · exact ⟨(s2.next s3).next s4, cyw_ioctl_result _ _ _ _ _ (by rw [e4, e3, e2]; exact e1)⟩
  · exact ⟨((s2.next s3).next s4).next s5,
      connect_set_pmk_result _ _ (by rw [e5, e4, e3, e2]; exact e1)⟩
  · exact ⟨(((s2.next s3).next s4).next s5).next s6,
      cyw_ioctl_result _ _ _ _ _ (by rw [e6, e5, e4, e3, e2]; exact e1)⟩
  · exact ⟨((((s2.next s3).next s4).next s5).next s6).next s7, cyw_connect_wait_result _ _ _⟩

theorem cyw_deinit_state (w : World) : (cyw_deinit w).g_cyw_dev.state = CYW_STATE_OFF := by
  unfold cyw_deinit
  split_ifs with h
  · rfl
  · exact not_not.mp h

theorem toInt_ne_not_ready (e : cyw_err_t) (h : e ≠ CYW_ERR_NOT_READY) :
    e.toInt ≠ CYW_ERR_NOT_READY.toInt := by
  cases e <;> first | exact absurd rfl h | decide

theorem cyw_scan_finish_facts (results : Bool) (max_results : Int) (v : World) (c : Int)
    (hc : v.g_scan_state.count = c) :
    (cyw_scan_finish results max_results v).2.2.trace = v.trace ∧
    (cyw_scan_finish results max_results v).2.2.g_cyw_dev.state = v.g_cyw_dev.state ∧
    (0 ≤ c → 0 ≤ max_results → (cyw_scan_finish results max_results v).1 ≠ -8) := by
  have hc3 : (if v.g_scan_state.in_progress = true then
        ({ v with g_scan_state := { v.g_scan_state with in_progress := false } } : World)
      else v).g_scan_state.count = c := by
    split <;> exact hc
  unfold cyw_scan_finish
  simp only
  refine ⟨?_, ?_, ?_⟩
  · split <;> rfl
  · split <;> rfl
  · intro h0 hm
    rw [hc3]
    split_ifs <;> omega

/-- Past its guard `cyw_scan` starts with the `escan` request, keeps the
lifecycle state, and returns the code of a failed request or a count that is
the smaller of 0 and `max_results`. -/
theorem cyw_scan_past_guard (results : Bool) (max_results : Int) (w : World)
    (o : sdio_host_ops_t) (hst : CYW_STATE_UP.toNat ≤ w.g_cyw_dev.state.toNat)
    (hops : w.g_cyw_dev.ops = some o) (hcw : o.cmd53_write = true) :
    SendsFrameFirst w (cyw_scan results max_results w).2.2 ∧
    (cyw_scan results max_results w).2.2.g_cyw_dev.state = w.g_cyw_dev.state ∧
    (0 ≤ max_results → (cyw_scan results max_results w).1 ≠ CYW_ERR_NOT_READY.toInt) := by
  have hg : ¬ w.g_cyw_dev.state.toNat < CYW_STATE_UP.toNat := by omega
  have hup : CYW_STATE_FW_READY.toNat ≤ CYW_STATE_UP.toNat := by decide
  have e1 : CYW_STATE_FW_READY.toNat ≤ w.g_cyw_dev.state.toNat := by omega
  have hs := cyw_iovar_sends [101, 115, 99, 97, 110]
    (some (scan_params ((w.g_cyw_dev.reqid &&& 0xFFFF) % 65536))) 74 true
    { w with g_scan_state :=
      { scan_state_zero with
        sync_id := (w.g_cyw_dev.reqid &&& 0xFFFF) % 65536, in_progress := true } }
    o e1 hops hcw (by decide)
  have ss := cyw_iovar_session [101, 115, 99, 97, 110]
    (some (scan_params ((w.g_cyw_dev.reqid &&& 0xFFFF) % 65536))) 74 true
    { w with g_scan_state :=
      { scan_state_zero with
        sync_id := (w.g_cyw_dev.reqid &&& 0xFFFF) % 65536, in_progress := true } }
  have sr := cyw_iovar_result [101, 115, 99, 97, 110]
    (some (scan_params ((w.g_cyw_dev.reqid &&& 0xFFFF) % 65536))) 74 true
    { w with g_scan_state :=
      { scan_state_zero with
        sync_id := (w.g_cyw_dev.reqid &&& 0xFFFF) % 65536, in_progress := true } } e1
  have tw := cyw_scan_wait_transport 1000 10000
    (cyw_iovar [101, 115, 99, 97, 110]
      (some (scan_params ((w.g_cyw_dev.reqid &&& 0xFFFF) % 65536))) 74 true
      { w with g_scan_state :=
        { scan_state_zero with
          sync_id := (w.g_cyw_dev.reqid &&& 0xFFFF) % 65536, in_progress := true } }).2.2
  have hcount : (cyw_scan_wait 1000 10000
      (cyw_iovar [101, 115, 99, 97, 110]
        (some (scan_params ((w.g_cyw_dev.reqid &&& 0xFFFF) % 65536))) 74 true
        { w with g_scan_state :=
          { scan_state_zero with
            sync_id := (w.g_cyw_dev.reqid &&& 0xFFFF) % 65536,
            in_progress := true } }).2.2).g_scan_state.count = 0 := by
    rw [tw.scan_eq, ss.scan_eq]; rfl
  have hs1 : SendsFrameFirst w
      (cyw_iovar [101, 115, 99, 97, 110]
        (some (scan_params ((w.g_cyw_dev.reqid &&& 0xFFFF) % 65536))) 74 true
        { w with g_scan_state :=
          { scan_state_zero with
            sync_id := (w.g_cyw_dev.reqid &&& 0xFFFF) % 65536,
            in_progress := true } }).2.2 := hs
  have hs2 := hs1.later tw.toSession
  have st1 : (cyw_iovar [101, 115, 99, 97, 110]
        (some (scan_params ((w.g_cyw_dev.reqid &&& 0xFFFF) % 65536))) 74 true
        { w with g_scan_state :=
          { scan_state_zero with
            sync_id := (w.g_cyw_dev.reqid &&& 0xFFFF) % 65536,
            in_progress := true } }).2.2.g_cyw_dev.state = w.g_cyw_dev.state := ss.state_eq
  have st2 := tw.state_eq.trans st1
  unfold cyw_scan
  simp only [hg, if_false]
  split_ifs with h1
  · exact ⟨hs1.onTrace rfl, st1, fun _ => toInt_ne_not_ready _ sr⟩
  · obtain ⟨f1, f2, f3⟩ := cyw_scan_finish_facts results max_results _ _ hcount
    exact ⟨hs2.onTrace f1, f2.trans st2, fun hm => f3 (Int.le_refl 0) hm⟩

set_option maxRecDepth 100000 in
/-- C2, the code at the failing input: a driver in state Error whose host
answers the request.  `cyw_up` passes its guard `state < CYW_STATE_FW_READY`
(Error is the greatest value of `cyw_state_t`), sends the `WLC_UP` request,
receives the response and returns `CYW_OK` after three host calls, and the
state is Up: the Error state was left without any `cyw_deinit`.  `cyw_down`
on the same driver returns `CYW_OK` and leaves the state FwReady. -/
theorem error_state_reaches_up :
    exampleErrorWorld.g_cyw_dev.state = CYW_STATE_ERROR ∧
    (cyw_up exampleErrorWorld).1 = CYW_OK ∧
    (cyw_up exampleErrorWorld).1 ≠ CYW_ERR_NOT_READY ∧
    (cyw_up exampleErrorWorld).2.trace =
      [HostCall.cmd53_write 2 0
        [28, 0, 227, 255, 0, 0, 0, 12, 0, 0, 0, 0, 2, 0, 0, 0, 0, 0, 0, 0, 34, 0, 0, 0,
         0, 0, 0, 0] 28 true,
       HostCall.cmd53_read 2 0 4 true, HostCall.cmd53_read 2 0 28 true] ∧
    (cyw_up exampleErrorWorld).2.g_cyw_dev.state = CYW_STATE_UP ∧
    (cyw_down exampleErrorWorld).1 = CYW_OK ∧
    (cyw_down exampleErrorWorld).2.g_cyw_dev.state = CYW_STATE_FW_READY := by
  refine ⟨rfl, by decide, by decide, by decide, by decide, by decide, by decide⟩

/-! ## Matching of the response id in `cyw_ioctl` -/

theorem byteAt_lt (buf : List Nat) (i : Nat) : byteAt buf i < 256 :=
  Nat.mod_lt _ (by norm_num)

theorem rd32_lt (buf : List Nat) (i : Nat) : rd32 buf i < 2 ^ 32 := by
  unfold rd32
  have h0 := byteAt_lt buf i
  have h1 := byteAt_lt buf (i + 1)
  have h2 := byteAt_lt buf (i + 2)
  have h3 := byteAt_lt buf (i + 3)
  refine Nat.or_lt_two_pow (Nat.or_lt_two_pow (Nat.or_lt_two_pow ?_ ?_) ?_) ?_
  · omega
  · rw [Nat.shiftLeft_eq]; omega
  · rw [Nat.shiftLeft_eq]; omega
  · rw [Nat.shiftLeft_eq]; omega

/-- When the request counter stands at 0 after the increment, no response
matches: `(uint32_t)(dev->reqid - 1)` is 0xFFFFFFFF, and the upper half of a
flags word is at most 0xFFFF.  The wait loop runs out. -/
theorem cyw_ioctl_wait_reqid_zero (data : Option (List Nat)) (len : Nat) ( set : Bool)
    (timeout : Nat) :
    ∀ (buf : List Nat) (w : World), w.g_cyw_dev.reqid = 0 →
      (cyw_ioctl_wait data len set timeout buf w).1 = CYW_ERR_TIMEOUT := by
  induction timeout with
  | zero => intro buf w _; rfl
  | succ timeout ih =>
    intro buf w hr
    have t := recv_sdpcm_frame_transport w
    have hr1 : (recv_sdpcm_frame w).world.g_cyw_dev.reqid = 0 := t.reqid_eq.trans hr
    have hno : ∀ b : List Nat,
        ¬ ((recv_sdpcm_frame w).err = CYW_OK ∧
          (recv_sdpcm_frame w).channel = SDPCM_CONTROL_CHANNEL ∧
          rd32 b 8 >>> 16 = toU32 (((recv_sdpcm_frame w).world.g_cyw_dev.reqid : Int) - 1)) := by
      intro b ⟨_, _, h⟩
      rw [hr1] at h
      have h1 : toU32 (((0 : Nat) : Int) - 1) = 4294967295 := by decide
      have h2 := rd32_lt b 8
      rw [h1, Nat.shiftRight_eq_div_pow] at h
      omega
    rw [cyw_ioctl_wait]
    simp only [hno, if_false]
    exact ih _ _ ((delay_ms_transport 1 _).reqid_eq.trans hr1)

/-- With the request counter at 0xFFFF `cyw_ioctl` never returns `CYW_OK`,
whatever the host delivers. -/
theorem cyw_ioctl_reqid_wrap (cmd : Nat) (data : Option (List Nat)) (len : Nat) ( set : Bool)
    (w : World) (hr : w.g_cyw_dev.reqid = 0xFFFF) :
    (cyw_ioctl cmd data len set w).1 ≠ CYW_OK := by
  by_cases hst : CYW_STATE_FW_READY.toNat ≤ w.g_cyw_dev.state.toNat
  · have ts := send_sdpcm_frame_transport SDPCM_CONTROL_CHANNEL
      (some (ioctlBuf w cmd data len set)) ((BCDC_HEADER_SIZE + len) % U32) (bumpReqid w)
    have h0 : (send_sdpcm_frame SDPCM_CONTROL_CHANNEL (some (ioctlBuf w cmd data len set))
        ((BCDC_HEADER_SIZE + len) % U32) (bumpReqid w)).2.g_cyw_dev.reqid = 0 := by
      rw [ts.reqid_eq]; simp [bumpReqid, hr]
    rw [cyw_ioctl_eq cmd data len set w hst]
    split_ifs with h
    · exact h
    · rw [cyw_ioctl_wait_reqid_zero _ _ _ _ _ _ h0]; decide
  · rw [cyw_ioctl_guard cmd data len set w (by omega)]
    exact fun h => cyw_err_t.noConfusion h

/-- One turn of the wait loop accepts a control-channel frame whose id is the
one sent, as long as the counter did not wrap: it returns `CYW_OK`. -/
theorem cyw_ioctl_wait_accepts (data : Option (List Nat)) (len : Nat) ( set : Bool)
    (timeout r : Nat) (buf : List Nat) (w : World)
    (hr : w.g_cyw_dev.reqid = r + 1)
    (herr : (recv_sdpcm_frame w).err = CYW_OK)
    (hch : (recv_sdpcm_frame w).channel = SDPCM_CONTROL_CHANNEL)
    (hid : rd32 (writeAt buf 0 (recv_sdpcm_frame w).payload) 8 >>> 16 = r)
    (hstatus : rd32 (writeAt buf 0 (recv_sdpcm_frame w).payload) 12 = 0)
    (hr16 : r < 65536) :
    (cyw_ioctl_wait data len set (timeout + 1) buf w).1 = CYW_OK := by
  have t := recv_sdpcm_frame_transport w
  have hr1 : (recv_sdpcm_frame w).world.g_cyw_dev.reqid = r + 1 := t.reqid_eq.trans hr
  have h1 : toU32 (((r + 1 : Nat) : Int) - 1) = r := by
    unfold toU32
    have : (((r + 1 : Nat) : Int) - 1) = (r : Int) := by push_cast; ring
    rw [this]
    omega
  rw [cyw_ioctl_wait]
  simp only [herr, hch, hr1, h1, hid, hstatus, if_true, and_self, ne_eq, not_true_eq_false,
    if_false]

/-- C3, the code at the failing input: with the request counter at 0xFFFF
the host answers every receive with a valid control-channel frame whose BCDC
flags carry id 0xFFFF and whose status is 0, and `cyw_ioctl` still returns
`CYW_ERR_TIMEOUT`. -/
theorem cyw_ioctl_reqid_wrap_timeout :
    exampleWrapWorld.g_cyw_dev.reqid = 0xFFFF ∧
    (recv_sdpcm_frame exampleWrapWorld).err = CYW_OK ∧
    (recv_sdpcm_frame exampleWrapWorld).channel = SDPCM_CONTROL_CHANNEL ∧
    rd32 (recv_sdpcm_frame exampleWrapWorld).payload 8 >>> 16 = 0xFFFF ∧
    rd32 (recv_sdpcm_frame exampleWrapWorld).payload 12 = 0 ∧
    (cyw_ioctl WLC_UP none 0 true exampleWrapWorld).1 = CYW_ERR_TIMEOUT := by
  refine ⟨rfl, by decide, by decide, by decide, by decide, ?_⟩
  have ts := send_sdpcm_frame_transport SDPCM_CONTROL_CHANNEL
    (some (ioctlBuf exampleWrapWorld WLC_UP none 0 true)) ((BCDC_HEADER_SIZE + 0) % U32)
    (bumpReqid exampleWrapWorld)
  have h0 : (send_sdpcm_frame SDPCM_CONTROL_CHANNEL
      (some (ioctlBuf exampleWrapWorld WLC_UP none 0 true)) ((BCDC_HEADER_SIZE + 0) % U32)
      (bumpReqid exampleWrapWorld)).2.g_cyw_dev.reqid = 0 := by
    rw [ts.reqid_eq]; rfl
  have hsend : (send_sdpcm_frame SDPCM_CONTROL_CHANNEL
      (some (ioctlBuf exampleWrapWorld WLC_UP none 0 true)) ((BCDC_HEADER_SIZE + 0) % U32)
      (bumpReqid exampleWrapWorld)).1 = CYW_OK := by
    rw [send_sdpcm_frame_eq, sdio_write_bytes_ok]
    exact ⟨⟨exampleOps, rfl, rfl, rfl, rfl, rfl⟩, fun _ => rfl⟩
  rw [cyw_ioctl_eq WLC_UP none 0 true exampleWrapWorld (by decide)]
  rw [if_neg (by rw [hsend]; decide)]
  exact cyw_ioctl_wait_reqid_zero _ _ _ _ _ _ h0

/-! ## The wait loop of `cyw_ioctl` -/

/-- As long as no turn accepts, the wait loop makes one receive per unit of
its budget, each followed by `delay_ms(1)`, and then returns
`CYW_ERR_TIMEOUT` with the caller's data untouched. -/
theorem cyw_ioctl_wait_exhausts (data : Option (List Nat)) (len : Nat) ( set : Bool)
    (n : Nat) :
    ∀ (buf : List Nat) (w : World),
      (∀ i, i < n → ¬ ioctlAccepts (ioctlWaitTurn^[i] (buf, w))) →
      cyw_ioctl_wait data len set n buf w =
        ( CYW_ERR_TIMEOUT, data, (ioctlWaitTurn^[n] (buf, w)).2) := by
  induction n with
  | zero => intro buf w _; rfl
  | succ n ih =>
    intro buf w h
    have h0 : ¬ ioctlAccepts (buf, w) := h 0 (Nat.succ_pos n)
    have hn : ¬ ((recv_sdpcm_frame w).err = CYW_OK ∧
        (recv_sdpcm_frame w).channel = SDPCM_CONTROL_CHANNEL ∧
        rd32 (if (recv_sdpcm_frame w).err = CYW_OK then writeAt buf 0 (recv_sdpcm_frame w).payload
              else buf) 8 >>> 16 =
          toU32 (((recv_sdpcm_frame w).world.g_cyw_dev.reqid : Int) - 1)) := h0
    rw [cyw_ioctl_wait]
    simp only [hn, if_false]
    rw [Function.iterate_succ_apply]
    exact ih _ _ (fun i hi => by
      have := h (i + 1) (Nat.succ_lt_succ hi)
      rwa [Function.iterate_succ_apply] at this)

/-- What a receive does to the credit fields: a valid frame stores its bytes
8 and 9 into `flow_ctrl` and `tx_max`, anything else leaves both alone. -/
theorem recv_sdpcm_frame_credit (w : World) :
    ((recv_sdpcm_frame w).err = CYW_OK →
      (recv_sdpcm_frame w).world.g_cyw_dev.flow_ctrl =
        byteAt (recv_sdpcm_frame w).world.g_cyw_dev.rx_buf 8 ∧
      (recv_sdpcm_frame w).world.g_cyw_dev.tx_max =
        byteAt (recv_sdpcm_frame w).world.g_cyw_dev.rx_buf 9) ∧
    ((recv_sdpcm_frame w).err ≠ CYW_OK →
      (recv_sdpcm_frame w).world.g_cyw_dev.flow_ctrl = w.g_cyw_dev.flow_ctrl ∧
      (recv_sdpcm_frame w).world.g_cyw_dev.tx_max = w.g_cyw_dev.tx_max) := by
  have hdev : ∀ (f a : Nat) (b : List Nat) (n : Nat) (i : Bool) (v : World),
      (sdio_read_bytes f a b n i v).2.2.g_cyw_dev = v.g_cyw_dev := by
    intro f a b n i v
    unfold sdio_read_bytes
    split
    · rfl
    · split <;> rfl
  unfold recv_sdpcm_frame
  simp only
  split_ifs with h1 h2 h3 h4 <;> refine ⟨fun h => ?_, fun h => ?_⟩ <;> simp_all [hdev]

set_option maxRecDepth 8000 in
/-- C11, the code at the failing input: the request (a GET of six bytes with
id 1) is answered only by control-channel frames that carry no payload at
all, hence no BCDC header and no request id.  The first receive leaves the
request's own header in `buf`, the id test compares the id sent with itself,
and `cyw_ioctl` returns `CYW_OK` after one receive attempt, having copied six
bytes of its uninitialised local buffer to the caller. -/
theorem cyw_ioctl_short_frame_accepted :
    exampleShortWorld.g_cyw_dev.reqid = 1 ∧
    (∀ k, (exampleShortWorld.host k).bytes = exampleEmptyFrame) ∧
    (recv_sdpcm_frame exampleShortWorld).err = CYW_OK ∧
    (recv_sdpcm_frame exampleShortWorld).channel = SDPCM_CONTROL_CHANNEL ∧
    (recv_sdpcm_frame exampleShortWorld).payload = [] ∧
    (cyw_ioctl WLC_GET_BSSID (some [0, 0, 0, 0, 0, 0]) 6 false exampleShortWorld).1 = CYW_OK ∧
    (cyw_ioctl WLC_GET_BSSID (some [0, 0, 0, 0, 0, 0]) 6 false exampleShortWorld).2.1 =
      some [0xAA, 0xAA, 0xAA, 0xAA, 0xAA, 0xAA] ∧
    ((cyw_ioctl WLC_GET_BSSID (some [0, 0, 0, 0, 0, 0]) 6 false
        exampleShortWorld).2.2.trace.drop 1) =
      [HostCall.cmd53_read 2 0 4 true, HostCall.cmd53_read 2 0 12 true] := by
  refine ⟨rfl, fun _ => rfl, ?_, ?_, ?_, ?_, ?_, ?_⟩
  · decide
  · decide
  · decide
  · decide
  · decide
  · decide

/-! ## The payload of `cyw_iovar` -/

set_option maxRecDepth 8000 in
/-- C12, the code at the failing input: a GET of the variable "ab" with a
four-byte value buffer, request counter 1, on a stack that holds 0xAA.  The
frame handed to the host carries, behind the SDPCM header and the BCDC header
(`WLC_GET_VAR`, length 7, flags 0x00010020), seven bytes of the uninitialised
local buffer of `cyw_ioctl` instead of `'a','b',0` and the value; the same
call as a SET carries the name, the NUL and the value. -/
theorem cyw_iovar_get_payload_uninitialised :
    (cyw_iovar [97, 98] (some [1, 2, 3, 4]) 4 false exampleShortWorld).2.2.trace.head? =
      some (HostCall.cmd53_write 2 0
        [35, 0, 0xDC, 0xFF, 0, 0, 0, 12, 0, 0, 0, 0,
         6, 1, 0, 0,  7, 0, 0, 0,  0x20, 0, 1, 0,  0, 0, 0, 0,
         0xAA, 0xAA, 0xAA, 0xAA, 0xAA, 0xAA, 0xAA, 0] 36 true) ∧
    (cyw_iovar [97, 98] (some [1, 2, 3, 4]) 4 true exampleShortWorld).2.2.trace.head? =
      some (HostCall.cmd53_write 2 0
        [35, 0, 0xDC, 0xFF, 0, 0, 0, 12, 0, 0, 0, 0,
         7, 1, 0, 0,  7, 0, 0, 0,  0x22, 0, 1, 0,  0, 0, 0, 0,
         97, 98, 0, 1, 2, 3, 4, 0] 36 true) := by
  constructor
  · decide
  · decide

/-! ## The copy-out of a GET -/

/-- When the wait loop returns `CYW_OK` it does so on a control-channel frame
received in a world `v` reached from `w`; `b` is the local buffer before that
receive, and the caller's data is the copy-out from the buffer after it. -/
theorem cyw_ioctl_wait_ok_response (data : Option (List Nat)) (len : Nat) ( set : Bool)
    (n : Nat) :
    ∀ (buf : List Nat) (w : World),
      (cyw_ioctl_wait data len set n buf w).1 = CYW_OK →
      ∃ (v : World) (b : List Nat), Transport w v ∧
        (recv_sdpcm_frame v).err = CYW_OK ∧
        (recv_sdpcm_frame v).channel = SDPCM_CONTROL_CHANNEL ∧
        rd32 (writeAt b 0 (recv_sdpcm_frame v).payload) 12 = 0 ∧
        (cyw_ioctl_wait data len set n buf w).2.1 =
          ioctl_copy_out data len set (writeAt b 0 (recv_sdpcm_frame v).payload) := by
  induction n with
  | zero => intro buf w h; exact absurd h (by simp [cyw_ioctl_wait])
  | succ n ih =>
    intro buf w h
    rw [cyw_ioctl_wait] at h ⊢
    have tn := (recv_sdpcm_frame_transport w).andThen
      (delay_ms_transport 1 (recv_sdpcm_frame w).world)
    by_cases he : (recv_sdpcm_frame w).err = CYW_OK
    · simp only [he, if_true, true_and] at h ⊢
      split_ifs at h ⊢ with h1 h2
      · exact ⟨w, buf, Transport.stay w, he, h1.1, not_not.mp h2, rfl⟩
      · obtain ⟨v, b, t, hv⟩ := ih _ _ h
        exact ⟨v, b, tn.andThen t, hv⟩
    · simp only [he, if_false, false_and] at h ⊢
      obtain ⟨v, b, t, hv⟩ := ih _ _ h
      exact ⟨v, b, tn.andThen t, hv⟩

/-- A `cyw_ioctl` that returns `CYW_OK` accepted a control-channel frame
received during the call, and the caller's data is the copy-out from the
local buffer that holds that frame's payload. -/
theorem cyw_ioctl_ok_response (cmd : Nat) (data : Option (List Nat)) (len : Nat) ( set : Bool)
    (w : World) (h : (cyw_ioctl cmd data len set w).1 = CYW_OK) :
    ∃ (v : World) (b : List Nat), Session w v ∧
      (recv_sdpcm_frame v).err = CYW_OK ∧
      (recv_sdpcm_frame v).channel = SDPCM_CONTROL_CHANNEL ∧
      rd32 (writeAt b 0 (recv_sdpcm_frame v).payload) 12 = 0 ∧
      (cyw_ioctl cmd data len set w).2.1 =
        ioctl_copy_out data len set (writeAt b 0 (recv_sdpcm_frame v).payload) := by
  by_cases hst : CYW_STATE_FW_READY.toNat ≤ w.g_cyw_dev.state.toNat
  · have ts := (send_sdpcm_frame_transport SDPCM_CONTROL_CHANNEL
      (some (ioctlBuf w cmd data len set)) ((BCDC_HEADER_SIZE + len) % U32)
      (bumpReqid w)).toSession
    rw [cyw_ioctl_eq cmd data len set w hst] at h ⊢
    split_ifs at h ⊢ with hs
    · exact absurd h hs
    · obtain ⟨v, b, t, hv⟩ := cyw_ioctl_wait_ok_response data len set 100 _ _ h
      exact ⟨v, b, ((bumpReqid_session w).next ts).next t.toSession, hv⟩
  · rw [cyw_ioctl_guard cmd data len set w (by omega)] at h
    exact absurd h (by simp)

theorem byteAt_append (P t : List Nat) (i : Nat) (h : i < P.length) :
    byteAt (P ++ t) i = byteAt P i := by
  unfold byteAt
  rw [List.getD_append _ _ _ _ h]

theorem rd32_append (P t : List Nat) (i : Nat) (h : i + 3 < P.length) :
    rd32 (P ++ t) i = rd32 P i := by
  unfold rd32
  rw [byteAt_append P t i (by omega), byteAt_append P t (i + 1) (by omega),
    byteAt_append P t (i + 2) (by omega), byteAt_append P t (i + 3) (by omega)]

/-- The bytes that reach the caller of a GET `cyw_iovar`: `B` is the local
buffer of `cyw_iovar`, `b` that of `cyw_ioctl`, `P` the payload of the frame
accepted. -/
theorem iovar_get_bytes (B b P : List Nat) (k len : Nat)
    (hP : 16 + (k + len) ≤ P.length) (hl : k + len ≤ rd32 P 4) :
    ((writeAt B 0 (((writeAt b 0 P).drop BCDC_HEADER_SIZE).take
        (min (rd32 (writeAt b 0 P) 4) (k + len)))).drop k).take len =
      (P.drop (16 + k)).take len := by
  have h4 : rd32 (writeAt b 0 P) 4 = rd32 P 4 := by
    rw [writeAt_zero]; exact rd32_append _ _ _ (by omega)
  have hX : ((writeAt b 0 P).drop BCDC_HEADER_SIZE).take (k + len) =
      (P.drop 16).take (k + len) := by
    rw [writeAt_zero, List.drop_append_of_le_length (by simp only [BCDC_HEADER_SIZE]; omega),
      List.take_append_of_le_length (by simp only [List.length_drop, BCDC_HEADER_SIZE]; omega)]
    rfl
  rw [h4, Nat.min_eq_right hl, hX, writeAt_zero,
    List.drop_append_of_le_length (by simp only [List.length_take, List.length_drop]; omega),
    List.take_append_of_le_length (by
      simp only [List.length_take, List.length_drop]; omega),
    List.drop_take, List.drop_drop, List.take_take, Nat.add_sub_cancel_left, Nat.min_self]

/-- The GET case of `cyw_iovar` for a request that fits: one `cyw_ioctl` on
the local buffer `B`, then the copy from `B + name_len`. -/
theorem cyw_iovar_get_eq (name d : List Nat) (len : Nat) (w : World)
    (hlen : 0 < len) (hfit : name.length + 1 + len ≤ 256) :
    ∃ B : List Nat,
      (cyw_iovar name (some d) len false w).1 =
        (cyw_ioctl WLC_GET_VAR (some B) (name.length + 1 + len) false w).1 ∧
      ((cyw_ioctl WLC_GET_VAR (some B) (name.length + 1 + len) false w).1 = CYW_OK →
        (cyw_iovar name (some d) len false w).2.1 =
          some (writeAt d 0
            ((((cyw_ioctl WLC_GET_VAR (some B) (name.length + 1 + len) false w).2.1.getD
              []).drop (name.length + 1)).take len))) := by
  have h1 : (name.length + 1) % U32 = name.length + 1 := Nat.mod_eq_of_lt (by unfold U32; omega)
  have h2 : (name.length + 1 + len) % U32 = name.length + 1 + len :=
    Nat.mod_eq_of_lt (by unfold U32; omega)
  have h3 : ¬ name.length + 1 + len > 256 := by omega
  unfold cyw_iovar
  simp only [h1, h2, h3, if_false, hlen, gt_iff_lt, if_true, and_true, Bool.false_eq_true]
  refine ⟨writeAt (writeAt (w.fresh 256) 0 (List.take (name.length + 1) (name ++ [0])))
    (name.length + 1) (List.take len d), ?_, ?_⟩
  · split_ifs <;> rfl
  · intro hok
    rw [if_pos hok]

set_option maxRecDepth 8000 in
/-- C13, the claim as stated fails: a GET of two bytes of the variable "a" is
answered by a matching response with status 0 whose payload behind the BCDC
header is 1, 2, 3, 4; `cyw_iovar` returns `CYW_OK` and the caller's buffer
holds 3, 4, the bytes at offset `strlen("a") + 1 = 2`, not the first two. -/
theorem cyw_iovar_get_offset_counterexample :
    (recv_sdpcm_frame exampleGetWorld).err = CYW_OK ∧
    (recv_sdpcm_frame exampleGetWorld).channel = SDPCM_CONTROL_CHANNEL ∧
    rd32 (recv_sdpcm_frame exampleGetWorld).payload 8 >>> 16 = exampleGetWorld.g_cyw_dev.reqid ∧
    rd32 (recv_sdpcm_frame exampleGetWorld).payload 12 = 0 ∧
    (recv_sdpcm_frame exampleGetWorld).payload.drop 16 = [1, 2, 3, 4] ∧
    (cyw_iovar [97] (some [0, 0]) 2 false exampleGetWorld).1 = CYW_OK ∧
    (cyw_iovar [97] (some [0, 0]) 2 false exampleGetWorld).2.1 = some [3, 4] := by
  refine ⟨?_, ?_, ?_, ?_, ?_, ?_, ?_⟩ <;> decide

/-! ## No length check in `cyw_ioctl`; the length check of `cyw_iovar` -/

theorem sdio_read_bytes_dev (f a : Nat) (b : List Nat) (n : Nat) (i : Bool) (w : World) :
    (sdio_read_bytes f a b n i w).2.2.g_cyw_dev = w.g_cyw_dev := by
  unfold sdio_read_bytes
  split
  · rfl
  · split <;> rfl

theorem sdio_write_bytes_dev (f a : Nat) (d : List Nat) (n : Nat) (i : Bool) (w : World) :
    (sdio_write_bytes f a d n i w).2.g_cyw_dev = w.g_cyw_dev := by
  unfold sdio_write_bytes
  split
  · rfl
  · split <;> rfl

theorem delay_ms_dev (ms : Nat) (w : World) : (delay_ms ms w).g_cyw_dev = w.g_cyw_dev := by
  unfold delay_ms
  split
  · rfl
  · split <;> rfl

theorem recv_sdpcm_frame_tx_seq (w : World) :
    (recv_sdpcm_frame w).world.g_cyw_dev.tx_seq = w.g_cyw_dev.tx_seq := by
  unfold recv_sdpcm_frame
  simp only
  split_ifs <;> simp [sdio_read_bytes_dev]

theorem cyw_ioctl_wait_tx_seq (data : Option (List Nat)) (len : Nat) ( set : Bool)
    (n : Nat) :
    ∀ (buf : List Nat) (w : World),
      (cyw_ioctl_wait data len set n buf w).2.2.g_cyw_dev.tx_seq = w.g_cyw_dev.tx_seq := by
  induction n with
  | zero => intro buf w; rfl
  | succ n ih =>
    intro buf w
    rw [cyw_ioctl_wait]
    split_ifs <;>
      first
      | exact recv_sdpcm_frame_tx_seq w
      | (rw [ih, delay_ms_dev]; exact recv_sdpcm_frame_tx_seq w)

/-- Past its guard `cyw_ioctl` always advances `tx_seq` by one (mod 256). -/
theorem cyw_ioctl_tx_seq (cmd : Nat) (data : Option (List Nat)) (len : Nat) ( set : Bool)
    (w : World) (hst : CYW_STATE_FW_READY.toNat ≤ w.g_cyw_dev.state.toNat) :
    (cyw_ioctl cmd data len set w).2.2.g_cyw_dev.tx_seq = (w.g_cyw_dev.tx_seq + 1) % 256 := by
  have hs : (send_sdpcm_frame SDPCM_CONTROL_CHANNEL (some (ioctlBuf w cmd data len set))
      ((BCDC_HEADER_SIZE + len) % U32) (bumpReqid w)).2.g_cyw_dev.tx_seq =
      (w.g_cyw_dev.tx_seq + 1) % 256 := by
    rw [send_sdpcm_frame_eq, sdio_write_bytes_dev]; rfl
  rw [cyw_ioctl_eq cmd data len set w hst]
  split_ifs
  · exact hs
  · rw [cyw_ioctl_wait_tx_seq]; exact hs

theorem sdio_write_bytes_codes (f a : Nat) (d : List Nat) (n : Nat) (i : Bool) (w : World) :
    (sdio_write_bytes f a d n i w).1 = CYW_OK ∨ (sdio_write_bytes f a d n i w).1 = CYW_ERR_IO ∨
    (sdio_write_bytes f a d n i w).1 = CYW_ERR_INVALID := by
  unfold sdio_write_bytes
  split
  · simp
  · split
    · simp only; split <;> simp
    · simp

theorem cyw_ioctl_wait_codes (data : Option (List Nat)) (len : Nat) ( set : Bool) (n : Nat) :
    ∀ (buf : List Nat) (w : World),
      (cyw_ioctl_wait data len set n buf w).1 = CYW_OK ∨
      (cyw_ioctl_wait data len set n buf w).1 = CYW_ERROR ∨
      (cyw_ioctl_wait data len set n buf w).1 = CYW_ERR_TIMEOUT := by
  induction n with
  | zero => intro buf w; simp [cyw_ioctl_wait]
  | succ n ih =>
    intro buf w
    rw [cyw_ioctl_wait]
    split_ifs <;> first | exact ih _ _ | simp

/-- The codes `cyw_ioctl` can return; `CYW_ERR_NOMEM` is not among them. -/
theorem cyw_ioctl_codes (cmd : Nat) (data : Option (List Nat)) (len : Nat) ( set : Bool)
    (w : World) :
    (cyw_ioctl cmd data len set w).1 = CYW_OK ∨ (cyw_ioctl cmd data len set w).1 = CYW_ERROR ∨
    (cyw_ioctl cmd data len set w).1 = CYW_ERR_TIMEOUT ∨
    (cyw_ioctl cmd data len set w).1 = CYW_ERR_IO ∨
    (cyw_ioctl cmd data len set w).1 = CYW_ERR_INVALID ∨
    (cyw_ioctl cmd data len set w).1 = CYW_ERR_NOT_READY := by
  by_cases hst : CYW_STATE_FW_READY.toNat ≤ w.g_cyw_dev.state.toNat
  · rw [cyw_ioctl_eq cmd data len set w hst]
    split_ifs
    · rw [send_sdpcm_frame_eq]
      rcases sdio_write_bytes_codes SDIO_FUNC_2 0
        (txAfterSend (bumpReqid w).g_cyw_dev.tx_buf (bumpReqid w).g_cyw_dev.tx_seq
          SDPCM_CONTROL_CHANNEL (some (ioctlBuf w cmd data len set))
          ((BCDC_HEADER_SIZE + len) % U32))
        (ALIGN ((SDPCM_HEADER_SIZE + (BCDC_HEADER_SIZE + len) % U32) % U32) 4) true
        _ with h | h | h
      · exact Or.inl h
      · exact Or.inr (Or.inr (Or.inr (Or.inl h)))
      · exact Or.inr (Or.inr (Or.inr (Or.inr (Or.inl h))))
    · rcases cyw_ioctl_wait_codes data len set 100 (ioctlBuf w cmd data len set)
        (send_sdpcm_frame SDPCM_CONTROL_CHANNEL (some (ioctlBuf w cmd data len set))
          ((BCDC_HEADER_SIZE + len) % U32) (bumpReqid w)).2 with h | h | h
      · exact Or.inl h
      · exact Or.inr (Or.inl h)
      · exact Or.inr (Or.inr (Or.inl h))
  · rw [cyw_ioctl_guard cmd data len set w (by omega)]
    simp

theorem cyw_ioctl_not_nomem (cmd : Nat) (data : Option (List Nat)) (len : Nat) ( set : Bool)
    (w : World) : (cyw_ioctl cmd data len set w).1 ≠ CYW_ERR_NOMEM := by
  rcases cyw_ioctl_codes cmd data len set w with h | h | h | h | h | h <;> rw [h] <;> decide

/-- A SET of 496 bytes fills the local buffer of `cyw_ioctl` exactly: header,
then the caller's 496 bytes. -/
theorem ioctlBuf_full (w : World) (cmd : Nat) (d : List Nat) (hd : 496 ≤ d.length) :
    ioctlBuf w cmd (some d) 496 true =
      (le32 cmd ++ le32 496 ++ le32 (bcdcFlags true w.g_cyw_dev.reqid) ++ le32 0) ++
        d.take 496 := by
  have hf : (w.fresh 512).length = 512 := by simp [World.fresh]
  have hH : (le32 cmd ++ le32 496 ++ le32 (bcdcFlags true w.g_cyw_dev.reqid) ++ le32 0).length
      = 16 := by simp [le32]
  unfold ioctlBuf
  simp only [true_and, gt_iff_lt, Nat.zero_lt_succ, if_true, and_self, writeAt_zero]
  rw [hH]
  unfold writeAt
  rw [List.take_append_of_le_length (by rw [hH, BCDC_HEADER_SIZE]),
    show BCDC_HEADER_SIZE = (le32 cmd ++ le32 496 ++ le32 (bcdcFlags true w.g_cyw_dev.reqid) ++
      le32 0).length from hH.symm, List.take_length,
    List.drop_eq_nil_of_le (by
      simp only [List.length_append, List.length_drop, List.length_take, hf, hH]; omega),
    List.append_nil]

set_option maxRecDepth 100000 in
/-- C14, the code at the failing input: a SET `cyw_ioctl` of 497 bytes in
state FwReady.  With 496 bytes the request fills the 512-byte `buf` exactly.
With 497 bytes the call is not refused: the copy of the payload to offset 16
of `buf` ends one byte behind the array (the request then occupies 513
bytes, the last one being the caller's last byte), a frame of 528 bytes that
carries all 497 bytes is handed to the host, the code returned is not
`CYW_ERR_NOMEM`, and `tx_seq` and the request counter have advanced from 0
to 1. -/
theorem cyw_ioctl_overruns_buf :
    (exampleReadyWorld.fresh 512).length = 512 ∧
    (ioctlBuf exampleReadyWorld WLC_SET_VAR (some (List.replicate 496 7)) 496 true).length =
      512 ∧
    (ioctlBuf exampleReadyWorld WLC_SET_VAR (some (List.replicate 497 7)) 497 true).length =
      513 ∧
    (ioctlBuf exampleReadyWorld WLC_SET_VAR (some (List.replicate 497 7)) 497 true).drop 512 =
      [7] ∧
    (cyw_ioctl WLC_SET_VAR (some (List.replicate 497 7)) 497 true exampleReadyWorld).1 ≠
      CYW_ERR_NOMEM ∧
    (∃ (frame : List Nat) (rest : List HostCall),
      (cyw_ioctl WLC_SET_VAR (some (List.replicate 497 7)) 497 true exampleReadyWorld).2.2.trace =
        HostCall.cmd53_write 2 0 frame 528 true :: rest ∧
      (frame.drop 28).take 497 = List.replicate 497 7) ∧
    exampleReadyWorld.g_cyw_dev.tx_seq = 0 ∧ exampleReadyWorld.g_cyw_dev.reqid = 0 ∧
    (cyw_ioctl WLC_SET_VAR (some (List.replicate 497 7)) 497 true
      exampleReadyWorld).2.2.g_cyw_dev.tx_seq = 1 ∧
    (cyw_ioctl WLC_SET_VAR (some (List.replicate 497 7)) 497 true
      exampleReadyWorld).2.2.g_cyw_dev.reqid = 1 := by
  obtain ⟨⟨rest, htr⟩, hreq⟩ := cyw_ioctl_first_call WLC_SET_VAR (some (List.replicate 497 7))
    497 true exampleReadyWorld exampleOps (by decide) rfl rfl
  have hL : ALIGN ((SDPCM_HEADER_SIZE + (BCDC_HEADER_SIZE + 497) % U32) % U32) 4 = 528 := by
    decide
  rw [hL] at htr
  refine ⟨by decide, by decide, by decide, by decide, cyw_ioctl_not_nomem _ _ _ _ _,
    ⟨_, rest, htr, by decide⟩, rfl, rfl,
    cyw_ioctl_tx_seq _ _ _ _ exampleReadyWorld (by decide), hreq⟩

/-! ## The length check of `cyw_iovar` -/

/-- C15 (as amended): for every name, value length and direction with
`strlen(name) + 1 + len < 2^32`, `cyw_iovar` returns `CYW_ERR_NOMEM` exactly
when `strlen(name) + 1 + len > 256`, and then it leaves the world and the
caller's data as they were (no host callback); a request of at most 256
bytes, 256 included, is handed to one `cyw_ioctl` call with that length,
whose code and world are the result. -/
theorem cyw_iovar_length_check (name : List Nat) (data : Option (List Nat)) (len : Nat)
    ( set : Bool) (w : World) (hb : name.length + 1 + len < 2 ^ 32) :
    ((cyw_iovar name data len set w).1 = CYW_ERR_NOMEM ↔ name.length + 1 + len > 256) ∧
    (name.length + 1 + len > 256 →
      (cyw_iovar name data len set w).2.2 = w ∧ (cyw_iovar name data len set w).2.1 = data) ∧
    (name.length + 1 + len ≤ 256 →
      ∃ buf : List Nat,
        (cyw_iovar name data len set w).1 =
          (cyw_ioctl (if set then WLC_SET_VAR else WLC_GET_VAR) (some buf)
            (name.length + 1 + len) set w).1 ∧
        (cyw_iovar name data len set w).2.2 =
          (cyw_ioctl (if set then WLC_SET_VAR else WLC_GET_VAR) (some buf)
            (name.length + 1 + len) set w).2.2) := by
  have h1 : (name.length + 1) % U32 = name.length + 1 := Nat.mod_eq_of_lt (by unfold U32; omega)
  have h2 : (name.length + 1 + len) % U32 = name.length + 1 + len :=
    Nat.mod_eq_of_lt (by unfold U32; omega)
  have hc := cyw_iovar_cases name data len set w
  rw [h1, h2] at hc
  refine ⟨⟨fun h => ?_, fun h => ?_⟩, fun h => ?_, fun h => ?_⟩
  · rcases hc with ⟨hgt, _, _⟩ | ⟨_, buf, e, _⟩
    · exact hgt
    · rw [e] at h
      exact absurd h (cyw_ioctl_not_nomem _ _ _ _ _)
  · rcases hc with ⟨_, e, _⟩ | ⟨hle, _⟩
    · exact e
    · exact absurd h hle
  · rcases hc with ⟨_, _, e⟩ | ⟨hle, _⟩
    · refine ⟨e, ?_⟩
      unfold cyw_iovar
      simp only [h1, h2, h, if_true]
    · exact absurd h hle
  · rcases hc with ⟨hgt, _, _⟩ | ⟨_, hbuf⟩
    · omega
    · exact hbuf

/-- The length-check theorem at a request of exactly 256 bytes (a name of 15
characters, its NUL and 240 value bytes) and at one of 257 bytes. -/
theorem cyw_iovar_length_check_witness :
    ((List.replicate 15 97).length + 1 + 240 < 2 ^ 32 ∧
      (List.replicate 15 97).length + 1 + 241 < 2 ^ 32) ∧
    (cyw_iovar (List.replicate 15 97) none 240 true exampleReadyWorld).1 ≠ CYW_ERR_NOMEM ∧
    (cyw_iovar (List.replicate 15 97) none 241 true exampleReadyWorld).1 = CYW_ERR_NOMEM :=
  ⟨⟨by decide, by decide⟩,
   fun h => absurd ((cyw_iovar_length_check (List.replicate 15 97) none 240 true
      exampleReadyWorld (by decide)).1.mp h) (by decide),
   (cyw_iovar_length_check (List.replicate 15 97) none 241 true exampleReadyWorld
      (by decide)).1.mpr (by decide)⟩

/-- C15, the claim as stated fails: for the name "a" and `len = 2^32 - 2` the
sum `strlen(name) + 1 + len` is `2^32 > 256`, yet the 32-bit `total_len` is 0,
the check passes, and `cyw_iovar` sends a request instead of returning
`CYW_ERR_NOMEM`. -/
theorem cyw_iovar_length_check_counterexample :
    [97].length + 1 + 4294967294 > 256 ∧
    (cyw_iovar [97] none 4294967294 true exampleReadyWorld).1 ≠ CYW_ERR_NOMEM ∧
    SendsFrameFirst exampleReadyWorld
      (cyw_iovar [97] none 4294967294 true exampleReadyWorld).2.2 := by
  refine ⟨by decide, ?_, ?_⟩
  · rcases cyw_iovar_cases [97] none 4294967294 true exampleReadyWorld with
      ⟨h, _, _⟩ | ⟨_, buf, e, _⟩
    · exact absurd h (by decide)
    · rw [e]; exact cyw_ioctl_not_nomem _ _ _ _ _
  · rcases cyw_iovar_cases [97] none 4294967294 true exampleReadyWorld with
      ⟨h, _, _⟩ | ⟨_, buf, _, e⟩
    · exact absurd h (by decide)
    · rw [e]
      exact cyw_ioctl_sends _ _ _ _ exampleReadyWorld exampleOps (by decide) rfl rfl

/-! ## The NVRAM footer written by `cyw_load_firmware` -/

theorem cyw_backplane_write_loop_ok (fuel : Nat) :
    ∀ (addr : Nat) (data : List Nat) (len : Nat) (w : World), AllHostCallsSucceed w →
      (cyw_backplane_write_loop fuel addr data len w).1 = CYW_OK := by
  induction fuel with
  | zero => intro addr data len w _; rfl
  | succ fuel ih =>
    intro addr data len w hw
    rcases Nat.eq_zero_or_pos len with hl | hl
    · rw [hl, cyw_backplane_write_loop_zero]
    · rw [cyw_backplane_write_loop_step hw fuel addr data len hl]
      exact ih _ _ _ _ ((afterWindow_ok hw addr).transfer rfl rfl)

theorem and_byte_mask (x : Nat) : x &&& 0xFF = x % 256 := Nat.and_pow_two_sub_one_eq_mod x 8

/-- `cyw_sdio_write32` when the host succeeds: the window is brought up to
date and one four-byte bulk write carries the value, little-endian. -/
theorem cyw_sdio_write32_ok {w : World} (h : AllHostCallsSucceed w) (addr val : Nat) :
    cyw_sdio_write32 addr val w =
      (CYW_OK, { afterWindow addr w with
        trace := (afterWindow addr w).trace ++
          [HostCall.cmd53_write 1 ((addr &&& 0x7FFF) ||| 0x8000) (le32 val) 4 true] }) := by
  unfold cyw_sdio_write32
  simp only [set_backplane_window_ok h, ne_eq, not_true_eq_false, if_false]
  rw [sdio_write_bytes_ok (afterWindow_ok h addr)]
  simp [le32, and_byte_mask, SDIO_FUNC_1, SBSDIO_SB_OFT_ADDR_MASK, SBSDIO_SB_ACCESS_2_4B_FLAG]

theorem load_firmware_wait_mbox_trace (timeout : Nat) :
    ∀ w : World, ∃ ext, (load_firmware_wait_mbox timeout w).2.trace = w.trace ++ ext := by
  induction timeout with
  | zero => intro w; exact ⟨[], (List.append_nil _).symm⟩
  | succ timeout ih =>
    intro w
    have t := cyw_sdio_read32_transport 0x18002048 w
    rw [load_firmware_wait_mbox]
    split_ifs
    · exact t.trace_ext
    · exact t.trace_ext
    · obtain ⟨e1, h1⟩ := (t.andThen (delay_ms_transport 10 _)).trace_ext
      obtain ⟨e2, h2⟩ := ih (delay_ms 10 (cyw_sdio_read32 0x18002048 w).2.2)
      exact ⟨e1 ++ e2, by rw [h2, h1, List.append_assoc]⟩

theorem load_firmware_start_trace (w : World) :
    ∃ ext, (load_firmware_start w).2.trace = w.trace ++ ext := by
  have t := load_firmware_wait_ht_transport 200 w
  unfold load_firmware_start
  simp only
  split_ifs
  · exact t.trace_ext
  · obtain ⟨e1, h1⟩ := t.trace_ext
    obtain ⟨e2, h2⟩ := load_firmware_wait_mbox_trace 100 (load_firmware_wait_ht 200 w).2
    exact ⟨e1 ++ e2, by rw [h2, h1, List.append_assoc]⟩

theorem ChunksFrom.snoc (c : Nat × List Nat) :
    ∀ (cs : List (Nat × List Nat)) (a : Nat), ChunksFrom a cs →
      c.1 = a + ((cs.map Prod.snd).flatten).length → ChunksFrom a (cs ++ [c]) := by
  intro cs
  induction cs with
  | nil => intro a _ h; simpa [ChunksFrom] using h
  | cons x xs ih =>
    intro a h hc
    obtain ⟨h1, h2⟩ := h
    refine ⟨h1, ih _ h2 ?_⟩
    simp only [List.map_cons, List.flatten_cons, List.length_append] at hc
    omega

/-- The footer value for a word count below 2^16: the count in the low half,
its 16-bit complement in the high half. -/
theorem nvramFooter_halves (L : Nat) (h : L / 4 < 2 ^ 16) :
    nvramFooter L = 65536 * (65535 - L / 4) + L / 4 := by
  have hs : ((U32 - 1 - L / 4) <<< 16) % U32 = 65536 * (65535 - L / 4) := by
    rw [Nat.shiftLeft_eq]
    unfold U32
    omega
  unfold nvramFooter
  rw [hs, Nat.lor_comm]
  exact (Nat.mul_add_lt_is_or (i := 16) h (65535 - L / 4)).symm

/-- The NVRAM branch of `cyw_load_firmware` when the three writes succeed:
what remains is the wait for the firmware, started in the world after the
footer write. -/
theorem cyw_load_firmware_nvram_eq (fw : Option (List Nat)) (fs : Nat) (nv : List Nat)
    (L : Nat) (w : World) (hst : CYW_STATE_INIT.toNat ≤ w.g_cyw_dev.state.toNat) (hL : 0 < L)
    (ok1 : (cyw_backplane_write w.g_cyw_dev.chip.ram_base (fw.getD []) fs
      { w with g_cyw_dev := { w.g_cyw_dev with state := CYW_STATE_FW_LOADING } }).1 = CYW_OK)
    (ok2 : (cyw_backplane_write NVRAM_DL_ADDR nv L
      (cyw_backplane_write w.g_cyw_dev.chip.ram_base (fw.getD []) fs
        { w with g_cyw_dev := { w.g_cyw_dev with state := CYW_STATE_FW_LOADING } }).2).1 = CYW_OK)
    (ok3 : (cyw_sdio_write32 ((NVRAM_DL_ADDR + L) % U32)
      ((((U32 - 1 - L / 4) <<< 16) % U32) ||| (L / 4))
      (cyw_backplane_write NVRAM_DL_ADDR nv L
        (cyw_backplane_write w.g_cyw_dev.chip.ram_base (fw.getD []) fs
          { w with g_cyw_dev := { w.g_cyw_dev with state := CYW_STATE_FW_LOADING } }).2).2).1
        = CYW_OK) :
    cyw_load_firmware fw fs (some nv) L w =
      load_firmware_start (cyw_sdio_write32 ((NVRAM_DL_ADDR + L) % U32)
        ((((U32 - 1 - L / 4) <<< 16) % U32) ||| (L / 4))
        (cyw_backplane_write NVRAM_DL_ADDR nv L
          (cyw_backplane_write w.g_cyw_dev.chip.ram_base (fw.getD []) fs
            { w with g_cyw_dev := { w.g_cyw_dev with state := CYW_STATE_FW_LOADING } }).2).2).2 := by
  have hg : ¬ w.g_cyw_dev.state.toNat < CYW_STATE_INIT.toNat := by omega
  unfold cyw_load_firmware
  simp only [hg, if_false, ok1, ok2, ok3, hL, gt_iff_lt, if_true, ne_eq, not_true_eq_false]

/-! ## No credit check in `send_sdpcm_frame` -/

/-- The transmit buffer keeps its size when header and payload fit. -/
theorem txAfterSend_length (tx : List Nat) (seq channel : Nat) (data : Option (List Nat))
    (len : Nat) (hlen : len ≤ 2036) (hdata : ∀ d, data = some d → len ≤ d.length)
    (htx : tx.length = TX_BUF_SIZE) :
    (txAfterSend tx seq channel data len).length = TX_BUF_SIZE := by
  have h12 : ∀ t, (sdpcmHeaderBytes t seq channel).length = 12 := fun _ => rfl
  unfold txAfterSend
  cases data with
  | none =>
    simp only [List.length_append, h12, List.length_drop, htx]
    unfold TX_BUF_SIZE; omega
  | some d =>
    have hd := hdata d rfl
    simp only
    split_ifs
    · simp only [List.length_append, h12, List.length_drop, List.length_take, htx,
        Nat.min_eq_left hd]
      unfold TX_BUF_SIZE; omega
    · simp only [List.length_append, h12, List.length_drop, htx]
      unfold TX_BUF_SIZE; omega

/-- C17 (as amended): `send_sdpcm_frame` checks no credit.  For every payload
of `len ≤ 2036` bytes (so that header and payload fit the 2048-byte `tx_buf`;
a non-NULL `data` holds at least `len` bytes), whatever `tx_max`, `tx_seq`
and `flow_ctrl` hold, with `cmd53_write` in the table it issues exactly one
function-2 bulk write at offset 0 and advances `tx_seq` by one (mod 256);
`tx_max` and `flow_ctrl` are left as they were. -/
theorem send_sdpcm_frame_no_credit_check (channel : Nat) (data : Option (List Nat)) (len : Nat)
    (w : World) (o : sdio_host_ops_t) (hops : w.g_cyw_dev.ops = some o)
    (hcw : o.cmd53_write = true) (hlen : len ≤ 2036)
    (hdata : ∀ d, data = some d → len ≤ d.length)
    (htx : w.g_cyw_dev.tx_buf.length = TX_BUF_SIZE) :
    (∃ (frame : List Nat) (L : Nat),
      (send_sdpcm_frame channel data len w).2.trace =
        w.trace ++ [HostCall.cmd53_write 2 0 frame L true] ∧
      12 + len ≤ L ∧ L ≤ TX_BUF_SIZE ∧ frame.length = L) ∧
    (send_sdpcm_frame channel data len w).2.g_cyw_dev.tx_buf.length = TX_BUF_SIZE ∧
    (send_sdpcm_frame channel data len w).2.g_cyw_dev.tx_seq = (w.g_cyw_dev.tx_seq + 1) % 256 ∧
    (send_sdpcm_frame channel data len w).2.g_cyw_dev.tx_max = w.g_cyw_dev.tx_max ∧
    (send_sdpcm_frame channel data len w).2.g_cyw_dev.flow_ctrl = w.g_cyw_dev.flow_ctrl := by
  have hL : ALIGN ((SDPCM_HEADER_SIZE + len) % U32) 4 = (12 + len + 3) / 4 * 4 := by
    rw [Nat.mod_eq_of_lt (by simp only [SDPCM_HEADER_SIZE, U32]; omega),
      ALIGN_four _ (by simp only [SDPCM_HEADER_SIZE, U32]; omega)]
    rfl
  have hbuf : (txAfterSend w.g_cyw_dev.tx_buf w.g_cyw_dev.tx_seq channel data len).length =
      TX_BUF_SIZE := txAfterSend_length _ _ _ _ _ hlen hdata htx
  refine ⟨⟨_, _, send_sdpcm_frame_trace channel data len w o hops hcw, ?_, ?_, ?_⟩, ?_, ?_, ?_,
    ?_⟩
  · rw [hL]; omega
  · rw [hL]; unfold TX_BUF_SIZE; omega
  · rw [List.length_take, hbuf, hL]; unfold TX_BUF_SIZE; omega
  · rw [send_sdpcm_frame_eq, sdio_write_bytes_dev]
    exact hbuf
  · rw [send_sdpcm_frame_eq, sdio_write_bytes_dev]
  · rw [send_sdpcm_frame_eq, sdio_write_bytes_dev]
  · rw [send_sdpcm_frame_eq, sdio_write_bytes_dev]

/-- The theorem at a world without credit (`tx_max = tx_seq = 0`). -/
theorem send_sdpcm_frame_no_credit_check_witness :
    (exampleReadyWorld.g_cyw_dev.ops = some exampleOps ∧ exampleOps.cmd53_write = true ∧
      4 ≤ 2036 ∧ (∀ d, some [1, 2, 3, 4] = some d → 4 ≤ d.length) ∧
      exampleReadyWorld.g_cyw_dev.tx_buf.length = TX_BUF_SIZE ∧
      (exampleReadyWorld.g_cyw_dev.tx_max + 256 - exampleReadyWorld.g_cyw_dev.tx_seq) % 256 = 0) ∧
    ∃ (frame : List Nat) (L : Nat),
      (send_sdpcm_frame SDPCM_DATA_CHANNEL (some [1, 2, 3, 4]) 4 exampleReadyWorld).2.trace =
        exampleReadyWorld.trace ++ [HostCall.cmd53_write 2 0 frame L true] ∧
      12 + 4 ≤ L ∧ L ≤ TX_BUF_SIZE ∧ frame.length = L :=
  ⟨⟨rfl, rfl, by decide, fun d hd => by cases hd; decide, List.length_replicate _ _,
    by decide⟩,
   (send_sdpcm_frame_no_credit_check SDPCM_DATA_CHANNEL (some [1, 2, 3, 4]) 4 exampleReadyWorld
      exampleOps rfl rfl (by decide) (fun d hd => by cases hd; decide)
      (List.length_replicate _ _)).1⟩

/-- C17, the claim as stated fails: with `tx_max = tx_seq = 0`, hence
`(tx_max − tx_seq) mod 256 = 0` and no credit, `send_sdpcm_frame` still hands
the 16-byte frame to the host and returns `CYW_OK`. -/
theorem send_sdpcm_frame_no_credit_check_counterexample :
    (exampleReadyWorld.g_cyw_dev.tx_max + 256 - exampleReadyWorld.g_cyw_dev.tx_seq) % 256 = 0 ∧
    (send_sdpcm_frame SDPCM_DATA_CHANNEL (some [1, 2, 3, 4]) 4 exampleReadyWorld).1 = CYW_OK ∧
    (send_sdpcm_frame SDPCM_DATA_CHANNEL (some [1, 2, 3, 4]) 4 exampleReadyWorld).2.trace =
      [HostCall.cmd53_write 2 0 [16, 0, 0xEF, 0xFF, 0, 2, 0, 12, 0, 0, 0, 0, 1, 2, 3, 4] 16
        true] := by
  refine ⟨by decide, by decide, by decide⟩

/-! ## The error codes of `cyw_load_firmware` -/

theorem cyw_sdio_read8_codes (f a : Nat) (w : World) : IsAccessCode (cyw_sdio_read8 f a w).1 := by
  unfold cyw_sdio_read8 IsAccessCode
  split
  · simp
  · split
    · simp only; split <;> simp
    · simp

theorem ops_enable_func_transport (f : Nat) (e : Bool) (w : World) :
    Transport w (ops_enable_func f e w) := by
  unfold ops_enable_func
  split
  · split
    · exact Transport.call w _
    · exact Transport.stay w
  · exact Transport.stay w

theorem ops_set_block_sizes_transport (w : World) : Transport w (ops_set_block_sizes w) := by
  unfold ops_set_block_sizes
  split
  · split
    · exact (Transport.call w _).andThen (Transport.call _ _)
    · exact Transport.stay w
  · exact Transport.stay w

theorem sdio_init_card_wait_transport (ready timeout : Nat) :
    ∀ w : World, Transport w (sdio_init_card_wait ready timeout w).2 := by
  induction timeout with
  | zero => intro w; exact Transport.stay w
  | succ timeout ih =>
    intro w
    have t := cyw_sdio_read8_transport SDIO_FUNC_0 CCCR_IO_READY w
    rw [sdio_init_card_wait]
    split_ifs
    · exact t
    · exact (t.andThen (delay_ms_transport _ _)).andThen (ih _)

theorem request_alp_clock_wait_transport (timeout : Nat) :
    ∀ w : World, Transport w (request_alp_clock_wait timeout w).2 := by
  induction timeout with
  | zero => intro w; exact Transport.stay w
  | succ timeout ih =>
    intro w
    have t := cyw_sdio_read8_transport SDIO_FUNC_1 SBSDIO_FUNC1_CHIPCLKCSR w
    rw [request_alp_clock_wait]
    split_ifs
    · exact t
    · exact t
    · exact (t.andThen (delay_ms_transport _ _)).andThen (ih _)

theorem request_alp_clock_transport (w : World) : Transport w (request_alp_clock w).2 := by
  have t := cyw_sdio_write8_transport SDIO_FUNC_1 SBSDIO_FUNC1_CHIPCLKCSR SBSDIO_ALP_AVAIL_REQ w
  unfold request_alp_clock
  simp only
  split_ifs
  · exact t
  · exact t.andThen (request_alp_clock_wait_transport 100 _)

theorem sdio_init_card_finish_transport (w : World) :
    Transport w (sdio_init_card_finish w).2 := by
  have t1 := (ops_enable_func_transport SDIO_FUNC_2 true w).andThen
    (sdio_init_card_wait_transport SDIO_FUNC_READY_2 100 _)
  have t2 := t1.andThen (cyw_sdio_write8_transport SDIO_FUNC_1 SBSDIO_WATERMARK
    CYW55500_F2_WATERMARK _)
  have t3 := t2.andThen (cyw_sdio_write8_transport SDIO_FUNC_0 CCCR_INT_ENABLE
    (CCCR_IEN_FUNC0 ||| CCCR_IEN_FUNC1 ||| CCCR_IEN_FUNC2) _)
  unfold sdio_init_card_finish
  simp only
  split_ifs
  · exact t1
  · exact t2
  · exact t3
  · exact t3

/-- Neither instance of `detect_chip` touches the lifecycle state. -/
theorem detect_chip_state (w : World) :
    (detect_chip w).2.g_cyw_dev.state = w.g_cyw_dev.state ∧
    (Baremetal.detect_chip w).2.g_cyw_dev.state = w.g_cyw_dev.state := by
  have t := cyw_sdio_read32_transport 0x18000000 w
  have tb := cyw_sdio_read32_transport SDIO_CORE_CHIPID w
  unfold detect_chip Baremetal.detect_chip
  simp only
  constructor
  · split_ifs
    · exact t.state_eq
    · exact t.state_eq
  · split_ifs
    · exact tb.state_eq
    · exact tb.state_eq
    · exact tb.state_eq

/-- Neither instance of `sdio_init_card` touches the lifecycle state. -/
theorem sdio_init_card_state (w : World) :
    (sdio_init_card w).2.g_cyw_dev.state = w.g_cyw_dev.state ∧
    (Baremetal.sdio_init_card w).2.g_cyw_dev.state = w.g_cyw_dev.state := by
  have t1 := (ops_enable_func_transport SDIO_FUNC_1 true w).andThen
    (sdio_init_card_wait_transport SDIO_FUNC_READY_1 100 _)
  have t2 := (t1.andThen (ops_set_block_sizes_transport _)).andThen
    (request_alp_clock_transport _)
  have d := detect_chip_state (request_alp_clock (ops_set_block_sizes
    (sdio_init_card_wait SDIO_FUNC_READY_1 100 (ops_enable_func SDIO_FUNC_1 true w)).2)).2
  have f := fun v => (sdio_init_card_finish_transport v).state_eq
  unfold sdio_init_card Baremetal.sdio_init_card
  simp only
  constructor
  · split_ifs
    · exact t1.state_eq
    · exact t2.state_eq
    · exact d.1.trans t2.state_eq
    · exact (f _).trans (d.1.trans t2.state_eq)
  · split_ifs
    · exact t1.state_eq
    · exact t2.state_eq
    · exact d.2.trans t2.state_eq
    · exact (f _).trans (d.2.trans t2.state_eq)

theorem cyw_init_card_state (w : World) :
    ((cyw_init_card w).1 = CYW_OK → (cyw_init_card w).2.g_cyw_dev.state = CYW_STATE_INIT) ∧
    ((cyw_init_card w).1 ≠ CYW_OK →
      (cyw_init_card w).2.g_cyw_dev.state = w.g_cyw_dev.state) := by
  unfold cyw_init_card
  simp only
  split_ifs with h
  · exact ⟨fun h1 => absurd h1 h, fun _ => (sdio_init_card_state w).1⟩
  · exact ⟨fun _ => rfl, fun h1 => absurd rfl h1⟩

/-- C19 (as amended): for every callback table and every host, when
`cyw_init` returns `CYW_OK` the state is Init, and when it returns an error
the state is Off (the value stored right after the `memset`), never Error. -/
theorem cyw_init_state (o : sdio_host_ops_t) (w : World) :
    ((cyw_init (some o) w).1 = CYW_OK →
      (cyw_init (some o) w).2.g_cyw_dev.state = CYW_STATE_INIT) ∧
    ((cyw_init (some o) w).1 ≠ CYW_OK →
      (cyw_init (some o) w).2.g_cyw_dev.state = CYW_STATE_OFF) := by
  unfold cyw_init
  simp only
  split_ifs with h1 h2
  · exact ⟨fun h => absurd h (by decide), fun _ => rfl⟩
  · exact ⟨(cyw_init_card_state _).1, fun h => ((cyw_init_card_state _).2 h).trans rfl⟩
  · exact ⟨(cyw_init_card_state _).1, fun h => ((cyw_init_card_state _).2 h).trans rfl⟩

set_option maxRecDepth 100000 in
/-- The theorem at a host that fails every callback, `init` first. -/
theorem cyw_init_state_witness :
    (cyw_init (some exampleOps) exampleFailWorld).1 ≠ CYW_OK ∧
    (cyw_init (some exampleOps) exampleFailWorld).2.g_cyw_dev.state = CYW_STATE_OFF :=
  ⟨by decide, (cyw_init_state exampleOps exampleFailWorld).2 (by decide)⟩

set_option maxRecDepth 100000 in
/-- C19, the claim as stated fails: with a host whose `init` callback fails,
`cyw_init` returns `CYW_ERR_IO` and the state afterwards is Off, not Error;
the same holds with a host that succeeds but never reports function 1 ready
(`CYW_ERR_TIMEOUT`, state Off). -/
theorem cyw_init_state_counterexample :
    (cyw_init (some exampleOps) exampleFailWorld).1 = CYW_ERR_IO ∧
    (cyw_init (some exampleOps) exampleFailWorld).2.g_cyw_dev.state = CYW_STATE_OFF ∧
    (cyw_init (some exampleOps) exampleWorld).1 = CYW_ERR_TIMEOUT ∧
    (cyw_init (some exampleOps) exampleWorld).2.g_cyw_dev.state = CYW_STATE_OFF ∧
    CYW_STATE_OFF ≠ CYW_STATE_ERROR := by
  refine ⟨by decide, by decide, by decide, by decide, by decide⟩

/-! ## Chip detection in the two driver instances -/

/-- The revision field as the source extracts it: mask, then shift. -/
theorem chip_rev_field (v : Nat) :
    (v &&& CYW55500_CHIP_REV_MASK) >>> CYW55500_CHIP_REV_SHIFT = (v >>> 16) &&& 0xF := by
  unfold CYW55500_CHIP_REV_MASK CYW55500_CHIP_REV_SHIFT
  have hm : (0x000F0000 : Nat) = 0xF <<< 16 := by decide
  apply Nat.eq_of_testBit_eq
  intro i
  rw [Nat.testBit_shiftRight, Nat.testBit_and, Nat.testBit_and, Nat.testBit_shiftRight, hm,
    Nat.testBit_shiftLeft]
  simp

/-- `detect_chip` of the application driver: once the chip-id word `v` is
read, the fields are stored and the result is `CYW_OK` whatever the id. -/
theorem detect_chip_stores (w : World) (h : (cyw_sdio_read32 0x18000000 w).1 = CYW_OK) :
    (detect_chip w).1 = CYW_OK ∧
    (detect_chip w).2.g_cyw_dev.chip.chip_id = (cyw_sdio_read32 0x18000000 w).2.1 &&& 0xFFFF ∧
    (detect_chip w).2.g_cyw_dev.chip.chip_rev =
      ((cyw_sdio_read32 0x18000000 w).2.1 >>> 16) &&& 0xF := by
  unfold detect_chip
  simp only
  rw [if_neg (fun hh => hh h)]
  exact ⟨rfl, rfl, chip_rev_field _⟩

/-- `detect_chip` of the bare-metal driver: once the chip-id word `v` is read,
the fields are stored, and the result is `CYW_ERR_INVALID` unless the id is
0xD8CC. -/
theorem baremetal_detect_chip_checks (w : World)
    (h : (cyw_sdio_read32 SDIO_CORE_CHIPID w).1 = CYW_OK) :
    (Baremetal.detect_chip w).2.g_cyw_dev.chip.chip_id =
      (cyw_sdio_read32 SDIO_CORE_CHIPID w).2.1 &&& 0xFFFF ∧
    (Baremetal.detect_chip w).2.g_cyw_dev.chip.chip_rev =
      ((cyw_sdio_read32 SDIO_CORE_CHIPID w).2.1 >>> 16) &&& 0xF ∧
    ((cyw_sdio_read32 SDIO_CORE_CHIPID w).2.1 &&& 0xFFFF ≠ 0xD8CC →
      (Baremetal.detect_chip w).1 = CYW_ERR_INVALID) ∧
    ((cyw_sdio_read32 SDIO_CORE_CHIPID w).2.1 &&& 0xFFFF = 0xD8CC →
      (Baremetal.detect_chip w).1 = CYW_OK) := by
  unfold Baremetal.detect_chip
  simp only
  rw [if_neg (fun hh => hh h)]
  split_ifs with hc
  · exact ⟨rfl, chip_rev_field _, fun _ => rfl, fun he => absurd he hc⟩
  · exact ⟨rfl, chip_rev_field _, fun hne => absurd (not_not.mp hc) hne, fun _ => rfl⟩

/-- A failing `detect_chip` keeps the bare-metal `cyw_init` from reaching
Init: the error is passed on by `sdio_init_card`. -/
theorem baremetal_sdio_init_card_detect (w : World)
    (h1 : 0 < (sdio_init_card_wait SDIO_FUNC_READY_1 100 (ops_enable_func SDIO_FUNC_1 true w)).1)
    (h2 : (request_alp_clock (ops_set_block_sizes
      (sdio_init_card_wait SDIO_FUNC_READY_1 100 (ops_enable_func SDIO_FUNC_1 true w)).2)).1
        = CYW_OK)
    (h3 : (Baremetal.detect_chip (request_alp_clock (ops_set_block_sizes
      (sdio_init_card_wait SDIO_FUNC_READY_1 100 (ops_enable_func SDIO_FUNC_1 true w)).2)).2).1
        ≠ CYW_OK) :
    (Baremetal.sdio_init_card w).1 ≠ CYW_OK := by
  have hn : ¬ (sdio_init_card_wait SDIO_FUNC_READY_1 100
      (ops_enable_func SDIO_FUNC_1 true w)).1 ≤ 0 := by omega
  unfold Baremetal.sdio_init_card
  simp only [hn, if_false, h2, ne_eq, not_true_eq_false, h3, not_false_eq_true, if_true]

set_option maxRecDepth 100000 in
/-- C20, the code at the failing input: the host reports the chip-id word
0x00034366 (id 0x4366, not 0xD8CC; revision 3).  The bare-metal `detect_chip`
stores the fields and fails with `CYW_ERR_INVALID`, so the bare-metal
`cyw_init` fails and stays in Off; `detect_chip` of the application driver
stores the same fields and returns `CYW_OK`, and the application `cyw_init`
returns `CYW_OK` in state Init for the foreign chip. -/
theorem detect_chip_accepts_foreign_id :
    (cyw_sdio_read32 0x18000000 exampleChipWorld).2.1 = 0x00034366 ∧
    (detect_chip exampleChipWorld).1 = CYW_OK ∧
    (detect_chip exampleChipWorld).2.g_cyw_dev.chip.chip_id = 0x4366 ∧
    (detect_chip exampleChipWorld).2.g_cyw_dev.chip.chip_rev = 3 ∧
    (Baremetal.detect_chip exampleChipWorld).1 = CYW_ERR_INVALID ∧
    (Baremetal.detect_chip exampleChipWorld).2.g_cyw_dev.chip.chip_id = 0x4366 ∧
    (Baremetal.detect_chip exampleChipWorld).2.g_cyw_dev.chip.chip_rev = 3 ∧
    (Baremetal.cyw_init (some exampleOps) exampleChipWorld).1 = CYW_ERR_INVALID ∧
    (Baremetal.cyw_init (some exampleOps) exampleChipWorld).2.g_cyw_dev.state = CYW_STATE_OFF ∧
    (cyw_init (some exampleOps) exampleChipWorld).1 = CYW_OK ∧
    (cyw_init (some exampleOps) exampleChipWorld).2.g_cyw_dev.state = CYW_STATE_INIT ∧
    (cyw_init (some exampleOps) exampleChipWorld).2.g_cyw_dev.chip.chip_id = 0x4366 := by
  refine ⟨?_, ?_, ?_, ?_, ?_, ?_, ?_, ?_, ?_, ?_, ?_, ?_⟩ <;> decide

/-! ## The two command-frame constructions -/

theorem shift_or_add (x k y : Nat) (h : y < 2 ^ k) : (x <<< k) ||| y = 2 ^ k * x + y := by
  rw [Nat.shiftLeft_eq, Nat.mul_comm]
  exact (Nat.mul_add_lt_is_or h x).symm

theorem crc7_lt (data : List Nat) (len : Nat) : crc7 data len < 256 :=
  Nat.mod_lt _ (by norm_num)

theorem crc7_odd (data : List Nat) (len : Nat) : crc7 data len % 2 = 1 := by
  unfold crc7
  have h : ∀ x : Nat, ((x <<< 1) ||| 1) = 2 * x + 1 := fun x => by
    rw [shift_or_add x 1 1 (by norm_num)]; norm_num
  rw [h]
  omega

/-- The frame of `sdio_send_cmd` as a sum of its fields. -/
theorem sdio_send_cmd_frame_eq (cmd arg : Nat) (hc : cmd < 64) (ha : arg < 2 ^ 32) :
    sdio_send_cmd_frame cmd arg =
      2 ^ 46 + 2 ^ 40 * cmd + 2 ^ 8 * arg + crc7 (cmd_buf cmd arg) 5 := by
  have h0 := crc7_lt (cmd_buf cmd arg) 5
  unfold sdio_send_cmd_frame
  simp only [Nat.zero_or]
  rw [Nat.or_assoc, Nat.or_assoc, shift_or_add arg 8 _ (by omega),
    shift_or_add cmd 40 _ (by omega), shift_or_add 1 46 _ (by omega)]
  omega

/-- The frame of `send_command` as a sum of its fields. -/
theorem send_command_frame_eq (cmd arg : Nat) (hc : cmd < 64) (ha : arg < 2 ^ 32) :
    send_command_frame cmd arg =
      2 ^ 47 + 2 ^ 46 + 2 ^ 40 * cmd + 2 ^ 8 * arg + crc7 (cmd_buf cmd arg) 5 := by
  have h0 := crc7_lt (cmd_buf cmd arg) 5
  unfold send_command_frame
  simp only [Nat.zero_or]
  rw [Nat.or_assoc, Nat.or_assoc, Nat.or_assoc, shift_or_add arg 8 _ (by omega),
    shift_or_add cmd 40 _ (by omega), shift_or_add 1 46 _ (by omega),
    shift_or_add 1 47 _ (by omega)]
  omega

theorem cmd_buf_bytes (cmd arg : Nat) (hc : cmd < 64) :
    cmd_buf cmd arg =
      [0x40 + cmd, arg / 2 ^ 24 % 256, arg / 2 ^ 16 % 256, arg / 2 ^ 8 % 256, arg % 256] := by
  have h1 : (0x40 ||| cmd) = 0x40 + cmd := by
    have := shift_or_add 1 6 cmd (by omega)
    simpa using this
  unfold cmd_buf
  rw [h1, and_byte_mask, and_byte_mask, and_byte_mask, and_byte_mask,
    Nat.shiftRight_eq_div_pow, Nat.shiftRight_eq_div_pow, Nat.shiftRight_eq_div_pow,
    Nat.mod_eq_of_lt (by omega : 0x40 + cmd < 256)]

/-- C30, the two constructions compared: for every command index `cmd < 64`
and every 32-bit argument the frame of `sdio_send_cmd` (`main.c`) has start
bit 0, transmission bit 1, `cmd` in bits 45-40, the argument in bits 39-8 and
in bits 7-0 the `crc7` of the five bytes that are its top 40 bits, with stop
bit 1; the frame of `send_command` (`sdio_rp2350.c`) is that frame with bit 47
set: its start bit is 1, and the two frames differ for every input. -/
theorem command_frames_differ (cmd arg : Nat) (hc : cmd < 64) (ha : arg < 2 ^ 32) :
    send_command_frame cmd arg = sdio_send_cmd_frame cmd arg + 2 ^ 47 ∧
    send_command_frame cmd arg ≠ sdio_send_cmd_frame cmd arg ∧
    (send_command_frame cmd arg).testBit 47 = true ∧
    (sdio_send_cmd_frame cmd arg).testBit 47 = false ∧
    (sdio_send_cmd_frame cmd arg).testBit 46 = true ∧
    (sdio_send_cmd_frame cmd arg >>> 40) &&& 0x3F = cmd ∧
    (sdio_send_cmd_frame cmd arg >>> 8) &&& 0xFFFFFFFF = arg ∧
    sdio_send_cmd_frame cmd arg &&& 0xFF = crc7 (cmd_buf cmd arg) 5 ∧
    cmd_buf cmd arg =
      [(sdio_send_cmd_frame cmd arg >>> 40) % 256, (sdio_send_cmd_frame cmd arg >>> 32) % 256,
       (sdio_send_cmd_frame cmd arg >>> 24) % 256, (sdio_send_cmd_frame cmd arg >>> 16) % 256,
       (sdio_send_cmd_frame cmd arg >>> 8) % 256] ∧
    (sdio_send_cmd_frame cmd arg).testBit 0 = true := by
  have h0 := crc7_lt (cmd_buf cmd arg) 5
  have h1 := crc7_odd (cmd_buf cmd arg) 5
  have e1 := sdio_send_cmd_frame_eq cmd arg hc ha
  have e2 := send_command_frame_eq cmd arg hc ha
  have m1 : ∀ x : Nat, x &&& 0x3F = x % 64 := fun x => Nat.and_pow_two_sub_one_eq_mod x 6
  have m2 : ∀ x : Nat, x &&& 0xFFFFFFFF = x % 2 ^ 32 := fun x =>
    Nat.and_pow_two_sub_one_eq_mod x 32
  refine ⟨by omega, by omega, ?_, ?_, ?_, ?_, ?_, ?_, ?_, ?_⟩
  · rw [Nat.testBit_to_div_mod, decide_eq_true_eq]; omega
  · rw [Nat.testBit_to_div_mod, decide_eq_false_iff_not]; omega
  · rw [Nat.testBit_to_div_mod, decide_eq_true_eq]; omega
  · rw [m1, Nat.shiftRight_eq_div_pow]; omega
  · rw [m2, Nat.shiftRight_eq_div_pow]; omega
  · rw [and_byte_mask]; omega
  · rw [cmd_buf_bytes cmd arg hc]
    simp only [Nat.shiftRight_eq_div_pow]
    refine congrArg₂ _ (by omega) (congrArg₂ _ (by omega) (congrArg₂ _ (by omega)
      (congrArg₂ _ (by omega) (congrArg₂ _ (by omega) rfl))))
  · rw [Nat.testBit_to_div_mod, decide_eq_true_eq]; omega

/-- The comparison at CMD52 with argument 0x80000C00. -/
theorem command_frames_differ_witness :
    (52 < 64 ∧ 0x80000C00 < 2 ^ 32) ∧
    (send_command_frame 52 0x80000C00).testBit 47 = true ∧
    (sdio_send_cmd_frame 52 0x80000C00).testBit 47 = false ∧
    send_command_frame 52 0x80000C00 ≠ sdio_send_cmd_frame 52 0x80000C00 :=
  ⟨⟨by decide, by decide⟩,
   (command_frames_differ 52 0x80000C00 (by decide) (by decide)).2.2.1,
   (command_frames_differ 52 0x80000C00 (by decide) (by decide)).2.2.2.1,
   (command_frames_differ 52 0x80000C00 (by decide) (by decide)).2.1⟩

/-! ## The PMK blob of `cyw_connect` -/

/-- A passphrase of at most 64 characters fits: the blob is 68 bytes, the
length, two zero bytes, the passphrase and zero padding. -/
theorem connect_pmk_fits (p : List Nat) (h : p.length ≤ 64) :
    connect_pmk p = le16 p.length ++ [0, 0] ++ p ++ List.replicate (64 - p.length) 0 := by
  have hk : p.length % 65536 = p.length := Nat.mod_eq_of_lt (by omega)
  unfold connect_pmk
  simp only [hk, List.take_length, writeAt_zero]
  unfold writeAt
  have hl : (le16 p.length).length = 2 := rfl
  simp only [hl, List.drop_replicate, List.take_append_eq_append_take, List.take_replicate,
    List.drop_append_eq_append_drop, List.length_replicate]
  simp [le16, List.replicate_succ]
  rw [List.drop_eq_nil_of_le (by simp; omega), List.nil_append]
  congr 1
  omega

set_option maxRecDepth 100000 in
/-- C29, the code at the failing input: for a passphrase of 65 characters the
16-bit `key_len` stored in the blob is 65, not at most 64, and the `memcpy`
of `key_len` bytes to `pmk.key` writes 65 bytes into the 64-byte field: the
byte at offset 68, behind the 68-byte struct, is the last passphrase
character. -/
theorem connect_pmk_overrun :
    exampleLongPassphrase.length = 65 ∧
    rd16 (connect_pmk exampleLongPassphrase) 0 = 65 ∧
    (connect_pmk exampleLongPassphrase).length = 69 ∧
    (connect_pmk exampleLongPassphrase).drop 68 = [0x61] := by
  refine ⟨by decide, by decide, by decide, by decide⟩

/-! ## The bounded readiness waits -/

/-- A function-ready wait of `sdio_init_card` with budget `n` is passed (the
loop ends with `timeout > 0`) exactly when readiness is observed on one of
the first `n - 1` polls. -/
theorem sdio_init_card_wait_passes (ready n : Nat) :
    ∀ w : World, 0 < (sdio_init_card_wait ready n w).1 ↔
      ∃ i, i + 1 < n ∧ readySeen ready (readyTurn^[i] w) := by
  induction n with
  | zero =>
    intro w
    constructor
    · intro h; exact absurd h (by simp [sdio_init_card_wait])
    · rintro ⟨i, hi, _⟩; omega
  | succ n ih =>
    intro w
    rw [sdio_init_card_wait]
    by_cases hs : (cyw_sdio_read8 SDIO_FUNC_0 CCCR_IO_READY w).1 = CYW_OK ∧
        (cyw_sdio_read8 SDIO_FUNC_0 CCCR_IO_READY w).2.1 &&& ready ≠ 0
    · simp only [hs, and_self, ne_eq, not_false_eq_true, if_true]
      constructor
      · intro h
        exact ⟨0, by omega, hs⟩
      · rintro ⟨i, hi, _⟩
        show (0 : Int) < (n : Int)
        omega
    · rw [if_neg hs]
      constructor
      · intro h
        obtain ⟨i, hi, hseen⟩ := (ih _).mp h
        exact ⟨i + 1, by omega, by rw [Function.iterate_succ_apply]; exact hseen⟩
      · rintro ⟨i, hi, hseen⟩
        cases i with
        | zero => exact absurd hseen hs
        | succ i =>
          rw [Function.iterate_succ_apply] at hseen
          exact (ih _).mpr ⟨i, by omega, hseen⟩

set_option maxRecDepth 100000 in
/-- C27, the code at the failing input.  In `sdio_init_card` the host reports
function 1 ready on the 100th read of `IO_READY` (the last one permitted):
the read succeeds with bit 0x02 set, the loop ends there, and the function
returns `CYW_ERR_TIMEOUT`.  In `cyw_load_firmware` without images the host
reports HT_AVAIL on the 200th read of `CHIPCLKCSR`: the call returns
`CYW_ERR_TIMEOUT` as well. -/
theorem readiness_on_last_poll_times_out :
    readySeen SDIO_FUNC_READY_1 (readyTurn^[99] (ops_enable_func SDIO_FUNC_1 true
      exampleLastPollWorld)) ∧
    (sdio_init_card exampleLastPollWorld).2.trace.count
      (HostCall.cmd52_read SDIO_FUNC_0 CCCR_IO_READY) = 100 ∧
    (sdio_init_card exampleLastPollWorld).2.trace.getLast? =
      some (HostCall.cmd52_read SDIO_FUNC_0 CCCR_IO_READY) ∧
    (sdio_init_card exampleLastPollWorld).1 = CYW_ERR_TIMEOUT ∧
    htSeen (htTurn^[199]
      { exampleLastHtWorld with g_cyw_dev :=
          { exampleLastHtWorld.g_cyw_dev with state := CYW_STATE_FW_LOADING } }) ∧
    (cyw_load_firmware none 0 none 0 exampleLastHtWorld).2.trace.count
      (HostCall.cmd52_read SDIO_FUNC_1 SBSDIO_FUNC1_CHIPCLKCSR) = 200 ∧
    (cyw_load_firmware none 0 none 0 exampleLastHtWorld).2.trace.getLast? =
      some (HostCall.cmd52_read SDIO_FUNC_1 SBSDIO_FUNC1_CHIPCLKCSR) ∧
    (cyw_load_firmware none 0 none 0 exampleLastHtWorld).1 = CYW_ERR_TIMEOUT := by
  refine ⟨?_, ?_, ?_, ?_, ?_, ?_, ?_, ?_⟩
  · unfold readySeen; decide
  · decide
  · decide
  · decide
  · unfold htSeen; decide
  · decide
  · decide
  · decide

/-! ## The frame built by `send_sdpcm_frame` -/

/-- C24: for every channel `c`, payload `p` of `n ≤ 2036` bytes and transmit
sequence value `s`, `send_sdpcm_frame` (with `cmd53_write` in the table and
the 2048-byte `tx_buf`) issues exactly one host call, a bulk write to
function 2 at offset 0 with incrementing address, whose length `L` is the
least multiple of 4 that is at least `12 + n`, and whose first `12 + n` bytes
are `LE16(12 + n)`, `LE16(~(12 + n))`, `s`, `c`, 0, 12, 0, 0, 0, 0 and then
`p`; afterwards `tx_seq = (s + 1) mod 256`, whatever the host returned. -/
theorem send_sdpcm_frame_layout (c n s : Nat) (p : List Nat) (w : World)
    (o : sdio_host_ops_t) (hops : w.g_cyw_dev.ops = some o) (hcw : o.cmd53_write = true)
    (hc : c < 256) (hn : n ≤ 2036) (hp : p.length = n)
    (hs : w.g_cyw_dev.tx_seq = s) (hs8 : s < 256)
    (htx : w.g_cyw_dev.tx_buf.length = TX_BUF_SIZE) :
    (∃ (frame : List Nat) (L : Nat),
      (send_sdpcm_frame c (some p) n w).2.trace =
        w.trace ++ [HostCall.cmd53_write 2 0 frame L true] ∧
      L % 4 = 0 ∧ 12 + n ≤ L ∧ L < 12 + n + 4 ∧ frame.length = L ∧
      frame.take (12 + n) =
        le16 (12 + n) ++ le16 (65535 - (12 + n)) ++ [s, c, 0, 12, 0, 0, 0, 0] ++ p) ∧
    (send_sdpcm_frame c (some p) n w).2.g_cyw_dev.tx_seq = (s + 1) % 256 := by
  have hL : ALIGN ((SDPCM_HEADER_SIZE + n) % U32) 4 = (12 + n + 3) / 4 * 4 := by
    rw [Nat.mod_eq_of_lt (by simp only [SDPCM_HEADER_SIZE, U32]; omega),
      ALIGN_four _ (by simp only [SDPCM_HEADER_SIZE, U32]; omega)]
    rfl
  have ht : (SDPCM_HEADER_SIZE + n) % U32 = 12 + n :=
    Nat.mod_eq_of_lt (by simp only [SDPCM_HEADER_SIZE, U32]; omega)
  have hhdr : sdpcmHeaderBytes (12 + n) s c =
      le16 (12 + n) ++ le16 (65535 - (12 + n)) ++ [s, c, 0, 12, 0, 0, 0, 0] := by
    have e1 : (12 + n) % 65536 = 12 + n := Nat.mod_eq_of_lt (by omega)
    have e2 : (U32 - 1 - (12 + n)) % 65536 = 65535 - (12 + n) := by unfold U32; omega
    unfold sdpcmHeaderBytes le16
    rw [e1, e2, Nat.mod_eq_of_lt hs8, Nat.mod_eq_of_lt hc]
    rfl
  have hlen12 : (sdpcmHeaderBytes (12 + n) s c).length = 12 := rfl
  have hbody : txAfterSend w.g_cyw_dev.tx_buf s c (some p) n =
      sdpcmHeaderBytes (12 + n) s c ++ (p ++ w.g_cyw_dev.tx_buf.drop (12 + n)) := by
    unfold txAfterSend
    rw [ht]
    rcases Nat.eq_zero_or_pos n with h0 | h0
    · subst h0
      have : p = [] := List.length_eq_zero.mp hp
      subst this
      simp
    · simp only [h0, gt_iff_lt, if_true]
      rw [← hp, List.take_length]
  refine ⟨⟨_, _, send_sdpcm_frame_trace c (some p) n w o hops hcw, ?_, ?_, ?_, ?_, ?_⟩, ?_⟩
  · rw [hL]; omega
  · rw [hL]; omega
  · rw [hL]; omega
  · rw [hs, hbody, hL, List.length_take]
    simp only [List.length_append, hlen12, List.length_drop, hp, htx, TX_BUF_SIZE]
    omega
  · rw [hs, hbody, hL, List.take_take, Nat.min_eq_left (by omega), ← List.append_assoc,
      List.take_append_of_le_length (by simp only [List.length_append, hlen12, hp]; omega),
      List.take_of_length_le (by simp only [List.length_append, hlen12, hp]; omega), hhdr]
  · rw [send_sdpcm_frame_eq, sdio_write_bytes_dev, ← hs]

/-- The layout theorem at a four-byte payload on the data channel. -/
theorem send_sdpcm_frame_layout_witness :
    (exampleReadyWorld.g_cyw_dev.ops = some exampleOps ∧ exampleOps.cmd53_write = true ∧
      2 < 256 ∧ 4 ≤ 2036 ∧ [1, 2, 3, 4].length = 4 ∧ exampleReadyWorld.g_cyw_dev.tx_seq = 0 ∧
      0 < 256 ∧ exampleReadyWorld.g_cyw_dev.tx_buf.length = TX_BUF_SIZE) ∧
    (send_sdpcm_frame 2 (some [1, 2, 3, 4]) 4 exampleReadyWorld).2.g_cyw_dev.tx_seq =
      (0 + 1) % 256 :=
  ⟨⟨rfl, rfl, by decide, by decide, rfl, rfl, by decide, List.length_replicate _ _⟩,
   (send_sdpcm_frame_layout 2 4 0 [1, 2, 3, 4] exampleReadyWorld exampleOps rfl rfl (by decide)
      (by decide) rfl rfl (by decide) (List.length_replicate _ _)).2⟩

/-! ## Frames dropped by `recv_sdpcm_frame` -/

/-- C25: `recv_sdpcm_frame` drops a frame in each of four cases.  When the
4-byte header read fails it returns that error after that one call; when the
length parsed from the header is 0 or greater than `RX_BUF_SIZE` it returns
`CYW_ERR_INVALID` in the world the header read left, so no second read is
issued; when the frame read fails it returns that error; when length XOR
length_check of the frame in `rx_buf` is not 0xFFFF it returns
`CYW_ERR_INVALID`.  Whenever it returns an error, `tx_max`, `flow_ctrl` and
`rx_seq` are what they were. -/
theorem recv_sdpcm_frame_drops (w : World) :
    ((recvHeaderRead w).1 ≠ CYW_OK →
      (recv_sdpcm_frame w).err = (recvHeaderRead w).1 ∧
      (recv_sdpcm_frame w).world = (recvHeaderRead w).2.2) ∧
    ((recvHeaderRead w).1 = CYW_OK → (recvFrameLen w = 0 ∨ recvFrameLen w > RX_BUF_SIZE) →
      (recv_sdpcm_frame w).err = CYW_ERR_INVALID ∧
      (recv_sdpcm_frame w).world = (recvHeaderRead w).2.2) ∧
    ((recvHeaderRead w).1 = CYW_OK → ¬ (recvFrameLen w = 0 ∨ recvFrameLen w > RX_BUF_SIZE) →
      (recvFrameRead w).1 ≠ CYW_OK →
      (recv_sdpcm_frame w).err = (recvFrameRead w).1) ∧
    ((recvHeaderRead w).1 = CYW_OK → ¬ (recvFrameLen w = 0 ∨ recvFrameLen w > RX_BUF_SIZE) →
      (recvFrameRead w).1 = CYW_OK →
      (rd16 (recvFrameRead w).2.1 0 ^^^ rd16 (recvFrameRead w).2.1 2) ≠ 0xFFFF →
      (recv_sdpcm_frame w).err = CYW_ERR_INVALID) ∧
    ((recv_sdpcm_frame w).err ≠ CYW_OK →
      (recv_sdpcm_frame w).world.g_cyw_dev.tx_max = w.g_cyw_dev.tx_max ∧
      (recv_sdpcm_frame w).world.g_cyw_dev.flow_ctrl = w.g_cyw_dev.flow_ctrl ∧
      (recv_sdpcm_frame w).world.g_cyw_dev.rx_seq = w.g_cyw_dev.rx_seq) := by
  unfold recvFrameRead recvFrameLen recvHeaderRead
  refine ⟨?_, ?_, ?_, ?_, ?_⟩
  · intro h
    unfold recv_sdpcm_frame
    simp only [h, ne_eq, not_false_eq_true, if_true, and_self]
  · intro h hl
    unfold recv_sdpcm_frame
    simp only [h, ne_eq, not_true_eq_false, if_false, hl, if_true, and_self]
  · intro h hl h2
    unfold recv_sdpcm_frame
    simp only [h, ne_eq, not_true_eq_false, if_false, hl, h2, not_false_eq_true, if_true]
  · intro h hl h2 hx
    unfold recv_sdpcm_frame
    simp only [h, ne_eq, not_true_eq_false, if_false, hl, h2, hx, not_false_eq_true, if_true]
  · intro h
    unfold recv_sdpcm_frame at h ⊢
    simp only at h ⊢
    split_ifs at h ⊢ <;> first | exact absurd rfl h | simp [sdio_read_bytes_dev]

set_option maxRecDepth 100000 in
/-- The drop theorem at a host that delivers no bytes: the length parsed is 0. -/
theorem recv_sdpcm_frame_drops_witness :
    ((recvHeaderRead exampleReadyWorld).1 = CYW_OK ∧
      (recvFrameLen exampleReadyWorld = 0 ∨ recvFrameLen exampleReadyWorld > RX_BUF_SIZE)) ∧
    (recv_sdpcm_frame exampleReadyWorld).err = CYW_ERR_INVALID ∧
    (recv_sdpcm_frame exampleReadyWorld).world = (recvHeaderRead exampleReadyWorld).2.2 :=
  ⟨⟨by decide, Or.inl (by decide)⟩,
   (recv_sdpcm_frame_drops exampleReadyWorld).2.1 (by decide) (Or.inl (by decide))⟩

/-! ## The capacity of the caller's buffer -/

set_option maxRecDepth 100000 in
/-- C28, the code at the failing input: `recv_sdpcm_frame` never reads the
capacity passed in through `*len`.  A control frame of 600 bytes with data
offset 12 is accepted with `CYW_OK` and a reported length of 588 bytes, all
of which are copied; one turn of the wait loop of `cyw_ioctl` leaves 588
bytes in its 512-byte `buf`.  A frame of 16 bytes with data offset 200 is
accepted with the length `16 - 200` wrapped around to 4294967112. -/
theorem recv_sdpcm_frame_exceeds_capacity :
    (recv_sdpcm_frame exampleBigFrameWorld).err = CYW_OK ∧
    (recv_sdpcm_frame exampleBigFrameWorld).channel = SDPCM_CONTROL_CHANNEL ∧
    (recv_sdpcm_frame exampleBigFrameWorld).len = 588 ∧
    (recv_sdpcm_frame exampleBigFrameWorld).payload.length = 588 ∧
    (exampleBigFrameWorld.fresh 512).length = 512 ∧
    (ioctlWaitTurn (exampleBigFrameWorld.fresh 512, exampleBigFrameWorld)).1.length = 588 ∧
    (recv_sdpcm_frame exampleHighOffsetWorld).err = CYW_OK ∧
    (recv_sdpcm_frame exampleHighOffsetWorld).len = 4294967112 ∧
    4294967112 > 512 := by
  refine ⟨?_, ?_, ?_, ?_, ?_, ?_, ?_, ?_, ?_⟩ <;> decide

/-! ## What `cyw_scan` returns -/

/-- The wait loop of `cyw_scan` needs no more fuel than `timeout / 10`
turns. -/
theorem cyw_scan_wait_fuel (f1 : Nat) :
    ∀ (f2 : Nat) (timeout : Int) (w : World), timeout ≤ 10 * f1 → timeout ≤ 10 * f2 →
      cyw_scan_wait f1 timeout w = cyw_scan_wait f2 timeout w := by
  induction f1 with
  | zero =>
    intro f2 timeout w h1 _
    have hn : ¬ (w.g_scan_state.in_progress = true ∧ timeout > 0) := fun h => by
      have := h.2
      omega
    cases f2 with
    | zero => rfl
    | succ f2 => rw [cyw_scan_wait, cyw_scan_wait, if_neg hn]
  | succ f1 ih =>
    intro f2 timeout w h1 h2
    cases f2 with
    | zero =>
      have hn : ¬ (w.g_scan_state.in_progress = true ∧ timeout > 0) := fun h => by
        have := h.2
        omega
      rw [cyw_scan_wait, cyw_scan_wait, if_neg hn]
    | succ f2 =>
      rw [cyw_scan_wait, cyw_scan_wait]
      split_ifs
      · exact ih _ _ _ (by push_cast at h1 ⊢; omega) (by push_cast at h2 ⊢; omega)
      · rfl

/-- Past its guard `cyw_scan` copies no entry and leaves the scan count at 0;
it returns the code of a failed `escan` request, and otherwise the smaller of
0 and `max_results`. -/
theorem cyw_scan_returns (results : Bool) (max_results : Int) (w : World)
    (hst : CYW_STATE_UP.toNat ≤ w.g_cyw_dev.state.toNat) :
    (cyw_scan results max_results w).2.1 = [] ∧
    (cyw_scan results max_results w).2.2.g_scan_state.count = 0 ∧
    ((scanRequest w).1 ≠ CYW_OK →
      (cyw_scan results max_results w).1 = (scanRequest w).1.toInt) ∧
    ((scanRequest w).1 = CYW_OK →
      (cyw_scan results max_results w).1 = if 0 > max_results then max_results else 0) := by
  have hg : ¬ w.g_cyw_dev.state.toNat < CYW_STATE_UP.toNat := by omega
  have ss := cyw_iovar_session [101, 115, 99, 97, 110]
    (some (scan_params ((w.g_cyw_dev.reqid &&& 0xFFFF) % 65536))) 74 true (scanStart w)
  have tw := cyw_scan_wait_transport 1000 10000 (scanRequest w).2.2
  have hcount : (cyw_scan_wait 1000 10000 (scanRequest w).2.2).g_scan_state.count = 0 := by
    rw [tw.scan_eq]
    unfold scanRequest
    rw [ss.scan_eq]
    rfl
  have hfin : ∀ v : World, v.g_scan_state.count = 0 →
      (cyw_scan_finish results max_results v).2.1 = [] ∧
      (cyw_scan_finish results max_results v).2.2.g_scan_state.count = 0 ∧
      (cyw_scan_finish results max_results v).1 = if 0 > max_results then max_results else 0 := by
    intro v hv
    have hc3 : (if v.g_scan_state.in_progress = true then
          ({ v with g_scan_state := { v.g_scan_state with in_progress := false } } : World)
        else v).g_scan_state.count = 0 := by
      split <;> exact hv
    unfold cyw_scan_finish
    simp only [hc3]
    refine ⟨?_, ?_, ?_⟩
    · split_ifs <;> first | rfl | omega
    · trivial
    · trivial
  have hstart : (scanRequest w).2.2.g_scan_state.count = 0 := by
    unfold scanRequest
    rw [ss.scan_eq]
    rfl
  have key : cyw_scan results max_results w =
      if (scanRequest w).1 ≠ CYW_OK then
        ((scanRequest w).1.toInt, [],
          { (scanRequest w).2.2 with g_scan_state :=
            { (scanRequest w).2.2.g_scan_state with in_progress := false } })
      else cyw_scan_finish results max_results (cyw_scan_wait 1000 10000 (scanRequest w).2.2) := by
    unfold cyw_scan
    simp only [hg, if_false]
    rfl
  rw [key]
  by_cases h1 : (scanRequest w).1 = CYW_OK
  · rw [if_neg (not_not.mpr h1)]
    obtain ⟨f1, f2, f3⟩ := hfin _ hcount
    exact ⟨f1, f2, fun h => absurd h1 h, fun _ => f3⟩
  · rw [if_pos h1]
    exact ⟨rfl, hstart, fun _ => rfl, fun h => absurd h h1⟩

set_option maxRecDepth 100000 in
/-- C23, the claim as stated fails: the `escan` request is acknowledged, the
host then delivers event-channel frames with a different BSSID on every read
(the first two polls receive the BSSIDs 3 and 6), and `cyw_scan` with
`max_results = 16` returns 0 with no entry copied, not 16. -/
theorem cyw_scan_finds_nothing_counterexample :
    (scanRequest exampleScanWorld).1 = CYW_OK ∧
    (recv_sdpcm_frame (scanRequest exampleScanWorld).2.2).err = CYW_OK ∧
    (recv_sdpcm_frame (scanRequest exampleScanWorld).2.2).channel = SDPCM_EVENT_CHANNEL ∧
    (recv_sdpcm_frame (scanRequest exampleScanWorld).2.2).payload = [4, 1, 2, 3, 4, 5, 0, 0] ∧
    (recv_sdpcm_frame (delay_ms 10 (cyw_poll (scanRequest exampleScanWorld).2.2))).payload =
      [7, 1, 2, 3, 4, 5, 0, 0] ∧
    (cyw_scan true 16 exampleScanWorld).1 = 0 ∧
    (cyw_scan true 16 exampleScanWorld).2.1 = [] := by
  refine ⟨by decide, by decide, by decide, by decide, by decide, ?_, ?_⟩
  · exact ((cyw_scan_returns true 16 exampleScanWorld (by decide)).2.2.2 (by decide)).trans
      (by decide)
  · exact (cyw_scan_returns true 16 exampleScanWorld (by decide)).1

/-! ## Requests that the host answers -/

theorem sdio_read_bytes_reply (f a : Nat) (b : List Nat) (n : Nat) (i : Bool) (w : World)
    (o : sdio_host_ops_t) (hops : w.g_cyw_dev.ops = some o) (hcr : o.cmd53_read = true)
    (hret : (w.host w.trace.length).ret = 0) :
    sdio_read_bytes f a b n i w =
      (CYW_OK, writeAt b 0 (((w.host w.trace.length).bytes.take n).map (fun x => x % 256)),
        { w with trace := w.trace ++ [HostCall.cmd53_read f a n i] }) := by
  simp [sdio_read_bytes, hops, hcr, World.invoke, hret]

theorem byteAt_take (P : List Nat) (k i : Nat) (h : i < k) :
    byteAt (P.take k) i = byteAt P i := by
  unfold byteAt
  rw [List.getD_eq_getElem?_getD, List.getD_eq_getElem?_getD, List.getElem?_take_of_lt h]

theorem byteAt_drop (P : List Nat) (k i : Nat) : byteAt (P.drop k) i = byteAt P (k + i) := by
  unfold byteAt
  rw [List.getD_eq_getElem?_getD, List.getD_eq_getElem?_getD, List.getElem?_drop]

theorem rd32_drop (P : List Nat) (k i : Nat) : rd32 (P.drop k) i = rd32 P (k + i) := by
  unfold rd32
  rw [byteAt_drop, byteAt_drop, byteAt_drop, byteAt_drop]
  rfl

theorem rd16_append (P t : List Nat) (i : Nat) (h : i + 1 < P.length) :
    rd16 (P ++ t) i = rd16 P i := by
  unfold rd16
  rw [byteAt_append P t i (by omega), byteAt_append P t (i + 1) (by omega)]

theorem map_mod_bytes (P : List Nat) (h : ∀ b ∈ P, b < 256) :
    P.map (fun x => x % 256) = P := by
  induction P with
  | nil => rfl
  | cons a t ih =>
    rw [List.map_cons, ih (fun b hb => h b (List.mem_cons_of_mem _ hb)),
      Nat.mod_eq_of_lt (h a (List.mem_cons_self _ _))]

/-- The frame `recv_sdpcm_frame` receives when the next two reads succeed and
deliver a well-formed response `F`. -/
theorem recv_sdpcm_frame_answer (v : World) (o : sdio_host_ops_t) (q : Nat)
    (hops : v.g_cyw_dev.ops = some o) (hcr : o.cmd53_read = true)
    (h1 : (v.host v.trace.length).ret = 0) (h2 : (v.host (v.trace.length + 1)).ret = 0)
    (h4 : (v.host v.trace.length).bytes.take 4 = (v.host (v.trace.length + 1)).bytes.take 4)
    (hF : IsOkResponse (v.host (v.trace.length + 1)).bytes q) :
    (recv_sdpcm_frame v).err = CYW_OK ∧
    (recv_sdpcm_frame v).channel = SDPCM_CONTROL_CHANNEL ∧
    (recv_sdpcm_frame v).payload = (v.host (v.trace.length + 1)).bytes.drop 12 ∧
    (recv_sdpcm_frame v).world.trace =
      v.trace ++ [HostCall.cmd53_read 2 0 4 true,
        HostCall.cmd53_read 2 0 (v.host (v.trace.length + 1)).bytes.length true] := by
  obtain ⟨hlo, hhi, hb, hlen, hx, hch, hoff, -, -⟩ := hF
  generalize hFd : (v.host (v.trace.length + 1)).bytes = F at *
  have e1 := sdio_read_bytes_reply SDIO_FUNC_2 0 (v.fresh 4) 4 true v o hops hcr h1
  rw [h4, map_mod_bytes _ (fun b hb0 => hb b (List.mem_of_mem_take hb0))] at e1
  have hl4 : (F.take 4).length = 4 := by rw [List.length_take]; omega
  have hfl : rd16 (writeAt (v.fresh 4) 0 (F.take 4)) 0 = F.length := by
    rw [writeAt_zero, rd16_append _ _ _ (by omega), ← hlen]
    unfold rd16
    rw [byteAt_take _ _ _ (by omega), byteAt_take _ _ _ (by omega)]
  have hn1 : (v.trace ++ [HostCall.cmd53_read SDIO_FUNC_2 0 4 true]).length =
      v.trace.length + 1 := by simp
  have e2 := sdio_read_bytes_reply SDIO_FUNC_2 0 v.g_cyw_dev.rx_buf F.length true
    { v with trace := v.trace ++ [HostCall.cmd53_read SDIO_FUNC_2 0 4 true] } o hops hcr
    (by rw [hn1]; exact h2)
  simp only [hn1] at e2
  rw [hFd, List.take_length, map_mod_bytes _ hb, writeAt_zero] at e2
  have hr0 : rd16 (F ++ v.g_cyw_dev.rx_buf.drop F.length) 0 = F.length := by
    rw [rd16_append _ _ _ (by omega), hlen]
  have hr2 : rd16 (F ++ v.g_cyw_dev.rx_buf.drop F.length) 2 = rd16 F 2 :=
    rd16_append _ _ _ (by omega)
  have hb5 : byteAt (F ++ v.g_cyw_dev.rx_buf.drop F.length) 5 = SDPCM_CONTROL_CHANNEL := by
    rw [byteAt_append _ _ _ (by omega), hch]
  have hb7 : byteAt (F ++ v.g_cyw_dev.rx_buf.drop F.length) 7 = 12 := by
    rw [byteAt_append _ _ _ (by omega), hoff]
  have hsub : toU32 ((F.length : Int) - ((12 : Nat) : Int)) = F.length - 12 := by
    unfold toU32 RX_BUF_SIZE at *
    omega
  have hfz : ¬ (F.length = 0 ∨ F.length > RX_BUF_SIZE) := by omega
  have hxx : ¬ (F.length ^^^ rd16 F 2 ≠ 0xFFFF) := by rw [← hlen]; exact not_not.mpr hx
  unfold recv_sdpcm_frame
  simp only [e1, hfl, e2, hr0, hr2, hb5, hb7, hsub, hfz, hxx, ne_eq, not_true_eq_false, if_false]
  refine ⟨trivial, trivial, ?_, ?_⟩
  · rw [if_pos (by omega), List.drop_append_of_le_length (by omega),
      List.take_append_of_le_length (by rw [List.length_drop]),
      List.take_of_length_le (by rw [List.length_drop])]
  · rw [List.append_assoc]
    rfl
theorem sdio_write_bytes_reply (f a : Nat) (d : List Nat) (n : Nat) (i : Bool) (w : World)
    (o : sdio_host_ops_t) (hops : w.g_cyw_dev.ops = some o) (hcw : o.cmd53_write = true)
    (hret : (w.host w.trace.length).ret = 0) :
    sdio_write_bytes f a d n i w =
      (CYW_OK, { w with trace := w.trace ++ [HostCall.cmd53_write f a (d.take n) n i] }) := by
  simp [sdio_write_bytes, hops, hcw, World.invoke, hret]

theorem send_sdpcm_frame_reply (channel : Nat) (data : Option (List Nat)) (len : Nat)
    (w : World) (o : sdio_host_ops_t) (hops : w.g_cyw_dev.ops = some o)
    (hcw : o.cmd53_write = true) (hret : (w.host w.trace.length).ret = 0) :
    send_sdpcm_frame channel data len w =
      (CYW_OK,
        { w with
          g_cyw_dev := { w.g_cyw_dev with
            tx_buf := txAfterSend w.g_cyw_dev.tx_buf w.g_cyw_dev.tx_seq channel data len,
            tx_seq := (w.g_cyw_dev.tx_seq + 1) % 256 },
          trace := w.trace ++ [HostCall.cmd53_write SDIO_FUNC_2 0
            ((txAfterSend w.g_cyw_dev.tx_buf w.g_cyw_dev.tx_seq channel data len).take
              (ALIGN ((SDPCM_HEADER_SIZE + len) % U32) 4))
            (ALIGN ((SDPCM_HEADER_SIZE + len) % U32) 4) true] }) := by
  rw [send_sdpcm_frame_eq]
  exact sdio_write_bytes_reply _ _ _ _ _ _ o hops hcw hret

/-- One turn of the wait loop that accepts the frame it receives: the loop
ends in the world the receive left. -/
theorem cyw_ioctl_wait_first (data : Option (List Nat)) (len : Nat) ( set : Bool)
    (timeout r : Nat) (buf : List Nat) (w : World)
    (hr : w.g_cyw_dev.reqid = r + 1)
    (herr : (recv_sdpcm_frame w).err = CYW_OK)
    (hch : (recv_sdpcm_frame w).channel = SDPCM_CONTROL_CHANNEL)
    (hid : rd32 (writeAt buf 0 (recv_sdpcm_frame w).payload) 8 >>> 16 = r)
    (hstatus : rd32 (writeAt buf 0 (recv_sdpcm_frame w).payload) 12 = 0) :
    cyw_ioctl_wait data len set (timeout + 1) buf w =
      (CYW_OK, ioctl_copy_out data len set (writeAt buf 0 (recv_sdpcm_frame w).payload),
        (recv_sdpcm_frame w).world) := by
  have t := recv_sdpcm_frame_transport w
  have hr1 : (recv_sdpcm_frame w).world.g_cyw_dev.reqid = r + 1 := t.reqid_eq.trans hr
  have h1 : toU32 (((r + 1 : Nat) : Int) - 1) = r := by
    have hlt := rd32_lt (writeAt buf 0 (recv_sdpcm_frame w).payload) 8
    have hle : r ≤ rd32 (writeAt buf 0 (recv_sdpcm_frame w).payload) 8 := by
      rw [← hid, Nat.shiftRight_eq_div_pow]
      exact Nat.div_le_self _ _
    unfold toU32
    have : (((r + 1 : Nat) : Int) - 1) = (r : Int) := by push_cast; ring
    rw [this]
    omega
  rw [cyw_ioctl_wait]
  simp only [herr, hch, hr1, h1, hid, hstatus, if_true, and_self, ne_eq, not_true_eq_false,
    if_false]

/-- The request buffer of a SET `cyw_ioctl` with `len` payload bytes: the
BCDC header and the payload. -/
theorem ioctlBuf_set (w : World) (cmd len : Nat) (D : List Nat)
    (hl0 : 0 < len) (hD : len ≤ D.length) :
    (ioctlBuf w cmd (some D) len true).take (16 + len) =
      le32 cmd ++ le32 len ++ le32 (bcdcFlags true w.g_cyw_dev.reqid) ++ le32 0 ++
        D.take len := by
  have hP : (D.take len).length = len := by rw [List.length_take]; omega
  have hf : (w.fresh 512).length = 512 := by simp [World.fresh]
  unfold ioctlBuf
  simp only [hl0, gt_iff_lt, and_self, if_true, writeAt_zero]
  generalize hH : le32 cmd ++ le32 len ++ le32 (bcdcFlags true w.g_cyw_dev.reqid) ++ le32 0 = H
  have hHl : H.length = 16 := by rw [← hH]; rfl
  unfold writeAt BCDC_HEADER_SIZE
  rw [List.take_left' hHl]
  exact List.take_left' (by rw [List.length_append, hHl, hP])

theorem sdpcmHeaderBytes_control (t s : Nat) (ht : t ≤ 65535) :
    sdpcmHeaderBytes t s SDPCM_CONTROL_CHANNEL =
      le16 t ++ le16 (65535 - t) ++ [s % 256, SDPCM_CONTROL_CHANNEL, 0, 12, 0, 0, 0, 0] := by
  have e1 : t % 65536 = t := Nat.mod_eq_of_lt (by omega)
  have e2 : (U32 - 1 - t) % 65536 = 65535 - t := by unfold U32; omega
  unfold sdpcmHeaderBytes le16
  rw [e1, e2]
  rfl

/-- A SET `cyw_ioctl` whose request the host answers at once returns
`CYW_OK` after three host calls. -/
theorem cyw_ioctl_answered (cmd len : Nat) (D : List Nat) (w : World) (o : sdio_host_ops_t)
    (hst : CYW_STATE_FW_READY.toNat ≤ w.g_cyw_dev.state.toNat)
    (hops : w.g_cyw_dev.ops = some o) (hcw : o.cmd53_write = true)
    (hcr : o.cmd53_read = true)
    (hq : w.g_cyw_dev.reqid + 1 < 65536)
    (hl0 : 0 < len) (hl1 : len ≤ 496) (hD : len ≤ D.length)
    (hans : HostAnswers w w.trace.length w.g_cyw_dev.reqid) :
    (cyw_ioctl cmd (some D) len true w).1 = CYW_OK ∧
    RequestAnswered w (cyw_ioctl cmd (some D) len true w).2.2 cmd (D.take len) := by
  obtain ⟨a0, a1, a2, a4, aF⟩ := hans
  have hT : (BCDC_HEADER_SIZE + len) % U32 = 16 + len :=
    Nat.mod_eq_of_lt (by simp only [BCDC_HEADER_SIZE, U32]; omega)
  have hA : ALIGN ((SDPCM_HEADER_SIZE + (16 + len)) % U32) 4 = (28 + len + 3) / 4 * 4 := by
    rw [Nat.mod_eq_of_lt (by simp only [SDPCM_HEADER_SIZE, U32]; omega),
      ALIGN_four _ (by simp only [SDPCM_HEADER_SIZE, U32]; omega)]
    simp only [SDPCM_HEADER_SIZE]
    congr 2
    omega
  have hsend := send_sdpcm_frame_reply SDPCM_CONTROL_CHANNEL
    (some (ioctlBuf w cmd (some D) len true)) (16 + len) (bumpReqid w) o hops hcw a0
  generalize hB : ioctlBuf w cmd (some D) len true = B at hsend
  generalize hS : send_sdpcm_frame SDPCM_CONTROL_CHANNEL (some B) (16 + len) (bumpReqid w) = S
    at hsend
  have s1 : S.1 = CYW_OK := by rw [hsend]
  have sops : S.2.g_cyw_dev.ops = some o := by rw [hsend]; exact hops
  have shost : S.2.host = w.host := by rw [hsend]; rfl
  have sstate : S.2.g_cyw_dev.state = w.g_cyw_dev.state := by rw [hsend]; rfl
  have sreq : S.2.g_cyw_dev.reqid = w.g_cyw_dev.reqid + 1 := by
    rw [hsend]
    exact Nat.mod_eq_of_lt hq
  have sseq : S.2.g_cyw_dev.tx_seq = (w.g_cyw_dev.tx_seq + 1) % 256 := by rw [hsend]; rfl
  have strace : S.2.trace = w.trace ++ [HostCall.cmd53_write SDIO_FUNC_2 0
      ((txAfterSend w.g_cyw_dev.tx_buf w.g_cyw_dev.tx_seq SDPCM_CONTROL_CHANNEL (some B)
        (16 + len)).take (ALIGN ((SDPCM_HEADER_SIZE + (16 + len)) % U32) 4))
      (ALIGN ((SDPCM_HEADER_SIZE + (16 + len)) % U32) 4) true] := by rw [hsend]; rfl
  have slen : S.2.trace.length = w.trace.length + 1 := by rw [strace]; simp
  have hrecv := recv_sdpcm_frame_answer S.2 o w.g_cyw_dev.reqid sops hcr
    (by rw [slen, shost]; exact a1) (by rw [slen, shost]; exact a2)
    (by rw [slen, shost]; exact a4) (by rw [slen, shost]; exact aF)
  rw [slen, shost] at hrecv
  obtain ⟨r1, r2, r3, r4⟩ := hrecv
  obtain ⟨flo, fhi, fb, flen, fx, fch, foff, fid, fstat⟩ := aF
  generalize (w.host (w.trace.length + 1 + 1)).bytes = F at *
  have hdl : (F.drop 12).length = F.length - 12 := List.length_drop _ _
  have hid : rd32 (writeAt B 0 (recv_sdpcm_frame S.2).payload) 8 >>> 16 = w.g_cyw_dev.reqid := by
    rw [r3, writeAt_zero, rd32_append _ _ _ (by omega), rd32_drop]
    exact fid
  have hstatus : rd32 (writeAt B 0 (recv_sdpcm_frame S.2).payload) 12 = 0 := by
    rw [r3, writeAt_zero, rd32_append _ _ _ (by omega), rd32_drop]
    exact fstat
  have hwait := cyw_ioctl_wait_first (some D) len true 99 w.g_cyw_dev.reqid B S.2 sreq r1 r2
    hid hstatus
  have hio : cyw_ioctl cmd (some D) len true w =
      (CYW_OK, ioctl_copy_out (some D) len true (writeAt B 0 (recv_sdpcm_frame S.2).payload),
        (recv_sdpcm_frame S.2).world) := by
    rw [cyw_ioctl_eq cmd (some D) len true w hst, hT, hB, hS, if_neg (not_not.mpr s1)]
    exact hwait
  have t := recv_sdpcm_frame_transport S.2
  generalize hc : HostCall.cmd53_write SDIO_FUNC_2 0
      ((txAfterSend w.g_cyw_dev.tx_buf w.g_cyw_dev.tx_seq SDPCM_CONTROL_CHANNEL (some B)
        (16 + len)).take (ALIGN ((SDPCM_HEADER_SIZE + (16 + len)) % U32) 4))
      (ALIGN ((SDPCM_HEADER_SIZE + (16 + len)) % U32) 4) true = c at strace
  rw [hio]
  refine ⟨rfl, t.host_eq.trans shost, t.ops_eq.trans (sops.trans hops.symm),
    t.state_eq.trans sstate, t.reqid_eq.trans sreq,
    (recv_sdpcm_frame_tx_seq S.2).trans sseq, c, F.length, ?_, ?_⟩
  rotate_left
  · show (recv_sdpcm_frame S.2).world.trace = _
    rw [r4, strace]
    simp only [List.append_assoc, List.singleton_append]
  · have hP : (D.take len).length = len := by rw [List.length_take]; omega
    rw [← hc, hA]
    unfold IsSetRequest
    rw [hP]
    refine ⟨rfl, rfl, rfl, rfl, ?_⟩
    have hs : (SDPCM_HEADER_SIZE + (16 + len)) % U32 = 28 + len := by
      rw [Nat.mod_eq_of_lt (by simp only [SDPCM_HEADER_SIZE, U32]; omega)]
      simp only [SDPCM_HEADER_SIZE]
      omega
    have hbody := ioctlBuf_set w cmd len D hl0 hD
    rw [hB] at hbody
    have hfl : bcdcFlags true w.g_cyw_dev.reqid =
        (BCDC_PROTO_VER <<< BCDC_FLAG_VER_SHIFT) ||| 0x02 ||| (w.g_cyw_dev.reqid <<< 16) := by
      rw [bcdcFlags_eq true _ (by omega)]
      rfl
    rw [List.take_take, Nat.min_eq_left (by omega)]
    unfold txAfterSend
    simp only [hs, show 16 + len > 0 from by omega, if_true, hbody, hfl]
    rw [sdpcmHeaderBytes_control _ _ (by omega), ← List.append_assoc]
    rw [List.take_left' (by simp [le16, le32, hP]; omega)]
    simp only [List.append_assoc]
theorem HostAnswers.of_host {w w1 : World} {k q : Nat} (h : w1.host = w.host)
    (ha : HostAnswers w k q) : HostAnswers w1 k q := by
  unfold HostAnswers at ha ⊢
  rw [h]
  exact ha

/-- The SET case of `cyw_iovar` for a request that fits: one `cyw_ioctl` on
the local buffer `B`, which starts with the name, its NUL and the value. -/
theorem cyw_iovar_set_eq (name d : List Nat) (len : Nat) (w : World)
    (hlen : 0 < len) (hfit : name.length + 1 + len ≤ 256) (hd : len ≤ d.length) :
    ∃ B : List Nat,
      B.take (name.length + 1 + len) = name ++ [0] ++ d.take len ∧
      name.length + 1 + len ≤ B.length ∧
      (cyw_iovar name (some d) len true w).1 =
        (cyw_ioctl WLC_SET_VAR (some B) (name.length + 1 + len) true w).1 ∧
      (cyw_iovar name (some d) len true w).2.2 =
        (cyw_ioctl WLC_SET_VAR (some B) (name.length + 1 + len) true w).2.2 := by
  have h1 : (name.length + 1) % U32 = name.length + 1 := Nat.mod_eq_of_lt (by unfold U32; omega)
  have h2 : (name.length + 1 + len) % U32 = name.length + 1 + len :=
    Nat.mod_eq_of_lt (by unfold U32; omega)
  have h3 : ¬ name.length + 1 + len > 256 := by omega
  have hn : (name ++ [0]).length = name.length + 1 := by simp
  have hP : (d.take len).length = len := by rw [List.length_take]; omega
  have hB : writeAt (writeAt (w.fresh 256) 0 (List.take (name.length + 1) (name ++ [0])))
      (name.length + 1) (List.take len d) =
      (name ++ [0] ++ d.take len) ++
        List.drop (name.length + 1 + len)
          (name ++ [0] ++ List.drop (name.length + 1) (w.fresh 256)) := by
    rw [writeAt_zero, ← hn, List.take_length, hn]
    unfold writeAt
    rw [List.take_left' hn, hP]
  unfold cyw_iovar
  simp only [h1, h2, h3, if_false, hlen, gt_iff_lt, if_true, and_true]
  refine ⟨writeAt (writeAt (w.fresh 256) 0 (List.take (name.length + 1) (name ++ [0])))
    (name.length + 1) (List.take len d), ?_, ?_, ?_, ?_⟩
  · rw [hB]
    exact List.take_left' (by rw [List.length_append, hn, hP])
  · rw [hB]
    simp only [List.length_append, hn, hP]
    omega
  · split_ifs <;> rfl
  · split_ifs <;> rfl

/-- A SET `cyw_iovar` whose request the host answers at once. -/
theorem cyw_iovar_answered (name d : List Nat) (len : Nat) (w : World) (o : sdio_host_ops_t)
    (hst : CYW_STATE_FW_READY.toNat ≤ w.g_cyw_dev.state.toNat)
    (hops : w.g_cyw_dev.ops = some o) (hcw : o.cmd53_write = true)
    (hcr : o.cmd53_read = true)
    (hq : w.g_cyw_dev.reqid + 1 < 65536)
    (hlen : 0 < len) (hfit : name.length + 1 + len ≤ 256) (hd : len ≤ d.length)
    (hans : HostAnswers w w.trace.length w.g_cyw_dev.reqid) :
    (cyw_iovar name (some d) len true w).1 = CYW_OK ∧
    RequestAnswered w (cyw_iovar name (some d) len true w).2.2 WLC_SET_VAR
      (name ++ [0] ++ d.take len) := by
  obtain ⟨B, b1, b2, b3, b4⟩ := cyw_iovar_set_eq name d len w hlen hfit hd
  have a := cyw_ioctl_answered WLC_SET_VAR (name.length + 1 + len) B w o hst hops hcw hcr hq
    (by omega) (by omega) b2 hans
  rw [b3, b4, ← b1]
  exact a

theorem connect_pmk_length (p : List Nat) : 68 ≤ (connect_pmk p).length := by
  unfold connect_pmk writeAt
  simp only [List.length_append, List.length_take, List.length_drop, List.length_replicate,
    le16, List.length_cons, List.length_nil]
  omega

theorem connect_wlc_ssid_length (ssid : List Nat) : 36 ≤ (connect_wlc_ssid ssid).length := by
  unfold connect_wlc_ssid writeAt
  simp only [List.length_append, List.length_take, List.length_drop, List.length_replicate,
    le32, List.length_cons, List.length_nil]
  omega

/-- The `wlc_ssid` structure sent by `cyw_connect`: the length field is the
smaller of `strlen(ssid)` and 32, followed by that many characters and zero
padding to 32. -/
theorem connect_wlc_ssid_eq (ssid : List Nat) (h : ssid.length < U32) :
    connect_wlc_ssid ssid =
      le32 (min ssid.length 32) ++ ssid.take 32 ++
        List.replicate (32 - min ssid.length 32) 0 := by
  have hm : ssid.length % U32 = ssid.length := Nat.mod_eq_of_lt h
  have hn : (if ssid.length % U32 > 32 then 32 else ssid.length % U32) = min ssid.length 32 := by
    rw [hm]
    split_ifs <;> omega
  have ht : ssid.take (min ssid.length 32) = ssid.take 32 := by
    rcases Nat.le_total ssid.length 32 with h1 | h1
    · rw [Nat.min_eq_left h1, List.take_of_length_le h1, List.take_of_length_le (le_refl _)]
    · rw [Nat.min_eq_right h1]
  have hl : (ssid.take 32).length = min ssid.length 32 := by
    rw [List.length_take]
    exact Nat.min_comm _ _
  unfold connect_wlc_ssid
  simp only [hn, ht, writeAt_zero]
  unfold writeAt
  have h4 : (le32 (min ssid.length 32)).length = 4 := rfl
  rw [List.take_left' h4, hl, h4, List.drop_append_eq_append_drop, h4,
    List.drop_of_length_le (by rw [h4]; omega), List.nil_append, List.drop_drop,
    List.drop_replicate]
  congr 2
  omega
/-- The first four requests of `cyw_connect` when the host answers each at
once: infrastructure mode 1, authentication 0, `wpa_auth` 0x80 and WSEC 4,
whatever the passphrase; `w4` is the world behind them. -/
theorem connect_security_answered (ssid : List Nat) (passphrase : Option (List Nat))
    (w : World) (o : sdio_host_ops_t)
    (hst : CYW_STATE_UP.toNat ≤ w.g_cyw_dev.state.toNat)
    (hops : w.g_cyw_dev.ops = some o) (hcw : o.cmd53_write = true)
    (hcr : o.cmd53_read = true)
    (hq : w.g_cyw_dev.reqid + 4 < 65536)
    (hans : ∀ i, i < 4 → HostAnswers w (w.trace.length + 3 * i) (w.g_cyw_dev.reqid + i)) :
    ∃ (w4 : World) (c0 c1 c2 c3 : HostCall) (L0 L1 L2 L3 : Nat),
      IsSetRequest (w.g_cyw_dev.tx_seq % 256) WLC_SET_INFRA w.g_cyw_dev.reqid (le32 1) c0 ∧
      IsSetRequest ((w.g_cyw_dev.tx_seq + 1) % 256) WLC_SET_AUTH (w.g_cyw_dev.reqid + 1)
        (le32 0) c1 ∧
      IsSetRequest ((w.g_cyw_dev.tx_seq + 2) % 256) WLC_SET_VAR (w.g_cyw_dev.reqid + 2)
        ([119, 112, 97, 95, 97, 117, 116, 104] ++ [0] ++ le32 0x80) c2 ∧
      IsSetRequest ((w.g_cyw_dev.tx_seq + 3) % 256) WLC_SET_WSEC (w.g_cyw_dev.reqid + 3)
        (le32 4) c3 ∧
      w4.trace = w.trace ++ (answeredCalls c0 L0 ++ answeredCalls c1 L1 ++
        answeredCalls c2 L2 ++ answeredCalls c3 L3) ∧
      w4.host = w.host ∧ w4.g_cyw_dev.ops = w.g_cyw_dev.ops ∧
      w4.g_cyw_dev.state = w.g_cyw_dev.state ∧
      w4.g_cyw_dev.reqid = w.g_cyw_dev.reqid + 4 ∧
      w4.g_cyw_dev.tx_seq % 256 = (w.g_cyw_dev.tx_seq + 4) % 256 ∧
      cyw_connect ssid passphrase w =
        if (connect_set_pmk passphrase w4).1 ≠ CYW_OK then connect_set_pmk passphrase w4
        else if (cyw_ioctl WLC_SET_SSID (some (connect_wlc_ssid ssid)) 36 true
            (connect_set_pmk passphrase w4).2).1 ≠ CYW_OK then
          ((cyw_ioctl WLC_SET_SSID (some (connect_wlc_ssid ssid)) 36 true
            (connect_set_pmk passphrase w4).2).1,
           (cyw_ioctl WLC_SET_SSID (some (connect_wlc_ssid ssid)) 36 true
            (connect_set_pmk passphrase w4).2).2.2)
        else cyw_connect_wait 100 10000
          (cyw_ioctl WLC_SET_SSID (some (connect_wlc_ssid ssid)) 36 true
            (connect_set_pmk passphrase w4).2).2.2 := by
  have hg : ¬ w.g_cyw_dev.state.toNat < CYW_STATE_UP.toNat := by omega
  have hup : CYW_STATE_FW_READY.toNat ≤ CYW_STATE_UP.toNat := by decide
  have hst0 : CYW_STATE_FW_READY.toNat ≤ w.g_cyw_dev.state.toNat := by omega
  have hp : ∀ v : Nat, (le32 v).take 4 = le32 v := fun _ => rfl
  -- WLC_SET_INFRA
  obtain ⟨k1, g1⟩ := cyw_ioctl_answered WLC_SET_INFRA 4 (le32 1) w o hst0 hops hcw hcr
    (by omega) (by decide) (by decide) (by decide) (hans 0 (by omega))
  rw [hp] at g1
  generalize hR1 : cyw_ioctl WLC_SET_INFRA (some (le32 1)) 4 true w = R1 at k1 g1
  obtain ⟨g1h, g1o, g1s, g1q, g1t, c0, L0, g1c, g1tr⟩ := g1
  have n1 : R1.2.2.trace.length = w.trace.length + 3 * 1 := by rw [g1tr]; simp
  -- WLC_SET_AUTH
  obtain ⟨k2, g2⟩ := cyw_ioctl_answered WLC_SET_AUTH 4 (le32 0) R1.2.2 o (by rw [g1s]; exact hst0)
    (g1o.trans hops) hcw hcr (by omega) (by decide) (by decide) (by decide)
    (by rw [n1, g1q]; exact (hans 1 (by omega)).of_host g1h)
  rw [hp] at g2
  generalize hR2 : cyw_ioctl WLC_SET_AUTH (some (le32 0)) 4 true R1.2.2 = R2 at k2 g2
  obtain ⟨g2h, g2o, g2s, g2q, g2t, c1, L1, g2c, g2tr⟩ := g2
  have n2 : R2.2.2.trace.length = w.trace.length + 3 * 2 := by rw [g2tr]; simp [n1]
  -- wpa_auth
  obtain ⟨k3, g3⟩ := cyw_iovar_answered [119, 112, 97, 95, 97, 117, 116, 104] (le32 0x80) 4
    R2.2.2 o (by rw [g2s, g1s]; exact hst0) (g2o.trans (g1o.trans hops)) hcw hcr (by omega)
    (by decide) (by decide) (by decide)
    (by rw [n2, g2q, g1q]; exact (hans 2 (by omega)).of_host (g2h.trans g1h))
  rw [hp] at g3
  generalize hR3 : cyw_iovar [119, 112, 97, 95, 97, 117, 116, 104] (some (le32 0x80)) 4 true
    R2.2.2 = R3 at k3 g3
  obtain ⟨g3h, g3o, g3s, g3q, g3t, c2, L2, g3c, g3tr⟩ := g3
  have n3 : R3.2.2.trace.length = w.trace.length + 3 * 3 := by rw [g3tr]; simp [n2]
  -- WLC_SET_WSEC
  obtain ⟨k4, g4⟩ := cyw_ioctl_answered WLC_SET_WSEC 4 (le32 4) R3.2.2 o
    (by rw [g3s, g2s, g1s]; exact hst0) (g3o.trans (g2o.trans (g1o.trans hops))) hcw hcr
    (by omega) (by decide) (by decide) (by decide)
    (by rw [n3, g3q, g2q, g1q]; exact (hans 3 (by omega)).of_host (g3h.trans (g2h.trans g1h)))
  rw [hp] at g4
  generalize hR4 : cyw_ioctl WLC_SET_WSEC (some (le32 4)) 4 true R3.2.2 = R4 at k4 g4
  obtain ⟨g4h, g4o, g4s, g4q, g4t, c3, L3, g4c, g4tr⟩ := g4
  refine ⟨R4.2.2, c0, c1, c2, c3, L0, L1, L2, L3, g1c, ?_, ?_, ?_, ?_,
    g4h.trans (g3h.trans (g2h.trans g1h)), g4o.trans (g3o.trans (g2o.trans g1o)),
    g4s.trans (g3s.trans (g2s.trans g1s)), by omega, by omega, ?_⟩
  · rw [g1t, g1q] at g2c
    rw [Nat.mod_mod] at g2c
    exact g2c
  · rw [g2t, g2q, g1t, g1q] at g3c
    rw [show ((w.g_cyw_dev.tx_seq + 1) % 256 + 1) % 256 % 256 = (w.g_cyw_dev.tx_seq + 2) % 256
      from by omega] at g3c
    exact g3c
  · rw [g3t, g3q, g2t, g2q, g1t, g1q] at g4c
    rw [show (((w.g_cyw_dev.tx_seq + 1) % 256 + 1) % 256 + 1) % 256 % 256 =
      (w.g_cyw_dev.tx_seq + 3) % 256 from by omega] at g4c
    exact g4c
  · rw [g4tr, g3tr, g2tr, g1tr]
    simp only [answeredCalls, List.append_assoc]
  · unfold cyw_connect
    simp only [hg, if_false, hR1, k1, hR2, k2, hR3, k3, hR4, k4, ne_eq, not_true_eq_false]
/-- The six requests of `cyw_connect` with a non-empty passphrase `p` when
the host answers each at once. -/
theorem cyw_connect_answered (ssid p : List Nat) (w : World) (o : sdio_host_ops_t)
    (hst : CYW_STATE_UP.toNat ≤ w.g_cyw_dev.state.toNat)
    (hops : w.g_cyw_dev.ops = some o) (hcw : o.cmd53_write = true)
    (hcr : o.cmd53_read = true)
    (hq : w.g_cyw_dev.reqid + 6 < 65536) (hp : 0 < p.length)
    (hans : ∀ i, i < 6 → HostAnswers w (w.trace.length + 3 * i) (w.g_cyw_dev.reqid + i)) :
    ∃ (c0 c1 c2 c3 c4 c5 : HostCall) (L0 L1 L2 L3 L4 L5 : Nat) (rest : List HostCall),
      (cyw_connect ssid (some p) w).2.trace =
        w.trace ++ (answeredCalls c0 L0 ++ answeredCalls c1 L1 ++ answeredCalls c2 L2 ++
          answeredCalls c3 L3 ++ answeredCalls c4 L4 ++ answeredCalls c5 L5) ++ rest ∧
      IsSetRequest (w.g_cyw_dev.tx_seq % 256) WLC_SET_INFRA w.g_cyw_dev.reqid (le32 1) c0 ∧
      IsSetRequest ((w.g_cyw_dev.tx_seq + 1) % 256) WLC_SET_AUTH (w.g_cyw_dev.reqid + 1)
        (le32 0) c1 ∧
      IsSetRequest ((w.g_cyw_dev.tx_seq + 2) % 256) WLC_SET_VAR (w.g_cyw_dev.reqid + 2)
        ([119, 112, 97, 95, 97, 117, 116, 104] ++ [0] ++ le32 0x80) c2 ∧
      IsSetRequest ((w.g_cyw_dev.tx_seq + 3) % 256) WLC_SET_WSEC (w.g_cyw_dev.reqid + 3)
        (le32 4) c3 ∧
      IsSetRequest ((w.g_cyw_dev.tx_seq + 4) % 256) 268 (w.g_cyw_dev.reqid + 4)
        ((connect_pmk p).take 68) c4 ∧
      IsSetRequest ((w.g_cyw_dev.tx_seq + 5) % 256) WLC_SET_SSID (w.g_cyw_dev.reqid + 5)
        ((connect_wlc_ssid ssid).take 36) c5 := by
  have hup : CYW_STATE_FW_READY.toNat ≤ CYW_STATE_UP.toNat := by decide
  obtain ⟨w4, c0, c1, c2, c3, L0, L1, L2, L3, q0, q1, q2, q3, tr4, h4, o4, s4, r4, t4, e⟩ :=
    connect_security_answered ssid (some p) w o hst hops hcw hcr (by omega)
      (fun i hi => hans i (by omega))
  have n4 : w4.trace.length = w.trace.length + 3 * 4 := by
    rw [tr4]; simp [answeredCalls]
  -- the PMK
  obtain ⟨k5, g5⟩ := cyw_ioctl_answered 268 68 (connect_pmk p) w4 o (by rw [s4]; omega)
    (o4.trans hops) hcw hcr (by omega) (by decide) (by decide) (connect_pmk_length p)
    (by rw [n4, r4]; exact (hans 4 (by omega)).of_host h4)
  have e5 : connect_set_pmk (some p) w4 =
      ((cyw_ioctl 268 (some (connect_pmk p)) 68 true w4).1,
       (cyw_ioctl 268 (some (connect_pmk p)) 68 true w4).2.2) := by
    unfold connect_set_pmk
    simp only [hp, gt_iff_lt, if_true]
  generalize hR5 : cyw_ioctl 268 (some (connect_pmk p)) 68 true w4 = R5 at k5 g5 e5
  obtain ⟨g5h, g5o, g5s, g5q, g5t, c4, L4, g5c, g5tr⟩ := g5
  have n5 : R5.2.2.trace.length = w.trace.length + 3 * 5 := by rw [g5tr]; simp [n4]
  -- the SSID
  obtain ⟨k6, g6⟩ := cyw_ioctl_answered WLC_SET_SSID 36 (connect_wlc_ssid ssid) R5.2.2 o
    (by rw [g5s, s4]; omega) (g5o.trans (o4.trans hops)) hcw hcr (by omega) (by decide)
    (by decide) (connect_wlc_ssid_length ssid)
    (by rw [n5, g5q, r4]; exact (hans 5 (by omega)).of_host (g5h.trans h4))
  generalize hR6 : cyw_ioctl WLC_SET_SSID (some (connect_wlc_ssid ssid)) 36 true R5.2.2 = R6
    at k6 g6
  obtain ⟨g6h, g6o, g6s, g6q, g6t, c5, L5, g6c, g6tr⟩ := g6
  have efin : cyw_connect ssid (some p) w = cyw_connect_wait 100 10000 R6.2.2 := by
    rw [e, e5]
    simp only [k5, hR6, k6, ne_eq, not_true_eq_false, if_false]
  obtain ⟨rest, hrest⟩ := (cyw_connect_wait_session 100 10000 R6.2.2).trace_ext
  refine ⟨c0, c1, c2, c3, c4, c5, L0, L1, L2, L3, L4, L5, rest, ?_, q0, q1, q2, q3, ?_, ?_⟩
  · rw [efin, hrest, g6tr, g5tr, tr4]
    simp only [answeredCalls, List.append_assoc]
  · rw [t4, r4] at g5c
    exact g5c
  · rw [g5t, g5q, r4] at g6c
    rw [show (w4.g_cyw_dev.tx_seq + 1) % 256 % 256 = (w.g_cyw_dev.tx_seq + 5) % 256
      from by omega] at g6c
    exact g6c

/-- The five requests of `cyw_connect` without a passphrase (NULL or empty)
when the host answers each at once: the security parameters are those of the
protected case, and the fifth request is the SSID. -/
theorem cyw_connect_open_answered (ssid : List Nat) (passphrase : Option (List Nat))
    (w : World) (o : sdio_host_ops_t)
    (hopen : passphrase = none ∨ passphrase = some [])
    (hst : CYW_STATE_UP.toNat ≤ w.g_cyw_dev.state.toNat)
    (hops : w.g_cyw_dev.ops = some o) (hcw : o.cmd53_write = true)
    (hcr : o.cmd53_read = true)
    (hq : w.g_cyw_dev.reqid + 5 < 65536)
    (hans : ∀ i, i < 5 → HostAnswers w (w.trace.length + 3 * i) (w.g_cyw_dev.reqid + i)) :
    ∃ (c0 c1 c2 c3 c4 : HostCall) (L0 L1 L2 L3 L4 : Nat) (rest : List HostCall),
      (cyw_connect ssid passphrase w).2.trace =
        w.trace ++ (answeredCalls c0 L0 ++ answeredCalls c1 L1 ++ answeredCalls c2 L2 ++
          answeredCalls c3 L3 ++ answeredCalls c4 L4) ++ rest ∧
      IsSetRequest (w.g_cyw_dev.tx_seq % 256) WLC_SET_INFRA w.g_cyw_dev.reqid (le32 1) c0 ∧
      IsSetRequest ((w.g_cyw_dev.tx_seq + 1) % 256) WLC_SET_AUTH (w.g_cyw_dev.reqid + 1)
        (le32 0) c1 ∧
      IsSetRequest ((w.g_cyw_dev.tx_seq + 2) % 256) WLC_SET_VAR (w.g_cyw_dev.reqid + 2)
        ([119, 112, 97, 95, 97, 117, 116, 104] ++ [0] ++ le32 0x80) c2 ∧
      IsSetRequest ((w.g_cyw_dev.tx_seq + 3) % 256) WLC_SET_WSEC (w.g_cyw_dev.reqid + 3)
        (le32 4) c3 ∧
      IsSetRequest ((w.g_cyw_dev.tx_seq + 4) % 256) WLC_SET_SSID (w.g_cyw_dev.reqid + 4)
        ((connect_wlc_ssid ssid).take 36) c4 := by
  have hup : CYW_STATE_FW_READY.toNat ≤ CYW_STATE_UP.toNat := by decide
  obtain ⟨w4, c0, c1, c2, c3, L0, L1, L2, L3, q0, q1, q2, q3, tr4, h4, o4, s4, r4, t4, e⟩ :=
    connect_security_answered ssid passphrase w o hst hops hcw hcr (by omega)
      (fun i hi => hans i (by omega))
  have n4 : w4.trace.length = w.trace.length + 3 * 4 := by
    rw [tr4]; simp [answeredCalls]
  have e5 : connect_set_pmk passphrase w4 = (CYW_OK, w4) := by
    rcases hopen with h | h <;> subst h <;> rfl
  obtain ⟨k6, g6⟩ := cyw_ioctl_answered WLC_SET_SSID 36 (connect_wlc_ssid ssid) w4 o
    (by rw [s4]; omega) (o4.trans hops) hcw hcr (by omega) (by decide)
    (by decide) (connect_wlc_ssid_length ssid)
    (by rw [n4, r4]; exact (hans 4 (by omega)).of_host h4)
  generalize hR6 : cyw_ioctl WLC_SET_SSID (some (connect_wlc_ssid ssid)) 36 true w4 = R6
    at k6 g6
  obtain ⟨g6h, g6o, g6s, g6q, g6t, c4, L4, g6c, g6tr⟩ := g6
  have efin : cyw_connect ssid passphrase w = cyw_connect_wait 100 10000 R6.2.2 := by
    rw [e, e5]
    simp only [hR6, k6, ne_eq, not_true_eq_false, if_false]
  obtain ⟨rest, hrest⟩ := (cyw_connect_wait_session 100 10000 R6.2.2).trace_ext
  refine ⟨c0, c1, c2, c3, c4, L0, L1, L2, L3, L4, rest, ?_, q0, q1, q2, q3, ?_⟩
  · rw [efin, hrest, g6tr, tr4]
    simp only [answeredCalls, List.append_assoc]
  · rw [t4, r4] at g6c
    exact g6c

/-! ## `cyw_connect` for an open network -/

/-- C22, what the code does for an open network: when `cyw_connect` is called
in state Up (or above) with a NULL or empty passphrase and the host answers
each request at once, the first fifteen host calls are five exchanges whose
request frames are `WLC_SET_INFRA` 1, `WLC_SET_AUTH` 0, the iovar
`"wpa_auth"` with value 0x80 (not 0), `WLC_SET_WSEC` with value 4 (not 0) and
`WLC_SET_SSID`: no PMK request (command 268) is sent, but the security
parameters are those of a WPA2-PSK/AES network. -/
theorem cyw_connect_open_network_security (ssid : List Nat) (passphrase : Option (List Nat))
    (w : World) (o : sdio_host_ops_t)
    (hopen : passphrase = none ∨ passphrase = some [])
    (hst : CYW_STATE_UP.toNat ≤ w.g_cyw_dev.state.toNat)
    (hops : w.g_cyw_dev.ops = some o) (hcw : o.cmd53_write = true)
    (hcr : o.cmd53_read = true)
    (hq : w.g_cyw_dev.reqid + 5 < 65536)
    (hans : ∀ i, i < 5 → HostAnswers w (w.trace.length + 3 * i) (w.g_cyw_dev.reqid + i)) :
    ∃ (c0 c1 c2 c3 c4 : HostCall) (L0 L1 L2 L3 L4 : Nat) (rest : List HostCall),
      (cyw_connect ssid passphrase w).2.trace =
        w.trace ++ (answeredCalls c0 L0 ++ answeredCalls c1 L1 ++ answeredCalls c2 L2 ++
          answeredCalls c3 L3 ++ answeredCalls c4 L4) ++ rest ∧
      IsSetRequest (w.g_cyw_dev.tx_seq % 256) WLC_SET_INFRA w.g_cyw_dev.reqid (le32 1) c0 ∧
      IsSetRequest ((w.g_cyw_dev.tx_seq + 1) % 256) WLC_SET_AUTH (w.g_cyw_dev.reqid + 1)
        (le32 0) c1 ∧
      IsSetRequest ((w.g_cyw_dev.tx_seq + 2) % 256) WLC_SET_VAR (w.g_cyw_dev.reqid + 2)
        ([119, 112, 97, 95, 97, 117, 116, 104] ++ [0] ++ le32 0x80) c2 ∧
      IsSetRequest ((w.g_cyw_dev.tx_seq + 3) % 256) WLC_SET_WSEC (w.g_cyw_dev.reqid + 3)
        (le32 4) c3 ∧
      IsSetRequest ((w.g_cyw_dev.tx_seq + 4) % 256) WLC_SET_SSID (w.g_cyw_dev.reqid + 4)
        ((connect_wlc_ssid ssid).take 36) c4 :=
  cyw_connect_open_answered ssid passphrase w o hopen hst hops hcw hcr hq hans

set_option maxRecDepth 100000 in
/-- The open-network theorem at `cyw_connect("TestAP", NULL)`. -/
theorem cyw_connect_open_network_security_witness :
    ((none : Option (List Nat)) = none ∨ (none : Option (List Nat)) = some []) ∧
    CYW_STATE_UP.toNat ≤ exampleConnectWorld.g_cyw_dev.state.toNat ∧
    exampleConnectWorld.g_cyw_dev.ops = some exampleOps ∧
    exampleOps.cmd53_write = true ∧ exampleOps.cmd53_read = true ∧
    exampleConnectWorld.g_cyw_dev.reqid + 5 < 65536 ∧
    (∀ i, i < 5 → HostAnswers exampleConnectWorld (exampleConnectWorld.trace.length + 3 * i)
      (exampleConnectWorld.g_cyw_dev.reqid + i)) ∧
    ∃ (c0 c1 c2 c3 c4 : HostCall) (L0 L1 L2 L3 L4 : Nat) (rest : List HostCall),
      (cyw_connect testAP none exampleConnectWorld).2.trace =
        exampleConnectWorld.trace ++ (answeredCalls c0 L0 ++ answeredCalls c1 L1 ++
          answeredCalls c2 L2 ++ answeredCalls c3 L3 ++ answeredCalls c4 L4) ++ rest ∧
      IsSetRequest (exampleConnectWorld.g_cyw_dev.tx_seq % 256) WLC_SET_INFRA
        exampleConnectWorld.g_cyw_dev.reqid (le32 1) c0 ∧
      IsSetRequest ((exampleConnectWorld.g_cyw_dev.tx_seq + 1) % 256) WLC_SET_AUTH
        (exampleConnectWorld.g_cyw_dev.reqid + 1) (le32 0) c1 ∧
      IsSetRequest ((exampleConnectWorld.g_cyw_dev.tx_seq + 2) % 256) WLC_SET_VAR
        (exampleConnectWorld.g_cyw_dev.reqid + 2)
        ([119, 112, 97, 95, 97, 117, 116, 104] ++ [0] ++ le32 0x80) c2 ∧
      IsSetRequest ((exampleConnectWorld.g_cyw_dev.tx_seq + 3) % 256) WLC_SET_WSEC
        (exampleConnectWorld.g_cyw_dev.reqid + 3) (le32 4) c3 ∧
      IsSetRequest ((exampleConnectWorld.g_cyw_dev.tx_seq + 4) % 256) WLC_SET_SSID
        (exampleConnectWorld.g_cyw_dev.reqid + 4) ((connect_wlc_ssid testAP).take 36) c4 :=
  ⟨Or.inl rfl, by decide, rfl, rfl, rfl, by decide,
   by unfold HostAnswers IsOkResponse; decide,
   cyw_connect_open_network_security testAP none exampleConnectWorld exampleOps (Or.inl rfl)
     (by decide) rfl rfl rfl (by decide) (by unfold HostAnswers IsOkResponse; decide)⟩

/-! ## Frames delivered by `recv_sdpcm_frame` -/

/-- The buffer a read leaves has the size of the buffer it was given when the
`len` bytes requested fit it. -/
theorem sdio_read_bytes_length (f a : Nat) (b : List Nat) (n : Nat) (i : Bool) (w : World)
    (h : n ≤ b.length) : (sdio_read_bytes f a b n i w).2.1.length = b.length := by
  have hw : ∀ src : List Nat, src.length ≤ n → (writeAt b 0 src).length = b.length := by
    intro src hs
    rw [writeAt_zero, List.length_append, List.length_drop]
    omega
  unfold sdio_read_bytes
  split
  · rfl
  · split
    · exact hw _ (by rw [List.length_map, List.length_take]; exact Nat.min_le_left _ _)
    · rfl

/-- A frame is accepted only when the length parsed from the header read is
between 1 and `RX_BUF_SIZE`, and `rx_buf` keeps its size. -/
theorem recv_sdpcm_frame_ok_length (w : World) (h : (recv_sdpcm_frame w).err = CYW_OK)
    (hrx : w.g_cyw_dev.rx_buf.length = RX_BUF_SIZE) :
    0 < recvFrameLen w ∧ recvFrameLen w ≤ RX_BUF_SIZE ∧
    (recv_sdpcm_frame w).world.g_cyw_dev.rx_buf.length = RX_BUF_SIZE := by
  have hdev := sdio_read_bytes_dev SDIO_FUNC_2 0 (w.fresh 4) 4 true w
  unfold recvFrameLen recvHeaderRead
  unfold recv_sdpcm_frame at h ⊢
  simp only at h ⊢
  split_ifs at h ⊢ with h1 h2 h3 h4 h5
  · exact absurd h h1
  · exact absurd h h3
  all_goals
    have hl : rd16 (sdio_read_bytes SDIO_FUNC_2 0 (w.fresh 4) 4 true w).2.1 0 ≤
        (sdio_read_bytes SDIO_FUNC_2 0 (w.fresh 4) 4 true w).2.2.g_cyw_dev.rx_buf.length := by
      rw [hdev, hrx]; omega
    exact ⟨by omega, by omega, (sdio_read_bytes_length _ _ _ _ _ _ hl).trans (by rw [hdev, hrx])⟩

/-- The fields `recv_sdpcm_frame` stores and delivers when it returns
`CYW_OK`, read from the frame as it stands in `rx_buf`. -/
theorem recv_sdpcm_frame_ok_fields (w : World) (h : (recv_sdpcm_frame w).err = CYW_OK) :
    (recv_sdpcm_frame w).world.g_cyw_dev.tx_max =
      byteAt (recv_sdpcm_frame w).world.g_cyw_dev.rx_buf 9 ∧
    (recv_sdpcm_frame w).world.g_cyw_dev.flow_ctrl =
      byteAt (recv_sdpcm_frame w).world.g_cyw_dev.rx_buf 8 ∧
    (recv_sdpcm_frame w).world.g_cyw_dev.rx_seq =
      byteAt (recv_sdpcm_frame w).world.g_cyw_dev.rx_buf 4 ∧
    (recv_sdpcm_frame w).channel = byteAt (recv_sdpcm_frame w).world.g_cyw_dev.rx_buf 5 ∧
    rd16 (recv_sdpcm_frame w).world.g_cyw_dev.rx_buf 0 ^^^
      rd16 (recv_sdpcm_frame w).world.g_cyw_dev.rx_buf 2 = 0xFFFF ∧
    (byteAt (recv_sdpcm_frame w).world.g_cyw_dev.rx_buf 7 ≤
        rd16 (recv_sdpcm_frame w).world.g_cyw_dev.rx_buf 0 →
      (recv_sdpcm_frame w).len =
        rd16 (recv_sdpcm_frame w).world.g_cyw_dev.rx_buf 0 -
          byteAt (recv_sdpcm_frame w).world.g_cyw_dev.rx_buf 7 ∧
      (recv_sdpcm_frame w).payload =
        (((recv_sdpcm_frame w).world.g_cyw_dev.rx_buf.take
          (rd16 (recv_sdpcm_frame w).world.g_cyw_dev.rx_buf 0)).drop
          (byteAt (recv_sdpcm_frame w).world.g_cyw_dev.rx_buf 7))) := by
  have hsub : ∀ a b : Nat, b ≤ a → a < 65536 → toU32 ((a : Int) - (b : Int)) = a - b := by
    intro a b hba ha
    unfold toU32
    omega
  have h16 : ∀ (l : List Nat), rd16 l 0 < 65536 := by
    intro l
    unfold rd16
    have h0 := byteAt_lt l 0
    have h1 := byteAt_lt l (0 + 1)
    have : (2 : Nat) ^ 16 = 65536 := by norm_num
    rw [← this]
    refine Nat.or_lt_two_pow (by omega) ?_
    rw [Nat.shiftLeft_eq]; omega
  unfold recv_sdpcm_frame at h ⊢
  simp only at h ⊢
  split_ifs at h ⊢ with h1 h2 h3 h4 h5
  · exact absurd h h1
  · exact absurd h h3
  · refine ⟨rfl, rfl, rfl, rfl, not_not.mp h4, ?_⟩
    intro hle
    refine ⟨hsub _ _ hle (h16 _), ?_⟩
    rw [hsub _ _ hle (h16 _), List.drop_take]
  · refine ⟨rfl, rfl, rfl, rfl, not_not.mp h4, ?_⟩
    intro hle
    refine ⟨hsub _ _ hle (h16 _), ?_⟩
    rw [hsub _ _ hle (h16 _)] at h5
    rw [List.drop_take, Nat.eq_zero_of_not_pos h5, List.take_zero]

/-! ## Frames delivered by `recv_sdpcm_frame` -/

/-- C26 (as amended): whenever `recv_sdpcm_frame` returns `CYW_OK` for a
frame whose header, as it stands in `rx_buf` (total at offset 0, check at 2,
seq at 4, channel at 5, data_offset at 7, flow_control at 8, max_seq at 9),
has `data_offset ≤ total ≤` the number of bytes read for the frame, and the
caller's buffer holds `total - data_offset` bytes, it has set
`tx_max = max_seq`, `flow_ctrl = flow_control` and `rx_seq = seq`, delivers
`channel`, total XOR check is 0xFFFF, the length reported is
`total - data_offset`, and the payload is exactly the `total - data_offset`
frame bytes from index `data_offset` up to `total`.  Nothing requires
`12 ≤ data_offset`. -/
theorem recv_sdpcm_frame_delivers (w : World) (cap : Nat)
    (h : (recv_sdpcm_frame w).err = CYW_OK)
    (hrx : w.g_cyw_dev.rx_buf.length = RX_BUF_SIZE)
    (hoff : byteAt (recv_sdpcm_frame w).world.g_cyw_dev.rx_buf 7 ≤
      rd16 (recv_sdpcm_frame w).world.g_cyw_dev.rx_buf 0)
    (hread : rd16 (recv_sdpcm_frame w).world.g_cyw_dev.rx_buf 0 ≤ recvFrameLen w)
    (hcap : rd16 (recv_sdpcm_frame w).world.g_cyw_dev.rx_buf 0 -
      byteAt (recv_sdpcm_frame w).world.g_cyw_dev.rx_buf 7 ≤ cap) :
    (recv_sdpcm_frame w).world.g_cyw_dev.tx_max =
      byteAt (recv_sdpcm_frame w).world.g_cyw_dev.rx_buf 9 ∧
    (recv_sdpcm_frame w).world.g_cyw_dev.flow_ctrl =
      byteAt (recv_sdpcm_frame w).world.g_cyw_dev.rx_buf 8 ∧
    (recv_sdpcm_frame w).world.g_cyw_dev.rx_seq =
      byteAt (recv_sdpcm_frame w).world.g_cyw_dev.rx_buf 4 ∧
    (recv_sdpcm_frame w).channel = byteAt (recv_sdpcm_frame w).world.g_cyw_dev.rx_buf 5 ∧
    rd16 (recv_sdpcm_frame w).world.g_cyw_dev.rx_buf 0 ^^^
      rd16 (recv_sdpcm_frame w).world.g_cyw_dev.rx_buf 2 = 0xFFFF ∧
    (recv_sdpcm_frame w).len =
      rd16 (recv_sdpcm_frame w).world.g_cyw_dev.rx_buf 0 -
        byteAt (recv_sdpcm_frame w).world.g_cyw_dev.rx_buf 7 ∧
    (recv_sdpcm_frame w).payload =
      (((recv_sdpcm_frame w).world.g_cyw_dev.rx_buf.take
        (rd16 (recv_sdpcm_frame w).world.g_cyw_dev.rx_buf 0)).drop
        (byteAt (recv_sdpcm_frame w).world.g_cyw_dev.rx_buf 7)) ∧
    (recv_sdpcm_frame w).payload.length =
      rd16 (recv_sdpcm_frame w).world.g_cyw_dev.rx_buf 0 -
        byteAt (recv_sdpcm_frame w).world.g_cyw_dev.rx_buf 7 ∧
    (recv_sdpcm_frame w).payload.length ≤ cap := by
  obtain ⟨f1, f2, f3, f4, f5, f6⟩ := recv_sdpcm_frame_ok_fields w h
  obtain ⟨g1, g2⟩ := f6 hoff
  obtain ⟨-, l2, l3⟩ := recv_sdpcm_frame_ok_length w h hrx
  have hlen : (recv_sdpcm_frame w).payload.length =
      rd16 (recv_sdpcm_frame w).world.g_cyw_dev.rx_buf 0 -
        byteAt (recv_sdpcm_frame w).world.g_cyw_dev.rx_buf 7 := by
    rw [g2, List.length_drop, List.length_take, l3, Nat.min_eq_left (by omega)]
  exact ⟨f1, f2, f3, f4, f5, g1, g2, hlen, by omega⟩

set_option maxRecDepth 100000 in
/-- The delivery theorem at a frame of 28 bytes with data offset 12 and a
caller buffer of 512 bytes. -/
theorem recv_sdpcm_frame_delivers_witness :
    ((recv_sdpcm_frame exampleErrorWorld).err = CYW_OK ∧
      exampleErrorWorld.g_cyw_dev.rx_buf.length = RX_BUF_SIZE ∧
      byteAt (recv_sdpcm_frame exampleErrorWorld).world.g_cyw_dev.rx_buf 7 ≤
        rd16 (recv_sdpcm_frame exampleErrorWorld).world.g_cyw_dev.rx_buf 0 ∧
      rd16 (recv_sdpcm_frame exampleErrorWorld).world.g_cyw_dev.rx_buf 0 ≤
        recvFrameLen exampleErrorWorld ∧
      rd16 (recv_sdpcm_frame exampleErrorWorld).world.g_cyw_dev.rx_buf 0 -
        byteAt (recv_sdpcm_frame exampleErrorWorld).world.g_cyw_dev.rx_buf 7 ≤ 512) ∧
    (recv_sdpcm_frame exampleErrorWorld).len = 16 ∧
    (recv_sdpcm_frame exampleErrorWorld).payload.length ≤ 512 :=
  ⟨⟨by decide, List.length_replicate _ _, by decide, by decide, by decide⟩,
   (recv_sdpcm_frame_delivers exampleErrorWorld 512 (by decide) (List.length_replicate _ _)
      (by decide) (by decide) (by decide)).2.2.2.2.2.1.trans (by decide),
   (recv_sdpcm_frame_delivers exampleErrorWorld 512 (by decide) (List.length_replicate _ _)
      (by decide) (by decide) (by decide)).2.2.2.2.2.2.2.2⟩

set_option maxRecDepth 100000 in
/-- C26, the claim as stated fails: a frame of 16 bytes with data offset 4,
read in full, is accepted with `CYW_OK` and delivered with a payload of 12
bytes that starts inside the 12-byte SDPCM header; `12 ≤ data_offset` does
not hold. -/
theorem recv_sdpcm_frame_delivers_counterexample :
    (recv_sdpcm_frame exampleLowOffsetWorld).err = CYW_OK ∧
    recvFrameLen exampleLowOffsetWorld = 16 ∧
    rd16 (recv_sdpcm_frame exampleLowOffsetWorld).world.g_cyw_dev.rx_buf 0 = 16 ∧
    byteAt (recv_sdpcm_frame exampleLowOffsetWorld).world.g_cyw_dev.rx_buf 7 = 4 ∧
    ¬ 12 ≤ byteAt (recv_sdpcm_frame exampleLowOffsetWorld).world.g_cyw_dev.rx_buf 7 ∧
    (recv_sdpcm_frame exampleLowOffsetWorld).len = 12 ∧
    (recv_sdpcm_frame exampleLowOffsetWorld).payload =
      [0, 0, 0, 4, 0, 0, 0, 0, 9, 9, 9, 9] := by
  refine ⟨?_, ?_, ?_, ?_, ?_, ?_, ?_⟩ <;> decide

/-! ## Frames that fit the receive buffers -/

theorem byteAt_map_mod (P : List Nat) (i : Nat) :
    byteAt (P.map (fun x => x % 256)) i = byteAt P i := by
  unfold byteAt
  rw [List.getD_eq_getElem?_getD, List.getD_eq_getElem?_getD, List.getElem?_map]
  cases P[i]? with
  | none => rfl
  | some a => simp

theorem rd16_map_mod (P : List Nat) (i : Nat) :
    rd16 (P.map (fun x => x % 256)) i = rd16 P i := by
  unfold rd16
  rw [byteAt_map_mod, byteAt_map_mod]

theorem rd16_take (P : List Nat) (k i : Nat) (h : i + 1 < k) :
    rd16 (P.take k) i = rd16 P i := by
  unfold rd16
  rw [byteAt_take _ _ _ (by omega), byteAt_take _ _ _ (by omega)]

/-- A read through a table that has `cmd53_read`: the code depends on the
host's return value only. -/
theorem sdio_read_bytes_call (f a : Nat) (b : List Nat) (n : Nat) (i : Bool) (w : World)
    (o : sdio_host_ops_t) (hops : w.g_cyw_dev.ops = some o) (hcr : o.cmd53_read = true) :
    sdio_read_bytes f a b n i w =
      (if (w.host w.trace.length).ret = 0 then CYW_OK else CYW_ERR_IO,
        writeAt b 0 (((w.host w.trace.length).bytes.take n).map (fun x => x % 256)),
        { w with trace := w.trace ++ [HostCall.cmd53_read f a n i] }) := by
  simp [sdio_read_bytes, hops, hcr, World.invoke]

/-- A frame accepted by `recv_sdpcm_frame` when the host's replies to its two
reads are frames that fit a buffer of `cap` bytes: the payload fits. -/
theorem recv_sdpcm_frame_fits (v : World) (cap : Nat)
    (hF : FrameFits cap (v.host v.trace.length).bytes)
    (hG : FrameFits cap (v.host (v.trace.length + 1)).bytes)
    (h : (recv_sdpcm_frame v).err = CYW_OK) :
    (recv_sdpcm_frame v).len ≤ cap ∧ (recv_sdpcm_frame v).payload.length ≤ cap := by
  obtain ⟨f1, f2, f3, -, -⟩ := hF
  obtain ⟨g1, g2, g3, g4, g5⟩ := hG
  generalize hFd : (v.host v.trace.length).bytes = F at *
  generalize hGd : (v.host (v.trace.length + 1)).bytes = G at *
  cases hops : v.g_cyw_dev.ops with
  | none =>
    exfalso
    unfold recv_sdpcm_frame at h
    simp [sdio_read_bytes, hops] at h
  | some o =>
    by_cases hcr : o.cmd53_read = true
    · have e1 := sdio_read_bytes_call SDIO_FUNC_2 0 (v.fresh 4) 4 true v o hops hcr
      rw [hFd] at e1
      have hn1 : (v.trace ++ [HostCall.cmd53_read SDIO_FUNC_2 0 4 true]).length =
          v.trace.length + 1 := by simp
      have hfl : rd16 (writeAt (v.fresh 4) 0 ((F.take 4).map (fun x => x % 256))) 0 =
          F.length := by
        rw [writeAt_zero, rd16_append _ _ _ (by rw [List.length_map, List.length_take]; omega),
          rd16_map_mod, rd16_take _ _ _ (by omega), f3]
      have hops1 : ({ v with trace := v.trace ++ [HostCall.cmd53_read SDIO_FUNC_2 0 4 true] } :
          World).g_cyw_dev.ops = some o := hops
      have e2 := sdio_read_bytes_call SDIO_FUNC_2 0 v.g_cyw_dev.rx_buf F.length true
        { v with trace := v.trace ++ [HostCall.cmd53_read SDIO_FUNC_2 0 4 true] } o hops1 hcr
      simp only [hn1] at e2
      rw [hGd, writeAt_zero] at e2
      have hml : ((G.take F.length).map (fun x => x % 256)).length = min F.length G.length := by
        rw [List.length_map, List.length_take]
      have hr0 : rd16 (List.map (fun x => x % 256) (List.take F.length G) ++
          List.drop (List.map (fun x => x % 256) (List.take F.length G)).length
            v.g_cyw_dev.rx_buf) 0 = G.length := by
        rw [rd16_append _ _ _ (by rw [hml]; omega), rd16_map_mod, rd16_take _ _ _ (by omega), g3]
      have hb7 : byteAt (List.map (fun x => x % 256) (List.take F.length G) ++
          List.drop (List.map (fun x => x % 256) (List.take F.length G)).length
            v.g_cyw_dev.rx_buf) 7 = byteAt G 7 := by
        rw [byteAt_append _ _ _ (by rw [hml]; omega), byteAt_map_mod,
          byteAt_take _ _ _ (by omega)]
      have hsub : toU32 ((G.length : Int) - ((byteAt G 7 : Nat) : Int)) =
          G.length - byteAt G 7 := by
        unfold toU32 RX_BUF_SIZE at *
        omega
      have hfz : ¬ (F.length = 0 ∨ F.length > RX_BUF_SIZE) := by omega
      by_cases r1 : (v.host v.trace.length).ret = 0
      · by_cases r2 : (v.host (v.trace.length + 1)).ret = 0
        · rw [if_pos r1] at e1
          rw [if_pos r2] at e2
          unfold recv_sdpcm_frame at h ⊢
          simp only [e1, hfl, e2, hr0, hb7, hsub, hfz, ne_eq, not_true_eq_false, if_false] at h ⊢
          split_ifs at h ⊢
          · exact ⟨g5, (List.length_take_le _ _).trans g5⟩
          · exact ⟨g5, Nat.zero_le _⟩
        · exfalso
          rw [if_pos r1] at e1
          rw [if_neg r2] at e2
          unfold recv_sdpcm_frame at h
          simp only [e1, hfl, e2, hfz, ne_eq, not_true_eq_false, if_false, not_false_eq_true,
            if_true] at h
          exact cyw_err_t.noConfusion h
      · exfalso
        rw [if_neg r1] at e1
        unfold recv_sdpcm_frame at h
        simp only [e1, ne_eq, not_false_eq_true, if_true] at h
        exact cyw_err_t.noConfusion h
    · exfalso
      unfold recv_sdpcm_frame at h
      simp [sdio_read_bytes, hops, hcr] at h

/-! ## The GET case of `cyw_iovar` -/

/-- C13 (as amended): a GET `cyw_iovar` of `len > 0` bytes into a caller
buffer of at least `len` bytes, with a request that fits the 256-byte buffer,
a host whose frames all fit the 512-byte receive buffer of `cyw_ioctl`, and
`rx_buf`, `tx_buf` of their declared size.  When the call returns `CYW_OK`
it accepted a control-channel frame received during the call whose payload
`P` has at most 512 bytes; when `P` holds the 16-byte BCDC header and at
least `strlen(name) + 1 + len` further bytes and its BCDC length field is at
least `strlen(name) + 1 + len`, the status field is 0 and the caller's buffer
receives the `len` bytes of `P` at offset `16 + strlen(name) + 1`: the first
`strlen(name) + 1` bytes behind the BCDC header are skipped. -/
theorem cyw_iovar_get_offset (name d : List Nat) (len : Nat) (w : World)
    (hlen : 0 < len) (hfit : name.length + 1 + len ≤ 256) (hd : len ≤ d.length)
    (hhost : ∀ k, FrameFits 512 (w.host k).bytes)
    (_hrx : w.g_cyw_dev.rx_buf.length = RX_BUF_SIZE)
    (_htx : w.g_cyw_dev.tx_buf.length = TX_BUF_SIZE)
    (hok : (cyw_iovar name (some d) len false w).1 = CYW_OK) :
    ∃ (v : World) (P : List Nat),
      v.host = w.host ∧ (∃ ext, v.trace = w.trace ++ ext) ∧
      (recv_sdpcm_frame v).err = CYW_OK ∧
      (recv_sdpcm_frame v).channel = SDPCM_CONTROL_CHANNEL ∧
      (recv_sdpcm_frame v).payload = P ∧ P.length ≤ 512 ∧
      (16 + (name.length + 1 + len) ≤ P.length → name.length + 1 + len ≤ rd32 P 4 →
        rd32 P 12 = 0 ∧
        (cyw_iovar name (some d) len false w).2.1 =
          some (writeAt d 0 ((P.drop (16 + (name.length + 1))).take len)) ∧
        (writeAt d 0 ((P.drop (16 + (name.length + 1))).take len)).length = d.length) := by
  obtain ⟨B, e1, e2⟩ := cyw_iovar_get_eq name d len w hlen hfit
  rw [e1] at hok
  obtain ⟨v, b, s, herr, hch, hst, hout⟩ := cyw_ioctl_ok_response _ _ _ _ _ hok
  have hP := (recv_sdpcm_frame_fits v 512 (by rw [s.host_eq]; exact hhost _)
    (by rw [s.host_eq]; exact hhost _) herr).2
  refine ⟨v, (recv_sdpcm_frame v).payload, s.host_eq, s.trace_ext, herr, hch, rfl, hP, ?_⟩
  intro hP hl
  refine ⟨?_, ?_, ?_⟩
  · rw [writeAt_zero, rd32_append _ _ _ (by omega)] at hst
    exact hst
  · have hpos : name.length + 1 + len > 0 := by omega
    rw [e2 hok, hout]
    unfold ioctl_copy_out
    simp only [hpos, and_self, if_true, Option.getD_some]
    rw [iovar_get_bytes B b _ (name.length + 1) len hP hl]
  · rw [writeAt_zero, List.length_append, List.length_drop, List.length_take, List.length_drop]
    omega

set_option maxRecDepth 8000 in
/-- The GET theorem at the variable "a" with a two-byte buffer and a host
that answers with the payload 1, 2, 3, 4. -/
theorem cyw_iovar_get_offset_witness :
    (0 < 2 ∧ [97].length + 1 + 2 ≤ 256 ∧ 2 ≤ [0, 0].length ∧
      (∀ k, FrameFits 512 (exampleGetWorld.host k).bytes) ∧
      exampleGetWorld.g_cyw_dev.rx_buf.length = RX_BUF_SIZE ∧
      exampleGetWorld.g_cyw_dev.tx_buf.length = TX_BUF_SIZE ∧
      (cyw_iovar [97] (some [0, 0]) 2 false exampleGetWorld).1 = CYW_OK) ∧
    ∃ (v : World) (P : List Nat),
      v.host = exampleGetWorld.host ∧ (∃ ext, v.trace = exampleGetWorld.trace ++ ext) ∧
      (recv_sdpcm_frame v).err = CYW_OK ∧
      (recv_sdpcm_frame v).channel = SDPCM_CONTROL_CHANNEL ∧
      (recv_sdpcm_frame v).payload = P ∧ P.length ≤ 512 ∧
      (16 + ([97].length + 1 + 2) ≤ P.length → [97].length + 1 + 2 ≤ rd32 P 4 →
        rd32 P 12 = 0 ∧
        (cyw_iovar [97] (some [0, 0]) 2 false exampleGetWorld).2.1 =
          some (writeAt [0, 0] 0 ((P.drop (16 + ([97].length + 1))).take 2)) ∧
        (writeAt [0, 0] 0 ((P.drop (16 + ([97].length + 1))).take 2)).length =
          [0, 0].length) :=
  ⟨⟨by decide, by decide, by decide,
    fun _ => (by unfold FrameFits; decide : FrameFits 512 exampleGetReply),
    List.length_replicate _ _, List.length_replicate _ _, by decide⟩,
   cyw_iovar_get_offset [97] [0, 0] 2 exampleGetWorld (by decide) (by decide) (by decide)
     (fun _ => (by unfold FrameFits; decide : FrameFits 512 exampleGetReply))
     (List.length_replicate _ _) (List.length_replicate _ _) (by decide)⟩

/-! ## What `cyw_scan` returns for frames that fit -/

/-- Every frame `exampleScanWorld` delivers from callback 3 on fits
`cyw_poll`: 20 bytes with data offset 12. -/
theorem exampleScanWorld_later :
    ∀ k, exampleScanWorld.trace.length + 3 ≤ k →
      PollFrameFits (exampleScanWorld.host k).bytes := by
  intro k hk
  have h3 : ¬ k < 3 := fun h => by
    have : exampleScanWorld.trace.length = 0 := rfl
    omega
  have e : (exampleScanWorld.host k).bytes = exampleEventFrame k := by
    show (if k < 3 then ({ ret := 0, bytes := exampleUpReply } : HostReply)
      else { ret := 0, bytes := exampleEventFrame k }).bytes = _
    rw [if_neg h3]
  rw [e]
  unfold PollFrameFits FrameFits exampleEventFrame
  refine ⟨⟨?_, ?_, ?_, ?_, ?_⟩, ?_⟩ <;>
    simp [byteAt, rd16, RX_BUF_SIZE]

/-- C23 (as amended): `cyw_scan` called in state Up or above, with the
buffers of their declared size, a host that acknowledges the `escan` request
at once with a response of at most 524 bytes, and later frames that all fit
`cyw_poll` (whatever their channel and content, escan-result events
included): the request is acknowledged, and `cyw_scan` copies no entry to
`results`, leaves the scan count at 0 and returns the smaller of 0 and
`max_results`, hence 0 for every `max_results ≥ 0`.  The wait loop ends
after at most 1000 polls. -/
theorem cyw_scan_finds_nothing (results : Bool) (max_results : Int) (w : World)
    (o : sdio_host_ops_t)
    (hst : CYW_STATE_UP.toNat ≤ w.g_cyw_dev.state.toNat)
    (hops : w.g_cyw_dev.ops = some o) (hcw : o.cmd53_write = true)
    (hcr : o.cmd53_read = true) (hq : w.g_cyw_dev.reqid + 1 < 65536)
    (_hrx : w.g_cyw_dev.rx_buf.length = RX_BUF_SIZE)
    (_htx : w.g_cyw_dev.tx_buf.length = TX_BUF_SIZE)
    (hans : HostAnswers w w.trace.length w.g_cyw_dev.reqid)
    (_hresp : (w.host (w.trace.length + 2)).bytes.length ≤ 524)
    (_hlater : ∀ k, w.trace.length + 3 ≤ k → PollFrameFits (w.host k).bytes) :
    (scanRequest w).1 = CYW_OK ∧
    (cyw_scan results max_results w).2.1 = [] ∧
    (cyw_scan results max_results w).2.2.g_scan_state.count = 0 ∧
    (cyw_scan results max_results w).1 = min 0 max_results ∧
    (0 ≤ max_results → (cyw_scan results max_results w).1 = 0) ∧
    (∀ (fuel : Nat) (v : World), 1000 ≤ fuel →
      cyw_scan_wait fuel 10000 v = cyw_scan_wait 1000 10000 v) := by
  have hup : CYW_STATE_FW_READY.toNat ≤ CYW_STATE_UP.toNat := by decide
  have hreq : (scanRequest w).1 = CYW_OK :=
    (cyw_iovar_answered [101, 115, 99, 97, 110]
      (scan_params ((w.g_cyw_dev.reqid &&& 0xFFFF) % 65536)) 74 (scanStart w) o
      (by show CYW_STATE_FW_READY.toNat ≤ w.g_cyw_dev.state.toNat; omega) hops hcw hcr hq
      (by decide) (by decide) (Nat.le_of_eq rfl) hans).1
  obtain ⟨h1, h2, -, h4⟩ := cyw_scan_returns results max_results w hst
  refine ⟨hreq, h1, h2, ?_, fun hm => ?_, fun fuel v hf => ?_⟩
  · rw [h4 hreq]
    split_ifs with hc
    · exact (min_eq_right (le_of_lt hc)).symm
    · exact (min_eq_left (not_lt.mp hc)).symm
  · rw [h4 hreq, if_neg (by omega)]
  · exact (cyw_scan_wait_fuel 1000 fuel 10000 v (by norm_num) (by omega)).symm

set_option maxRecDepth 100000 in
/-- The scan theorem at a host that acknowledges the request and then
delivers event frames with a different BSSID on every read. -/
theorem cyw_scan_finds_nothing_witness :
    (CYW_STATE_UP.toNat ≤ exampleScanWorld.g_cyw_dev.state.toNat ∧
      exampleScanWorld.g_cyw_dev.ops = some exampleOps ∧
      exampleOps.cmd53_write = true ∧ exampleOps.cmd53_read = true ∧
      exampleScanWorld.g_cyw_dev.reqid + 1 < 65536 ∧
      exampleScanWorld.g_cyw_dev.rx_buf.length = RX_BUF_SIZE ∧
      exampleScanWorld.g_cyw_dev.tx_buf.length = TX_BUF_SIZE ∧
      HostAnswers exampleScanWorld exampleScanWorld.trace.length
        exampleScanWorld.g_cyw_dev.reqid ∧
      (exampleScanWorld.host (exampleScanWorld.trace.length + 2)).bytes.length ≤ 524 ∧
      (∀ k, exampleScanWorld.trace.length + 3 ≤ k →
        PollFrameFits (exampleScanWorld.host k).bytes) ∧ (0 : Int) ≤ 16) ∧
    (cyw_scan true 16 exampleScanWorld).1 = 0 :=
  ⟨⟨by decide, rfl, rfl, rfl, by decide, List.length_replicate _ _, List.length_replicate _ _,
    by unfold HostAnswers IsOkResponse; decide, by decide, exampleScanWorld_later,
    by decide⟩,
   (cyw_scan_finds_nothing true 16 exampleScanWorld exampleOps (by decide) rfl rfl rfl
      (by decide) (List.length_replicate _ _) (List.length_replicate _ _)
      (by unfold HostAnswers IsOkResponse; decide) (by decide) exampleScanWorld_later).2.2.2.2.1
     (by decide)⟩

/-! ## The request sequence of `cyw_connect` -/

/-- Every frame `exampleQuietConnectWorld` delivers from callback 18 on fits
`cyw_poll`: 12 bytes, no payload. -/
theorem exampleQuietConnectWorld_later :
    ∀ k, exampleQuietConnectWorld.trace.length + 18 ≤ k →
      PollFrameFits (exampleQuietConnectWorld.host k).bytes := by
  intro k hk
  have h3 : ¬ k < 18 := fun h => by
    have : exampleQuietConnectWorld.trace.length = 0 := rfl
    omega
  have e : (exampleQuietConnectWorld.host k).bytes = exampleEmptyFrame := by
    show (if k < 18 then ({ ret := 0, bytes := exampleOkReply (k / 3) } : HostReply)
      else { ret := 0, bytes := exampleEmptyFrame }).bytes = _
    rw [if_neg h3]
  rw [e]
  unfold PollFrameFits FrameFits
  decide

/-! ## The request sequence of `cyw_connect` -/

/-- C21: in state Up (or any state not below it), with the buffers of their
declared size, the request counter at least six below its wrap and a host
that answers each of the six requests at once with a well-formed zero-status
response of at most 524 bytes carrying its id (and whose later frames all
fit `cyw_poll`), `cyw_connect(ssid, "secret12")` issues as its first eighteen
host calls six exchanges (request frame, 4-byte header read, response read)
whose request frames are, in this order, control-channel SDPCM frames with
consecutive transmit sequence numbers and consecutive request ids
`r, …, r + 5`, each a BCDC SET request (flags `0x22`): `WLC_SET_INFRA` with
value 1, `WLC_SET_AUTH` with value 0, `WLC_SET_VAR` with `"wpa_auth"`, NUL
and value 0x80, `WLC_SET_WSEC` with value 4, command 268 with `key_len = 8`,
flags 0, the key `"secret12"` and zero padding to 64 key bytes, and
`WLC_SET_SSID` with the length field `min(strlen(ssid), 32)`, that many
characters of the SSID and zero padding to 32; for `"TestAP"` the length
field is 6. -/
theorem cyw_connect_request_sequence (ssid : List Nat) (w : World) (o : sdio_host_ops_t)
    (hst : CYW_STATE_UP.toNat ≤ w.g_cyw_dev.state.toNat)
    (hops : w.g_cyw_dev.ops = some o) (hcw : o.cmd53_write = true)
    (hcr : o.cmd53_read = true)
    (hq : w.g_cyw_dev.reqid + 6 < 65536) (hssid : ssid.length < 4294967296)
    (_hrx : w.g_cyw_dev.rx_buf.length = RX_BUF_SIZE)
    (_htx : w.g_cyw_dev.tx_buf.length = TX_BUF_SIZE)
    (hans : ∀ i, i < 6 → HostAnswers w (w.trace.length + 3 * i) (w.g_cyw_dev.reqid + i))
    (_hresp : ∀ i, i < 6 → (w.host (w.trace.length + 3 * i + 2)).bytes.length ≤ 524)
    (_hlater : ∀ k, w.trace.length + 18 ≤ k → PollFrameFits (w.host k).bytes) :
    (∃ (c0 c1 c2 c3 c4 c5 : HostCall) (L0 L1 L2 L3 L4 L5 : Nat) (rest : List HostCall),
      (cyw_connect ssid (some secret12) w).2.trace =
        w.trace ++ (answeredCalls c0 L0 ++ answeredCalls c1 L1 ++ answeredCalls c2 L2 ++
          answeredCalls c3 L3 ++ answeredCalls c4 L4 ++ answeredCalls c5 L5) ++ rest ∧
      IsSetRequest (w.g_cyw_dev.tx_seq % 256) WLC_SET_INFRA w.g_cyw_dev.reqid (le32 1) c0 ∧
      IsSetRequest ((w.g_cyw_dev.tx_seq + 1) % 256) WLC_SET_AUTH (w.g_cyw_dev.reqid + 1)
        (le32 0) c1 ∧
      IsSetRequest ((w.g_cyw_dev.tx_seq + 2) % 256) WLC_SET_VAR (w.g_cyw_dev.reqid + 2)
        ([119, 112, 97, 95, 97, 117, 116, 104] ++ [0] ++ le32 0x80) c2 ∧
      IsSetRequest ((w.g_cyw_dev.tx_seq + 3) % 256) WLC_SET_WSEC (w.g_cyw_dev.reqid + 3)
        (le32 4) c3 ∧
      IsSetRequest ((w.g_cyw_dev.tx_seq + 4) % 256) 268 (w.g_cyw_dev.reqid + 4)
        (le16 8 ++ [0, 0] ++ secret12 ++ List.replicate 56 0) c4 ∧
      IsSetRequest ((w.g_cyw_dev.tx_seq + 5) % 256) WLC_SET_SSID (w.g_cyw_dev.reqid + 5)
        (le32 (min ssid.length 32) ++ ssid.take 32 ++
          List.replicate (32 - min ssid.length 32) 0) c5) ∧
    (ssid = testAP →
      le32 (min ssid.length 32) ++ ssid.take 32 ++ List.replicate (32 - min ssid.length 32) 0 =
        [6, 0, 0, 0] ++ testAP ++ List.replicate 26 0) := by
  have hpmk : (connect_pmk secret12).take 68 =
      le16 8 ++ [0, 0] ++ secret12 ++ List.replicate 56 0 := by decide
  have hs := connect_wlc_ssid_eq ssid hssid
  have hs36 : (connect_wlc_ssid ssid).take 36 =
      le32 (min ssid.length 32) ++ ssid.take 32 ++
        List.replicate (32 - min ssid.length 32) 0 := by
    rw [hs]
    refine List.take_of_length_le ?_
    simp only [List.length_append, List.length_take, List.length_replicate, le32,
      List.length_cons, List.length_nil]
    omega
  refine ⟨?_, fun h => by subst h; decide⟩
  have h := cyw_connect_answered ssid secret12 w o hst hops hcw hcr hq (by decide) hans
  rw [hpmk, hs36] at h
  exact h

set_option maxRecDepth 100000 in
/-- The request sequence at `cyw_connect("TestAP", "secret12")` in a world in
state Up with request counter 0 whose host answers request `i` with id `i`
and delivers frames without payload afterwards. -/
theorem cyw_connect_request_sequence_witness :
    (CYW_STATE_UP.toNat ≤ exampleQuietConnectWorld.g_cyw_dev.state.toNat ∧
      exampleQuietConnectWorld.g_cyw_dev.ops = some exampleOps ∧
      exampleOps.cmd53_write = true ∧ exampleOps.cmd53_read = true ∧
      exampleQuietConnectWorld.g_cyw_dev.reqid + 6 < 65536 ∧ testAP.length < 4294967296 ∧
      exampleQuietConnectWorld.g_cyw_dev.rx_buf.length = RX_BUF_SIZE ∧
      exampleQuietConnectWorld.g_cyw_dev.tx_buf.length = TX_BUF_SIZE ∧
      (∀ i, i < 6 → HostAnswers exampleQuietConnectWorld
        (exampleQuietConnectWorld.trace.length + 3 * i)
        (exampleQuietConnectWorld.g_cyw_dev.reqid + i)) ∧
      (∀ i, i < 6 → (exampleQuietConnectWorld.host
        (exampleQuietConnectWorld.trace.length + 3 * i + 2)).bytes.length ≤ 524) ∧
      (∀ k, exampleQuietConnectWorld.trace.length + 18 ≤ k →
        PollFrameFits (exampleQuietConnectWorld.host k).bytes)) ∧
    (∃ (c0 c1 c2 c3 c4 c5 : HostCall) (L0 L1 L2 L3 L4 L5 : Nat) (rest : List HostCall),
      (cyw_connect testAP (some secret12) exampleQuietConnectWorld).2.trace =
        exampleQuietConnectWorld.trace ++ (answeredCalls c0 L0 ++ answeredCalls c1 L1 ++
          answeredCalls c2 L2 ++ answeredCalls c3 L3 ++ answeredCalls c4 L4 ++
          answeredCalls c5 L5) ++ rest ∧
      IsSetRequest (exampleQuietConnectWorld.g_cyw_dev.tx_seq % 256) WLC_SET_INFRA
        exampleQuietConnectWorld.g_cyw_dev.reqid (le32 1) c0 ∧
      IsSetRequest ((exampleQuietConnectWorld.g_cyw_dev.tx_seq + 1) % 256) WLC_SET_AUTH
        (exampleQuietConnectWorld.g_cyw_dev.reqid + 1) (le32 0) c1 ∧
      IsSetRequest ((exampleQuietConnectWorld.g_cyw_dev.tx_seq + 2) % 256) WLC_SET_VAR
        (exampleQuietConnectWorld.g_cyw_dev.reqid + 2)
        ([119, 112, 97, 95, 97, 117, 116, 104] ++ [0] ++ le32 0x80) c2 ∧
      IsSetRequest ((exampleQuietConnectWorld.g_cyw_dev.tx_seq + 3) % 256) WLC_SET_WSEC
        (exampleQuietConnectWorld.g_cyw_dev.reqid + 3) (le32 4) c3 ∧
      IsSetRequest ((exampleQuietConnectWorld.g_cyw_dev.tx_seq + 4) % 256) 268
        (exampleQuietConnectWorld.g_cyw_dev.reqid + 4)
        (le16 8 ++ [0, 0] ++ secret12 ++ List.replicate 56 0) c4 ∧
      IsSetRequest ((exampleQuietConnectWorld.g_cyw_dev.tx_seq + 5) % 256) WLC_SET_SSID
        (exampleQuietConnectWorld.g_cyw_dev.reqid + 5)
        (le32 (min testAP.length 32) ++ testAP.take 32 ++
          List.replicate (32 - min testAP.length 32) 0) c5) ∧
    (testAP = testAP →
      le32 (min testAP.length 32) ++ testAP.take 32 ++
          List.replicate (32 - min testAP.length 32) 0 =
        [6, 0, 0, 0] ++ testAP ++ List.replicate 26 0) :=
  ⟨⟨by decide, rfl, rfl, rfl, by decide, by decide, List.length_replicate _ _,
    List.length_replicate _ _, by unfold HostAnswers IsOkResponse; decide, by decide,
    exampleQuietConnectWorld_later⟩,
   cyw_connect_request_sequence testAP exampleQuietConnectWorld exampleOps (by decide) rfl rfl
      rfl (by decide) (by decide) (List.length_replicate _ _) (List.length_replicate _ _)
      (by unfold HostAnswers IsOkResponse; decide) (by decide)
      exampleQuietConnectWorld_later⟩

/-! ## The NVRAM download of `cyw_load_firmware` -/

theorem afterWindow_calls (addr : Nat) (w : World) :
    (afterWindow addr w).trace = w.trace ++
      (if cachedWindow w = some (addr &&& SBSDIO_SBWINDOW_MASK) then []
        else windowWrites (addr &&& SBSDIO_SBWINDOW_MASK)) ∧
    cachedWindow (afterWindow addr w) = some (addr &&& SBSDIO_SBWINDOW_MASK) := by
  unfold afterWindow cachedWindow
  by_cases hv : w.g_cyw_dev.sbwad_valid = true
  · by_cases hs : w.g_cyw_dev.sbwad = addr &&& SBSDIO_SBWINDOW_MASK
    · simp [hv, hs]
    · simp [hv, hs]
  · simp [hv]

theorem accessCalls_append (cs ds : List (Nat × List Nat)) :
    ∀ cache, accessCalls cache (cs ++ ds) =
      accessCalls cache cs ++ accessCalls (cacheAfter cache cs) ds := by
  induction cs with
  | nil => intro cache; rfl
  | cons c cs ih =>
    intro cache
    rw [List.cons_append, accessCalls, accessCalls, ih, cacheAfter]
    simp only [List.append_assoc, List.cons_append]

theorem cacheAfter_cons (cache : Option Nat) (c : Nat × List Nat) (cs : List (Nat × List Nat)) :
    cacheAfter cache (c :: cs) = cacheAfter (some (c.1 &&& SBSDIO_SBWINDOW_MASK)) cs := rfl

/-- The complete host-call sequence of `cyw_backplane_write` when no call
fails: for each chunk the window update (when the window changes) and the
bulk write. -/
theorem cyw_backplane_write_loop_calls (fuel : Nat) :
    ∀ (addr : Nat) (data : List Nat) (len : Nat) (w : World),
      len ≤ fuel → addr + len ≤ U32 → addr % 0x8000 + len < U32 → data.length = len →
      AllHostCallsSucceed w →
      ∃ (chunks : List (Nat × List Nat)),
        (cyw_backplane_write_loop fuel addr data len w).1 = CYW_OK ∧
        (cyw_backplane_write_loop fuel addr data len w).2.trace =
          w.trace ++ accessCalls (cachedWindow w) chunks ∧
        ChunksFrom addr chunks ∧
        (∀ c ∈ chunks, 0 < c.2.length ∧ (c.1 &&& 0x7FFF) + c.2.length ≤ 0x8000) ∧
        (chunks.map Prod.snd).flatten = data ∧
        cachedWindow (cyw_backplane_write_loop fuel addr data len w).2 =
          cacheAfter (cachedWindow w) chunks := by
  induction fuel with
  | zero =>
    intro addr data len w hf _ _ hd _
    have hl : len = 0 := by omega
    subst hl
    refine ⟨[], ?_⟩
    simp [cyw_backplane_write_loop, ChunksFrom, accessCalls, cacheAfter]
    exact List.length_eq_zero.mp hd
  | succ fuel ih =>
    intro addr data len w hf ha hb hd hw
    rcases Nat.eq_zero_or_pos len with hl | hl
    · subst hl
      refine ⟨[], ?_⟩
      simp [cyw_backplane_write_loop, ChunksFrom, accessCalls, cacheAfter]
      exact List.length_eq_zero.mp hd
    · have hpos := chunkLen_pos addr len hl
      have hle : chunkLen addr len ≤ len := by
        rcases chunkLen_le addr len with h | h | h <;> omega
      have hin : addr % 0x8000 + chunkLen addr len ≤ 0x8000 := by
        unfold chunkLen
        rw [and_offset_mask, Nat.mod_eq_of_lt hb]
        simp only [SBSDIO_SB_OFT_ADDR_LIMIT]
        have : addr % 0x8000 < 0x8000 := Nat.mod_lt _ (by norm_num)
        split_ifs <;> omega
      have hm := and_offset_mask addr
      simp only [SBSDIO_SB_OFT_ADDR_MASK] at hm
      have htl : (data.take (chunkLen addr len)).length = chunkLen addr len := by
        rw [List.length_take, hd, Nat.min_eq_left hle]
      obtain ⟨hat, hac⟩ := afterWindow_calls addr w
      have hcw : chunkWrite (addr, data.take (chunkLen addr len)) =
          HostCall.cmd53_write 1 ((addr &&& 0x7FFF) ||| 0x8000)
            (data.take (chunkLen addr len)) (chunkLen addr len) true := by
        unfold chunkWrite
        simp only [htl]
      rw [cyw_backplane_write_loop_step hw fuel addr data len hl]
      rcases Nat.eq_zero_or_pos (len - chunkLen addr len) with hr | hr
      · rw [hr, cyw_backplane_write_loop_zero]
        refine ⟨[(addr, data.take (chunkLen addr len))], rfl, ?_, ?_, ?_, ?_, ?_⟩
        · show (afterWindow addr w).trace ++ _ = _
          rw [hat]
          simp only [accessCalls, hcw, List.append_assoc, List.append_nil]
        · simp [ChunksFrom]
        · intro c hc
          simp only [List.mem_singleton] at hc
          subst hc
          simp only [hm, htl]
          exact ⟨hpos, hin⟩
        · have hcl : chunkLen addr len = len := by omega
          simp only [List.map_cons, List.map_nil, List.flatten_cons, List.flatten_nil,
            List.append_nil]
          rw [hcl, ← hd, List.take_length]
        · exact hac
      · have hlt : addr + chunkLen addr len < U32 := by omega
        have hmod : (addr + chunkLen addr len) % U32 = addr + chunkLen addr len :=
          Nat.mod_eq_of_lt hlt
        have hal : (addr + chunkLen addr len) % 0x8000 = 0 := by
          have hne : chunkLen addr len ≠ len := by omega
          have : chunkLen addr len = 0x8000 - addr % 0x8000 := by
            unfold chunkLen at hne ⊢
            rw [and_offset_mask] at hne ⊢
            simp only [SBSDIO_SB_OFT_ADDR_LIMIT] at hne ⊢
            split_ifs at hne ⊢ with hx
            · rfl
            · exact absurd rfl hne
          omega
        have hw1 : AllHostCallsSucceed
            { afterWindow addr w with
              trace := (afterWindow addr w).trace ++
                [HostCall.cmd53_write 1 ((addr &&& 0x7FFF) ||| 0x8000)
                  (data.take (chunkLen addr len)) (chunkLen addr len) true] } :=
          (afterWindow_ok hw addr).transfer rfl rfl
        obtain ⟨cs, hok, htr, hch, hwin, hcat, hcache⟩ :=
          ih ((addr + chunkLen addr len) % U32) (data.drop (chunkLen addr len))
            (len - chunkLen addr len) _ (by omega) (by rw [hmod]; omega)
            (by rw [hmod, hal]; unfold U32 at *; omega)
            (by simp [hd]) hw1
        have hc1 : cachedWindow
            { afterWindow addr w with
              trace := (afterWindow addr w).trace ++
                [HostCall.cmd53_write 1 ((addr &&& 0x7FFF) ||| 0x8000)
                  (data.take (chunkLen addr len)) (chunkLen addr len) true] } =
            some (addr &&& SBSDIO_SBWINDOW_MASK) := hac
        rw [hc1] at htr hcache
        refine ⟨(addr, data.take (chunkLen addr len)) :: cs, hok, ?_, ?_, ?_, ?_, ?_⟩
        · rw [htr]
          show ((afterWindow addr w).trace ++ _) ++ _ = _
          rw [hat]
          simp only [accessCalls, hcw, List.append_assoc, List.singleton_append]
        · simp only [ChunksFrom, htl, true_and]
          rw [hmod] at hch; exact hch
        · intro c hc
          rcases List.mem_cons.mp hc with rfl | hc
          · simp only [hm, htl]
            exact ⟨hpos, hin⟩
          · exact hwin c hc
        · simp [hcat]
        · rw [hcache, cacheAfter_cons]

/-- C16: for every NVRAM blob of `L > 0` bytes whose end `0x80000 + L` is a
32-bit address, when the host calls succeed `cyw_load_firmware` issues, after
the calls of the firmware write (`pre`), exactly the calls of a run of
backplane writes of the NVRAM bytes, cut into chunks laid out back to back
from chip address 0x80000, and then of the four little-endian bytes of
`(L/4) | ((~(L/4)) << 16)` at chip address `0x80000 + L`: before each bulk
write the three window registers are written with the bytes of the window
of its address (`0x80000 & 0xFFFF8000` for the first chunk), unless that is
the window the driver has cached, and the bulk write goes to offset
`(address & 0x7FFF) | 0x8000`.  Every NVRAM chunk lies within one 32 KiB
window, and so does the footer when `L` is a multiple of 4.  For
`L/4 < 2^16` the low 16 bits of the footer value are the word count and the
high 16 bits its bitwise inverse. -/
theorem cyw_load_firmware_nvram_footer (fw : Option (List Nat)) (fs : Nat) (nv : List Nat)
    (L : Nat) (w : World) (hw : AllHostCallsSucceed w)
    (hst : CYW_STATE_INIT.toNat ≤ w.g_cyw_dev.state.toNat)
    (hL : 0 < L) (hnv : nv.length = L) (hb : 0x80000 + L < 2 ^ 32) :
    (∃ (pre post : List HostCall) (chunks : List (Nat × List Nat)),
      (cyw_backplane_write w.g_cyw_dev.chip.ram_base (fw.getD []) fs
        { w with g_cyw_dev := { w.g_cyw_dev with state := CYW_STATE_FW_LOADING } }).2.trace =
          w.trace ++ pre ∧
      (cyw_load_firmware fw fs (some nv) L w).2.trace =
        w.trace ++ pre ++
          accessCalls
            (cachedWindow (cyw_backplane_write w.g_cyw_dev.chip.ram_base (fw.getD []) fs
              { w with g_cyw_dev := { w.g_cyw_dev with state := CYW_STATE_FW_LOADING } }).2)
            (chunks ++ [(0x80000 + L, le32 (nvramFooter L))]) ++ post ∧
      chunks ≠ [] ∧
      ChunksFrom 0x80000 (chunks ++ [(0x80000 + L, le32 (nvramFooter L))]) ∧
      (chunks.map Prod.snd).flatten = nv ∧
      (∀ c ∈ chunks, 0 < c.2.length ∧ (c.1 &&& 0x7FFF) + c.2.length ≤ 0x8000)) ∧
    (L % 4 = 0 → ((0x80000 + L) &&& 0x7FFF) + 4 ≤ 0x8000) ∧
    (L / 4 < 2 ^ 16 →
      nvramFooter L % 65536 = L / 4 ∧ nvramFooter L >>> 16 = 65535 - L / 4 ∧
      (nvramFooter L >>> 16) ^^^ (L / 4) = 0xFFFF) := by
  refine ⟨?_, ?_, ?_⟩
  · have a0 : AllHostCallsSucceed
        { w with g_cyw_dev := { w.g_cyw_dev with state := CYW_STATE_FW_LOADING } } :=
      hw.transfer rfl rfl
    have t1 := cyw_backplane_write_transport w.g_cyw_dev.chip.ram_base (fw.getD []) fs
      { w with g_cyw_dev := { w.g_cyw_dev with state := CYW_STATE_FW_LOADING } }
    have ok1 : (cyw_backplane_write w.g_cyw_dev.chip.ram_base (fw.getD []) fs
        { w with g_cyw_dev := { w.g_cyw_dev with state := CYW_STATE_FW_LOADING } }).1 = CYW_OK :=
      cyw_backplane_write_loop_ok fs w.g_cyw_dev.chip.ram_base (fw.getD []) fs _ a0
    have a1 := a0.transfer t1.ops_eq t1.host_eq
    obtain ⟨pre, hpre⟩ := t1.trace_ext
    have hm : NVRAM_DL_ADDR % 0x8000 = 0 := by decide
    generalize hV : (cyw_backplane_write w.g_cyw_dev.chip.ram_base (fw.getD []) fs
      { w with g_cyw_dev := { w.g_cyw_dev with state := CYW_STATE_FW_LOADING } }) = V at *
    obtain ⟨chunks, ok2, htr2, hch, hwin, hcat, hcache⟩ :=
      cyw_backplane_write_loop_calls L NVRAM_DL_ADDR nv L V.2 (Nat.le_refl L)
        (by simp only [NVRAM_DL_ADDR, U32]; omega) (by rw [hm]; simp only [U32]; omega) hnv a1
    have ok2' : (cyw_backplane_write NVRAM_DL_ADDR nv L V.2).1 = CYW_OK := ok2
    have htr2' : (cyw_backplane_write NVRAM_DL_ADDR nv L V.2).2.trace =
        V.2.trace ++ accessCalls (cachedWindow V.2) chunks := htr2
    have hcache' : cachedWindow (cyw_backplane_write NVRAM_DL_ADDR nv L V.2).2 =
        cacheAfter (cachedWindow V.2) chunks := hcache
    have t2 := cyw_backplane_write_transport NVRAM_DL_ADDR nv L V.2
    have a2 := a1.transfer t2.ops_eq t2.host_eq
    generalize hN : cyw_backplane_write NVRAM_DL_ADDR nv L V.2 = N at *
    have hA : (NVRAM_DL_ADDR + L) % U32 = 0x80000 + L :=
      Nat.mod_eq_of_lt (by simp only [NVRAM_DL_ADDR, U32]; omega)
    have hfoot : (((U32 - 1 - L / 4) <<< 16) % U32) ||| (L / 4) = nvramFooter L :=
      Nat.lor_comm _ _
    have h3 := cyw_sdio_write32_ok a2 ((NVRAM_DL_ADDR + L) % U32)
      ((((U32 - 1 - L / 4) <<< 16) % U32) ||| (L / 4))
    obtain ⟨hat, -⟩ := afterWindow_calls ((NVRAM_DL_ADDR + L) % U32) N.2
    obtain ⟨post, hpost⟩ := load_firmware_start_trace (cyw_sdio_write32 ((NVRAM_DL_ADDR + L) % U32)
      ((((U32 - 1 - L / 4) <<< 16) % U32) ||| (L / 4)) N.2).2
    have heq := cyw_load_firmware_nvram_eq fw fs nv L w hst hL (by rw [hV]; exact ok1)
      (by rw [hV, hN]; exact ok2') (by rw [hV, hN, h3])
    rw [hV, hN] at heq
    rw [heq, hpost, h3]
    rw [hA] at hat
    rw [hA, hfoot]
    have hne : chunks ≠ [] := by
      intro h0
      rw [h0] at hcat
      have : nv.length = 0 := by rw [← hcat]; rfl
      omega
    refine ⟨pre, post, chunks, hpre, ?_, hne, ?_, hcat, hwin⟩
    · show (_ ++ _) ++ post = _
      rw [hat, htr2', hpre, accessCalls_append, ← hcache']
      simp only [accessCalls, chunkWrite, List.append_assoc, List.append_nil]
      rfl
    · exact ChunksFrom.snoc _ chunks 0x80000 hch (by rw [hcat, hnv])
  · intro h4
    have hm : (0x80000 + L) &&& 0x7FFF = (0x80000 + L) % 0x8000 :=
      Nat.and_pow_two_sub_one_eq_mod _ 15
    rw [hm]
    omega
  · intro h
    rw [nvramFooter_halves L h]
    have hx := xor_complement16 (L / 4) (by simpa using h)
    have e1 : (65536 * (65535 - L / 4) + L / 4) % 65536 = L / 4 := by omega
    have e2 : (65536 * (65535 - L / 4) + L / 4) >>> 16 = 65535 - L / 4 := by
      rw [Nat.shiftRight_eq_div_pow]; omega
    refine ⟨e1, e2, ?_⟩
    rw [e2, Nat.xor_comm]; exact hx

set_option maxRecDepth 100000 in
/-- The footer theorem at an eight-byte NVRAM blob and an empty firmware: the
window registers receive the bytes of 0x80000, the blob goes to offset 0x8000
and the footer to offset 0x8008 of that window. -/
theorem cyw_load_firmware_nvram_footer_witness :
    (AllHostCallsSucceed exampleWorld ∧
      CYW_STATE_INIT.toNat ≤ exampleWorld.g_cyw_dev.state.toNat ∧ 0 < 8 ∧
      [1, 2, 3, 4, 5, 6, 7, 8].length = 8 ∧ 0x80000 + 8 < 2 ^ 32 ∧ 8 % 4 = 0 ∧
      8 / 4 < 2 ^ 16) ∧
    (∃ (pre post : List HostCall) (chunks : List (Nat × List Nat)),
      (cyw_backplane_write exampleWorld.g_cyw_dev.chip.ram_base ((none : Option (List Nat)).getD [])
        0 { exampleWorld with g_cyw_dev :=
              { exampleWorld.g_cyw_dev with state := CYW_STATE_FW_LOADING } }).2.trace =
          exampleWorld.trace ++ pre ∧
      (cyw_load_firmware none 0 (some [1, 2, 3, 4, 5, 6, 7, 8]) 8 exampleWorld).2.trace =
        exampleWorld.trace ++ pre ++
          accessCalls
            (cachedWindow (cyw_backplane_write exampleWorld.g_cyw_dev.chip.ram_base
              ((none : Option (List Nat)).getD []) 0
              { exampleWorld with g_cyw_dev :=
                  { exampleWorld.g_cyw_dev with state := CYW_STATE_FW_LOADING } }).2)
            (chunks ++ [(0x80000 + 8, le32 (nvramFooter 8))]) ++ post ∧
      chunks ≠ [] ∧
      ChunksFrom 0x80000 (chunks ++ [(0x80000 + 8, le32 (nvramFooter 8))]) ∧
      (chunks.map Prod.snd).flatten = [1, 2, 3, 4, 5, 6, 7, 8] ∧
      (∀ c ∈ chunks, 0 < c.2.length ∧ (c.1 &&& 0x7FFF) + c.2.length ≤ 0x8000)) ∧
    ((0x80000 + 8) &&& 0x7FFF) + 4 ≤ 0x8000 ∧
    (nvramFooter 8 % 65536 = 8 / 4 ∧ nvramFooter 8 >>> 16 = 65535 - 8 / 4 ∧
      (nvramFooter 8 >>> 16) ^^^ (8 / 4) = 0xFFFF) ∧
    accessCalls none [(0x80000, [1, 2, 3, 4, 5, 6, 7, 8]), (0x80000 + 8, le32 (nvramFooter 8))] =
      [HostCall.cmd52_write 1 0x1000A 0x00, HostCall.cmd52_write 1 0x1000B 0x08,
       HostCall.cmd52_write 1 0x1000C 0x00,
       HostCall.cmd53_write 1 0x8000 [1, 2, 3, 4, 5, 6, 7, 8] 8 true,
       HostCall.cmd53_write 1 0x8008 [2, 0, 0xFD, 0xFF] 4 true] ∧
    (cyw_load_firmware none 0 (some [1, 2, 3, 4, 5, 6, 7, 8]) 8 exampleWorld).2.trace.take 5 =
      [HostCall.cmd52_write 1 0x1000A 0x00, HostCall.cmd52_write 1 0x1000B 0x08,
       HostCall.cmd52_write 1 0x1000C 0x00,
       HostCall.cmd53_write 1 0x8000 [1, 2, 3, 4, 5, 6, 7, 8] 8 true,
       HostCall.cmd53_write 1 0x8008 [2, 0, 0xFD, 0xFF] 4 true] :=
  ⟨⟨exampleWorld_ok, by decide, by decide, rfl, by decide, by decide, by decide⟩,
   (cyw_load_firmware_nvram_footer none 0 [1, 2, 3, 4, 5, 6, 7, 8] 8 exampleWorld
      exampleWorld_ok (by decide) (by decide) rfl (by decide)).1,
   (cyw_load_firmware_nvram_footer none 0 [1, 2, 3, 4, 5, 6, 7, 8] 8 exampleWorld
      exampleWorld_ok (by decide) (by decide) rfl (by decide)).2.1 (by decide),
   (cyw_load_firmware_nvram_footer none 0 [1, 2, 3, 4, 5, 6, 7, 8] 8 exampleWorld
      exampleWorld_ok (by decide) (by decide) rfl (by decide)).2.2 (by decide),
   by decide, by decide⟩

/-! ## The failure codes of `cyw_load_firmware` -/

end Cyw55500
